import Mathlib

/-!
# PDS4 driver: raster layout, validity mask, georeferencing, label templates

Shallow embedding of `frmts/pds/pds4dataset.cpp` (GDAL 2.3.0).  Read path:
`PDS4Dataset::Open` (array discovery, data-type mapping, axis parsing, stride
computation, special constants, band creation), `FillMask` and
`PDS4MaskBand::IReadBlock`, the unit converters and `ReadGeoreferencing`.  Write
path: `Create`, the array element of `WriteHeader` with its scale and offset,
`WriteGeoreferencing` and `SubstituteVariables`.

Conventions of the embedding.

* Doubles on which the code computes are the elements of a linearly ordered
  field: the arithmetic is exact, rounding is left aside.
* Library code that the driver only calls (`OGRSpatialReference`,
  `CPLString::replaceAll`, the GDAL core helpers) is modelled next to its use,
  under a doc comment that says so.

* The label is handed to `Open` already parsed.  The model receives, for each
  XML element, the values that the source obtains through `CPLGetXMLValue`
  (`none` when the source gets a null pointer).
* Text that the source passes to `atoi` / `CPLAtoGIntBig` is represented by the
  integer it denotes; text passed to `CPLAtof` stays text and is converted by
  the `CPLAtof` of the environment, so that the type of doubles is a parameter.
* C `int` values are integers kept in the signed 32-bit range, `vsi_l_offset`
  values are integers kept in `[0, 2^64)`; every conversion between the two is
  written out (`toInt`, `toU64`).
-/

namespace PDS4

/-! ## Machine integers and C string helpers -/

/-- Largest value of a C `int`. -/
def INT_MAX : Int := 2147483647

/-- Conversion of an integer value to `vsi_l_offset` (unsigned 64-bit): reduction modulo 2^64. -/
def toU64 (v : Int) : Int := v % 18446744073709551616

/-- Conversion of an integer value to a C `int` (two's complement, 32 bits). -/
def toInt (v : Int) : Int := (v + 2147483648) % 4294967296 - 2147483648

/-- The C library `atoi` applied to text denoting the integer `v`: the result is a C `int`. -/
def atoi (v : Int) : Int := toInt v

/-- The string terminator, the initial content of `szOrder`. -/
def NUL : Char := Char.ofNat 0

/-- Case-insensitive string equality (the `EQUAL` of `cpl_port.h`). -/
def EQUAL (a b : String) : Bool :=
  a.data.map Char.toLower == b.data.map Char.toLower

/-- Case-sensitive prefix test `STARTS_WITH(a, b)`: `b` is a prefix of `a`. -/
def STARTS_WITH (a b : String) : Bool :=
  b.data.isPrefixOf a.data

/-- Substring test `strstr(a, b) != nullptr`. -/
def strstr (a b : String) : Bool :=
  a.data.tails.any (fun t => b.data.isPrefixOf t)

/-! ## GDAL core helpers used by the driver -/

/-- The element types `Open` can assign to an array. -/
inductive GDALDataType
  | GDT_Byte
  | GDT_UInt16
  | GDT_Int16
  | GDT_UInt32
  | GDT_Int32
  | GDT_Float32
  | GDT_Float64
  | GDT_CFloat32
  | GDT_CFloat64
  deriving DecidableEq, Repr

open GDALDataType

/-- Modelled from the spec: `GDALGetDataTypeSizeBytes` belongs to the GDAL core and is not part
of the driver source; the element sizes are the byte widths that the PDS4 type tags
themselves carry (ComplexLSB16 is 16 bytes, IEEE754LSBDouble 8, SignedLSB4 4, UnsignedLSB2 2,
UnsignedByte 1). -/
def GDALGetDataTypeSizeBytes : GDALDataType → Int
  | GDT_Byte => 1
  | GDT_UInt16 => 2
  | GDT_Int16 => 2
  | GDT_UInt32 => 4
  | GDT_Int32 => 4
  | GDT_Float32 => 4
  | GDT_Float64 => 8
  | GDT_CFloat32 => 8
  | GDT_CFloat64 => 16

/-- Modelled from the spec: `GDALDataTypeIsComplex` belongs to the GDAL core; the complex
types are the two that the Complex tags map to. -/
def GDALDataTypeIsComplex : GDALDataType → Bool
  | GDT_CFloat32 => true
  | GDT_CFloat64 => true
  | _ => false

/-- Modelled from the spec: `GDALCheckDatasetDimensions` belongs to the GDAL core; it accepts
exactly the positive raster sizes (both are C `int` values already). -/
def GDALCheckDatasetDimensions (nXSize nYSize : Int) : Bool :=
  decide (1 ≤ nXSize) && decide (1 ≤ nYSize)

/-- Modelled from the spec: `GDALCheckBandCount(n, FALSE)` belongs to the GDAL core; it accepts
a positive band count up to the configured maximum. -/
def GDALCheckBandCount (nMaxBands nBands : Int) : Bool :=
  decide (1 ≤ nBands) && decide (nBands ≤ nMaxBands)

/-- What `Open` consumes from its surroundings: the number parser, two configuration options,
the host byte order and the file system. -/
structure Env (D : Type) where
  /-- Text to double. -/
  CPLAtof : String → D
  /-- Value of `CPLTestBool(CPLGetConfigOption("PDS4_FORCE_MASK", "NO"))`. -/
  PDS4_FORCE_MASK : Bool
  /-- Value of the configuration option `GDAL_MAX_BAND_COUNT`. -/
  GDAL_MAX_BAND_COUNT : Int
  /-- Whether the host is little-endian (the macro `CPL_LSB`). -/
  CPL_LSB : Bool
  /-- Whether `VSIFOpenExL` succeeds on the image file named in the label. -/
  VSIFOpenExL : String → Bool

/-! ## The parsed label -/

/-- One `Axis_Array` element: the three values `Open` looks up in it. -/
structure AxisArray where
  axis_name : Option String
  elements : Option Int
  sequence_number : Option Int

/-- The `Special_Constants` element: the text of each of the ten named constants. -/
structure SpecialConstants where
  saturated_constant : Option String := none
  missing_constant : Option String := none
  error_constant : Option String := none
  invalid_constant : Option String := none
  unknown_constant : Option String := none
  not_applicable_constant : Option String := none
  high_instrument_saturation : Option String := none
  high_representation_saturation : Option String := none
  low_instrument_saturation : Option String := none
  low_representation_saturation : Option String := none

/-- One element child of a `File_Area_Observational`. -/
structure ArrayNode where
  /-- Element name, such as `Array_3D_Image`. -/
  pszValue : String
  /-- Child `axes`, read only for the plain `Array` element. -/
  axes : Option Int := none
  name : Option String := none
  local_identifier : Option String := none
  offset : Option Int := none
  axis_index_order : Option String := none
  /-- Value at `Element_Array.data_type`. -/
  data_type : Option String := none
  /-- Value at `Element_Array.value_offset`. -/
  value_offset : Option String := none
  /-- Value at `Element_Array.scaling_factor`. -/
  scaling_factor : Option String := none
  /-- The `Axis_Array` element children, in document order. -/
  Axis_Array : List AxisArray := []
  Special_Constants : Option SpecialConstants := none

/-- One `File_Area_Observational` element. -/
structure FileAreaObservational where
  /-- Value at `File.file_name`; `none` when `File` or `file_name` is missing. -/
  file_name : Option String
  /-- The element children, in document order. -/
  children : List ArrayNode

/-- The `Product_Observational` element as `Open` reads it. -/
structure Label where
  /-- Value at `...Display_Direction.vertical_display_direction`, `""` when absent. -/
  vertical_display_direction : String := ""
  /-- The `File_Area_Observational` children, in document order. -/
  areas : List FileAreaObservational

/-! ## `PDS4Dataset::Open`: data type, axes, strides -/

/-- The element name decides the dimensionality `nDIM`; `0` means the element is no array. -/
def arrayDim (a : ArrayNode) : Int :=
  if STARTS_WITH a.pszValue "Array_1D" then 1
  else if STARTS_WITH a.pszValue "Array_2D" then 2
  else if STARTS_WITH a.pszValue "Array_3D" then 3
  else if a.pszValue = "Array" then atoi (a.axes.getD 0)
  else 0

/-- The data-type chain of `Open`: element type `eDT` and `bSignedByte`, or `none` when the
tag is unhandled (the array is then skipped). -/
def dataTypeOf (pszDataType : String) : Option (GDALDataType × Bool) :=
  if EQUAL pszDataType "ComplexLSB16" || EQUAL pszDataType "ComplexMSB16" then
    some (GDT_CFloat64, false)
  else if EQUAL pszDataType "ComplexLSB8" || EQUAL pszDataType "ComplexMSB8" then
    some (GDT_CFloat32, false)
  else if EQUAL pszDataType "IEEE754LSBDouble" || EQUAL pszDataType "IEEE754MSBDouble" then
    some (GDT_Float64, false)
  else if EQUAL pszDataType "IEEE754LSBSingle" || EQUAL pszDataType "IEEE754MSBSingle" then
    some (GDT_Float32, false)
  else if EQUAL pszDataType "SignedByte" then
    some (GDT_Byte, true)
  else if EQUAL pszDataType "SignedLSB2" || EQUAL pszDataType "SignedMSB2" then
    some (GDT_Int16, false)
  else if EQUAL pszDataType "SignedLSB4" || EQUAL pszDataType "SignedMSB4" then
    some (GDT_Int32, false)
  else if EQUAL pszDataType "UnsignedByte" then
    some (GDT_Byte, false)
  else if EQUAL pszDataType "UnsignedLSB2" || EQUAL pszDataType "UnsignedMSB2" then
    some (GDT_UInt16, false)
  else if EQUAL pszDataType "UnsignedLSB4" || EQUAL pszDataType "UnsignedMSB4" then
    some (GDT_UInt32, false)
  else
    none

/-- The locals of the `Axis_Array` loop.  `szOrder` and `anElements` are total maps from the
zero-based sequence position; the C arrays hold the positions below three. -/
structure AxisState where
  szOrder : Nat → Char
  l_nBands : Int
  nLines : Int
  nSamples : Int
  nAxisFound : Int
  anElements : Nat → Int

/-- Initial values: `szOrder` and `anElements` zeroed, one band, no line, no sample. -/
def AxisState.init : AxisState :=
  { szOrder := fun _ => NUL, l_nBands := 1, nLines := 0, nSamples := 0, nAxisFound := 0,
    anElements := fun _ => 0 }

/-- One iteration of the `Axis_Array` loop. -/
def parseAxis (nDIM : Int) (st : AxisState) (ax : AxisArray) : AxisState :=
  match ax.axis_name, ax.elements, ax.sequence_number with
  | some pszAxisName, some pszElements, some pszSequenceNumber =>
    let nSeqNumber := atoi pszSequenceNumber
    if nSeqNumber < 1 ∨ nSeqNumber > nDIM then st
    else
      let nElements := atoi pszElements
      if nElements ≤ 0 then st
      else
        let i := (nSeqNumber - 1).toNat
        if st.szOrder i ≠ NUL then st
        else if EQUAL pszAxisName "Band" && decide (nDIM = 3) then
          { st with
            szOrder := Function.update st.szOrder i 'B'
            l_nBands := nElements
            anElements := Function.update st.anElements i nElements
            nAxisFound := st.nAxisFound + 1 }
        else if EQUAL pszAxisName "Line" then
          { st with
            szOrder := Function.update st.szOrder i 'L'
            nLines := nElements
            anElements := Function.update st.anElements i nElements
            nAxisFound := st.nAxisFound + 1 }
        else if EQUAL pszAxisName "Sample" then
          { st with
            szOrder := Function.update st.szOrder i 'S'
            nSamples := nElements
            anElements := Function.update st.anElements i nElements
            nAxisFound := st.nAxisFound + 1 }
        else st
  | _, _, _ => st

/-- The whole `Axis_Array` loop. -/
def parseAxes (nDIM : Int) (axes : List AxisArray) : AxisState :=
  axes.foldl (parseAxis nDIM) AxisState.init

/-- The locals of the stride loop: `nSpacing` and `nBandOffset` are `vsi_l_offset`,
`nPixelOffset` and `nLineOffset` are `int`. -/
structure Spacing where
  nSpacing : Int
  nPixelOffset : Int
  nLineOffset : Int
  nBandOffset : Int
  deriving DecidableEq, Repr

/-- The count of the axis just inside position `i`: `i+1 < nDIM ? anElements[i+1] : 1`. -/
def nCountPreviousDim (nDIM : Int) (anElements : Nat → Int) (i : Nat) : Int :=
  if (i : Int) + 1 < nDIM then anElements (i + 1) else 1

/-- One iteration of the stride loop at position `i`; `none` is the `Integer overflow` exit. -/
def spacingStep (nDIM : Int) (szOrder : Nat → Char) (anElements : Nat → Int) (i : Nat)
    (s : Spacing) : Option Spacing :=
  let n := nCountPreviousDim nDIM anElements i
  if szOrder i = 'S' then
    if s.nSpacing > toU64 (Int.tdiv INT_MAX n) then none
    else
      let nPixelOffset := toInt (toU64 (s.nSpacing * toU64 n))
      some { s with nPixelOffset := nPixelOffset, nSpacing := toU64 nPixelOffset }
  else if szOrder i = 'L' then
    if s.nSpacing > toU64 (Int.tdiv INT_MAX n) then none
    else
      let nLineOffset := toInt (toU64 (s.nSpacing * toU64 n))
      some { s with nLineOffset := nLineOffset, nSpacing := toU64 nLineOffset }
  else
    let nBandOffset := toU64 (s.nSpacing * toU64 n)
    some { s with nBandOffset := nBandOffset, nSpacing := nBandOffset }

/-- The stride loop `for( int i = nDIM - 1; i >= 0; i-- )`, with `k` positions left. -/
def spacingLoop (nDIM : Int) (szOrder : Nat → Char) (anElements : Nat → Int) :
    Nat → Spacing → Option Spacing
  | 0, s => some s
  | i + 1, s =>
    match spacingStep nDIM szOrder anElements i s with
    | none => none
    | some s1 => spacingLoop nDIM szOrder anElements i s1

/-- The stride computation of one array, from the element size. -/
def computeSpacing (nDIM : Int) (szOrder : Nat → Char) (anElements : Nat → Int)
    (eDT : GDALDataType) : Option Spacing :=
  spacingLoop nDIM szOrder anElements nDIM.toNat
    { nSpacing := toU64 (GDALGetDataTypeSizeBytes eDT), nPixelOffset := 0, nLineOffset := 0,
      nBandOffset := 0 }

/-! ## `PDS4Dataset::Open`: special constants -/

/-- The texts looked up under the names of `apszConstantNames`, in the order of that table. -/
def constantTexts (sc : SpecialConstants) : List (Option String) :=
  [ sc.saturated_constant, sc.missing_constant, sc.error_constant, sc.invalid_constant,
    sc.unknown_constant, sc.not_applicable_constant, sc.high_instrument_saturation,
    sc.high_representation_saturation, sc.low_instrument_saturation,
    sc.low_representation_saturation ]

/-- The no-data value: `some (CPLAtof pszMC)` stands for `bNoDataSet = true` with that
`dfNoData`, `none` for `bNoDataSet = false`. -/
def noDataOf {D : Type} (env : Env D) (psSC : Option SpecialConstants) : Option D :=
  match psSC with
  | none => none
  | some sc => sc.missing_constant.map env.CPLAtof

/-- The vector `adfConstants`: one entry per constant that is present, in table order. -/
def constantsOf {D : Type} (env : Env D) (psSC : Option SpecialConstants) : List D :=
  match psSC with
  | none => []
  | some sc => (constantTexts sc).filterMap (fun t => t.map env.CPLAtof)

/-! ## `PDS4Dataset::Open`: one array -/

/-- What `Open` knows of an array when it reaches `Add subdatasets`: the locals that are
live at that point. -/
structure ArrayLayout (D : Type) where
  nDIM : Int
  nOffset : Int
  eDT : GDALDataType
  bSignedByte : Bool
  bLSBOrder : Bool
  dfValueOffset : D
  dfValueScale : D
  szOrder : Nat → Char
  anElements : Nat → Int
  l_nBands : Int
  nLines : Int
  nSamples : Int
  nPixelOffset : Int
  nLineOffset : Int
  nBandOffset : Int
  /-- The pair `bNoDataSet`, `dfNoData`. -/
  noData : Option D
  adfConstants : List D

/-- The three ways the body of the array loop can end before the subdataset is recorded. -/
inductive ArrayOutcome (D : Type)
  /-- A `continue`: the array is skipped. -/
  | skip
  /-- The exit `delete poDS; return nullptr` of the stride loop. -/
  | overflow
  /-- The array is resolved. -/
  | found (r : ArrayLayout D)

/-- The body of the array loop from the `axis_index_order` test to the special constants. -/
def resolveArray {D : Type} (env : Env D) (nDIM : Int) (a : ArrayNode) : ArrayOutcome D :=
  if !EQUAL (a.axis_index_order.getD "") "Last Index Fastest" then .skip
  else
    let pszDataType := a.data_type.getD ""
    match dataTypeOf pszDataType with
    | none => .skip
    | some (eDT, bSignedByte) =>
      let ax := parseAxes nDIM a.Axis_Array
      if ax.nAxisFound ≠ nDIM then .skip
      else if !GDALCheckDatasetDimensions ax.nSamples ax.nLines ||
          !GDALCheckBandCount env.GDAL_MAX_BAND_COUNT ax.l_nBands then .skip
      else
        match computeSpacing nDIM ax.szOrder ax.anElements eDT with
        | none => .overflow
        | some sp =>
          .found
            { nDIM := nDIM
              nOffset := toU64 (a.offset.getD 0)
              eDT := eDT
              bSignedByte := bSignedByte
              bLSBOrder := strstr pszDataType "LSB"
              dfValueOffset := env.CPLAtof (a.value_offset.getD "0")
              dfValueScale := env.CPLAtof (a.scaling_factor.getD "1")
              szOrder := ax.szOrder
              anElements := ax.anElements
              l_nBands := ax.l_nBands
              nLines := ax.nLines
              nSamples := ax.nSamples
              nPixelOffset := sp.nPixelOffset
              nLineOffset := sp.nLineOffset
              nBandOffset := sp.nBandOffset
              noData := noDataOf env a.Special_Constants
              adfConstants := constantsOf env a.Special_Constants }

/-! ## `PDS4Dataset::Open`: bands and mask -/

/-- A `PDS4RawRasterBand` as `Open` creates it, with its mask band when there is one. -/
structure RawBand (D : Type) where
  nBand : Int
  nImgOffset : Int
  nPixelOffset : Int
  nLineOffset : Int
  eDataType : GDALDataType
  bNativeOrder : Bool
  noData : Option D
  bSignedByte : Bool
  dfOffset : D
  dfScale : D
  /-- The constants of the `PDS4MaskBand`, `none` when no mask band is set. -/
  maskBand : Option (List D)

/-- The test guarding `SetMaskBand`. -/
def wantsMask {D : Type} (env : Env D) (r : ArrayLayout D) : Bool :=
  !GDALDataTypeIsComplex r.eDT &&
    (env.PDS4_FORCE_MASK || decide (r.adfConstants.length ≥ 2) ||
      (decide (r.adfConstants.length = 1) && !r.noData.isSome))

/-- The band created at iteration `i` of the band loop.  The image offset is computed in
`vsi_l_offset` arithmetic, that is modulo 2^64. -/
def makeBand {D : Type} (env : Env D) (bBottomToTop : Bool) (r : ArrayLayout D) (i : Int) :
    RawBand D :=
  { nBand := i + 1
    nImgOffset :=
      if bBottomToTop then
        toU64 (r.nOffset + r.nBandOffset * i + toU64 (r.nLines - 1) * toU64 r.nLineOffset)
      else
        toU64 (r.nOffset + r.nBandOffset * i)
    nPixelOffset := r.nPixelOffset
    nLineOffset := if bBottomToTop then -r.nLineOffset else r.nLineOffset
    eDataType := r.eDT
    bNativeOrder := if env.CPL_LSB then r.bLSBOrder else !r.bLSBOrder
    noData := r.noData
    bSignedByte := r.bSignedByte
    dfOffset := r.dfValueOffset
    dfScale := r.dfValueScale
    maskBand := if wantsMask env r then some r.adfConstants else none }

/-- The band loop `for( int i = 0; i < l_nBands; i++ )`. -/
def makeBands {D : Type} (env : Env D) (bBottomToTop : Bool) (r : ArrayLayout D) :
    List (RawBand D) :=
  (List.range r.l_nBands.toNat).map
    (fun (i : Nat) => makeBand env bBottomToTop r (i : Int))

/-! ## `PDS4Dataset::Open`: discovery loop -/

/-- One entry of `aosSubdatasets` (a NAME and a DESC item). -/
structure Subdataset where
  nSDSIdx : Int
  nFAOIdx : Int
  nArrayIdx : Int
  pszFilename : String
  /-- The array name or, failing that, its local identifier. -/
  arrayLabel : Option String

/-- The dataset under construction. -/
structure Dataset (D : Type) where
  nRasterXSize : Int
  nRasterYSize : Int
  bands : List (RawBand D)
  m_osImageFilename : Option String
  /-- The `INTERLEAVE` item of the `IMAGE_STRUCTURE` domain. -/
  INTERLEAVE : Option String
  /-- The `SUBDATASETS` metadata domain. -/
  SUBDATASETS : List Subdataset

/-- The state carried through the two discovery loops. -/
structure OpenState (D : Type) where
  poDS : Dataset D
  aosSubdatasets : List Subdataset
  nFAOIdx : Int
  nArrayIdx : Int

/-- A fresh `PDS4Dataset` (raster size 512 by 512 and no band, as `GDALDataset` starts). -/
def OpenState.init (D : Type) : OpenState D :=
  { poDS :=
      { nRasterXSize := 512, nRasterYSize := 512, bands := [], m_osImageFilename := none,
        INTERLEAVE := none, SUBDATASETS := [] }
    aosSubdatasets := []
    nFAOIdx := 0
    nArrayIdx := 0 }

/-- The `INTERLEAVE` item derived from the first three characters of `szOrder`. -/
def interleaveOf (szOrder : Nat → Char) : Option String :=
  if szOrder 0 = 'B' ∧ szOrder 1 = 'L' ∧ szOrder 2 = 'S' then some "BAND"
  else if szOrder 0 = 'L' ∧ szOrder 1 = 'S' ∧ szOrder 2 = 'B' then some "PIXEL"
  else none

/-- The body of the loop over the children of one `File_Area_Observational`; `none` is
`return nullptr`. -/
def openArray {D : Type} (env : Env D) (bBottomToTop : Bool) (nArrayIdxLookup : Int)
    (pszFilename : String) (st : OpenState D) (a : ArrayNode) : Option (OpenState D) :=
  let nDIM := arrayDim a
  if nDIM = 0 then some st
  else
    let st1 := { st with nArrayIdx := st.nArrayIdx + 1 }
    if nArrayIdxLookup > 0 ∧ st1.nArrayIdx ≠ nArrayIdxLookup then some st1
    else
      match resolveArray env nDIM a with
      | .skip => some st1
      | .overflow => none
      | .found r =>
        let nSDSIdx : Int := 1 + (2 * st1.aosSubdatasets.length : Nat) / 2
        let st2 :=
          { st1 with
            aosSubdatasets := st1.aosSubdatasets ++
              [{ nSDSIdx := nSDSIdx, nFAOIdx := st1.nFAOIdx, nArrayIdx := st1.nArrayIdx,
                 pszFilename := pszFilename,
                 arrayLabel := a.name.orElse (fun _ => a.local_identifier) }] }
        if st2.poDS.bands.length ≠ 0 then some st2
        else if !env.VSIFOpenExL pszFilename then some st2
        else
          some
            { st2 with
              poDS :=
                { st2.poDS with
                  nRasterXSize := r.nSamples
                  nRasterYSize := r.nLines
                  m_osImageFilename := some pszFilename
                  INTERLEAVE := interleaveOf r.szOrder
                  bands := makeBands env bBottomToTop r } }

/-- The loop over the children of one `File_Area_Observational`. -/
def openArrays {D : Type} (env : Env D) (bBottomToTop : Bool) (nArrayIdxLookup : Int)
    (pszFilename : String) : OpenState D → List ArrayNode → Option (OpenState D)
  | st, [] => some st
  | st, a :: rest =>
    match openArray env bBottomToTop nArrayIdxLookup pszFilename st a with
    | none => none
    | some st1 => openArrays env bBottomToTop nArrayIdxLookup pszFilename st1 rest

/-- The body of the loop over the `File_Area_Observational` elements. -/
def openArea {D : Type} (env : Env D) (bBottomToTop : Bool)
    (nFAOIdxLookup nArrayIdxLookup : Int) (st : OpenState D) (fao : FileAreaObservational) :
    Option (OpenState D) :=
  let st1 := { st with nFAOIdx := st.nFAOIdx + 1 }
  match fao.file_name with
  | none => some st1
  | some pszFilename =>
    if nFAOIdxLookup < 0 ∨ nFAOIdxLookup = st1.nFAOIdx then
      openArrays env bBottomToTop nArrayIdxLookup pszFilename { st1 with nArrayIdx := 0 }
        fao.children
    else some st1

/-- The loop over the `File_Area_Observational` elements. -/
def openAreas {D : Type} (env : Env D) (bBottomToTop : Bool)
    (nFAOIdxLookup nArrayIdxLookup : Int) :
    OpenState D → List FileAreaObservational → Option (OpenState D)
  | st, [] => some st
  | st, fao :: rest =>
    match openArea env bBottomToTop nFAOIdxLookup nArrayIdxLookup st fao with
    | none => none
    | some st1 => openAreas env bBottomToTop nFAOIdxLookup nArrayIdxLookup st1 rest

/-- The function `PDS4Dataset::Open` from the `Product_Observational` element on, for the
selectors `nFAOIdxLookup` and `nArrayIdxLookup` (both `-1` for a plain file name); `none` is
`nullptr`.  The georeferencing, overview and PAM steps that follow do not change the bands. -/
def Open {D : Type} (env : Env D) (nFAOIdxLookup nArrayIdxLookup : Int) (label : Label) :
    Option (Dataset D) :=
  let bBottomToTop := EQUAL label.vertical_display_direction "Bottom to Top"
  match openAreas env bBottomToTop nFAOIdxLookup nArrayIdxLookup (OpenState.init D)
      label.areas with
  | none => none
  | some st =>
    if nFAOIdxLookup < 0 ∧ 2 * st.aosSubdatasets.length > 2 then
      some { st.poDS with SUBDATASETS := st.aosSubdatasets }
    else if st.poDS.bands.length = 0 then none
    else some st.poDS

/-! ## `FillMask` -/

/-- The template `FillMask<T>`.  `eq` is `operator==` of the sample type `T`, `GDALCopyWord`
the conversion of a double constant to `T`; `pSrc` is the source buffer and `pabyDst` the
mask block, both as maps from the element index.  The result is the mask block after the
two loops. -/
def FillMask {D T : Type} (eq : T → T → Bool) (GDALCopyWord : D → T) (pSrc : Int → T)
    (pabyDst : Int → Nat) (nReqXSize nReqYSize nBlockXSize : Int) (adfConstants : List D) :
    Int → Nat :=
  let aConstants := adfConstants.map GDALCopyWord
  (List.range nReqYSize.toNat).foldl
    (fun (dst : Int → Nat) (y : Nat) =>
      (List.range nReqXSize.toNat).foldl
        (fun (dst : Int → Nat) (x : Nat) =>
          let nSrc := pSrc ((y : Int) * nBlockXSize + (x : Int))
          if aConstants.any (fun c => eq c nSrc) then
            Function.update dst ((y : Int) * nBlockXSize + (x : Int)) 0
          else
            Function.update dst ((y : Int) * nBlockXSize + (x : Int)) 255)
        dst)
    pabyDst

/-! ## Definitions used to state the properties -/

/-- The offset that the stride loop assigns for the axis character `c`: the pixel offset for
`S`, the line offset for `L`, the band offset otherwise. -/
def Spacing.strideOf (s : Spacing) (c : Char) : Int :=
  if c = 'S' then s.nPixelOffset else if c = 'L' then s.nLineOffset else s.nBandOffset

/-- The offset of a resolved array for the axis character `c`. -/
def ArrayLayout.strideOf {D : Type} (r : ArrayLayout D) (c : Char) : Int :=
  if c = 'S' then r.nPixelOffset else if c = 'L' then r.nLineOffset else r.nBandOffset

/-- Product of the element counts of the axes at the sequence positions inside position `p`,
that is at the zero-based positions `p+1, ..., nDIM-1`. -/
def innerCount (nDIM : Int) (anElements : Nat → Int) (p : Nat) : Int :=
  ∏ q ∈ Finset.Ico (p + 1) nDIM.toNat, anElements q

/-- The three storage slots of the stride loop: 0 for `S`, 1 for `L`, 2 for everything else. -/
def axisSlot (c : Char) : Nat :=
  if c = 'S' then 0 else if c = 'L' then 1 else 2

/-- The invariant of the `Axis_Array` loop.  The filled positions (those where `szOrder` is
not the terminator) lie below `nDIM`, their number is `nAxisFound`, each holds one of the
characters `B`, `L`, `S` (`B` only for `nDIM = 3`) and a count in `[1, INT_MAX]`; and each of
`nSamples`, `nLines`, `l_nBands` is the count stored at a position of its axis, or still has
its initial value when no such axis was stored. -/
def AxisInv (nDIM : Int) (st : AxisState) : Prop :=
  (∃ F : Finset Nat, (∀ p ∈ F, (p : Int) < nDIM) ∧ (F.card : Int) = st.nAxisFound ∧
      ∀ p, p ∈ F ↔ st.szOrder p ≠ NUL) ∧
  (∀ p, st.szOrder p ≠ NUL →
      (st.szOrder p = 'B' ∨ st.szOrder p = 'L' ∨ st.szOrder p = 'S') ∧
      1 ≤ st.anElements p ∧ st.anElements p ≤ 2147483647 ∧ (st.szOrder p = 'B' → nDIM = 3)) ∧
  ((st.nSamples = 0 ∧ ∀ p, st.szOrder p ≠ 'S') ∨
      ∃ p, st.szOrder p = 'S' ∧ st.anElements p = st.nSamples) ∧
  ((st.nLines = 0 ∧ ∀ p, st.szOrder p ≠ 'L') ∨
      ∃ p, st.szOrder p = 'L' ∧ st.anElements p = st.nLines) ∧
  ((st.l_nBands = 1 ∧ ∀ p, st.szOrder p ≠ 'B') ∨
      ∃ p, st.szOrder p = 'B' ∧ st.anElements p = st.l_nBands)

/-- The axis characters stored at the positions of a resolved array are pairwise distinct:
no axis role occurs twice. -/
def ArrayLayout.distinctRoles {D : Type} (r : ArrayLayout D) : Prop :=
  ∀ p q : Nat, (p : Int) < r.nDIM → (q : Int) < r.nDIM → r.szOrder p = r.szOrder q → p = q

/-! ## Sample inputs -/

/-- A three-band, four-line, five-sample array of 16-bit samples in band-sequential order,
with a missing and a saturated constant. -/
def sampleArray : ArrayNode :=
  { pszValue := "Array_3D_Image"
    axis_index_order := some "Last Index Fastest"
    data_type := some "UnsignedLSB2"
    Axis_Array :=
      [ ⟨some "Band", some 3, some 1⟩, ⟨some "Line", some 4, some 2⟩,
        ⟨some "Sample", some 5, some 3⟩ ]
    Special_Constants := some { missing_constant := some "0", saturated_constant := some "255" } }

/-- A little-endian host without mask override on which every image file opens; doubles
are kept as their text. -/
def sampleEnv : Env String :=
  { CPLAtof := id, PDS4_FORCE_MASK := false, GDAL_MAX_BAND_COUNT := 65536, CPL_LSB := true,
    VSIFOpenExL := fun _ => true }

/-- The layout `Open` resolves for `sampleArray`. -/
def sampleLayout : ArrayLayout String :=
  { nDIM := 3
    nOffset := 0
    eDT := GDT_UInt16
    bSignedByte := false
    bLSBOrder := true
    dfValueOffset := "0"
    dfValueScale := "1"
    szOrder := Function.update (Function.update (Function.update (fun _ => NUL) 0 'B') 1 'L') 2 'S'
    anElements := Function.update (Function.update (Function.update (fun _ => 0) 0 3) 1 4) 2 5
    l_nBands := 3
    nLines := 4
    nSamples := 5
    nPixelOffset := 2
    nLineOffset := 10
    nBandOffset := 40
    noData := some "0"
    adfConstants := ["255", "0"] }

/-- The byte address of sample `x` of line `y` of band `b` under the strides of a resolved
array, in exact integer arithmetic: base offset plus index times stride for each axis. -/
def ArrayLayout.address {D : Type} (r : ArrayLayout D) (b y x : Int) : Int :=
  r.nOffset + b * r.nBandOffset + y * r.nLineOffset + x * r.nPixelOffset

/-- The samples addressed by `base + b*sB + y*sL + x*sS`, for `b < nB`, `y < nL`, `x < nS`,
tile `es * (nB*nL*nS)` bytes from `base`: every address is `base + es*k` for exactly one
element number `k` below the number of samples, distinct samples have distinct addresses,
and every element number is taken. -/
def Tiles (es base nB nL nS sB sL sS : Int) : Prop :=
  (∀ b y x : Int, 0 ≤ b → b < nB → 0 ≤ y → y < nL → 0 ≤ x → x < nS →
    ∃! k : Int, (0 ≤ k ∧ k < nB * nL * nS) ∧ base + b * sB + y * sL + x * sS = base + es * k) ∧
  (∀ b y x b1 y1 x1 : Int, 0 ≤ b → b < nB → 0 ≤ y → y < nL → 0 ≤ x → x < nS →
    0 ≤ b1 → b1 < nB → 0 ≤ y1 → y1 < nL → 0 ≤ x1 → x1 < nS →
    base + b * sB + y * sL + x * sS = base + b1 * sB + y1 * sL + x1 * sS →
    b = b1 ∧ y = y1 ∧ x = x1) ∧
  (∀ k : Int, 0 ≤ k → k < nB * nL * nS →
    ∃ b y x : Int, (0 ≤ b ∧ b < nB) ∧ (0 ≤ y ∧ y < nL) ∧ (0 ≤ x ∧ x < nS) ∧
      base + b * sB + y * sL + x * sS = base + es * k)

/-- A band-sequential byte array of 2 bands, 65536 lines and 65536 samples: the stride of the
Band axis is 2^32 bytes. -/
def bigBandArray : ArrayNode :=
  { pszValue := "Array_3D_Image"
    axis_index_order := some "Last Index Fastest"
    data_type := some "UnsignedByte"
    Axis_Array :=
      [ ⟨some "Band", some 2, some 1⟩, ⟨some "Line", some 65536, some 2⟩,
        ⟨some "Sample", some 65536, some 3⟩ ] }

/-- The layout `Open` resolves for `bigBandArray`. -/
def bigBandLayout : ArrayLayout String :=
  { nDIM := 3
    nOffset := 0
    eDT := GDT_Byte
    bSignedByte := false
    bLSBOrder := false
    dfValueOffset := "0"
    dfValueScale := "1"
    szOrder := Function.update (Function.update (Function.update (fun _ => NUL) 0 'B') 1 'L') 2 'S'
    anElements :=
      Function.update (Function.update (Function.update (fun _ => 0) 0 2) 1 65536) 2 65536
    l_nBands := 2
    nLines := 65536
    nSamples := 65536
    nPixelOffset := 1
    nLineOffset := 65536
    nBandOffset := 4294967296
    noData := none
    adfConstants := [] }

/-- A two-dimensional array of doubles with 2 lines of 268435456 samples: the stride of the
Line axis would be 2^31 bytes. -/
def overflowArray : ArrayNode :=
  { pszValue := "Array_2D_Image"
    axis_index_order := some "Last Index Fastest"
    data_type := some "IEEE754MSBDouble"
    Axis_Array := [ ⟨some "Line", some 2, some 1⟩, ⟨some "Sample", some 268435456, some 2⟩ ] }

/-- A label with one file area holding the given arrays. -/
def labelOf (arrays : List ArrayNode) : Label :=
  { areas := [{ file_name := some "image.dat", children := arrays }] }

/-- The number of array elements in a list of children: those with a nonzero `nDIM`.  One
more than the count over the children before an array is the `nArrayIdx` of that array. -/
def countArrays (l : List ArrayNode) : Nat :=
  (l.filter (fun n => decide (arrayDim n ≠ 0))).length

/-- Whether `missing_constant` is declared. -/
def missingDeclared (psSC : Option SpecialConstants) : Bool :=
  match psSC with
  | none => false
  | some sc => sc.missing_constant.isSome

/-- The value written by `FillMask` for a sample `v`: 0 when `v` equals one of the converted
constants, 255 otherwise. -/
def maskValue {D T : Type} (eq : T → T → Bool) (GDALCopyWord : D → T) (adfConstants : List D)
    (v : T) : Nat :=
  if (adfConstants.map GDALCopyWord).any (fun c => eq c v) then 0 else 255

/-- A host with the mask override `PDS4_FORCE_MASK` switched on. -/
def forceEnv : Env String :=
  { CPLAtof := id, PDS4_FORCE_MASK := true, GDAL_MAX_BAND_COUNT := 65536, CPL_LSB := true,
    VSIFOpenExL := fun _ => true }

/-- A two-dimensional array of 3 lines and 4 samples of complex single-precision values. -/
def complexArray : ArrayNode :=
  { pszValue := "Array_2D_Image"
    axis_index_order := some "Last Index Fastest"
    data_type := some "ComplexLSB8"
    Axis_Array := [ ⟨some "Line", some 3, some 1⟩, ⟨some "Sample", some 4, some 2⟩ ] }

/-- The dataset `Open` returns for the label holding `sampleArray` alone. -/
def sampleDataset : Dataset String :=
  { nRasterXSize := 5
    nRasterYSize := 4
    bands := makeBands sampleEnv false sampleLayout
    m_osImageFilename := some "image.dat"
    INTERLEAVE := some "BAND"
    SUBDATASETS := [] }

/-- The supported vocabulary of `data_type` tags as the specification lists it: each tag with
its element type, the bytes per element and the signed-byte flag. -/
def supportedTags : List (String × GDALDataType × Int × Bool) :=
  [ ("ComplexLSB16", GDT_CFloat64, 16, false), ("ComplexMSB16", GDT_CFloat64, 16, false),
    ("ComplexLSB8", GDT_CFloat32, 8, false), ("ComplexMSB8", GDT_CFloat32, 8, false),
    ("IEEE754LSBDouble", GDT_Float64, 8, false), ("IEEE754MSBDouble", GDT_Float64, 8, false),
    ("IEEE754LSBSingle", GDT_Float32, 4, false), ("IEEE754MSBSingle", GDT_Float32, 4, false),
    ("SignedLSB2", GDT_Int16, 2, false), ("SignedMSB2", GDT_Int16, 2, false),
    ("SignedLSB4", GDT_Int32, 4, false), ("SignedMSB4", GDT_Int32, 4, false),
    ("UnsignedLSB2", GDT_UInt16, 2, false), ("UnsignedMSB2", GDT_UInt16, 2, false),
    ("UnsignedLSB4", GDT_UInt32, 4, false), ("UnsignedMSB4", GDT_UInt32, 4, false),
    ("UnsignedByte", GDT_Byte, 1, false), ("SignedByte", GDT_Byte, 1, true) ]

/-- The tags that the specification names as unsupported: the 64-bit integers, the bit
strings and the empty tag. -/
def unsupportedTags : List String :=
  [ "SignedLSB8", "SignedMSB8", "UnsignedLSB8", "UnsignedMSB8", "SignedBitString",
    "UnsignedBitString", "" ]

/-- An array of 3 lines and 4 samples whose samples are 64-bit integers. -/
def int64Array : ArrayNode :=
  { pszValue := "Array_2D_Image"
    axis_index_order := some "Last Index Fastest"
    data_type := some "SignedLSB8"
    Axis_Array := [ ⟨some "Line", some 3, some 1⟩, ⟨some "Sample", some 4, some 2⟩ ] }

/-- The subdataset candidates that the specification expects from the children of one file
area: one entry for every array element that resolves, numbered consecutively, and named
with the container index and with the 1-based index of the element among the array
elements of the area, skipped ones included.  `nArrayIdx` is the index of the last array
element before the list and `n` the number of candidates before it. -/
def listedFrom {D : Type} (env : Env D) (pszFilename : String) (nFAOIdx : Int) :
    List ArrayNode → Int → Nat → List Subdataset
  | [], _, _ => []
  | a :: rest, nArrayIdx, n =>
    if arrayDim a = 0 then listedFrom env pszFilename nFAOIdx rest nArrayIdx n
    else
      match resolveArray env (arrayDim a) a with
      | .found _ =>
        { nSDSIdx := 1 + (n : Int), nFAOIdx := nFAOIdx, nArrayIdx := nArrayIdx + 1,
          pszFilename := pszFilename,
          arrayLabel := a.name.orElse (fun _ => a.local_identifier) } ::
          listedFrom env pszFilename nFAOIdx rest (nArrayIdx + 1) (n + 1)
      | _ => listedFrom env pszFilename nFAOIdx rest (nArrayIdx + 1) n

/-- The array `sampleArray` with its axis order written in capital letters. -/
def shoutedArray : ArrayNode :=
  { sampleArray with axis_index_order := some "LAST INDEX FASTEST" }

/-- The array `sampleArray` with the axis order `First Index Fastest`. -/
def firstFastestArray : ArrayNode :=
  { sampleArray with axis_index_order := some "First Index Fastest" }

/-! ## Geotransform of the dataset

The doubles on which the code computes are elements of a linearly ordered field `D`: the
arithmetic is exact, and the C literals denote the numbers they spell.  The constant `M_PI`
is a parameter. -/

/-- The two error classes that the functions below return. -/
inductive CPLErr
  | CE_None
  | CE_Failure
  deriving DecidableEq, Repr

open CPLErr

/-- The members `m_bGotTransform` and `m_adfGeoTransform` of `PDS4Dataset`. -/
structure GeoState (D : Type) where
  m_bGotTransform : Bool
  m_adfGeoTransform : Fin 6 → D

/-- The values the constructor `PDS4Dataset()` gives the two members. -/
def GeoState.init (D : Type) [LinearOrderedField D] : GeoState D :=
  { m_bGotTransform := false, m_adfGeoTransform := ![0, 1, 0, 0, 0, 1] }

/-- The method `PDS4Dataset::SetGeoTransform`: the error class returned and the members
afterwards.  The forwarding to an external dataset does not touch the members. -/
def SetGeoTransform {D : Type} [LinearOrderedField D] (st : GeoState D)
    (padfTransform : Fin 6 → D) : CPLErr × GeoState D :=
  if padfTransform 1 ≤ 0 ∨ padfTransform 2 ≠ 0 ∨ padfTransform 4 ≠ 0 ∨
      padfTransform 5 ≥ 0 then
    (CE_Failure, st)
  else
    (CE_None, { m_adfGeoTransform := padfTransform, m_bGotTransform := true })

/-- The method `PDS4Dataset::GetGeoTransform`: the error class and the six coefficients
written to the caller.  `pam` is what `GDALPamDataset::GetGeoTransform` gives. -/
def GetGeoTransform {D : Type} (st : GeoState D) (pam : CPLErr × (Fin 6 → D)) :
    CPLErr × (Fin 6 → D) :=
  if st.m_bGotTransform then (CE_None, st.m_adfGeoTransform) else pam

/-! ## Unit converters -/

/-- An element carrying a number: its text and its `unit` attribute. -/
structure UnitValue where
  /-- The text of the element, `""` when it has none. -/
  pszValue : String
  unit : Option String := none

/-- The table `apsLinearUnits`. -/
def apsLinearUnits (D : Type) [LinearOrderedField D] : List (String × D) :=
  [ ("AU", 149597870700.0), ("Angstrom", 1e-10), ("cm", 1e-2), ("km", 1e3),
    ("micrometer", 1e-6), ("mm", 1e-3), ("nm", 1e-9) ]

/-- The table `apsResolutionUnits`. -/
def apsResolutionUnits (D : Type) [LinearOrderedField D] : List (String × D) :=
  [ ("km/pixel", 1e3), ("mm/pixel", 1e-3) ]

/-- The table `apsAngularUnits`. -/
def apsAngularUnits {D : Type} [LinearOrderedField D] (M_PI : D) : List (String × D) :=
  [ ("arcmin", 1 / 60), ("arcsec", 1 / 3600), ("hr", 15.0), ("mrad", 180.0 / M_PI / 1000),
    ("rad", 180.0 / M_PI) ]

/-- The table loop shared by the three converters: the value multiplied by the factor of
the first entry whose unit matches, and the flag `bFound`. -/
def applyUnit {D : Type} [LinearOrderedField D] (pszUnit : String) (dfVal : D) :
    List (String × D) → D × Bool
  | [] => (dfVal, false)
  | e :: rest => if EQUAL pszUnit e.1 then (dfVal * e.2, true) else applyUnit pszUnit dfVal rest

/-- The body common to the three converters once the element is found: `canonical` is the
unit that needs no conversion.  An unknown unit leaves the value as it is (and is reported
by a warning). -/
def convertValue {D : Type} [LinearOrderedField D] (CPLAtof : String → D) (canonical : String)
    (table : List (String × D)) (psNode : UnitValue) : D :=
  let dfVal := CPLAtof psNode.pszValue
  match psNode.unit with
  | some pszUnit =>
    if !EQUAL pszUnit canonical then (applyUnit pszUnit dfVal table).1 else dfVal
  | none => dfVal

/-- The function `GetLinearValue`, for the element found under the given name (`none` when
there is no such element). -/
def GetLinearValue {D : Type} [LinearOrderedField D] (CPLAtof : String → D)
    (psNode : Option UnitValue) : D :=
  match psNode with
  | none => 0.0
  | some n => convertValue CPLAtof "m" (apsLinearUnits D) n

/-- The function `GetResolutionValue`. -/
def GetResolutionValue {D : Type} [LinearOrderedField D] (CPLAtof : String → D)
    (psNode : Option UnitValue) : D :=
  match psNode with
  | none => 0.0
  | some n => convertValue CPLAtof "m/pixel" (apsResolutionUnits D) n

/-- The function `GetAngularValue`: the value and what `pbGotVal` receives. -/
def GetAngularValue {D : Type} [LinearOrderedField D] (CPLAtof : String → D) (M_PI : D)
    (psNode : Option UnitValue) : D × Bool :=
  match psNode with
  | none => (0.0, false)
  | some n => (convertValue CPLAtof "deg" (apsAngularUnits M_PI) n, true)

/-! ## `PDS4Dataset::ReadGeoreferencing`: the affine transform -/

/-- The element `Coordinate_Representation`. -/
structure CoordinateRepresentation where
  pixel_resolution_x : Option UnitValue := none
  pixel_resolution_y : Option UnitValue := none

/-- The element `Planar_Coordinate_Information`. -/
structure PlanarCoordinateInformation where
  planar_coordinate_encoding_method : Option String := none
  Coordinate_Representation : Option CoordinateRepresentation := none

/-- The element `Geo_Transformation`. -/
structure GeoTransformation where
  upperleft_corner_x : Option UnitValue := none
  upperleft_corner_y : Option UnitValue := none

/-- The last step of `ReadGeoreferencing`, reached when the label has a `Cartography` element
with a horizontal coordinate system definition: from the elements
`Planar.Planar_Coordinate_Information` and `Planar.Geo_Transformation` of that definition to
the geotransform members. -/
def ReadGeoreferencing_transform {D : Type} [LinearOrderedField D] (CPLAtof : String → D)
    (st : GeoState D) (psPCI : Option PlanarCoordinateInformation)
    (psGT : Option GeoTransformation) : GeoState D :=
  match psPCI, psGT with
  | some pci, some gt =>
    if !EQUAL (pci.planar_coordinate_encoding_method.getD "") "Coordinate Pair" then st
    else
      match pci.Coordinate_Representation with
      | some psCR =>
        let dfXRes := GetResolutionValue CPLAtof psCR.pixel_resolution_x
        let dfYRes := GetResolutionValue CPLAtof psCR.pixel_resolution_y
        let dfULX := GetLinearValue CPLAtof gt.upperleft_corner_x
        let dfULY := GetLinearValue CPLAtof gt.upperleft_corner_y
        { m_adfGeoTransform :=
            ![dfULX - 0.5 * dfXRes, dfXRes, 0.0, dfULY + 0.5 * dfYRes, 0.0, -dfYRes]
          m_bGotTransform := true }
      | none => st
  | _, _ => st

/-- The factors to metres as the specification lists them. -/
def linearFactors (D : Type) [LinearOrderedField D] : List (String × D) :=
  [ ("AU", 149597870700), ("Angstrom", 1 / 10 ^ 10), ("cm", 1 / 10 ^ 2), ("km", 10 ^ 3),
    ("micrometer", 1 / 10 ^ 6), ("mm", 1 / 10 ^ 3), ("nm", 1 / 10 ^ 9) ]

/-- The factors to metres per pixel as the specification lists them. -/
def resolutionFactors (D : Type) [LinearOrderedField D] : List (String × D) :=
  [ ("km/pixel", 10 ^ 3), ("mm/pixel", 1 / 10 ^ 3) ]

/-- The factors to degrees as the specification lists them, with `M_PI` for π. -/
def angularFactors {D : Type} [LinearOrderedField D] (M_PI : D) : List (String × D) :=
  [ ("arcmin", 1 / 60), ("arcsec", 1 / 3600), ("hr", 15), ("mrad", 180 / (1000 * M_PI)),
    ("rad", 180 / M_PI) ]

/-- A number parser for the examples: it knows the texts `2000`, `100`, `20` and `2`. -/
def sampleAtof (s : String) : ℚ :=
  if s = "2000" then 2000 else if s = "100" then 100 else if s = "20" then 20
  else if s = "2" then 2 else 0

/-- A coordinate representation with pixels of 2 metres. -/
def sampleCR : CoordinateRepresentation :=
  { pixel_resolution_x := some { pszValue := "2", unit := some "m/pixel" }
    pixel_resolution_y := some { pszValue := "2" } }

/-- Planar coordinate information with the encoding `Coordinate Pair`. -/
def samplePCI : PlanarCoordinateInformation :=
  { planar_coordinate_encoding_method := some "Coordinate Pair"
    Coordinate_Representation := some sampleCR }

/-- An upper-left pixel centre at 100 metres east and 20 kilometres north. -/
def sampleGT : GeoTransformation :=
  { upperleft_corner_x := some { pszValue := "100", unit := some "m" }
    upperleft_corner_y := some { pszValue := "20", unit := some "km" } }

/-! ## `PDS4Dataset::SubstituteVariables`

The dictionary `papszDict` is handed over as the list of its `key=value` entries, each split
into key and value as `CPLParseNameValue` does; entries without separator take no part. -/

/-- The method `CPLString::tolower`. -/
def tolower (s : String) : String :=
  ⟨s.data.map Char.toLower⟩

/-- Case-insensitive prefix test `STARTS_WITH_CI(a, b)`: `b` is a prefix of `a` when case is
disregarded. -/
def STARTS_WITH_CI (a b : String) : Bool :=
  (b.data.map Char.toLower).isPrefixOf (a.data.map Char.toLower)

/-- The loop of `CPLString::replaceAll` on the characters from the search position on, with
`fuel` bounding the number of iterations: at an occurrence of `before` the text `after` is
put in its place and the search resumes behind it, otherwise the character is kept. -/
def replaceAllAux (before after : List Char) : Nat → List Char → List Char
  | 0, s => s
  | _ + 1, [] => []
  | fuel + 1, c :: s =>
    if before.isPrefixOf (c :: s) then
      after ++ replaceAllAux before after fuel ((c :: s).drop before.length)
    else
      c :: replaceAllAux before after fuel s

/-- Modelled from the spec: `CPLString::replaceAll` belongs to the GDAL port library and is
not part of the driver source.  It replaces each occurrence of `before`, from left to
right, without looking again at the text it has put in; an empty `before` changes nothing.
The length of the text is fuel enough, each iteration consuming a character. -/
def replaceAll (s before after : String) : String :=
  if before.data = [] then s
  else ⟨replaceAllAux before.data after.data s.data.length s.data⟩

/-- The lookup `CSLFetchNameValue(papszDict, pszName)`: the value of the first entry whose key
is `pszName`, case disregarded. -/
def CSLFetchNameValue (papszDict : List (String × String)) (pszName : String) :
    Option String :=
  (papszDict.find? (fun e => EQUAL e.1 pszName)).map (fun e => e.2)

/-- The two warnings that `SubstituteVariables` emits. -/
inductive Warning
  /-- `VAR_TITLE not defined. Using ... by default`. -/
  | titleDefault (osTitle : String)
  /-- `... could not be substituted`. -/
  | notSubstituted (osVal : String)
  deriving DecidableEq, Repr

/-- The placeholder of the variable `pszVarName`: the name between `$` with an opening brace
and a closing brace. -/
def placeholder (pszVarName : String) : String :=
  "$\x7b" ++ pszVarName ++ "\x7d"

/-- The body of the loop over the dictionary, for the entry with key `e.1` and value `e.2`. -/
def substituteEntry (osVal : String) (e : String × String) : String :=
  if STARTS_WITH_CI e.1 "VAR_" then
    let pszVarName : String := ⟨e.1.data.drop 4⟩
    replaceAll (replaceAll osVal (placeholder pszVarName) e.2)
      (tolower (placeholder pszVarName)) (tolower e.2)
  else osVal

/-- What `SubstituteVariables` does to the text `pszValue` of a text node: the new text and
the warnings.  `osTitle` is the file name part of the dataset description. -/
def substituteText (osTitle : String) (papszDict : List (String × String))
    (pszValue : String) : String × List Warning :=
  if strstr pszValue "$\x7b" then
    let bTitle := strstr pszValue "${TITLE}" && (CSLFetchNameValue papszDict "VAR_TITLE").isNone
    let osVal0 := if bTitle then replaceAll pszValue "${TITLE}" osTitle else pszValue
    let osVal := papszDict.foldl substituteEntry osVal0
    (osVal,
      (if bTitle then [Warning.titleDefault osTitle] else []) ++
        (if strstr osVal "$\x7b" then [Warning.notSubstituted osVal] else []))
  else (pszValue, [])

/-- The node types of `CPLXMLNode`. -/
inductive CPLXMLNodeType
  | CXT_Element
  | CXT_Text
  | CXT_Attribute
  | CXT_Comment
  | CXT_Literal
  deriving DecidableEq, Repr

/-- A node of the label tree: type, value (`none` for a null pointer) and children. -/
inductive CPLXMLNode where
  | mk (eType : CPLXMLNodeType) (pszValue : Option String) (children : List CPLXMLNode)

mutual
/-- The method `PDS4Dataset::SubstituteVariables`: the tree after substitution and the
warnings emitted, in order. -/
def SubstituteVariables (osTitle : String) (papszDict : List (String × String)) :
    CPLXMLNode → CPLXMLNode × List Warning
  | .mk eType pszValue children =>
    let own : Option String × List Warning :=
      match eType, pszValue with
      | .CXT_Text, some s =>
        (some (substituteText osTitle papszDict s).1, (substituteText osTitle papszDict s).2)
      | _, v => (v, [])
    let sub := SubstituteVariablesChildren osTitle papszDict children
    (.mk eType own.1 sub.1, own.2 ++ sub.2)
/-- The loop of `SubstituteVariables` over the children of a node. -/
def SubstituteVariablesChildren (osTitle : String) (papszDict : List (String × String)) :
    List CPLXMLNode → List CPLXMLNode × List Warning
  | [] => ([], [])
  | n :: rest =>
    let first := SubstituteVariables osTitle papszDict n
    let others := SubstituteVariablesChildren osTitle papszDict rest
    (first.1 :: others.1, first.2 ++ others.2)
end

/-- The pieces of a text joined by a separator: `p0 ++ sep ++ p1 ++ sep ++ ... ++ pn`. -/
def joinWith (sep : List Char) : List (List Char) → List Char
  | [] => []
  | [p] => p
  | p :: q :: rest => p ++ sep ++ joinWith sep (q :: rest)

/-- Whether `needle` occurs in `s`: the test that `strstr` makes. -/
def occurs (needle s : List Char) : Bool :=
  s.tails.any (fun t => needle.isPrefixOf t)

/-! ## `PDS4Dataset::Create` and the array that `WriteHeader` describes -/

/-- The lookup `CSLFetchNameValueDef(papszOptions, pszName, pszDefault)`. -/
def CSLFetchNameValueDef (papszOptions : List (String × String)) (pszName pszDefault : String) :
    String :=
  (CSLFetchNameValue papszOptions pszName).getD pszDefault

/-- The section `Compute pixel, line and band offsets` of `Create`, for the interleave
`pszInterleave` and the element size `nItemSize`: the values of `nPixelOffset`, `nLineOffset`
(both `int`) and `nBandOffset` (`vsi_l_offset`), or `none` for `return nullptr`.  The `int`
products wrap to 32 bits; `/` is the division of C. -/
def Create_offsets (pszInterleave : String) (nItemSize nXSize nYSize nBands : Int) :
    Option (Int × Int × Int) :=
  if EQUAL pszInterleave "BIP" then
    let nPixelOffset := toInt (nItemSize * nBands)
    if nPixelOffset > Int.tdiv INT_MAX nBands then none
    else some (nPixelOffset, toInt (nPixelOffset * nXSize), toU64 nItemSize)
  else if EQUAL pszInterleave "BSQ" then
    let nPixelOffset := nItemSize
    if nPixelOffset > Int.tdiv INT_MAX nXSize then none
    else
      let nLineOffset := toInt (nPixelOffset * nXSize)
      some (nPixelOffset, nLineOffset, toU64 (toU64 nLineOffset * toU64 nYSize))
  else if EQUAL pszInterleave "BIL" then
    let nPixelOffset := nItemSize
    if nPixelOffset > Int.tdiv INT_MAX nBands ∨
        toInt (nPixelOffset * nBands) > Int.tdiv INT_MAX nXSize then none
    else
      some (nPixelOffset, toInt (toInt (nItemSize * nBands) * nXSize),
        toU64 (toU64 nItemSize * toU64 nXSize))
  else none

/-- What `Create` consumes from its surroundings. -/
structure CreateEnv where
  /-- Whether the host is little-endian (the macro `CPL_LSB`). -/
  CPL_LSB : Bool
  /-- Whether `VSIFOpenL(name, "wb")` succeeds. -/
  VSIFOpenL : String → Bool
  /-- The GTiff driver, when `GDALGetDriverByName` finds it: whether its `Create` succeeds on
  the file name. -/
  GTiff : Option (String → Bool)
  /-- The path helper `CPLResetExtension`. -/
  CPLResetExtension : String → String → String

/-- A band as `Create` sets it on the new dataset. -/
inductive CreatedBand
  /-- A `PDS4RawRasterBand` with the arguments of its constructor. -/
  | raw (nBand nImgOffset nPixelOffset nLineOffset : Int) (eDataType : GDALDataType)
      (bNativeOrder : Bool)
  /-- A `PDS4WrapperRasterBand` around band `nBand` of the external dataset. -/
  | wrapper (nBand : Int)
  deriving DecidableEq, Repr

/-- The dataset that `Create` returns. -/
structure CreatedDataset where
  nRasterXSize : Int
  nRasterYSize : Int
  m_osImageFilename : String
  m_osInterleave : String
  m_papszCreationOptions : List (String × String)
  /-- Whether `m_poExternalDS` is set. -/
  m_poExternalDS : Bool
  /-- The `INTERLEAVE` item of the `IMAGE_STRUCTURE` domain. -/
  INTERLEAVE : Option String
  bands : List CreatedBand
  deriving DecidableEq, Repr

/-- The function `PDS4Dataset::Create`; `none` is `nullptr`.  The type `GDALDataType` of this
development holds exactly the element types that the first test of `Create` lets through.
The caller (`GDALDriver::Create`) passes positive raster sizes. -/
def Create (env : CreateEnv) (pszFilename : String) (nXSize nYSize nBands : Int)
    (eType : GDALDataType) (papszOptions : List (String × String)) : Option CreatedDataset :=
  if nBands = 0 then none
  else
    let pszArrayType := CSLFetchNameValueDef papszOptions "ARRAY_TYPE" "Array_3D_Image"
    let bIsArray2D := STARTS_WITH pszArrayType "Array_2D"
    if nBands > 1 ∧ bIsArray2D = true then none
    else
      let nItemSize := GDALGetDataTypeSizeBytes eType
      let pszInterleave :=
        if bIsArray2D then "BIP" else CSLFetchNameValueDef papszOptions "INTERLEAVE" "BSQ"
      match Create_offsets pszInterleave nItemSize nXSize nYSize nBands with
      | none => none
      | some (nPixelOffset, nLineOffset, nBandOffset) =>
        let pszImageFormat := CSLFetchNameValueDef papszOptions "IMAGE_FORMAT" "RAW"
        let pszImageExtension := CSLFetchNameValueDef papszOptions "IMAGE_EXTENSION"
          (if EQUAL pszImageFormat "RAW" then "img" else "tif")
        let osImageFilename := CSLFetchNameValueDef papszOptions "IMAGE_FILENAME"
          (env.CPLResetExtension pszFilename pszImageExtension)
        let poDS (bExternal : Bool) (bands : List CreatedBand) : CreatedDataset :=
          { nRasterXSize := nXSize
            nRasterYSize := nYSize
            m_osImageFilename := osImageFilename
            m_osInterleave := pszInterleave
            m_papszCreationOptions := papszOptions
            m_poExternalDS := bExternal
            INTERLEAVE :=
              if EQUAL pszInterleave "BIP" then some "PIXEL"
              else if EQUAL pszInterleave "BSQ" then some "BAND" else none
            bands := bands }
        if EQUAL pszImageFormat "GEOTIFF" then
          if EQUAL pszInterleave "BIL" then none
          else
            match env.GTiff with
            | none => none
            | some poDrvCreate =>
              if !poDrvCreate osImageFilename then none
              else
                some (poDS true
                  ((List.range nBands.toNat).map (fun (i : Nat) => CreatedBand.wrapper (i + 1))))
        else if !env.VSIFOpenL osImageFilename then none
        else
          some (poDS false
            ((List.range nBands.toNat).map (fun (i : Nat) =>
              CreatedBand.raw (i + 1) (toU64 (nBandOffset * (i : Int))) nPixelOffset nLineOffset
                eType env.CPL_LSB)))

/-- The tag that `WriteHeader` writes as `data_type` for the element type of band 1. -/
def WriteHeader_data_type : GDALDataType → String
  | GDT_Byte => "UnsignedByte"
  | GDT_UInt16 => "UnsignedLSB2"
  | GDT_Int16 => "SignedLSB2"
  | GDT_UInt32 => "UnsignedLSB4"
  | GDT_Int32 => "SignedLSB4"
  | GDT_Float32 => "IEEE754LSBSingle"
  | GDT_Float64 => "IEEE754LSBDouble"
  | GDT_CFloat32 => "ComplexLSB8"
  | GDT_CFloat64 => "ComplexLSB16"

/-- The `Axis_Array` elements that `WriteHeader` writes under `Axis definitions`, in document
order: two for a two-dimensional array type, three otherwise. -/
def WriteHeader_axes (bIsArray2D : Bool) (m_osInterleave : String)
    (nRasterXSize nRasterYSize nBands : Int) : List AxisArray :=
  [ { axis_name := some (if EQUAL m_osInterleave "BSQ" then "Band" else "Line")
      elements := some (if EQUAL m_osInterleave "BSQ" then nBands else nRasterYSize)
      sequence_number := some 1 },
    { axis_name := some (if EQUAL m_osInterleave "BSQ" then "Line"
        else if EQUAL m_osInterleave "BIL" then "Band" else "Sample")
      elements := some (if EQUAL m_osInterleave "BSQ" then nRasterYSize
        else if EQUAL m_osInterleave "BIL" then nBands else nRasterXSize)
      sequence_number := some 2 } ] ++
  (if bIsArray2D then []
   else
    [ { axis_name := some (if EQUAL m_osInterleave "BSQ" then "Sample"
          else if EQUAL m_osInterleave "BIL" then "Sample" else "Band")
        elements := some (if EQUAL m_osInterleave "BSQ" then nRasterXSize
          else if EQUAL m_osInterleave "BIL" then nRasterXSize else nBands)
        sequence_number := some 3 } ])

/-- The array element that `WriteHeader` puts in the new `File_Area_Observational`, as `Open`
reads it back: element name, local identifier, offset, number of axes, axis order, data type
and axes.  The scaling factor, the value offset and the special constants, which `WriteHeader`
takes from band 1 and from the template, are left out. -/
def WriteHeader_array (m_papszCreationOptions : List (String × String))
    (m_osInterleave : String) (nRasterXSize nRasterYSize nBands : Int) (eDT : GDALDataType)
    (pszLocalIdentifier : String) (nOffset : Int) : ArrayNode :=
  let pszArrayType := CSLFetchNameValueDef m_papszCreationOptions "ARRAY_TYPE" "Array_3D_Image"
  let bIsArray2D := STARTS_WITH pszArrayType "Array_2D"
  { pszValue := pszArrayType
    local_identifier := some pszLocalIdentifier
    offset := some nOffset
    axes := some (if bIsArray2D then 2 else 3)
    axis_index_order := some "Last Index Fastest"
    data_type := some (WriteHeader_data_type eDT)
    Axis_Array := WriteHeader_axes bIsArray2D m_osInterleave nRasterXSize nRasterYSize nBands }

/-! ## `PDS4Dataset::WriteGeoreferencing`: the corner points -/

/-- The arrays `adfX` and `adfY` as `WriteGeoreferencing` fills them first, before any
reprojection: upper left, upper right, lower left, lower right. -/
def WriteGeoreferencing_corners {D : Type} [LinearOrderedField D] (m_adfGeoTransform : Fin 6 → D)
    (nRasterXSize nRasterYSize : Int) : (Fin 4 → D) × (Fin 4 → D) :=
  ( ![ m_adfGeoTransform 0 + m_adfGeoTransform 1 / 2,
       m_adfGeoTransform 0 + m_adfGeoTransform 1 * (nRasterXSize : D) - m_adfGeoTransform 1 / 2,
       m_adfGeoTransform 0 + m_adfGeoTransform 1 / 2,
       m_adfGeoTransform 0 + m_adfGeoTransform 1 * (nRasterXSize : D) -
         m_adfGeoTransform 1 / 2 ],
    ![ m_adfGeoTransform 3 - m_adfGeoTransform 5 / 2,
       m_adfGeoTransform 3 - m_adfGeoTransform 5 / 2,
       m_adfGeoTransform 3 + m_adfGeoTransform 5 * (nRasterYSize : D) + m_adfGeoTransform 5 / 2,
       m_adfGeoTransform 3 + m_adfGeoTransform 5 * (nRasterYSize : D) +
         m_adfGeoTransform 5 / 2 ] )

/-- A little-endian host on which every image file can be created and that has no GTiff
driver. -/
def sampleCreateEnv : CreateEnv :=
  { CPL_LSB := true, VSIFOpenL := fun _ => true, GTiff := none,
    CPLResetExtension := fun p e => p ++ "." ++ e }

/-- The line offset that `Create` is to hand to the bands, in exact integer arithmetic: the
element size times the samples of a line for `BSQ`, times the bands as well for `BIL` and
`BIP`. -/
def exactLineOffset (pszInterleave : String) (nItemSize nXSize nBands : Int) : Int :=
  if EQUAL pszInterleave "BSQ" then nItemSize * nXSize else nItemSize * nBands * nXSize

/-- A north-up transform: origin (0, 10), pixels of 1 by 1.  With 10 by 10 pixels the image
covers the square from 0 to 10 in both coordinates. -/
def northUpTransform : Fin 6 → ℚ := ![0, 1, 0, 10, 0, -1]

/-! ## The spatial reference

`OGRSpatialReference` belongs to the OGR library; the driver only calls it.  The model keeps
what the driver stores in it and reads back from it. -/

/-- The `GEOGCS` node of a spatial reference: the arguments of `SetGeogCS`. -/
structure GeogCS (D : Type) where
  pszGeogName : String
  pszDatumName : String
  pszSpheroidName : String
  dfSemiMajor : D
  dfInvFlattening : D
  pszPMName : String
  dfPMOffset : D

/-- Modelled from the spec: `OGRSpatialReference` is not part of the driver source.  It is
the canonical spatial model of the specification: the projection identity with its parameter
set (the `PROJCS` name, the `PROJECTION` method and the `PARAMETER` nodes in their order) and
the ellipsoid (the `GEOGCS` node).  Angles are in degrees and lengths in metres. -/
structure OGRSpatialReference (D : Type) where
  PROJCS : Option String := none
  PROJECTION : Option String := none
  PARAMETER : List (String × D) := []
  GEOGCS : Option (GeogCS D) := none

/-- The method names `SRS_PT_...` of `ogr_srs_api.h` that the driver uses. -/
def SRS_PT_ALBERS_CONIC_EQUAL_AREA : String := "Albers_Conic_Equal_Area"
def SRS_PT_AZIMUTHAL_EQUIDISTANT : String := "Azimuthal_Equidistant"
def SRS_PT_EQUIDISTANT_CONIC : String := "Equidistant_Conic"
def SRS_PT_EQUIRECTANGULAR : String := "Equirectangular"
def SRS_PT_GNOMONIC : String := "Gnomonic"
def SRS_PT_HOTINE_OBLIQUE_MERCATOR_AZIMUTH_CENTER : String :=
  "Hotine_Oblique_Mercator_Azimuth_Center"
def SRS_PT_HOTINE_OBLIQUE_MERCATOR_TWO_POINT_NATURAL_ORIGIN : String :=
  "Hotine_Oblique_Mercator_Two_Point_Natural_Origin"
def SRS_PT_LAMBERT_AZIMUTHAL_EQUAL_AREA : String := "Lambert_Azimuthal_Equal_Area"
def SRS_PT_LAMBERT_CONFORMAL_CONIC_1SP : String := "Lambert_Conformal_Conic_1SP"
def SRS_PT_LAMBERT_CONFORMAL_CONIC_2SP : String := "Lambert_Conformal_Conic_2SP"
def SRS_PT_MERCATOR_1SP : String := "Mercator_1SP"
def SRS_PT_MERCATOR_2SP : String := "Mercator_2SP"
def SRS_PT_MILLER_CYLINDRICAL : String := "Miller_Cylindrical"
def SRS_PT_ORTHOGRAPHIC : String := "Orthographic"
def SRS_PT_POLAR_STEREOGRAPHIC : String := "Polar_Stereographic"
def SRS_PT_POLYCONIC : String := "Polyconic"
def SRS_PT_ROBINSON : String := "Robinson"
def SRS_PT_SINUSOIDAL : String := "Sinusoidal"
def SRS_PT_STEREOGRAPHIC : String := "Stereographic"
def SRS_PT_TRANSVERSE_MERCATOR : String := "Transverse_Mercator"
def SRS_PT_VANDERGRINTEN : String := "VanDerGrinten"

/-- The parameter names `SRS_PP_...` of `ogr_srs_api.h` that the driver uses. -/
def SRS_PP_CENTRAL_MERIDIAN : String := "central_meridian"
def SRS_PP_SCALE_FACTOR : String := "scale_factor"
def SRS_PP_STANDARD_PARALLEL_1 : String := "standard_parallel_1"
def SRS_PP_STANDARD_PARALLEL_2 : String := "standard_parallel_2"
def SRS_PP_LONGITUDE_OF_CENTER : String := "longitude_of_center"
def SRS_PP_LATITUDE_OF_CENTER : String := "latitude_of_center"
def SRS_PP_LONGITUDE_OF_ORIGIN : String := "longitude_of_origin"
def SRS_PP_LATITUDE_OF_ORIGIN : String := "latitude_of_origin"
def SRS_PP_FALSE_EASTING : String := "false_easting"
def SRS_PP_FALSE_NORTHING : String := "false_northing"
def SRS_PP_AZIMUTH : String := "azimuth"
def SRS_PP_LONGITUDE_OF_POINT_1 : String := "longitude_of_point_1"
def SRS_PP_LATITUDE_OF_POINT_1 : String := "latitude_of_point_1"
def SRS_PP_LONGITUDE_OF_POINT_2 : String := "longitude_of_point_2"
def SRS_PP_LATITUDE_OF_POINT_2 : String := "latitude_of_point_2"

/-- The value stored under a parameter name, the name compared without regard to case. -/
def findParm {D : Type} (pszName : String) (l : List (String × D)) : Option D :=
  (l.find? (fun e => EQUAL e.1 pszName)).map (fun e => e.2)

/-- The parameter list with the value of `pszName` replaced, or added at the end when the
name is not there yet. -/
def setParm {D : Type} (pszName : String) (dfValue : D) : List (String × D) → List (String × D)
  | [] => [(pszName, dfValue)]
  | e :: rest =>
    if EQUAL e.1 pszName then (e.1, dfValue) :: rest else e :: setParm pszName dfValue rest

namespace OGRSpatialReference

/-- Modelled from the spec: `SetProjection` sets the method and makes sure there is a
`PROJCS` node, named `unnamed` when it is new. -/
def SetProjection {D : Type} (srs : OGRSpatialReference D) (pszProjection : String) :
    OGRSpatialReference D :=
  { srs with PROJCS := some (srs.PROJCS.getD "unnamed"), PROJECTION := some pszProjection }

/-- Modelled from the spec: `SetNormProjParm` stores a parameter in degrees or metres. -/
def SetNormProjParm {D : Type} (srs : OGRSpatialReference D) (pszName : String) (dfValue : D) :
    OGRSpatialReference D :=
  { srs with PARAMETER := setParm pszName dfValue srs.PARAMETER }

/-- Modelled from the spec: `GetNormProjParm` reads a parameter back, or gives the default
when it is not set.  Asked for the latitude of origin it also accepts the latitude of
center, and asked for the central meridian it also accepts the longitude of center and then
the longitude of origin. -/
def GetNormProjParm {D : Type} (srs : OGRSpatialReference D) (pszName : String)
    (dfDefault : D) : D :=
  match findParm pszName srs.PARAMETER with
  | some v => v
  | none =>
    if EQUAL pszName SRS_PP_LATITUDE_OF_ORIGIN then
      (findParm SRS_PP_LATITUDE_OF_CENTER srs.PARAMETER).getD dfDefault
    else if EQUAL pszName SRS_PP_CENTRAL_MERIDIAN then
      match findParm SRS_PP_LONGITUDE_OF_CENTER srs.PARAMETER with
      | some v => v
      | none => (findParm SRS_PP_LONGITUDE_OF_ORIGIN srs.PARAMETER).getD dfDefault
    else dfDefault

/-- A projection method set with its parameters, stored in the order given. -/
def setMethod {D : Type} (srs : OGRSpatialReference D) (pszProjection : String)
    (parms : List (String × D)) : OGRSpatialReference D :=
  parms.foldl (fun s e => s.SetNormProjParm e.1 e.2) (srs.SetProjection pszProjection)

/-- Modelled from the spec: `SetProjCS` names the projected coordinate system. -/
def SetProjCS {D : Type} (srs : OGRSpatialReference D) (pszName : String) :
    OGRSpatialReference D :=
  { srs with PROJCS := some pszName }

/-- Modelled from the spec: `SetGeogCS` stores the geographic coordinate system and its
ellipsoid. -/
def SetGeogCS {D : Type} (srs : OGRSpatialReference D) (pszGeogName pszDatumName
    pszSpheroidName : String) (dfSemiMajor dfInvFlattening : D) (pszPMName : String)
    (dfPMOffset : D) : OGRSpatialReference D :=
  { srs with
    GEOGCS := some
      { pszGeogName := pszGeogName, pszDatumName := pszDatumName
        pszSpheroidName := pszSpheroidName, dfSemiMajor := dfSemiMajor
        dfInvFlattening := dfInvFlattening, pszPMName := pszPMName, dfPMOffset := dfPMOffset } }

/-- Modelled from the spec: each of the following setters of the OGR library sets its
projection method and stores its arguments under the parameter names of that method. -/
def SetEquirectangular2 {D : Type} (srs : OGRSpatialReference D)
    (dfCenterLat dfCenterLong dfStdParallel1 dfFalseEasting dfFalseNorthing : D) :
    OGRSpatialReference D :=
  srs.setMethod SRS_PT_EQUIRECTANGULAR
    [ (SRS_PP_LATITUDE_OF_ORIGIN, dfCenterLat), (SRS_PP_CENTRAL_MERIDIAN, dfCenterLong),
      (SRS_PP_STANDARD_PARALLEL_1, dfStdParallel1), (SRS_PP_FALSE_EASTING, dfFalseEasting),
      (SRS_PP_FALSE_NORTHING, dfFalseNorthing) ]

def SetLCC1SP {D : Type} (srs : OGRSpatialReference D)
    (dfCenterLat dfCenterLong dfScale dfFalseEasting dfFalseNorthing : D) :
    OGRSpatialReference D :=
  srs.setMethod SRS_PT_LAMBERT_CONFORMAL_CONIC_1SP
    [ (SRS_PP_LATITUDE_OF_ORIGIN, dfCenterLat), (SRS_PP_CENTRAL_MERIDIAN, dfCenterLong),
      (SRS_PP_SCALE_FACTOR, dfScale), (SRS_PP_FALSE_EASTING, dfFalseEasting),
      (SRS_PP_FALSE_NORTHING, dfFalseNorthing) ]

def SetLCC {D : Type} (srs : OGRSpatialReference D)
    (dfStdP1 dfStdP2 dfCenterLat dfCenterLong dfFalseEasting dfFalseNorthing : D) :
    OGRSpatialReference D :=
  srs.setMethod SRS_PT_LAMBERT_CONFORMAL_CONIC_2SP
    [ (SRS_PP_STANDARD_PARALLEL_1, dfStdP1), (SRS_PP_STANDARD_PARALLEL_2, dfStdP2),
      (SRS_PP_LATITUDE_OF_ORIGIN, dfCenterLat), (SRS_PP_CENTRAL_MERIDIAN, dfCenterLong),
      (SRS_PP_FALSE_EASTING, dfFalseEasting), (SRS_PP_FALSE_NORTHING, dfFalseNorthing) ]

def SetHOM2PNO {D : Type} (srs : OGRSpatialReference D)
    (dfCenterLat dfLat1 dfLong1 dfLat2 dfLong2 dfScale dfFalseEasting dfFalseNorthing : D) :
    OGRSpatialReference D :=
  srs.setMethod SRS_PT_HOTINE_OBLIQUE_MERCATOR_TWO_POINT_NATURAL_ORIGIN
    [ (SRS_PP_LATITUDE_OF_CENTER, dfCenterLat), (SRS_PP_LATITUDE_OF_POINT_1, dfLat1),
      (SRS_PP_LONGITUDE_OF_POINT_1, dfLong1), (SRS_PP_LATITUDE_OF_POINT_2, dfLat2),
      (SRS_PP_LONGITUDE_OF_POINT_2, dfLong2), (SRS_PP_SCALE_FACTOR, dfScale),
      (SRS_PP_FALSE_EASTING, dfFalseEasting), (SRS_PP_FALSE_NORTHING, dfFalseNorthing) ]

def SetPS {D : Type} (srs : OGRSpatialReference D)
    (dfCenterLat dfCenterLong dfScale dfFalseEasting dfFalseNorthing : D) :
    OGRSpatialReference D :=
  srs.setMethod SRS_PT_POLAR_STEREOGRAPHIC
    [ (SRS_PP_LATITUDE_OF_ORIGIN, dfCenterLat), (SRS_PP_CENTRAL_MERIDIAN, dfCenterLong),
      (SRS_PP_SCALE_FACTOR, dfScale), (SRS_PP_FALSE_EASTING, dfFalseEasting),
      (SRS_PP_FALSE_NORTHING, dfFalseNorthing) ]

def SetPolyconic {D : Type} (srs : OGRSpatialReference D)
    (dfCenterLat dfCenterLong dfFalseEasting dfFalseNorthing : D) : OGRSpatialReference D :=
  srs.setMethod SRS_PT_POLYCONIC
    [ (SRS_PP_LATITUDE_OF_ORIGIN, dfCenterLat), (SRS_PP_CENTRAL_MERIDIAN, dfCenterLong),
      (SRS_PP_FALSE_EASTING, dfFalseEasting), (SRS_PP_FALSE_NORTHING, dfFalseNorthing) ]

def SetSinusoidal {D : Type} (srs : OGRSpatialReference D)
    (dfCenterLong dfFalseEasting dfFalseNorthing : D) : OGRSpatialReference D :=
  srs.setMethod SRS_PT_SINUSOIDAL
    [ (SRS_PP_LONGITUDE_OF_CENTER, dfCenterLong), (SRS_PP_FALSE_EASTING, dfFalseEasting),
      (SRS_PP_FALSE_NORTHING, dfFalseNorthing) ]

def SetTM {D : Type} (srs : OGRSpatialReference D)
    (dfCenterLat dfCenterLong dfScale dfFalseEasting dfFalseNorthing : D) :
    OGRSpatialReference D :=
  srs.setMethod SRS_PT_TRANSVERSE_MERCATOR
    [ (SRS_PP_LATITUDE_OF_ORIGIN, dfCenterLat), (SRS_PP_CENTRAL_MERIDIAN, dfCenterLong),
      (SRS_PP_SCALE_FACTOR, dfScale), (SRS_PP_FALSE_EASTING, dfFalseEasting),
      (SRS_PP_FALSE_NORTHING, dfFalseNorthing) ]

def SetACEA {D : Type} (srs : OGRSpatialReference D)
    (dfStdP1 dfStdP2 dfCenterLat dfCenterLong dfFalseEasting dfFalseNorthing : D) :
    OGRSpatialReference D :=
  srs.setMethod SRS_PT_ALBERS_CONIC_EQUAL_AREA
    [ (SRS_PP_STANDARD_PARALLEL_1, dfStdP1), (SRS_PP_STANDARD_PARALLEL_2, dfStdP2),
      (SRS_PP_LATITUDE_OF_CENTER, dfCenterLat), (SRS_PP_LONGITUDE_OF_CENTER, dfCenterLong),
      (SRS_PP_FALSE_EASTING, dfFalseEasting), (SRS_PP_FALSE_NORTHING, dfFalseNorthing) ]

def SetAE {D : Type} (srs : OGRSpatialReference D)
    (dfCenterLat dfCenterLong dfFalseEasting dfFalseNorthing : D) : OGRSpatialReference D :=
  srs.setMethod SRS_PT_AZIMUTHAL_EQUIDISTANT
    [ (SRS_PP_LATITUDE_OF_CENTER, dfCenterLat), (SRS_PP_LONGITUDE_OF_CENTER, dfCenterLong),
      (SRS_PP_FALSE_EASTING, dfFalseEasting), (SRS_PP_FALSE_NORTHING, dfFalseNorthing) ]

def SetEC {D : Type} (srs : OGRSpatialReference D)
    (dfStdP1 dfStdP2 dfCenterLat dfCenterLong dfFalseEasting dfFalseNorthing : D) :
    OGRSpatialReference D :=
  srs.setMethod SRS_PT_EQUIDISTANT_CONIC
    [ (SRS_PP_STANDARD_PARALLEL_1, dfStdP1), (SRS_PP_STANDARD_PARALLEL_2, dfStdP2),
      (SRS_PP_LATITUDE_OF_CENTER, dfCenterLat), (SRS_PP_LONGITUDE_OF_CENTER, dfCenterLong),
      (SRS_PP_FALSE_EASTING, dfFalseEasting), (SRS_PP_FALSE_NORTHING, dfFalseNorthing) ]

def SetGnomonic {D : Type} (srs : OGRSpatialReference D)
    (dfCenterLat dfCenterLong dfFalseEasting dfFalseNorthing : D) : OGRSpatialReference D :=
  srs.setMethod SRS_PT_GNOMONIC
    [ (SRS_PP_LATITUDE_OF_ORIGIN, dfCenterLat), (SRS_PP_CENTRAL_MERIDIAN, dfCenterLong),
      (SRS_PP_FALSE_EASTING, dfFalseEasting), (SRS_PP_FALSE_NORTHING, dfFalseNorthing) ]

def SetLAEA {D : Type} (srs : OGRSpatialReference D)
    (dfCenterLat dfCenterLong dfFalseEasting dfFalseNorthing : D) : OGRSpatialReference D :=
  srs.setMethod SRS_PT_LAMBERT_AZIMUTHAL_EQUAL_AREA
    [ (SRS_PP_LATITUDE_OF_CENTER, dfCenterLat), (SRS_PP_LONGITUDE_OF_CENTER, dfCenterLong),
      (SRS_PP_FALSE_EASTING, dfFalseEasting), (SRS_PP_FALSE_NORTHING, dfFalseNorthing) ]

def SetMC {D : Type} (srs : OGRSpatialReference D)
    (dfCenterLat dfCenterLong dfFalseEasting dfFalseNorthing : D) : OGRSpatialReference D :=
  srs.setMethod SRS_PT_MILLER_CYLINDRICAL
    [ (SRS_PP_LATITUDE_OF_CENTER, dfCenterLat), (SRS_PP_LONGITUDE_OF_CENTER, dfCenterLong),
      (SRS_PP_FALSE_EASTING, dfFalseEasting), (SRS_PP_FALSE_NORTHING, dfFalseNorthing) ]

def SetOrthographic {D : Type} (srs : OGRSpatialReference D)
    (dfCenterLat dfCenterLong dfFalseEasting dfFalseNorthing : D) : OGRSpatialReference D :=
  srs.setMethod SRS_PT_ORTHOGRAPHIC
    [ (SRS_PP_LATITUDE_OF_ORIGIN, dfCenterLat), (SRS_PP_CENTRAL_MERIDIAN, dfCenterLong),
      (SRS_PP_FALSE_EASTING, dfFalseEasting), (SRS_PP_FALSE_NORTHING, dfFalseNorthing) ]

def SetRobinson {D : Type} (srs : OGRSpatialReference D)
    (dfCenterLong dfFalseEasting dfFalseNorthing : D) : OGRSpatialReference D :=
  srs.setMethod SRS_PT_ROBINSON
    [ (SRS_PP_LONGITUDE_OF_CENTER, dfCenterLong), (SRS_PP_FALSE_EASTING, dfFalseEasting),
      (SRS_PP_FALSE_NORTHING, dfFalseNorthing) ]

def SetStereographic {D : Type} (srs : OGRSpatialReference D)
    (dfCenterLat dfCenterLong dfScale dfFalseEasting dfFalseNorthing : D) :
    OGRSpatialReference D :=
  srs.setMethod SRS_PT_STEREOGRAPHIC
    [ (SRS_PP_LATITUDE_OF_ORIGIN, dfCenterLat), (SRS_PP_CENTRAL_MERIDIAN, dfCenterLong),
      (SRS_PP_SCALE_FACTOR, dfScale), (SRS_PP_FALSE_EASTING, dfFalseEasting),
      (SRS_PP_FALSE_NORTHING, dfFalseNorthing) ]

def SetVDG {D : Type} (srs : OGRSpatialReference D)
    (dfCenterLong dfFalseEasting dfFalseNorthing : D) : OGRSpatialReference D :=
  srs.setMethod SRS_PT_VANDERGRINTEN
    [ (SRS_PP_CENTRAL_MERIDIAN, dfCenterLong), (SRS_PP_FALSE_EASTING, dfFalseEasting),
      (SRS_PP_FALSE_NORTHING, dfFalseNorthing) ]

/-- Modelled from the spec: `SetUTM` is the transverse Mercator projection of the zone, with
the central meridian `6 * zone - 183`, the scale 0.9996 and the false easting 500000; the
false northing is 10000000 in the south. -/
def SetUTM {D : Type} [LinearOrderedField D] (srs : OGRSpatialReference D) (nZone : Int)
    (bNorth : Bool) : OGRSpatialReference D :=
  srs.SetTM 0 ((nZone : D) * 6 - 183) 0.9996 500000 (if bNorth then 0 else 10000000)

/-- Modelled from the spec: the semi-major axis of the ellipsoid, that of WGS84 when the
spatial reference has none. -/
def GetSemiMajor {D : Type} [LinearOrderedField D] (srs : OGRSpatialReference D) : D :=
  match srs.GEOGCS with
  | some g => g.dfSemiMajor
  | none => 6378137.0

/-- Modelled from the spec: the semi-minor (polar) axis of the ellipsoid, derived from the
semi-major axis and the inverse flattening; an inverse flattening of zero is a sphere. -/
def GetSemiMinor {D : Type} [LinearOrderedField D] (srs : OGRSpatialReference D) : D :=
  match srs.GEOGCS with
  | some g =>
    if |g.dfInvFlattening| < 0.000000000001 then g.dfSemiMajor
    else g.dfSemiMajor * (1.0 - 1.0 / g.dfInvFlattening)
  | none => 6378137.0 * (1.0 - 1.0 / 298.257223563)

end OGRSpatialReference

/-! ## `PDS4Dataset::ReadGeoreferencing`: projection and geodetic model -/

/-- The warnings that `ReadGeoreferencing` and `WriteGeoreferencing` emit themselves, without
the values they print.  The `Unknown unit` warnings of the three converters are theirs and
are not listed. -/
inductive GeoWarning
  /-- `grid_coordinate_system_name = ... not supported`. -/
  | gridNotSupported (osProjName : String)
  /-- `map_projection_name = ... not supported`. -/
  | mapProjectionNotSupported (osProjName : String)
  /-- `Planar.Map_Projection not found`. -/
  | mapProjectionNotFound
  /-- `Ignoring standard_parallel_1 and/or standard_parallel_2 with LCC_1SP formulation`. -/
  | ignoringStandardParallels
  /-- `semi_minor_radius = ... m, different from semi_major_radius = ..., will be ignored`. -/
  | semiMinorIgnored
  /-- `Projection ... not supported`, of `WriteGeoreferencing`. -/
  | projectionNotSupported (pszProjection : String)
  deriving DecidableEq, Repr

/-- The element `Oblique_Line_Azimuth`. -/
structure ObliqueLineAzimuth where
  azimuthal_angle : Option String := none
  azimuth_measure_point_longitude : Option String := none

/-- A child node of the element `Oblique_Line_Point`. -/
structure ObliqueLinePointChild where
  eType : CPLXMLNodeType
  pszValue : String
  oblique_line_latitude : Option String := none
  oblique_line_longitude : Option String := none

/-- The element that holds the parameters of a projection. -/
structure ProjParamNode where
  longitude_of_central_meridian : Option UnitValue := none
  straight_vertical_longitude_from_pole : Option UnitValue := none
  latitude_of_projection_origin : Option UnitValue := none
  standard_parallel_1 : Option UnitValue := none
  standard_parallel_2 : Option UnitValue := none
  scale_factor_at_central_meridian : Option String := none
  scale_factor_at_projection_origin : Option String := none
  Oblique_Line_Azimuth : Option ObliqueLineAzimuth := none
  /-- The child nodes of `Oblique_Line_Point`, in document order. -/
  Oblique_Line_Point : Option (List ObliqueLinePointChild) := none

/-- The element `Planar.Map_Projection`. -/
structure MapProjection where
  map_projection_name : Option String := none
  /-- The lookup `CPLGetXMLNode(psMapProjection, name)` of a child element. -/
  child : String → Option ProjParamNode := fun _ => none

/-- The element `Planar.Grid_Coordinate_System`. -/
structure GridCoordinateSystem where
  grid_coordinate_system_name : Option String := none
  /-- The integer that the text at `Universal_Transverse_Mercator.utm_zone_number` denotes. -/
  utm_zone_number : Option Int := none
  /-- The element `Universal_Polar_Stereographic.Polar_Stereographic`. -/
  Polar_Stereographic : Option ProjParamNode := none

/-- The element `Geodetic_Model`. -/
structure GeodeticModel where
  latitude_type : Option String := none
  spheroid_name : Option String := none
  semi_major_radius : Option UnitValue := none
  semi_minor_radius : Option UnitValue := none
  polar_radius : Option UnitValue := none
  longitude_direction : Option String := none

/-- The locals of `ReadGeoreferencing` that the projection step sets, and the warnings
emitted so far. -/
structure ProjState (D : Type) where
  oSRS : OGRSpatialReference D
  osProjName : String
  dfCenterLon : D
  dfCenterLat : D
  dfStdParallel1 : D
  dfStdParallel2 : D
  dfScale : D
  warnings : List GeoWarning

/-- The locals as they are initialised. -/
def ProjState.init (D : Type) [LinearOrderedField D] : ProjState D :=
  { oSRS := {}, osProjName := "", dfCenterLon := 0.0, dfCenterLat := 0.0, dfStdParallel1 := 0.0,
    dfStdParallel2 := 0.0, dfScale := 1.0, warnings := [] }

/-- The values read from the element of the projection parameters. -/
structure ProjParams (D : Type) where
  dfCenterLon : D
  dfCenterLat : D
  dfStdParallel1 : D
  dfStdParallel2 : D
  dfScale : D
  bGotStdParallel1 : Bool
  bGotStdParallel2 : Bool
  bGotScale : Bool

/-- The block `if( psProjParamNode )` of the map projection branch; without the element the
locals keep their initial values. -/
def readProjParams {D : Type} [LinearOrderedField D] (CPLAtof : String → D) (M_PI : D)
    (osProjName : String) (psProjParamNode : Option ProjParamNode) : ProjParams D :=
  match psProjParamNode with
  | none =>
    { dfCenterLon := 0.0, dfCenterLat := 0.0, dfStdParallel1 := 0.0, dfStdParallel2 := 0.0,
      dfScale := 1.0, bGotStdParallel1 := false, bGotStdParallel2 := false, bGotScale := false }
  | some node =>
    let lon := GetAngularValue CPLAtof M_PI node.longitude_of_central_meridian
    let dfCenterLon :=
      if !lon.2 then (GetAngularValue CPLAtof M_PI node.straight_vertical_longitude_from_pole).1
      else lon.1
    let sp1 := GetAngularValue CPLAtof M_PI node.standard_parallel_1
    let sp2 := GetAngularValue CPLAtof M_PI node.standard_parallel_2
    let pszScaleVal :=
      if osProjName = "Transverse Mercator" then node.scale_factor_at_central_meridian
      else node.scale_factor_at_projection_origin
    { dfCenterLon := dfCenterLon
      dfCenterLat := (GetAngularValue CPLAtof M_PI node.latitude_of_projection_origin).1
      dfStdParallel1 := sp1.1
      dfStdParallel2 := sp2.1
      dfScale := match pszScaleVal with
        | some v => CPLAtof v
        | none => 1.0
      bGotStdParallel1 := sp1.2
      bGotStdParallel2 := sp2.2
      bGotScale := pszScaleVal.isSome }

/-- The first child of `Oblique_Line_Point` that `CPLGetXMLNode` finds under the name
`Oblique_Line_Point_Group`, with the node that follows it. -/
def firstPointGroup :
    List ObliqueLinePointChild → Option (ObliqueLinePointChild × Option ObliqueLinePointChild)
  | [] => none
  | c :: rest =>
    if c.eType ≠ CPLXMLNodeType.CXT_Text ∧ EQUAL c.pszValue "Oblique_Line_Point_Group" = true then
      some (c, rest.head?)
    else firstPointGroup rest

/-- The chain of tests on `osProjName` in the map projection branch, with the locals read
from the parameter element. -/
def dispatchMapProjection {D : Type} [LinearOrderedField D] (CPLAtof : String → D)
    (osProjName : String) (p : ProjParams D) (psObliqueAzimuth : Option ObliqueLineAzimuth)
    (psObliquePoint : Option (List ObliqueLinePointChild)) : ProjState D :=
  let oSRS : OGRSpatialReference D := {}
  let st : ProjState D :=
    { oSRS := oSRS, osProjName := osProjName, dfCenterLon := p.dfCenterLon
      dfCenterLat := p.dfCenterLat, dfStdParallel1 := p.dfStdParallel1
      dfStdParallel2 := p.dfStdParallel2, dfScale := p.dfScale, warnings := [] }
  if EQUAL osProjName "Equirectangular" then
    { st with oSRS := oSRS.SetEquirectangular2 p.dfCenterLat p.dfCenterLon p.dfStdParallel1 0 0 }
  else if EQUAL osProjName "Lambert Conformal Conic" then
    if p.bGotScale then
      { st with
        oSRS := oSRS.SetLCC1SP p.dfCenterLat p.dfCenterLon p.dfScale 0 0
        warnings :=
          if (p.bGotStdParallel1 = true ∧ p.dfStdParallel1 ≠ p.dfCenterLat) ∨
              (p.bGotStdParallel2 = true ∧ p.dfStdParallel2 ≠ p.dfCenterLat) then
            [GeoWarning.ignoringStandardParallels]
          else [] }
    else
      { st with
        oSRS := oSRS.SetLCC p.dfStdParallel1 p.dfStdParallel2 p.dfCenterLat p.dfCenterLon 0 0 }
  else if EQUAL osProjName "Oblique Mercator" &&
      (psObliqueAzimuth.isSome || psObliquePoint.isSome) then
    match psObliqueAzimuth with
    | some az =>
      let dfCenterLon := CPLAtof (az.azimuth_measure_point_longitude.getD "0")
      let dfAzimuth := CPLAtof (az.azimuthal_angle.getD "0")
      { st with
        dfCenterLon := dfCenterLon
        oSRS :=
          (((((oSRS.SetProjection SRS_PT_HOTINE_OBLIQUE_MERCATOR_AZIMUTH_CENTER).SetNormProjParm
            SRS_PP_LATITUDE_OF_CENTER p.dfCenterLat).SetNormProjParm
            SRS_PP_LONGITUDE_OF_CENTER dfCenterLon).SetNormProjParm
            SRS_PP_AZIMUTH dfAzimuth).SetNormProjParm
            SRS_PP_SCALE_FACTOR p.dfScale).SetNormProjParm
            SRS_PP_FALSE_EASTING 0.0 |>.SetNormProjParm SRS_PP_FALSE_NORTHING 0.0 }
    | none =>
      let pt :=
        match firstPointGroup (psObliquePoint.getD []) with
        | none => ((0.0 : D), (0.0 : D), (0.0 : D), (0.0 : D))
        | some (psPoint, next) =>
          let dfLat1 := CPLAtof (psPoint.oblique_line_latitude.getD "0.0")
          let dfLong1 := CPLAtof (psPoint.oblique_line_longitude.getD "0.0")
          match next with
          | some psPoint2 =>
            if psPoint2.eType = CPLXMLNodeType.CXT_Element ∧
                EQUAL psPoint2.pszValue "Oblique_Line_Point_Group" = true then
              (dfLat1, dfLong1, CPLAtof (psPoint2.oblique_line_latitude.getD "0.0"),
                CPLAtof (psPoint2.oblique_line_longitude.getD "0.0"))
            else (dfLat1, dfLong1, 0.0, 0.0)
          | none => (dfLat1, dfLong1, 0.0, 0.0)
      { st with
        oSRS := oSRS.SetHOM2PNO p.dfCenterLat pt.1 pt.2.1 pt.2.2.1 pt.2.2.2 p.dfScale 0.0 0.0 }
  else if EQUAL osProjName "Polar Stereographic" then
    { st with oSRS := oSRS.SetPS p.dfCenterLat p.dfCenterLon p.dfScale 0 0 }
  else if EQUAL osProjName "Polyconic" then
    { st with oSRS := oSRS.SetPolyconic p.dfCenterLat p.dfCenterLon 0 0 }
  else if EQUAL osProjName "Sinusoidal" then
    { st with oSRS := oSRS.SetSinusoidal p.dfCenterLon 0 0 }
  else if EQUAL osProjName "Transverse Mercator" then
    { st with oSRS := oSRS.SetTM p.dfCenterLat p.dfCenterLon p.dfScale 0 0 }
  else if EQUAL osProjName "Albers Conical Equal Area" then
    { st with
      oSRS := oSRS.SetACEA p.dfStdParallel1 p.dfStdParallel2 p.dfCenterLat p.dfCenterLon 0.0 0.0 }
  else if EQUAL osProjName "Azimuthal Equidistant" then
    { st with oSRS := oSRS.SetAE p.dfCenterLat p.dfCenterLon 0 0 }
  else if EQUAL osProjName "Equidistant Conic" then
    { st with
      oSRS := oSRS.SetEC p.dfStdParallel1 p.dfStdParallel2 p.dfCenterLat p.dfCenterLon 0.0 0.0 }
  else if EQUAL osProjName "Gnomonic" then
    { st with oSRS := oSRS.SetGnomonic p.dfCenterLat p.dfCenterLon 0 0 }
  else if EQUAL osProjName "Lambert Azimuthal Equal Area" then
    { st with oSRS := oSRS.SetLAEA p.dfCenterLat p.dfCenterLon 0 0 }
  else if EQUAL osProjName "Miller Cylindrical" then
    { st with oSRS := oSRS.SetMC p.dfCenterLat p.dfCenterLon 0 0 }
  else if EQUAL osProjName "Orothographic" || EQUAL osProjName "Orthographic" then
    { st with
      osProjName := "Orthographic"
      oSRS := oSRS.SetOrthographic p.dfCenterLat p.dfCenterLon 0 0 }
  else if EQUAL osProjName "Robinson" then
    { st with oSRS := oSRS.SetRobinson p.dfCenterLon 0 0 }
  else if EQUAL osProjName "Stereographic" then
    { st with oSRS := oSRS.SetStereographic p.dfCenterLat p.dfCenterLon p.dfScale 0 0 }
  else if EQUAL osProjName "van der Grinten" then
    { st with oSRS := oSRS.SetVDG p.dfCenterLon 0 0 }
  else
    { st with warnings := [GeoWarning.mapProjectionNotSupported osProjName] }

/-- The branch `else if( psMapProjection != nullptr )` of `ReadGeoreferencing`. -/
def readMapProjection {D : Type} [LinearOrderedField D] (CPLAtof : String → D) (M_PI : D)
    (psMapProjection : MapProjection) : ProjState D :=
  let osProjName := psMapProjection.map_projection_name.getD ""
  if osProjName = "" then ProjState.init D
  else
    let psProjParamNode :=
      match psMapProjection.child
          ⟨osProjName.data.map (fun c => if c = ' ' then '_' else c)⟩ with
      | some node => some node
      | none =>
        if EQUAL osProjName "Orothographic" then psMapProjection.child "Orthographic" else none
    dispatchMapProjection CPLAtof osProjName
      (readProjParams CPLAtof M_PI osProjName psProjParamNode)
      (psProjParamNode.bind (fun n => n.Oblique_Line_Azimuth))
      (psProjParamNode.bind (fun n => n.Oblique_Line_Point))

/-- The branch `if( psGridCoordinateSystem != nullptr )` of `ReadGeoreferencing`. -/
def readGridCoordinateSystem {D : Type} [LinearOrderedField D] (CPLAtof : String → D) (M_PI : D)
    (psGridCoordinateSystem : GridCoordinateSystem) : ProjState D :=
  let osProjName := psGridCoordinateSystem.grid_coordinate_system_name.getD ""
  let st : ProjState D := { ProjState.init D with osProjName := osProjName }
  if osProjName = "" then st
  else if osProjName = "Universal Transverse Mercator" then
    match psGridCoordinateSystem.utm_zone_number with
    | some v =>
      let nZone := atoi v
      { st with oSRS := st.oSRS.SetUTM |nZone| (decide (nZone ≥ 0)) }
    | none => st
  else if osProjName = "Universal Polar Stereographic" then
    match psGridCoordinateSystem.Polar_Stereographic with
    | some node =>
      let dfCenterLon := (GetAngularValue CPLAtof M_PI node.longitude_of_central_meridian).1
      let dfCenterLat := (GetAngularValue CPLAtof M_PI node.latitude_of_projection_origin).1
      let dfScale := CPLAtof (node.scale_factor_at_projection_origin.getD "1")
      { st with
        dfCenterLon := dfCenterLon
        dfCenterLat := dfCenterLat
        dfScale := dfScale
        oSRS := st.oSRS.SetPS dfCenterLat dfCenterLon dfScale 0 0 }
    | none => st
  else { st with warnings := [GeoWarning.gridNotSupported osProjName] }

/-- The projection step of `ReadGeoreferencing`, from the declaration of `oSRS` to the
warning `Planar.Map_Projection not found`. -/
def ReadGeoreferencing_projection {D : Type} [LinearOrderedField D] (CPLAtof : String → D)
    (M_PI : D) (psGridCoordinateSystem : Option GridCoordinateSystem)
    (psMapProjection : Option MapProjection) : ProjState D :=
  match psGridCoordinateSystem, psMapProjection with
  | some grid, _ => readGridCoordinateSystem CPLAtof M_PI grid
  | none, some mp => readMapProjection CPLAtof M_PI mp
  | none, none => { ProjState.init D with warnings := [GeoWarning.mapProjectionNotFound] }

/-- The geodetic step of `ReadGeoreferencing`, for the locals `st` left by the projection
step and the target name `pszTargetName` of the product (`unknown` when it has none). -/
def ReadGeoreferencing_geodetic {D : Type} [LinearOrderedField D] (CPLAtof : String → D)
    (st : ProjState D) (psGeodeticModel : Option GeodeticModel) (pszTargetName : String) :
    ProjState D :=
  match psGeodeticModel with
  | none => st
  | some gm =>
    let bIsOgraphic := EQUAL (gm.latitude_type.getD "") "planetographic"
    let dfSemiMajor := GetLinearValue CPLAtof gm.semi_major_radius
    let dfSemiMinorPDS4 := GetLinearValue CPLAtof gm.semi_minor_radius
    let warnings :=
      st.warnings ++ (if dfSemiMajor ≠ dfSemiMinorPDS4 then [GeoWarning.semiMinorIgnored] else [])
    let dfPolarRadius := GetLinearValue CPLAtof gm.polar_radius
    let dfSemiMinor := dfPolarRadius
    let oSRS := st.oSRS.SetProjCS (st.osProjName ++ " " ++ pszTargetName)
    let osGeogName := "GCS_" ++ pszTargetName
    let osSphereName := gm.spheroid_name.getD pszTargetName
    let osDatumName := "D_" ++ osSphereName
    let dfInvFlattening : D :=
      if dfSemiMajor - dfSemiMinor ≥ 0.00000001 then dfSemiMajor / (dfSemiMajor - dfSemiMinor)
      else 0
    let oSRS :=
      if (EQUAL st.osProjName "STEREOGRAPHIC" && decide (|st.dfCenterLat| = 90)) ||
          EQUAL st.osProjName "POLAR STEREOGRAPHIC" then
        if bIsOgraphic then
          oSRS.SetGeogCS osGeogName osDatumName osSphereName dfSemiMajor dfInvFlattening
            "Reference_Meridian" 0.0
        else
          oSRS.SetGeogCS osGeogName osDatumName (osSphereName ++ "_polarRadius") dfPolarRadius
            0.0 "Reference_Meridian" 0.0
      else if EQUAL st.osProjName "EQUIRECTANGULAR" || EQUAL st.osProjName "ORTHOGRAPHIC" ||
          EQUAL st.osProjName "STEREOGRAPHIC" || EQUAL st.osProjName "SINUSOIDAL" then
        oSRS.SetGeogCS osGeogName osDatumName osSphereName dfSemiMajor 0.0
          "Reference_Meridian" 0.0
      else if bIsOgraphic then
        oSRS.SetGeogCS osGeogName osDatumName osSphereName dfSemiMajor dfInvFlattening
          "Reference_Meridian" 0.0
      else
        oSRS.SetGeogCS osGeogName osDatumName osSphereName dfSemiMajor 0.0
          "Reference_Meridian" 0.0
    { st with oSRS := oSRS, warnings := warnings }

/-! ## `PDS4Dataset::WriteGeoreferencing`: projection and geodetic model -/

/-- What `WriteGeoreferencing` puts under `Map_Projection`: the text of
`map_projection_name`, the parameters of the vector `aoProjParams` in their order (each is
written as an element of that name below the projection element, with the unit `deg` unless
the name begins with `scale_factor`), the further content of the projection element for the
two oblique Mercator methods, and the warnings. -/
structure WrittenProjection (D : Type) where
  pszPDS4ProjectionName : String
  aoProjParams : List (String × D)
  /-- The element `scale_factor_at_projection_origin` written for the oblique methods. -/
  scale_factor_at_projection_origin : Option D := none
  /-- The elements `azimuthal_angle` and `azimuth_measure_point_longitude` of
  `Oblique_Line_Azimuth`. -/
  Oblique_Line_Azimuth : Option (D × D) := none
  /-- The latitude and longitude of the two `Oblique_Line_Point_Group` elements. -/
  Oblique_Line_Point : Option ((D × D) × (D × D)) := none
  /-- The element `latitude_of_projection_origin` written for the oblique methods. -/
  latitude_of_projection_origin : Option D := none
  warnings : List GeoWarning := []

/-- The name of the projection element: the projection name with `_` for each blank. -/
def projectionElementName (pszPDS4ProjectionName : String) : String :=
  ⟨pszPDS4ProjectionName.data.map (fun c => if c = ' ' then '_' else c)⟩

/-- The chain of tests on the `PROJECTION` of the spatial reference in
`WriteGeoreferencing`, with the elements written for the oblique Mercator methods. -/
def WriteGeoreferencing_projection {D : Type} [LinearOrderedField D]
    (oSRS : OGRSpatialReference D) : WrittenProjection D :=
  match oSRS.PROJECTION with
  | none =>
    { pszPDS4ProjectionName := "Equirectangular"
      aoProjParams :=
        [("longitude_of_central_meridian", 0.0), ("latitude_of_projection_origin", 0.0)] }
  | some pszProjection =>
    if EQUAL pszProjection SRS_PT_EQUIRECTANGULAR then
      { pszPDS4ProjectionName := "Equirectangular"
        aoProjParams :=
          [ ("standard_parallel_1", oSRS.GetNormProjParm SRS_PP_STANDARD_PARALLEL_1 1.0),
            ("longitude_of_central_meridian", oSRS.GetNormProjParm SRS_PP_CENTRAL_MERIDIAN 0.0),
            ("latitude_of_projection_origin",
              oSRS.GetNormProjParm SRS_PP_LATITUDE_OF_ORIGIN 0.0) ] }
    else if EQUAL pszProjection SRS_PT_LAMBERT_CONFORMAL_CONIC_1SP then
      { pszPDS4ProjectionName := "Lambert Conformal Conic"
        aoProjParams :=
          [ ("scale_factor_at_projection_origin", oSRS.GetNormProjParm SRS_PP_SCALE_FACTOR 1.0),
            ("longitude_of_central_meridian", oSRS.GetNormProjParm SRS_PP_CENTRAL_MERIDIAN 0.0),
            ("latitude_of_projection_origin",
              oSRS.GetNormProjParm SRS_PP_LATITUDE_OF_ORIGIN 0.0) ] }
    else if EQUAL pszProjection SRS_PT_LAMBERT_CONFORMAL_CONIC_2SP then
      { pszPDS4ProjectionName := "Lambert Conformal Conic"
        aoProjParams :=
          [ ("standard_parallel_1", oSRS.GetNormProjParm SRS_PP_STANDARD_PARALLEL_1 0.0),
            ("standard_parallel_2", oSRS.GetNormProjParm SRS_PP_STANDARD_PARALLEL_2 0.0),
            ("longitude_of_central_meridian", oSRS.GetNormProjParm SRS_PP_CENTRAL_MERIDIAN 0.0),
            ("latitude_of_projection_origin",
              oSRS.GetNormProjParm SRS_PP_LATITUDE_OF_ORIGIN 0.0) ] }
    else if EQUAL pszProjection SRS_PT_HOTINE_OBLIQUE_MERCATOR_AZIMUTH_CENTER then
      { pszPDS4ProjectionName := "Oblique Mercator"
        aoProjParams := []
        scale_factor_at_projection_origin := some (oSRS.GetNormProjParm SRS_PP_SCALE_FACTOR 0.0)
        Oblique_Line_Azimuth :=
          some (oSRS.GetNormProjParm SRS_PP_AZIMUTH 0.0,
            oSRS.GetNormProjParm SRS_PP_CENTRAL_MERIDIAN 0.0)
        latitude_of_projection_origin :=
          some (oSRS.GetNormProjParm SRS_PP_LATITUDE_OF_ORIGIN 0.0) }
    else if EQUAL pszProjection SRS_PT_HOTINE_OBLIQUE_MERCATOR_TWO_POINT_NATURAL_ORIGIN then
      { pszPDS4ProjectionName := "Oblique Mercator"
        aoProjParams := []
        scale_factor_at_projection_origin := some (oSRS.GetNormProjParm SRS_PP_SCALE_FACTOR 0.0)
        Oblique_Line_Point :=
          some ((oSRS.GetNormProjParm SRS_PP_LATITUDE_OF_POINT_1 0.0,
              oSRS.GetNormProjParm SRS_PP_LONGITUDE_OF_POINT_1 0.0),
            (oSRS.GetNormProjParm SRS_PP_LATITUDE_OF_POINT_2 0.0,
              oSRS.GetNormProjParm SRS_PP_LONGITUDE_OF_POINT_2 0.0))
        latitude_of_projection_origin :=
          some (oSRS.GetNormProjParm SRS_PP_LATITUDE_OF_ORIGIN 0.0) }
    else if EQUAL pszProjection SRS_PT_POLAR_STEREOGRAPHIC then
      { pszPDS4ProjectionName := "Polar Stereographic"
        aoProjParams :=
          [ ("straight_vertical_longitude_from_pole",
              oSRS.GetNormProjParm SRS_PP_CENTRAL_MERIDIAN 0.0),
            ("scale_factor_at_projection_origin", oSRS.GetNormProjParm SRS_PP_SCALE_FACTOR 1.0),
            ("latitude_of_projection_origin",
              oSRS.GetNormProjParm SRS_PP_LATITUDE_OF_ORIGIN 0.0) ] }
    else if EQUAL pszProjection SRS_PT_POLYCONIC then
      { pszPDS4ProjectionName := "Polyconic"
        aoProjParams :=
          [ ("longitude_of_central_meridian", oSRS.GetNormProjParm SRS_PP_CENTRAL_MERIDIAN 0.0),
            ("latitude_of_projection_origin",
              oSRS.GetNormProjParm SRS_PP_LATITUDE_OF_ORIGIN 0.0) ] }
    else if EQUAL pszProjection SRS_PT_SINUSOIDAL then
      { pszPDS4ProjectionName := "Sinusoidal"
        aoProjParams :=
          [ ("longitude_of_central_meridian", oSRS.GetNormProjParm SRS_PP_CENTRAL_MERIDIAN 0.0),
            ("latitude_of_projection_origin",
              oSRS.GetNormProjParm SRS_PP_LATITUDE_OF_ORIGIN 0.0) ] }
    else if EQUAL pszProjection SRS_PT_TRANSVERSE_MERCATOR then
      { pszPDS4ProjectionName := "Transverse Mercator"
        aoProjParams :=
          [ ("scale_factor_at_central_meridian", oSRS.GetNormProjParm SRS_PP_SCALE_FACTOR 1.0),
            ("longitude_of_central_meridian", oSRS.GetNormProjParm SRS_PP_CENTRAL_MERIDIAN 0.0),
            ("latitude_of_projection_origin",
              oSRS.GetNormProjParm SRS_PP_LATITUDE_OF_ORIGIN 0.0) ] }
    else if EQUAL pszProjection SRS_PT_ORTHOGRAPHIC then
      { pszPDS4ProjectionName := "Orthographic"
        aoProjParams :=
          [ ("longitude_of_central_meridian", oSRS.GetNormProjParm SRS_PP_CENTRAL_MERIDIAN 0.0),
            ("latitude_of_projection_origin",
              oSRS.GetNormProjParm SRS_PP_LATITUDE_OF_ORIGIN 0.0) ] }
    else if EQUAL pszProjection SRS_PT_MERCATOR_1SP then
      { pszPDS4ProjectionName := "Mercator"
        aoProjParams :=
          [ ("scale_factor_at_projection_origin", oSRS.GetNormProjParm SRS_PP_SCALE_FACTOR 1.0),
            ("longitude_of_central_meridian", oSRS.GetNormProjParm SRS_PP_CENTRAL_MERIDIAN 0.0),
            ("latitude_of_projection_origin",
              oSRS.GetNormProjParm SRS_PP_LATITUDE_OF_ORIGIN 0.0) ] }
    else if EQUAL pszProjection SRS_PT_MERCATOR_2SP then
      { pszPDS4ProjectionName := "Mercator"
        aoProjParams :=
          [ ("standard_parallel_1", oSRS.GetNormProjParm SRS_PP_STANDARD_PARALLEL_1 0.0),
            ("longitude_of_central_meridian", oSRS.GetNormProjParm SRS_PP_CENTRAL_MERIDIAN 0.0),
            ("latitude_of_projection_origin",
              oSRS.GetNormProjParm SRS_PP_LATITUDE_OF_ORIGIN 0.0) ] }
    else
      { pszPDS4ProjectionName := ""
        aoProjParams := []
        warnings := [GeoWarning.projectionNotSupported pszProjection] }

/-- Whether an element declares its value in degrees: the unit is `deg` or there is none. -/
def inDegrees (v : UnitValue) : Bool :=
  match v.unit with
  | none => true
  | some pszUnit => EQUAL pszUnit "deg"

/-- The block `Map_Projection` with the projection name `osProjName` and one parameter
element, found under the name with `_` for each blank. -/
def blockOf (osProjName : String) (node : ProjParamNode) : MapProjection :=
  { map_projection_name := some osProjName
    child := fun n => if n = projectionElementName osProjName then some node else none }

/-- A parameter element declaring, in degrees, the central meridian 100, the latitude of
origin 20 and the first standard parallel 2, with the scale factor 2 at the origin. -/
def sampleProjParams : ProjParamNode :=
  { longitude_of_central_meridian := some { pszValue := "100", unit := some "deg" }
    latitude_of_projection_origin := some { pszValue := "20", unit := some "deg" }
    standard_parallel_1 := some { pszValue := "2" }
    scale_factor_at_projection_origin := some "2" }

/-- A spatial reference in the Mercator projection with one standard parallel. -/
def mercatorSRS : OGRSpatialReference ℚ :=
  (({} : OGRSpatialReference ℚ).SetProjection SRS_PT_MERCATOR_1SP).SetNormProjParm
    SRS_PP_CENTRAL_MERIDIAN 100

/-- A number parser for the geodetic examples: it knows the texts `3396190`, `3376200`,
`90` and `0`. -/
def geoAtof (s : String) : ℚ :=
  if s = "3396190" then 3396190 else if s = "3376200" then 3376200
  else if s = "90" then 90 else 0

/-- A geodetic model with planetographic latitudes, the semi-major radius 3396190 m and the
polar radius 3376200 m. -/
def marsGeodetic : GeodeticModel :=
  { latitude_type := some "planetographic"
    semi_major_radius := some { pszValue := "3396190", unit := some "m" }
    semi_minor_radius := some { pszValue := "3396190", unit := some "m" }
    polar_radius := some { pszValue := "3376200", unit := some "m" } }

/-- A Stereographic block centred on the north pole. -/
def polarStereographicBlock : MapProjection :=
  blockOf "Stereographic"
    { longitude_of_central_meridian := some { pszValue := "0", unit := some "deg" }
      latitude_of_projection_origin := some { pszValue := "90", unit := some "deg" } }

/-! ## `PDS4MaskBand::IReadBlock` -/

/-- The window that `IReadBlock` requests from the base band. -/
structure ReadWindow where
  nXOff : Int
  nYOff : Int
  nReqXSize : Int
  nReqYSize : Int
  deriving DecidableEq, Repr

/-- The locals `nXOff`, `nReqXSize`, `nYOff` and `nReqYSize` of `PDS4MaskBand::IReadBlock`
for the block `(nXBlock, nYBlock)`.  The block size and the raster size are those of the
base band; the `int` products, sums and differences wrap to 32 bits. -/
def IReadBlock_window (nBlockXSize nBlockYSize nRasterXSize nRasterYSize nXBlock nYBlock : Int) :
    ReadWindow :=
  let nXOff := toInt (nXBlock * nBlockXSize)
  let nReqXSize :=
    if toInt (nXOff + nBlockXSize) > nRasterXSize then toInt (nRasterXSize - nXOff)
    else nBlockXSize
  let nYOff := toInt (nYBlock * nBlockYSize)
  let nReqYSize :=
    if toInt (nYOff + nBlockYSize) > nRasterYSize then toInt (nRasterYSize - nYOff)
    else nBlockYSize
  { nXOff := nXOff, nYOff := nYOff, nReqXSize := nReqXSize, nReqYSize := nReqYSize }

/-- The method `PDS4MaskBand::IReadBlock`: the error class and the block `pImage` afterwards.
`RasterIO` gives the buffer `m_pBuffer` after the read of the window from the base band, with
the sample of column `x` and line `y` of the window at index `y*nBlockXSize + x`; it gives
`none` when the buffer cannot be allocated or the read fails.  `T`, `eq` and `GDALCopyWord`
stand for the sample type that the chain of tests on `eSrcDT` selects. -/
def IReadBlock {D T : Type} (eq : T → T → Bool) (GDALCopyWord : D → T) (eSrcDT : GDALDataType)
    (nBlockXSize nBlockYSize nRasterXSize nRasterYSize : Int) (m_adfConstants : List D)
    ( RasterIO : ReadWindow → Option (Int → T)) (nXBlock nYBlock : Int) (pImage : Int → Nat) :
    CPLErr × (Int → Nat) :=
  let w := IReadBlock_window nBlockXSize nBlockYSize nRasterXSize nRasterYSize nXBlock nYBlock
  match RasterIO w with
  | none => (CPLErr.CE_Failure, pImage)
  | some m_pBuffer =>
    if eSrcDT = GDT_Byte ∨ eSrcDT = GDT_UInt16 ∨ eSrcDT = GDT_Int16 ∨ eSrcDT = GDT_UInt32 ∨
        eSrcDT = GDT_Int32 ∨ eSrcDT = GDT_Float32 ∨ eSrcDT = GDT_Float64 then
      (CPLErr.CE_None,
        FillMask eq GDALCopyWord m_pBuffer pImage w.nReqXSize w.nReqYSize nBlockXSize
          m_adfConstants)
    else (CPLErr.CE_None, pImage)

/-! ## `PDS4Dataset::WriteGeoreferencing`: the affine transform -/

/-- Modelled from the spec: `IsProjected` of the OGR library holds when the spatial reference
has a projected coordinate system. -/
def OGRSpatialReference.IsProjected {D : Type} (srs : OGRSpatialReference D) : Bool :=
  srs.PROJCS.isSome

/-- Modelled from the spec: `IsGeographic` of the OGR library holds when the spatial reference
has a geographic coordinate system and no projected one. -/
def OGRSpatialReference.IsGeographic {D : Type} (srs : OGRSpatialReference D) : Bool :=
  srs.GEOGCS.isSome && !srs.PROJCS.isSome

/-- What `WriteGeoreferencing` puts under `Planar` for the transform: the element
`Planar_Coordinate_Information`, the two `pixel_scale` elements that it writes into the
`Coordinate_Representation` besides the resolutions, and the element `Geo_Transformation`. -/
structure WrittenPlanar where
  Planar_Coordinate_Information : PlanarCoordinateInformation
  pixel_scale_x : Option UnitValue := none
  pixel_scale_y : Option UnitValue := none
  Geo_Transformation : GeoTransformation := {}

/-- The part of `WriteGeoreferencing` from `Planar_Coordinate_Information` to
`Geo_Transformation`.  `fmt` is the format `%.18g`, `dfLinearUnits` the value of
`oSRS.GetLinearUnits()`. -/
def WriteGeoreferencing_transform {D : Type} [LinearOrderedField D] (fmt : D → String)
    (M_PI : D) (oSRS : OGRSpatialReference D) (dfLinearUnits : D)
    (m_adfGeoTransform : Fin 6 → D) : WrittenPlanar :=
  let el (v : D) (u : String) : Option UnitValue := some { pszValue := fmt v, unit := some u }
  let dfDegToMeter := oSRS.GetSemiMajor * M_PI / 180.0
  let dfFalseEasting := oSRS.GetNormProjParm SRS_PP_FALSE_EASTING 0.0
  let dfFalseNorthing := oSRS.GetNormProjParm SRS_PP_FALSE_NORTHING 0.0
  let dfULX := -dfFalseEasting + m_adfGeoTransform 0 + 0.5 * m_adfGeoTransform 1
  let dfULY := -dfFalseNorthing + m_adfGeoTransform 3 + 0.5 * m_adfGeoTransform 5
  if oSRS.IsGeographic then
    { Planar_Coordinate_Information :=
        { planar_coordinate_encoding_method := some "Coordinate Pair"
          Coordinate_Representation := some
            { pixel_resolution_x := el (m_adfGeoTransform 1 * dfDegToMeter) "m/pixel"
              pixel_resolution_y := el (-m_adfGeoTransform 5 * dfDegToMeter) "m/pixel" } }
      pixel_scale_x := el (1.0 / m_adfGeoTransform 1) "pixel/deg"
      pixel_scale_y := el (1.0 / (-m_adfGeoTransform 5)) "pixel/deg"
      Geo_Transformation :=
        { upperleft_corner_x := el (dfULX * dfDegToMeter) "m"
          upperleft_corner_y := el (dfULY * dfDegToMeter) "m" } }
  else if oSRS.IsProjected then
    { Planar_Coordinate_Information :=
        { planar_coordinate_encoding_method := some "Coordinate Pair"
          Coordinate_Representation := some
            { pixel_resolution_x := el (m_adfGeoTransform 1 * dfLinearUnits) "m/pixel"
              pixel_resolution_y := el (-m_adfGeoTransform 5 * dfLinearUnits) "m/pixel" } }
      pixel_scale_x := el (dfDegToMeter / (m_adfGeoTransform 1 * dfLinearUnits)) "pixel/deg"
      pixel_scale_y := el (dfDegToMeter / (-m_adfGeoTransform 5 * dfLinearUnits)) "pixel/deg"
      Geo_Transformation :=
        { upperleft_corner_x := el (dfULX * dfLinearUnits) "m"
          upperleft_corner_y := el (dfULY * dfLinearUnits) "m" } }
  else
    { Planar_Coordinate_Information :=
        { planar_coordinate_encoding_method := some "Coordinate Pair"
          Coordinate_Representation := some {} } }

/-! ## `PDS4Dataset::Create` and `WriteHeader`: the element type, scale and offset -/

/-- Modelled from the spec: the enumeration `GDALDataType` of the GDAL core in full.  Besides
the nine element types of this development (`handled`) it has the unknown type and the two
complex integer types. -/
inductive AnyGDALDataType
  | GDT_Unknown
  | handled (eType : GDALDataType)
  | GDT_CInt16
  | GDT_CInt32
  deriving DecidableEq, Repr

/-- The first test of `Create`: whether the element type is refused (`return nullptr`). -/
def Create_refusesType (eType : AnyGDALDataType) : Bool :=
  !(decide (eType = .handled GDT_Byte) || decide (eType = .handled GDT_Int16) ||
    decide (eType = .handled GDT_UInt16) || decide (eType = .handled GDT_Int32) ||
    decide (eType = .handled GDT_UInt32) || decide (eType = .handled GDT_Float32) ||
    decide (eType = .handled GDT_Float64) || decide (eType = .handled GDT_CFloat32) ||
    decide (eType = .handled GDT_CFloat64))

/-- The function `PDS4Dataset::Create` on any element type of the GDAL core: the first test,
then the function `Create` above on the types that it lets through. -/
def CreateAny (env : CreateEnv) (pszFilename : String) (nXSize nYSize nBands : Int)
    (eType : AnyGDALDataType) (papszOptions : List (String × String)) : Option CreatedDataset :=
  if Create_refusesType eType then none
  else
    match eType with
    | .handled t => Create env pszFilename nXSize nYSize nBands t papszOptions
    | _ => none

/-- The chain of `WriteHeader` that chooses the text of `data_type` from the element type of
band 1, with its last alternative. -/
def WriteHeader_pszDataType (eDT : AnyGDALDataType) : String :=
  if eDT = .handled GDT_Byte then "UnsignedByte"
  else if eDT = .handled GDT_UInt16 then "UnsignedLSB2"
  else if eDT = .handled GDT_Int16 then "SignedLSB2"
  else if eDT = .handled GDT_UInt32 then "UnsignedLSB4"
  else if eDT = .handled GDT_Int32 then "SignedLSB4"
  else if eDT = .handled GDT_Float32 then "IEEE754LSBSingle"
  else if eDT = .handled GDT_Float64 then "IEEE754LSBDouble"
  else if eDT = .handled GDT_CFloat32 then "ComplexLSB8"
  else if eDT = .handled GDT_CFloat64 then "ComplexLSB16"
  else "should not happen"

/-- The members `m_bHasOffset`, `m_bHasScale`, `m_dfOffset` and `m_dfScale` of a band of the
driver. -/
structure BandScaling (D : Type) where
  m_bHasOffset : Bool
  m_bHasScale : Bool
  m_dfOffset : D
  m_dfScale : D

/-- The values the band constructors give the four members. -/
def BandScaling.init (D : Type) [LinearOrderedField D] : BandScaling D :=
  { m_bHasOffset := false, m_bHasScale := false, m_dfOffset := 0.0, m_dfScale := 1.0 }

/-- The method `SetOffset` of a band. -/
def BandScaling.SetOffset {D : Type} (b : BandScaling D) (dfNewOffset : D) : BandScaling D :=
  { b with m_dfOffset := dfNewOffset, m_bHasOffset := true }

/-- The method `SetScale` of a band. -/
def BandScaling.SetScale {D : Type} (b : BandScaling D) (dfNewScale : D) : BandScaling D :=
  { b with m_dfScale := dfNewScale, m_bHasScale := true }

/-- The method `GetOffset` of a band: the value and what `pbSuccess` receives. -/
def BandScaling.GetOffset {D : Type} (b : BandScaling D) : D × Bool :=
  (b.m_dfOffset, b.m_bHasOffset)

/-- The method `GetScale` of a band: the value and what `pbSuccess` receives. -/
def BandScaling.GetScale {D : Type} (b : BandScaling D) : D × Bool :=
  (b.m_dfScale, b.m_bHasScale)

/-- The array element of `WriteHeader_array` together with the elements `scaling_factor`
and `value_offset` that `WriteHeader` writes into `Element_Array` from band 1.  `fmt` is the
format `%.18g`. -/
def WriteHeader_array_scaled {D : Type} [LinearOrderedField D] (fmt : D → String)
    (band1 : BandScaling D) (m_papszCreationOptions : List (String × String))
    (m_osInterleave : String) (nRasterXSize nRasterYSize nBands : Int) (eDT : GDALDataType)
    (pszLocalIdentifier : String) (nOffset : Int) : ArrayNode :=
  let (dfScale, bHasScale) := band1.GetScale
  let (dfOffset, bHasOffset) := band1.GetOffset
  { WriteHeader_array m_papszCreationOptions m_osInterleave nRasterXSize nRasterYSize nBands
      eDT pszLocalIdentifier nOffset with
    scaling_factor := if bHasScale = true ∧ dfScale ≠ 1.0 then some (fmt dfScale) else none
    value_offset := if bHasOffset = true ∧ dfOffset ≠ 1.0 then some (fmt dfOffset) else none }

/-! ## Definitions used to state the properties of the later sections -/

/-- The sequence numbers of the `Axis_Array` entries at which the loop stores an axis (the
entries that change `nAxisFound`), in document order, for the loop started in state `st`. -/
def contributing (nDIM : Int) : AxisState → List AxisArray → List Int
  | _, [] => []
  | st, ax :: rest =>
    if (parseAxis nDIM st ax).nAxisFound ≠ st.nAxisFound then
      atoi (ax.sequence_number.getD 0) :: contributing nDIM (parseAxis nDIM st ax) rest
    else contributing nDIM (parseAxis nDIM st ax) rest

/-- The number of positions of a resolved array that hold the axis character `c`. -/
def ArrayLayout.roleCount {D : Type} (r : ArrayLayout D) (c : Char) : Nat :=
  ((List.range r.nDIM.toNat).filter (fun p => decide (r.szOrder p = c))).length

/-- A three-dimensional array that declares two Line axes and a Sample axis. -/
def twoLineArray : ArrayNode :=
  { pszValue := "Array_3D_Image"
    axis_index_order := some "Last Index Fastest"
    data_type := some "UnsignedByte"
    Axis_Array :=
      [ ⟨some "Line", some 3, some 1⟩, ⟨some "Line", some 4, some 2⟩,
        ⟨some "Sample", some 5, some 3⟩ ] }

/-- The array `sampleArray` with its type tag in lower case. -/
def lowercaseTagArray : ArrayNode :=
  { sampleArray with data_type := some "unsignedlsb2" }

/-- Planar coordinate information whose `Coordinate_Representation` has no resolution. -/
def barePCI : PlanarCoordinateInformation :=
  { planar_coordinate_encoding_method := some "Coordinate Pair"
    Coordinate_Representation := some {} }

/-- A number parser for the round-trip examples: it knows the texts `0.5`, `1`, `2` and
`9.5`. -/
def roundAtof (s : String) : ℚ :=
  if s = "0.5" then 1 / 2 else if s = "1" then 1 else if s = "2" then 2
  else if s = "9.5" then 19 / 2 else 0

/-- A formatter for the round-trip examples, the inverse of `roundAtof` on the values 0,
1/2, 1, 2 and 19/2. -/
def roundFmt (x : ℚ) : String :=
  if x = 1 / 2 then "0.5" else if x = 1 then "1" else if x = 2 then "2"
  else if x = 19 / 2 then "9.5" else "0"

/-- The host of `sampleEnv` with doubles as rational numbers, parsed by `roundAtof`. -/
def roundEnv : Env ℚ :=
  { CPLAtof := roundAtof, PDS4_FORCE_MASK := false, GDAL_MAX_BAND_COUNT := 65536,
    CPL_LSB := true, VSIFOpenExL := fun _ => true }

/-- A projected spatial reference without false easting and northing. -/
def projectedSRS : OGRSpatialReference ℚ :=
  (({} : OGRSpatialReference ℚ).SetSinusoidal 0 0 0).SetGeogCS "GCS_Mars" "D_Mars" "Mars"
    3396190 0 "Reference_Meridian" 0

theorem toU64_of_range {v : Int} (h0 : 0 ≤ v) (h1 : v < 18446744073709551616) :
    toU64 v = v := by
  unfold toU64
  exact Int.emod_eq_of_lt h0 h1

theorem toInt_of_range {v : Int} (h0 : -2147483648 ≤ v) (h1 : v ≤ 2147483647) :
    toInt v = v := by
  unfold toInt
  rw [Int.emod_eq_of_lt (by omega) (by omega)]
  omega

theorem toInt_range (v : Int) : -2147483648 ≤ toInt v ∧ toInt v ≤ 2147483647 := by
  unfold toInt
  have h1 := Int.emod_nonneg (v + 2147483648) (by norm_num : (4294967296 : Int) ≠ 0)
  have h2 := Int.emod_lt_of_pos (v + 2147483648) (by norm_num : (0 : Int) < 4294967296)
  omega

/-- The overflow guard is exact: for a count `n` in `[1, INT_MAX]` and a nonnegative spacing,
`nSpacing > INT_MAX / n` holds exactly when the product exceeds `INT_MAX`. -/
theorem guard_iff {s n : Int} (hn : 1 ≤ n) (hn2 : n ≤ 2147483647) :
    s > toU64 (Int.tdiv INT_MAX n) ↔ s * n > 2147483647 := by
  have hpos : (0 : Int) < n := by omega
  have hdiv : Int.tdiv INT_MAX n = INT_MAX / n := by
    exact Int.tdiv_eq_ediv (by decide) (by omega)
  have hq0 : 0 ≤ INT_MAX / n := Int.ediv_nonneg (by simp [INT_MAX]) (by omega)
  have hq1 : INT_MAX / n ≤ INT_MAX := Int.ediv_le_self _ (by simp [INT_MAX])
  rw [hdiv, toU64_of_range hq0 (by simp [INT_MAX] at hq1 ⊢; omega)]
  constructor
  · intro h
    have h1 : INT_MAX / n + 1 ≤ s := by omega
    have h2 : INT_MAX < (INT_MAX / n + 1) * n := by
      have := Int.lt_ediv_add_one_mul_self INT_MAX hpos
      linarith
    have h3 : (INT_MAX / n + 1) * n ≤ s * n := Int.mul_le_mul_of_nonneg_right h1 (by omega)
    simp only [INT_MAX] at h2 h3 ⊢
    omega
  · intro h
    by_contra hle
    have hle2 : s ≤ INT_MAX / n := by omega
    have h3 : s * n ≤ INT_MAX / n * n := Int.mul_le_mul_of_nonneg_right hle2 (by omega)
    have h4 : INT_MAX / n * n ≤ INT_MAX := Int.ediv_mul_le INT_MAX (by omega)
    simp only [INT_MAX] at h3 h4
    omega

/-! ## The stride loop -/

theorem innerCount_unfold (nDIM : Int) (a : Nat → Int) (i : Nat) :
    innerCount nDIM a i = nCountPreviousDim nDIM a i * innerCount nDIM a (i + 1) := by
  unfold innerCount nCountPreviousDim
  by_cases h : (i : Int) + 1 < nDIM
  · have hlt : i + 1 < nDIM.toNat := by omega
    rw [if_pos h, Finset.prod_eq_prod_Ico_succ_bot hlt]
  · have hge : nDIM.toNat ≤ i + 1 := by omega
    rw [if_neg h, Finset.Ico_eq_empty_of_le hge,
      Finset.Ico_eq_empty_of_le (by omega : nDIM.toNat ≤ i + 1 + 1)]
    simp

theorem innerCount_pos (nDIM : Int) (a : Nat → Int)
    (ha : ∀ q : Nat, (q : Int) < nDIM → 1 ≤ a q) (i : Nat) : 1 ≤ innerCount nDIM a i := by
  unfold innerCount
  have : 0 < ∏ q ∈ Finset.Ico (i + 1) nDIM.toNat, a q := by
    apply Finset.prod_pos
    intro q hq
    have hq2 := (Finset.mem_Ico.mp hq).2
    have := ha q (by omega)
    omega
  omega

theorem nCountPreviousDim_range (nDIM : Int) (a : Nat → Int)
    (ha : ∀ q : Nat, (q : Int) < nDIM → 1 ≤ a q ∧ a q ≤ 2147483647) (i : Nat) :
    1 ≤ nCountPreviousDim nDIM a i ∧ nCountPreviousDim nDIM a i ≤ 2147483647 := by
  unfold nCountPreviousDim
  split
  · rename_i h
    exact ha (i + 1) (by push_cast; omega)
  · omega

theorem strideOf_congr (s : Spacing) (c d : Char) (h : axisSlot c = axisSlot d) :
    s.strideOf c = s.strideOf d := by
  unfold axisSlot at h
  unfold Spacing.strideOf
  by_cases h1 : c = 'S' <;> by_cases h2 : d = 'S' <;> by_cases h3 : c = 'L' <;>
    by_cases h4 : d = 'L' <;> simp_all

/-- One iteration of the stride loop, when it does not report overflow, multiplies the spacing
by the inner count exactly and stores the product in the slot of the axis at position `i`. -/
theorem spacingStep_spec (nDIM : Int) (szOrder : Nat → Char) (a : Nat → Int) (i : Nat)
    (s s1 : Spacing)
    (hc : 1 ≤ nCountPreviousDim nDIM a i ∧ nCountPreviousDim nDIM a i ≤ 2147483647)
    (hs1 : 1 ≤ s.nSpacing)
    (hs2 : s.nSpacing ≤ 2147483647 ∨ szOrder i = 'S' ∨ szOrder i = 'L')
    (h : spacingStep nDIM szOrder a i s = some s1) :
    s1.nSpacing = s.nSpacing * nCountPreviousDim nDIM a i ∧
    s1.strideOf (szOrder i) = s.nSpacing * nCountPreviousDim nDIM a i ∧
    (∀ ch, axisSlot ch ≠ axisSlot (szOrder i) → s1.strideOf ch = s.strideOf ch) ∧
    (szOrder i = 'S' ∨ szOrder i = 'L' →
      s.nSpacing * nCountPreviousDim nDIM a i ≤ 2147483647) := by
  obtain ⟨hc1, hc2⟩ := hc
  have hcu : toU64 (nCountPreviousDim nDIM a i) = nCountPreviousDim nDIM a i :=
    toU64_of_range (by omega) (by omega)
  have hprod1 : 1 ≤ s.nSpacing * nCountPreviousDim nDIM a i := by nlinarith
  unfold spacingStep at h
  simp only [hcu] at h
  by_cases hS : szOrder i = 'S'
  · rw [if_pos hS] at h
    by_cases hg : s.nSpacing > toU64 (Int.tdiv INT_MAX (nCountPreviousDim nDIM a i))
    · rw [if_pos hg] at h
      exact absurd h (by simp)
    · rw [if_neg hg] at h
      have hle : s.nSpacing * nCountPreviousDim nDIM a i ≤ 2147483647 := by
        have := (guard_iff (s := s.nSpacing) hc1 hc2).not.mp hg
        omega
      have e1 := toU64_of_range (v := s.nSpacing * nCountPreviousDim nDIM a i)
        (by omega) (by omega)
      have e2 := toInt_of_range (v := s.nSpacing * nCountPreviousDim nDIM a i)
        (by omega) hle
      rw [e1, e2, e1] at h
      have hs := (Option.some.inj h).symm
      subst hs
      refine ⟨rfl, ?_, ?_, fun _ => hle⟩
      · simp [Spacing.strideOf, hS]
      · intro ch hch
        have : ch ≠ 'S' := by
          intro hh
          apply hch
          rw [hh, hS]
        simp [Spacing.strideOf, this]
  · rw [if_neg hS] at h
    by_cases hL : szOrder i = 'L'
    · rw [if_pos hL] at h
      by_cases hg : s.nSpacing > toU64 (Int.tdiv INT_MAX (nCountPreviousDim nDIM a i))
      · rw [if_pos hg] at h
        exact absurd h (by simp)
      · rw [if_neg hg] at h
        have hle : s.nSpacing * nCountPreviousDim nDIM a i ≤ 2147483647 := by
          have := (guard_iff (s := s.nSpacing) hc1 hc2).not.mp hg
          omega
        have e1 := toU64_of_range (v := s.nSpacing * nCountPreviousDim nDIM a i)
          (by omega) (by omega)
        have e2 := toInt_of_range (v := s.nSpacing * nCountPreviousDim nDIM a i)
          (by omega) hle
        rw [e1, e2, e1] at h
        have hs := (Option.some.inj h).symm
        subst hs
        refine ⟨rfl, ?_, ?_, fun _ => hle⟩
        · simp [Spacing.strideOf, hL]
        · intro ch hch
          have hne : ch ≠ 'L' := by
            intro hh
            apply hch
            rw [hh, hL]
          by_cases hcS : ch = 'S'
          · simp [Spacing.strideOf, hcS]
          · simp [Spacing.strideOf, hcS, hne]
    · rw [if_neg hL] at h
      have hsle : s.nSpacing ≤ 2147483647 := by
        rcases hs2 with h2 | h2 | h2
        · exact h2
        · exact absurd h2 hS
        · exact absurd h2 hL
      have hlt : s.nSpacing * nCountPreviousDim nDIM a i < 18446744073709551616 := by
        nlinarith
      have e1 := toU64_of_range (v := s.nSpacing * nCountPreviousDim nDIM a i)
        (by omega) hlt
      rw [e1] at h
      have hs := (Option.some.inj h).symm
      subst hs
      refine ⟨rfl, ?_, ?_, ?_⟩
      · simp [Spacing.strideOf, hS, hL]
      · intro ch hch
        have hslot : axisSlot (szOrder i) = 2 := by simp [axisSlot, hS, hL]
        rw [hslot] at hch
        have hcS : ch = 'S' ∨ ch = 'L' := by
          by_contra hcon
          push_neg at hcon
          apply hch
          simp [axisSlot, hcon.1, hcon.2]
        rcases hcS with hcS | hcS
        · simp [Spacing.strideOf, hcS]
        · simp [Spacing.strideOf, hcS]
      · intro hh
        rcases hh with hh | hh
        · exact absurd hh hS
        · exact absurd hh hL
theorem axisSlot_cases (c : Char) :
    (c = 'S' ∧ axisSlot c = 0) ∨ (c = 'L' ∧ axisSlot c = 1) ∨
      (c ≠ 'S' ∧ c ≠ 'L' ∧ axisSlot c = 2) := by
  unfold axisSlot
  by_cases h1 : c = 'S'
  · left; simp [h1]
  · by_cases h2 : c = 'L'
    · right; left; simp [h2]
    · right; right; simp [h1, h2]

/-- The stride loop computes, for every position whose slot is not written again at a lower
position, the element size times the product of the inner counts; slots of axes that do not
occur keep their value. -/
theorem spacingLoop_spec (nDIM : Int) (szOrder : Nat → Char) (a : Nat → Int) (es : Int)
    (ha : ∀ q : Nat, (q : Int) < nDIM → 1 ≤ a q ∧ a q ≤ 2147483647)
    (hb : ∀ p q : Nat, (p : Int) < nDIM → (q : Int) < nDIM →
      axisSlot (szOrder p) = 2 → axisSlot (szOrder q) = 2 → p = q)
    (hes : 1 ≤ es) :
    ∀ (k : Nat) (s s1 : Spacing), (k : Int) ≤ nDIM →
      s.nSpacing = es * innerCount nDIM a k →
      (s.nSpacing ≤ 2147483647 ∨ ((k : Int) < nDIM ∧ axisSlot (szOrder k) = 2)) →
      spacingLoop nDIM szOrder a k s = some s1 →
      (∀ p, p < k → (∀ q, q < p → axisSlot (szOrder q) ≠ axisSlot (szOrder p)) →
        s1.strideOf (szOrder p) = es * innerCount nDIM a p) ∧
      (∀ ch, (∀ q, q < k → axisSlot (szOrder q) ≠ axisSlot ch) →
        s1.strideOf ch = s.strideOf ch) ∧
      (∀ p, p < k → szOrder p = 'S' ∨ szOrder p = 'L' →
        es * innerCount nDIM a p ≤ 2147483647) := by
  intro k
  induction k with
  | zero =>
    intro s s1 _ _ _ h
    simp only [spacingLoop] at h
    have := Option.some.inj h
    subst this
    exact ⟨fun p hp => absurd hp (by omega), fun _ _ => rfl, fun p hp => absurd hp (by omega)⟩
  | succ i ih =>
    intro s s1 hk hsp hinv h
    simp only [spacingLoop] at h
    cases hstep : spacingStep nDIM szOrder a i s with
    | none => rw [hstep] at h; exact absurd h (by simp)
    | some s2 =>
      rw [hstep] at h
      have hpos := innerCount_pos nDIM a (fun q hq => (ha q hq).1) (i + 1)
      have hs1 : 1 ≤ s.nSpacing := by rw [hsp]; nlinarith
      have hs2 : s.nSpacing ≤ 2147483647 ∨ szOrder i = 'S' ∨ szOrder i = 'L' := by
        rcases hinv with h1 | ⟨h1, h2⟩
        · exact Or.inl h1
        · right
          rcases axisSlot_cases (szOrder i) with ⟨hc, _⟩ | ⟨hc, _⟩ | ⟨_, _, hc⟩
          · exact Or.inl hc
          · exact Or.inr hc
          · have := hb i (i + 1) (by push_cast at hk h1 ⊢; omega) (by push_cast; exact h1) hc h2
            omega
      obtain ⟨e1, e2, e3, e4⟩ := spacingStep_spec nDIM szOrder a i s s2
        (nCountPreviousDim_range nDIM a ha i) hs1 hs2 hstep
      have hst : s2.nSpacing = es * innerCount nDIM a i := by
        rw [e1, hsp, innerCount_unfold nDIM a i]; ring
      have hinv2 : s2.nSpacing ≤ 2147483647 ∨ ((i : Int) < nDIM ∧ axisSlot (szOrder i) = 2) := by
        rcases axisSlot_cases (szOrder i) with ⟨hc, _⟩ | ⟨hc, _⟩ | ⟨_, _, hc⟩
        · left; rw [e1]; exact e4 (Or.inl hc)
        · left; rw [e1]; exact e4 (Or.inr hc)
        · right; exact ⟨by push_cast at hk; omega, hc⟩
      obtain ⟨r1, r2, r3⟩ := ih s2 s1 (by push_cast at hk; omega) hst hinv2 h
      refine ⟨?_, ?_, ?_⟩
      · intro p hp hmin
        by_cases hpi : p = i
        · subst hpi
          rw [r2 (szOrder p) hmin, e2, hsp, innerCount_unfold nDIM a p]; ring
        · exact r1 p (by omega) hmin
      · intro ch hch
        rw [r2 ch (fun q hq => hch q (by omega))]
        exact e3 ch (fun heq => hch i (by omega) heq.symm)
      · intro p hp hc
        by_cases hpi : p = i
        · subst hpi
          rw [← hst, e1]
          exact e4 hc
        · exact r3 p (by omega) hc

/-! ## The `Axis_Array` loop -/

theorem AxisInv_init (nDIM : Int) : AxisInv nDIM AxisState.init := by
  refine ⟨⟨∅, by simp, by simp [AxisState.init], by simp [AxisState.init]⟩, ?_, ?_, ?_, ?_⟩
  · intro p hp
    exact absurd rfl hp
  · left
    refine ⟨rfl, fun p => ?_⟩
    simp only [AxisState.init]
    decide
  · left
    refine ⟨rfl, fun p => ?_⟩
    simp only [AxisState.init]
    decide
  · left
    refine ⟨rfl, fun p => ?_⟩
    simp only [AxisState.init]
    decide

/-- Storing an axis at a free position below `nDIM` keeps the invariant. -/
theorem AxisInv_store (nDIM : Int) (st st1 : AxisState) (i : Nat) (X : Char) (e : Int)
    (hinv : AxisInv nDIM st) (hfree : st.szOrder i = NUL) (hi : (i : Int) < nDIM)
    (he : 1 ≤ e ∧ e ≤ 2147483647)
    (hX : X = 'B' ∨ X = 'L' ∨ X = 'S') (hB : X = 'B' → nDIM = 3)
    (h1 : st1.szOrder = Function.update st.szOrder i X)
    (h2 : st1.anElements = Function.update st.anElements i e)
    (h3 : st1.nAxisFound = st.nAxisFound + 1)
    (hS : st1.nSamples = if X = 'S' then e else st.nSamples)
    (hL : st1.nLines = if X = 'L' then e else st.nLines)
    (hBd : st1.l_nBands = if X = 'B' then e else st.l_nBands) :
    AxisInv nDIM st1 := by
  obtain ⟨⟨F, hF1, hF2, hF3⟩, hpos, hs, hl, hb⟩ := hinv
  have hXN : X ≠ NUL := by
    rcases hX with h | h | h <;> subst h <;> decide
  have hiF : i ∉ F := fun hmem => (hF3 i).mp hmem hfree
  have key : ∀ (Y : Char) (cnt cnt1 : Int) (init : Int), Y ≠ NUL →
      (cnt1 = if X = Y then e else cnt) →
      ((cnt = init ∧ ∀ p, st.szOrder p ≠ Y) ∨ ∃ p, st.szOrder p = Y ∧ st.anElements p = cnt) →
      ((cnt1 = init ∧ ∀ p, st1.szOrder p ≠ Y) ∨
        ∃ p, st1.szOrder p = Y ∧ st1.anElements p = cnt1) := by
    intro Y cnt cnt1 init hYN hc hprev
    by_cases hXY : X = Y
    · right
      refine ⟨i, ?_, ?_⟩
      · rw [h1]; simp [hXY]
      · rw [h2, hc]; simp [hXY]
    · rw [if_neg hXY] at hc
      rcases hprev with ⟨hc0, hno⟩ | ⟨p, hp1, hp2⟩
      · left
        refine ⟨by rw [hc, hc0], fun p => ?_⟩
        rw [h1]
        by_cases hpi : p = i
        · subst hpi; simp [hXY]
        · rw [Function.update_noteq hpi]; exact hno p
      · right
        have hpi : p ≠ i := by
          intro hh
          rw [hh, hfree] at hp1
          exact hYN hp1.symm
        refine ⟨p, ?_, ?_⟩
        · rw [h1, Function.update_noteq hpi]; exact hp1
        · rw [h2, Function.update_noteq hpi, hc]; exact hp2
  refine ⟨⟨insert i F, ?_, ?_, ?_⟩, ?_, ?_, ?_, ?_⟩
  · intro p hp
    rcases Finset.mem_insert.mp hp with h | h
    · rw [h]; exact hi
    · exact hF1 p h
  · rw [Finset.card_insert_of_not_mem hiF, h3]
    push_cast
    omega
  · intro p
    rw [h1]
    by_cases hpi : p = i
    · subst hpi; simp [hXN]
    · rw [Function.update_noteq hpi, Finset.mem_insert]
      constructor
      · rintro (h | h)
        · exact absurd h hpi
        · exact (hF3 p).mp h
      · intro h
        exact Or.inr ((hF3 p).mpr h)
  · intro p
    rw [h1, h2]
    by_cases hpi : p = i
    · subst hpi
      simp only [Function.update_same]
      intro _
      exact ⟨hX, he.1, he.2, hB⟩
    · rw [Function.update_noteq hpi, Function.update_noteq hpi]
      exact hpos p
  · exact key 'S' st.nSamples st1.nSamples 0 (by decide) hS hs
  · exact key 'L' st.nLines st1.nLines 0 (by decide) hL hl
  · exact key 'B' st.l_nBands st1.l_nBands 1 (by decide) hBd hb

theorem parseAxis_inv (nDIM : Int) (st : AxisState) (ax : AxisArray)
    (hinv : AxisInv nDIM st) : AxisInv nDIM (parseAxis nDIM st ax) := by
  unfold parseAxis
  split
  · rename_i pszAxisName pszElements pszSequenceNumber _ _ _
    simp only
    split
    · exact hinv
    · rename_i hseq
      split
      · exact hinv
      · rename_i hel
        have he : 1 ≤ atoi pszElements ∧ atoi pszElements ≤ 2147483647 :=
          ⟨by omega, (toInt_range pszElements).2⟩
        have hi : (((atoi pszSequenceNumber - 1).toNat : Nat) : Int) < nDIM := by omega
        split
        · exact hinv
        · rename_i hfree
          have hfree2 : st.szOrder (atoi pszSequenceNumber - 1).toNat = NUL := by
            by_contra hh
            exact hfree hh
          split
          · rename_i hband
            have h3 : nDIM = 3 := by
              simp only [Bool.and_eq_true, decide_eq_true_eq] at hband
              exact hband.2
            exact AxisInv_store nDIM st _ _ 'B' _ hinv hfree2 hi he (Or.inl rfl)
              (fun _ => h3) rfl rfl rfl (by simp) (by simp) (by simp)
          · split
            · exact AxisInv_store nDIM st _ _ 'L' _ hinv hfree2 hi he (Or.inr (Or.inl rfl))
                (fun h => absurd h (by decide)) rfl rfl rfl (by simp) (by simp) (by simp)
            · split
              · exact AxisInv_store nDIM st _ _ 'S' _ hinv hfree2 hi he (Or.inr (Or.inr rfl))
                  (fun h => absurd h (by decide)) rfl rfl rfl (by simp) (by simp) (by simp)
              · exact hinv
  · exact hinv

theorem foldl_parseAxis_inv (nDIM : Int) (axes : List AxisArray) :
    ∀ st, AxisInv nDIM st → AxisInv nDIM (axes.foldl (parseAxis nDIM) st) := by
  induction axes with
  | nil => intro st h; exact h
  | cons ax rest ih =>
    intro st h
    exact ih _ (parseAxis_inv nDIM st ax h)

theorem parseAxes_inv (nDIM : Int) (axes : List AxisArray) :
    AxisInv nDIM (parseAxes nDIM axes) :=
  foldl_parseAxis_inv nDIM axes _ (AxisInv_init nDIM)

/-- When the number of stored axes equals `nDIM`, every position below `nDIM` is filled. -/
theorem AxisInv_full (nDIM : Int) (st : AxisState) (hinv : AxisInv nDIM st)
    (hfound : st.nAxisFound = nDIM) :
    ∀ p : Nat, (p : Int) < nDIM → st.szOrder p ≠ NUL := by
  obtain ⟨⟨F, hF1, hF2, hF3⟩, _⟩ := hinv
  have hsub : F ⊆ Finset.range nDIM.toNat := by
    intro p hp
    have := hF1 p hp
    exact Finset.mem_range.mpr (by omega)
  have hcard : (Finset.range nDIM.toNat).card ≤ F.card := by
    rw [Finset.card_range]
    omega
  have heq := Finset.eq_of_subset_of_card_le hsub hcard
  intro p hp
  apply (hF3 p).mp
  rw [heq]
  exact Finset.mem_range.mpr (by omega)

/-! ## Resolved arrays -/

/-- What holds of the locals when the body of the array loop reaches `Add subdatasets`. -/
theorem resolveArray_found {D : Type} (env : Env D) (nDIM : Int) (a : ArrayNode)
    (r : ArrayLayout D) (h : resolveArray env nDIM a = .found r) :
    EQUAL (a.axis_index_order.getD "") "Last Index Fastest" = true ∧
    (∃ bs, dataTypeOf (a.data_type.getD "") = some (r.eDT, bs) ∧ r.bSignedByte = bs) ∧
    (parseAxes nDIM a.Axis_Array).nAxisFound = nDIM ∧
    1 ≤ r.nSamples ∧ 1 ≤ r.nLines ∧ 1 ≤ r.l_nBands ∧ r.l_nBands ≤ env.GDAL_MAX_BAND_COUNT ∧
    (∃ sp, computeSpacing nDIM r.szOrder r.anElements r.eDT = some sp ∧
      r.nPixelOffset = sp.nPixelOffset ∧ r.nLineOffset = sp.nLineOffset ∧
      r.nBandOffset = sp.nBandOffset) ∧
    r.nDIM = nDIM ∧
    r.szOrder = (parseAxes nDIM a.Axis_Array).szOrder ∧
    r.anElements = (parseAxes nDIM a.Axis_Array).anElements ∧
    r.l_nBands = (parseAxes nDIM a.Axis_Array).l_nBands ∧
    r.nLines = (parseAxes nDIM a.Axis_Array).nLines ∧
    r.nSamples = (parseAxes nDIM a.Axis_Array).nSamples ∧
    r.nOffset = toU64 (a.offset.getD 0) ∧
    r.noData = noDataOf env a.Special_Constants ∧
    r.adfConstants = constantsOf env a.Special_Constants := by
  unfold resolveArray at h
  split at h
  · exact absurd h (by simp)
  · rename_i hord
    simp only at h
    split at h
    · exact absurd h (by simp)
    · rename_i eDT bSignedByte hdt
      split at h
      · exact absurd h (by simp)
      · rename_i hfound
        split at h
        · exact absurd h (by simp)
        · rename_i hdims
          split at h
          · exact absurd h (by simp)
          · rename_i sp hsp
            have hr := (ArrayOutcome.found.inj h).symm
            subst hr
            simp only [Bool.or_eq_true, Bool.not_eq_true', not_or, Bool.not_eq_false,
              GDALCheckDatasetDimensions, GDALCheckBandCount, Bool.and_eq_true,
              decide_eq_true_eq] at hdims
            simp only [Bool.not_eq_true', Bool.not_eq_false] at hord
            refine ⟨hord, ⟨bSignedByte, hdt, rfl⟩, not_not.mp hfound, hdims.1.1, hdims.1.2,
              hdims.2.1, hdims.2.2, ⟨sp, hsp, rfl, rfl, rfl⟩, rfl, rfl, rfl, rfl, rfl, rfl, rfl,
              rfl, rfl⟩

theorem GDALGetDataTypeSizeBytes_range (eDT : GDALDataType) :
    1 ≤ GDALGetDataTypeSizeBytes eDT ∧ GDALGetDataTypeSizeBytes eDT ≤ 16 := by
  cases eDT <;> simp [GDALGetDataTypeSizeBytes]

/-- The axes of a resolved array: every position below `nDIM` holds `B`, `L` or `S` with a
count in `[1, INT_MAX]`, a Sample and a Line axis are present and give `nSamples` and
`nLines`, and `l_nBands` is the count of a Band axis or 1 when there is none. -/
theorem found_axes {D : Type} (env : Env D) (nDIM : Int) (a : ArrayNode)
    (r : ArrayLayout D) (h : resolveArray env nDIM a = .found r) :
    0 ≤ r.nDIM ∧
    (∀ p : Nat, (p : Int) < r.nDIM →
      (r.szOrder p = 'B' ∨ r.szOrder p = 'L' ∨ r.szOrder p = 'S') ∧
      1 ≤ r.anElements p ∧ r.anElements p ≤ 2147483647 ∧ (r.szOrder p = 'B' → r.nDIM = 3)) ∧
    (∃ p : Nat, (p : Int) < r.nDIM ∧ r.szOrder p = 'S' ∧ r.anElements p = r.nSamples) ∧
    (∃ p : Nat, (p : Int) < r.nDIM ∧ r.szOrder p = 'L' ∧ r.anElements p = r.nLines) ∧
    ((r.l_nBands = 1 ∧ ∀ p, r.szOrder p ≠ 'B') ∨
      ∃ p : Nat, (p : Int) < r.nDIM ∧ r.szOrder p = 'B' ∧ r.anElements p = r.l_nBands) := by
  obtain ⟨_, _, hfound, hS1, hL1, _, _, _, hn, hsz, hel, hb, hl, hs, _⟩ :=
    resolveArray_found env nDIM a r h
  have hinv := parseAxes_inv nDIM a.Axis_Array
  have hfull := AxisInv_full nDIM _ hinv hfound
  obtain ⟨⟨F, hF1, hF2, hF3⟩, hpos, hsamp, hline, hband⟩ := hinv
  rw [← hsz, ← hel] at hpos
  rw [← hsz] at hfull hF3
  rw [← hsz, ← hel, ← hs] at hsamp
  rw [← hsz, ← hel, ← hl] at hline
  rw [← hsz, ← hel, ← hb] at hband
  have hbelow : ∀ p : Nat, r.szOrder p ≠ NUL → (p : Int) < r.nDIM := by
    intro p hp
    rw [hn]
    exact hF1 p ((hF3 p).mpr hp)
  have hnn : 0 ≤ r.nDIM := by
    rw [hn, ← hfound, ← hF2]
    exact Int.natCast_nonneg _
  refine ⟨hnn, ?_, ?_, ?_, ?_⟩
  · intro p hp
    have := hpos p (hfull p (by rw [← hn]; exact hp))
    rw [hn]
    exact this
  · rcases hsamp with ⟨h0, _⟩ | ⟨p, hp1, hp2⟩
    · omega
    · exact ⟨p, hbelow p (by rw [hp1]; decide), hp1, hp2⟩
  · rcases hline with ⟨h0, _⟩ | ⟨p, hp1, hp2⟩
    · omega
    · exact ⟨p, hbelow p (by rw [hp1]; decide), hp1, hp2⟩
  · rcases hband with h0 | ⟨p, hp1, hp2⟩
    · exact Or.inl h0
    · exact Or.inr ⟨p, hbelow p (by rw [hp1]; decide), hp1, hp2⟩

/-- A resolved array has at most one position whose stride goes to the band slot. -/
theorem found_one_band {D : Type} (env : Env D) (nDIM : Int) (a : ArrayNode)
    (r : ArrayLayout D) (h : resolveArray env nDIM a = .found r) :
    ∀ p q : Nat, (p : Int) < r.nDIM → (q : Int) < r.nDIM →
      axisSlot (r.szOrder p) = 2 → axisSlot (r.szOrder q) = 2 → p = q := by
  obtain ⟨_, hpos, ⟨pS, hpS, hS, _⟩, ⟨pL, hpL, hL, _⟩, _⟩ := found_axes env nDIM a r h
  have hband : ∀ p : Nat, (p : Int) < r.nDIM → axisSlot (r.szOrder p) = 2 →
      r.nDIM = 3 ∧ p ≠ pS ∧ p ≠ pL := by
    intro p hp hslot
    obtain ⟨hc, _, _, h3⟩ := hpos p hp
    rcases axisSlot_cases (r.szOrder p) with ⟨_, h0⟩ | ⟨_, h1⟩ | ⟨hnS, hnL, _⟩
    · omega
    · omega
    · rcases hc with hc | hc | hc
      · refine ⟨h3 hc, ?_, ?_⟩
        · intro hh; rw [hh] at hnS; exact hnS hS
        · intro hh; rw [hh] at hnL; exact hnL hL
      · exact absurd hc hnL
      · exact absurd hc hnS
  intro p q hp hq hsp hsq
  obtain ⟨h3, hp1, hp2⟩ := hband p hp hsp
  obtain ⟨_, hq1, hq2⟩ := hband q hq hsq
  have hSL : pS ≠ pL := by
    intro hh
    rw [hh, hL] at hS
    exact absurd hS (by decide)
  omega

/-- The strides of a resolved array: the slot of the axis at position `p` holds the element
size times the product of the inner counts, provided no lower position writes the same
slot. -/
theorem found_strides {D : Type} (env : Env D) (nDIM : Int) (a : ArrayNode)
    (r : ArrayLayout D) (h : resolveArray env nDIM a = .found r) :
    ∀ p : Nat, (p : Int) < r.nDIM →
      (∀ q, q < p → axisSlot (r.szOrder q) ≠ axisSlot (r.szOrder p)) →
      r.strideOf (r.szOrder p) =
        GDALGetDataTypeSizeBytes r.eDT * innerCount r.nDIM r.anElements p := by
  obtain ⟨hnn, hpos, _⟩ := found_axes env nDIM a r h
  have hone := found_one_band env nDIM a r h
  obtain ⟨_, _, _, _, _, _, _, ⟨sp, hsp, e1, e2, e3⟩, hn, _⟩ := resolveArray_found env nDIM a r h
  obtain ⟨hes1, hes2⟩ := GDALGetDataTypeSizeBytes_range r.eDT
  unfold computeSpacing at hsp
  rw [← hn] at hsp
  have hinit : toU64 (GDALGetDataTypeSizeBytes r.eDT) = GDALGetDataTypeSizeBytes r.eDT :=
    toU64_of_range (by omega) (by omega)
  have hIc : innerCount r.nDIM r.anElements r.nDIM.toNat = 1 := by
    unfold innerCount
    rw [Finset.Ico_eq_empty_of_le (by omega)]
    simp
  obtain ⟨r1, _, _⟩ := spacingLoop_spec r.nDIM r.szOrder r.anElements (GDALGetDataTypeSizeBytes r.eDT)
    (fun q hq => ⟨(hpos q hq).2.1, (hpos q hq).2.2.1⟩) hone hes1 r.nDIM.toNat _ sp
    (by omega) (by simp only [hinit, hIc]; ring) (Or.inl (by simp only [hinit]; omega)) hsp
  intro p hp hmin
  have := r1 p (by omega) hmin
  rw [← this]
  unfold ArrayLayout.strideOf Spacing.strideOf
  rw [e1, e2, e3]

/-- With pairwise distinct axis characters, no lower position writes the slot of position
`p`. -/
theorem distinct_slots {D : Type} (env : Env D) (nDIM : Int) (a : ArrayNode)
    (r : ArrayLayout D) (h : resolveArray env nDIM a = .found r) (hd : r.distinctRoles) :
    ∀ p : Nat, (p : Int) < r.nDIM →
      ∀ q, q < p → axisSlot (r.szOrder q) ≠ axisSlot (r.szOrder p) := by
  obtain ⟨_, hpos, _⟩ := found_axes env nDIM a r h
  intro p hp q hq heq
  have hcq := (hpos q (by omega)).1
  have hcp := (hpos p hp).1
  have : r.szOrder q = r.szOrder p := by
    rcases hcq with h1 | h1 | h1 <;> rcases hcp with h2 | h2 | h2 <;>
      rw [h1, h2] at heq ⊢ <;> revert heq <;> decide
  have := hd q p (by omega) hp this
  omega

/-- Claim C1.  For an array that `Open` resolves and whose axis roles are pairwise distinct,
every sequence position holds a Sample, Line or Band axis, and the offset of that axis (the
pixel offset for Sample, the line offset for Line, the band offset for Band) equals the
element size times the product of the element counts at the positions inside it; the
innermost axis has the element size as its offset; when Sample is innermost and Line is
next, pixel offset times sample count equals the line offset.  The bands of a top-to-bottom
array are created with exactly these pixel and line offsets. -/
theorem stride_is_size_times_inner_counts {D : Type} (env : Env D) (nDIM : Int)
    (a : ArrayNode) (r : ArrayLayout D) (h : resolveArray env nDIM a = .found r)
    (hd : r.distinctRoles) :
    (∀ p : Nat, (p : Int) < r.nDIM →
      (r.szOrder p = 'S' ∨ r.szOrder p = 'L' ∨ r.szOrder p = 'B') ∧
      (r.szOrder p = 'S' → r.nPixelOffset =
        GDALGetDataTypeSizeBytes r.eDT * innerCount r.nDIM r.anElements p) ∧
      (r.szOrder p = 'L' → r.nLineOffset =
        GDALGetDataTypeSizeBytes r.eDT * innerCount r.nDIM r.anElements p) ∧
      (r.szOrder p = 'B' → r.nBandOffset =
        GDALGetDataTypeSizeBytes r.eDT * innerCount r.nDIM r.anElements p)) ∧
    (∀ p : Nat, (p : Int) + 1 = r.nDIM →
      (r.szOrder p = 'S' → r.nPixelOffset = GDALGetDataTypeSizeBytes r.eDT) ∧
      (r.szOrder p = 'L' → r.nLineOffset = GDALGetDataTypeSizeBytes r.eDT) ∧
      (r.szOrder p = 'B' → r.nBandOffset = GDALGetDataTypeSizeBytes r.eDT)) ∧
    (∀ p : Nat, (p : Int) + 2 = r.nDIM → r.szOrder (p + 1) = 'S' → r.szOrder p = 'L' →
      r.nPixelOffset * r.nSamples = r.nLineOffset) ∧
    (∀ i : Int, (makeBand env false r i).nPixelOffset = r.nPixelOffset ∧
      (makeBand env false r i).nLineOffset = r.nLineOffset) := by
  have hstr := found_strides env nDIM a r h
  have hmin := distinct_slots env nDIM a r h hd
  obtain ⟨_, hpos, ⟨pS, hpS, hS, hSn⟩, _, _⟩ := found_axes env nDIM a r h
  have main : ∀ p : Nat, (p : Int) < r.nDIM →
      (r.szOrder p = 'S' → r.nPixelOffset =
        GDALGetDataTypeSizeBytes r.eDT * innerCount r.nDIM r.anElements p) ∧
      (r.szOrder p = 'L' → r.nLineOffset =
        GDALGetDataTypeSizeBytes r.eDT * innerCount r.nDIM r.anElements p) ∧
      (r.szOrder p = 'B' → r.nBandOffset =
        GDALGetDataTypeSizeBytes r.eDT * innerCount r.nDIM r.anElements p) := by
    intro p hp
    have e := hstr p hp (hmin p hp)
    refine ⟨fun hc => ?_, fun hc => ?_, fun hc => ?_⟩
    · rw [← e, hc]; rfl
    · rw [← e, hc]; rfl
    · rw [← e, hc]; rfl
  have hlast : ∀ p : Nat, (p : Int) + 1 = r.nDIM → innerCount r.nDIM r.anElements p = 1 := by
    intro p hp
    unfold innerCount
    rw [Finset.Ico_eq_empty_of_le (by omega)]
    simp
  refine ⟨fun p hp => ⟨?_, main p hp⟩, ?_, ?_, ?_⟩
  · rcases (hpos p hp).1 with hc | hc | hc
    · exact Or.inr (Or.inr hc)
    · exact Or.inr (Or.inl hc)
    · exact Or.inl hc
  · intro p hp
    have := main p (by omega)
    rw [hlast p hp, mul_one] at this
    exact this
  · intro p hp hc1 hc2
    have e1 := (main (p + 1) (by push_cast; omega)).1 hc1
    have e2 := (main p (by omega)).2.1 hc2
    have hpSeq : pS = p + 1 := hd pS (p + 1) hpS (by push_cast; omega) (by rw [hS, hc1])
    rw [innerCount_unfold, hlast (p + 1) (by push_cast; omega)] at e2
    unfold nCountPreviousDim at e2
    rw [if_pos (by omega)] at e2
    rw [hlast (p + 1) (by push_cast; omega)] at e1
    rw [e1, e2, ← hSn, hpSeq]
    ring
  · intro i
    simp [makeBand]

theorem sampleArray_found : resolveArray sampleEnv 3 sampleArray = .found sampleLayout := by
  rfl

theorem sampleLayout_distinct : sampleLayout.distinctRoles := by
  intro p q hp hq
  have hp3 : p < 3 := by simp only [sampleLayout] at hp; omega
  have hq3 : q < 3 := by simp only [sampleLayout] at hq; omega
  interval_cases p <;> interval_cases q <;> simp [sampleLayout, Function.update]

theorem stride_is_size_times_inner_counts_witness :
    resolveArray sampleEnv 3 sampleArray = .found sampleLayout ∧ sampleLayout.distinctRoles ∧
      sampleLayout.nPixelOffset * sampleLayout.nSamples = sampleLayout.nLineOffset :=
  ⟨sampleArray_found, sampleLayout_distinct,
    (stride_is_size_times_inner_counts sampleEnv 3 sampleArray sampleLayout sampleArray_found
      sampleLayout_distinct).2.2.1 1 (by decide) (by rfl) (by rfl)⟩

/-! ## Mixed-radix addressing -/

theorem two_digit_unique {n a r a1 r1 : Int} (hr : 0 ≤ r) (hrn : r < n) (hr1 : 0 ≤ r1)
    (hr1n : r1 < n) (h : a * n + r = a1 * n + r1) : a = a1 ∧ r = r1 := by
  have hn : 0 < n := by omega
  have ha : a = a1 := by
    by_contra hne
    rcases lt_or_gt_of_ne hne with hlt | hgt
    · have : (a + 1) * n ≤ a1 * n := Int.mul_le_mul_of_nonneg_right (by omega) (by omega)
      nlinarith
    · have : (a1 + 1) * n ≤ a * n := Int.mul_le_mul_of_nonneg_right (by omega) (by omega)
      nlinarith
  subst ha
  exact ⟨rfl, by omega⟩

theorem three_digit_range {n0 n1 n2 d0 d1 d2 : Int} (h0 : 0 ≤ d0) (h0n : d0 < n0)
    (h1 : 0 ≤ d1) (h1n : d1 < n1) (h2 : 0 ≤ d2) (h2n : d2 < n2) :
    0 ≤ (d0 * n1 + d1) * n2 + d2 ∧ (d0 * n1 + d1) * n2 + d2 < n0 * n1 * n2 := by
  have e1 : 0 ≤ d0 * n1 := Int.mul_nonneg h0 (by omega)
  have e2 : d0 * n1 + d1 + 1 ≤ n0 * n1 := by
    have : (d0 + 1) * n1 ≤ n0 * n1 := Int.mul_le_mul_of_nonneg_right (by omega) (by omega)
    nlinarith
  have e3 : 0 ≤ (d0 * n1 + d1) * n2 := Int.mul_nonneg (by omega) (by omega)
  have e4 : (d0 * n1 + d1 + 1) * n2 ≤ n0 * n1 * n2 :=
    Int.mul_le_mul_of_nonneg_right e2 (by omega)
  constructor
  · omega
  · nlinarith

/-- Row-major strides tile: with the outermost axis first, strides `es*(n1*n2)`, `es*n2`,
`es` address the `n0*n1*n2` elements without overlap and without gap. -/
theorem Tiles_rowMajor (es base n0 n1 n2 : Int) (hes : 1 ≤ es) (hn1 : 1 ≤ n1)
    (hn2 : 1 ≤ n2) : Tiles es base n0 n1 n2 (es * (n1 * n2)) (es * n2) es := by
  have addr : ∀ b y x : Int, base + b * (es * (n1 * n2)) + y * (es * n2) + x * es =
      base + es * ((b * n1 + y) * n2 + x) := by
    intro b y x; ring
  have cancel : ∀ k k1 : Int, base + es * k = base + es * k1 → k = k1 := by
    intro k k1 h
    have h2 : es * k = es * k1 := by omega
    exact Int.eq_of_mul_eq_mul_left (by omega) h2
  refine ⟨?_, ?_, ?_⟩
  · intro b y x hb hbn hy hyn hx hxn
    refine ⟨(b * n1 + y) * n2 + x, ⟨three_digit_range hb hbn hy hyn hx hxn, addr b y x⟩, ?_⟩
    intro k ⟨_, hk⟩
    rw [addr] at hk
    exact (cancel _ _ hk).symm
  · intro b y x b1 y1 x1 hb hbn hy hyn hx hxn hb1 hb1n hy1 hy1n hx1 hx1n h
    rw [addr, addr] at h
    have h2 := cancel _ _ h
    obtain ⟨h3, h4⟩ := two_digit_unique hx hxn hx1 hx1n h2
    obtain ⟨h5, h6⟩ := two_digit_unique hy hyn hy1 hy1n h3
    exact ⟨h5, h6, h4⟩
  · intro k hk hkn
    have hn2pos : (0 : Int) < n2 := by omega
    have hn1pos : (0 : Int) < n1 := by omega
    have q0 : 0 ≤ k / n2 := Int.ediv_nonneg hk (by omega)
    refine ⟨k / n2 / n1, k / n2 % n1, k % n2, ⟨Int.ediv_nonneg q0 (by omega), ?_⟩,
      ⟨Int.emod_nonneg _ (by omega), Int.emod_lt_of_pos _ hn1pos⟩,
      ⟨Int.emod_nonneg _ (by omega), Int.emod_lt_of_pos _ hn2pos⟩, ?_⟩
    · have h1 : k / n2 < n0 * n1 := by
        apply Int.ediv_lt_of_lt_mul hn2pos
        exact hkn
      exact Int.ediv_lt_of_lt_mul hn1pos h1
    · rw [addr]
      have e1 : k / n2 / n1 * n1 + k / n2 % n1 = k / n2 := by
        have := Int.ediv_add_emod (k / n2) n1
        linarith [mul_comm n1 (k / n2 / n1)]
      have e2 : k / n2 * n2 + k % n2 = k := by
        have := Int.ediv_add_emod k n2
        linarith [mul_comm n2 (k / n2)]
      rw [e1, e2]

/-- Exchanging the Line and the Sample axis (count and stride together) keeps a tiling. -/
theorem Tiles_swapLS {es base nB nL nS sB sL sS : Int}
    (h : Tiles es base nB nL nS sB sL sS) : Tiles es base nB nS nL sB sS sL := by
  obtain ⟨h1, h2, h3⟩ := h
  have hprod : nB * nS * nL = nB * nL * nS := by ring
  have addr : ∀ b y x : Int, base + b * sB + y * sS + x * sL = base + b * sB + x * sL + y * sS := by
    intro b y x; ring
  refine ⟨?_, ?_, ?_⟩
  · intro b y x hb hbn hy hyn hx hxn
    rw [hprod, addr]
    exact h1 b x y hb hbn hx hxn hy hyn
  · intro b y x b1 y1 x1 hb hbn hy hyn hx hxn hb1 hb1n hy1 hy1n hx1 hx1n h
    rw [addr, addr] at h
    obtain ⟨e1, e2, e3⟩ := h2 b x y b1 x1 y1 hb hbn hx hxn hy hyn hb1 hb1n hx1 hx1n hy1 hy1n h
    exact ⟨e1, e3, e2⟩
  · intro k hk hkn
    rw [hprod] at hkn
    obtain ⟨b, y, x, hb, hy, hx, e⟩ := h3 k hk hkn
    exact ⟨b, x, y, hb, hx, hy, by rw [addr]; exact e⟩

/-- Exchanging the Band and the Line axis (count and stride together) keeps a tiling. -/
theorem Tiles_swapBL {es base nB nL nS sB sL sS : Int}
    (h : Tiles es base nB nL nS sB sL sS) : Tiles es base nL nB nS sL sB sS := by
  obtain ⟨h1, h2, h3⟩ := h
  have hprod : nL * nB * nS = nB * nL * nS := by ring
  have addr : ∀ b y x : Int, base + b * sL + y * sB + x * sS = base + y * sB + b * sL + x * sS := by
    intro b y x; ring
  refine ⟨?_, ?_, ?_⟩
  · intro b y x hb hbn hy hyn hx hxn
    rw [hprod, addr]
    exact h1 y b x hy hyn hb hbn hx hxn
  · intro b y x b1 y1 x1 hb hbn hy hyn hx hxn hb1 hb1n hy1 hy1n hx1 hx1n h
    rw [addr, addr] at h
    obtain ⟨e1, e2, e3⟩ := h2 y b x y1 b1 x1 hy hyn hb hbn hx hxn hy1 hy1n hb1 hb1n hx1 hx1n h
    exact ⟨e2, e1, e3⟩
  · intro k hk hkn
    rw [hprod] at hkn
    obtain ⟨b, y, x, hb, hy, hx, e⟩ := h3 k hk hkn
    exact ⟨y, b, x, hy, hb, hx, by rw [addr]; exact e⟩

/-- With a single band the band stride does not matter. -/
theorem Tiles_band_one {es base nL nS sB sL sS : Int} (sB1 : Int)
    (h : Tiles es base 1 nL nS sB sL sS) : Tiles es base 1 nL nS sB1 sL sS := by
  obtain ⟨h1, h2, h3⟩ := h
  have addr : ∀ b y x : Int, 0 ≤ b → b < 1 →
      base + b * sB1 + y * sL + x * sS = base + b * sB + y * sL + x * sS := by
    intro b y x hb hb1
    have : b = 0 := by omega
    subst this
    ring
  refine ⟨?_, ?_, ?_⟩
  · intro b y x hb hbn hy hyn hx hxn
    rw [addr b y x hb hbn]
    exact h1 b y x hb hbn hy hyn hx hxn
  · intro b y x b1 y1 x1 hb hbn hy hyn hx hxn hb1 hb1n hy1 hy1n hx1 hx1n h
    rw [addr b y x hb hbn, addr b1 y1 x1 hb1 hb1n] at h
    exact h2 b y x b1 y1 x1 hb hbn hy hyn hx hxn hb1 hb1n hy1 hy1n hx1 hx1n h
  · intro k hk hkn
    obtain ⟨b, y, x, hb, hy, hx, e⟩ := h3 k hk hkn
    exact ⟨b, y, x, hb, hy, hx, by rw [addr b y x hb.1 hb.2]; exact e⟩

/-! ## Layout of an array with distinct roles -/

/-- For distinct roles, the axis at each position determines one offset and one count. -/
theorem distinct_layout {D : Type} (env : Env D) (nDIM : Int) (a : ArrayNode)
    (r : ArrayLayout D) (h : resolveArray env nDIM a = .found r) (hd : r.distinctRoles) :
    (∀ p : Nat, (p : Int) < r.nDIM →
      (r.szOrder p = 'S' → r.nPixelOffset =
          GDALGetDataTypeSizeBytes r.eDT * innerCount r.nDIM r.anElements p ∧
        r.nSamples = r.anElements p) ∧
      (r.szOrder p = 'L' → r.nLineOffset =
          GDALGetDataTypeSizeBytes r.eDT * innerCount r.nDIM r.anElements p ∧
        r.nLines = r.anElements p) ∧
      (r.szOrder p = 'B' → r.nBandOffset =
          GDALGetDataTypeSizeBytes r.eDT * innerCount r.nDIM r.anElements p ∧
        r.l_nBands = r.anElements p)) ∧
    ((∀ p : Nat, (p : Int) < r.nDIM → r.szOrder p ≠ 'B') → r.l_nBands = 1) := by
  have hstr := found_strides env nDIM a r h
  have hmin := distinct_slots env nDIM a r h hd
  obtain ⟨_, hpos, ⟨pS, hpS, hS, hSn⟩, ⟨pL, hpL, hL, hLn⟩, hband⟩ := found_axes env nDIM a r h
  constructor
  · intro p hp
    have e := hstr p hp (hmin p hp)
    refine ⟨fun hc => ⟨?_, ?_⟩, fun hc => ⟨?_, ?_⟩, fun hc => ⟨?_, ?_⟩⟩
    · rw [← e, hc]; rfl
    · rw [← hSn, hd pS p hpS hp (by rw [hS, hc])]
    · rw [← e, hc]; rfl
    · rw [← hLn, hd pL p hpL hp (by rw [hL, hc])]
    · rw [← e, hc]; rfl
    · rcases hband with ⟨_, hno⟩ | ⟨pB, hpB, hB, hBn⟩
      · exact absurd hc (hno p)
      · rw [← hBn, hd pB p hpB hp (by rw [hB, hc])]
  · intro hno
    rcases hband with ⟨h1, _⟩ | ⟨pB, hpB, hB, _⟩
    · exact h1
    · exact absurd hB (hno pB hpB)

theorem innerCount_two (a : Nat → Int) :
    innerCount 2 a 0 = a 1 ∧ innerCount 2 a 1 = 1 := by
  have e1 : innerCount 2 a 1 = 1 := by
    unfold innerCount
    rw [Finset.Ico_eq_empty_of_le (by decide)]
    simp
  refine ⟨?_, e1⟩
  rw [innerCount_unfold, e1]
  simp [nCountPreviousDim]

theorem innerCount_three (a : Nat → Int) :
    innerCount 3 a 0 = a 1 * a 2 ∧ innerCount 3 a 1 = a 2 ∧ innerCount 3 a 2 = 1 := by
  have e2 : innerCount 3 a 2 = 1 := by
    unfold innerCount
    rw [Finset.Ico_eq_empty_of_le (by decide)]
    simp
  have e1 : innerCount 3 a 1 = a 2 := by
    rw [innerCount_unfold, e2]
    simp [nCountPreviousDim]
  refine ⟨?_, e1, e2⟩
  rw [innerCount_unfold, e1]
  simp [nCountPreviousDim]

/-- A resolved array with distinct roles has two or three axes. -/
theorem distinct_dim {D : Type} (env : Env D) (nDIM : Int) (a : ArrayNode)
    (r : ArrayLayout D) (h : resolveArray env nDIM a = .found r) (hd : r.distinctRoles) :
    r.nDIM = 2 ∨ r.nDIM = 3 := by
  obtain ⟨_, hpos, ⟨pS, hpS, hS, _⟩, ⟨pL, hpL, hL, _⟩, _⟩ := found_axes env nDIM a r h
  have hSL : pS ≠ pL := by
    intro hh
    rw [hh, hL] at hS
    exact absurd hS (by decide)
  have hge : 2 ≤ r.nDIM := by omega
  by_contra hcon
  have h4 : 4 ≤ r.nDIM := by omega
  have hc : ∀ p : Nat, p < 3 → r.szOrder p = 'L' ∨ r.szOrder p = 'S' := by
    intro p hp
    obtain ⟨hc, _, _, hB⟩ := hpos p (by omega)
    rcases hc with hc | hc | hc
    · have := hB hc; omega
    · exact Or.inl hc
    · exact Or.inr hc
  have d01 := hd 0 1 (by omega) (by omega)
  have d02 := hd 0 2 (by omega) (by omega)
  have d12 := hd 1 2 (by omega) (by omega)
  rcases hc 0 (by omega) with c0 | c0 <;> rcases hc 1 (by omega) with c1 | c1 <;>
    rcases hc 2 (by omega) with c2 | c2 <;>
    first
    | (have hx := d01 (c0.trans c1.symm); omega)
    | (have hx := d02 (c0.trans c2.symm); omega)
    | (have hx := d12 (c1.trans c2.symm); omega)

/-- The two axis orders of a two-dimensional array with distinct roles. -/
theorem order_cases_two {D : Type} (env : Env D) (nDIM : Int) (a : ArrayNode)
    (r : ArrayLayout D) (h : resolveArray env nDIM a = .found r) (hd : r.distinctRoles)
    (h2 : r.nDIM = 2) :
    (r.szOrder 0 = 'L' ∧ r.szOrder 1 = 'S') ∨ (r.szOrder 0 = 'S' ∧ r.szOrder 1 = 'L') := by
  obtain ⟨_, hpos, _⟩ := found_axes env nDIM a r h
  have hc : ∀ p : Nat, p < 2 → r.szOrder p = 'L' ∨ r.szOrder p = 'S' := by
    intro p hp
    obtain ⟨hc, _, _, hB⟩ := hpos p (by omega)
    rcases hc with hc | hc | hc
    · have := hB hc; omega
    · exact Or.inl hc
    · exact Or.inr hc
  have d01 := hd 0 1 (by omega) (by omega)
  rcases hc 0 (by omega) with c0 | c0 <;> rcases hc 1 (by omega) with c1 | c1
  · have := d01 (c0.trans c1.symm); omega
  · exact Or.inl ⟨c0, c1⟩
  · exact Or.inr ⟨c0, c1⟩
  · have := d01 (c0.trans c1.symm); omega

/-- The six axis orders of a three-dimensional array with distinct roles. -/
theorem order_cases_three {D : Type} (env : Env D) (nDIM : Int) (a : ArrayNode)
    (r : ArrayLayout D) (h : resolveArray env nDIM a = .found r) (hd : r.distinctRoles)
    (h3 : r.nDIM = 3) :
    (r.szOrder 0 = 'B' ∧ r.szOrder 1 = 'L' ∧ r.szOrder 2 = 'S') ∨
    (r.szOrder 0 = 'B' ∧ r.szOrder 1 = 'S' ∧ r.szOrder 2 = 'L') ∨
    (r.szOrder 0 = 'L' ∧ r.szOrder 1 = 'B' ∧ r.szOrder 2 = 'S') ∨
    (r.szOrder 0 = 'L' ∧ r.szOrder 1 = 'S' ∧ r.szOrder 2 = 'B') ∨
    (r.szOrder 0 = 'S' ∧ r.szOrder 1 = 'B' ∧ r.szOrder 2 = 'L') ∨
    (r.szOrder 0 = 'S' ∧ r.szOrder 1 = 'L' ∧ r.szOrder 2 = 'B') := by
  obtain ⟨_, hpos, _⟩ := found_axes env nDIM a r h
  have d01 := hd 0 1 (by omega) (by omega)
  have d02 := hd 0 2 (by omega) (by omega)
  have d12 := hd 1 2 (by omega) (by omega)
  rcases (hpos 0 (by omega)).1 with c0 | c0 | c0 <;>
    rcases (hpos 1 (by omega)).1 with c1 | c1 | c1 <;>
    rcases (hpos 2 (by omega)).1 with c2 | c2 | c2 <;>
    first
    | (have hx := d01 (c0.trans c1.symm); omega)
    | (have hx := d02 (c0.trans c2.symm); omega)
    | (have hx := d12 (c1.trans c2.symm); omega)
    | exact Or.inl ⟨c0, c1, c2⟩
    | exact Or.inr (Or.inl ⟨c0, c1, c2⟩)
    | exact Or.inr (Or.inr (Or.inl ⟨c0, c1, c2⟩))
    | exact Or.inr (Or.inr (Or.inr (Or.inl ⟨c0, c1, c2⟩)))
    | exact Or.inr (Or.inr (Or.inr (Or.inr (Or.inl ⟨c0, c1, c2⟩))))
    | exact Or.inr (Or.inr (Or.inr (Or.inr (Or.inr ⟨c0, c1, c2⟩))))

/-- The strides of a resolved array with distinct roles tile its samples, whatever the
order of the axes. -/
theorem distinct_tiles {D : Type} (env : Env D) (nDIM : Int) (a : ArrayNode)
    (r : ArrayLayout D) (h : resolveArray env nDIM a = .found r) (hd : r.distinctRoles) :
    Tiles (GDALGetDataTypeSizeBytes r.eDT) r.nOffset r.l_nBands r.nLines r.nSamples
      r.nBandOffset r.nLineOffset r.nPixelOffset := by
  obtain ⟨hlay, hnoB⟩ := distinct_layout env nDIM a r h hd
  obtain ⟨_, hpos, _⟩ := found_axes env nDIM a r h
  obtain ⟨hes, _⟩ := GDALGetDataTypeSizeBytes_range r.eDT
  rcases distinct_dim env nDIM a r h hd with h2 | h3
  · obtain ⟨i0, i1⟩ := innerCount_two r.anElements
    have l0 := hlay 0 (by omega)
    have l1 := hlay 1 (by omega)
    rw [h2, i0] at l0
    rw [h2, i1, mul_one] at l1
    have nb : r.l_nBands = 1 := hnoB (fun p hp hc => by have := (hpos p hp).2.2.2 hc; omega)
    have a0 := (hpos 0 (by omega)).2.1
    have a1 := (hpos 1 (by omega)).2.1
    have T := Tiles_band_one r.nBandOffset
      (Tiles_rowMajor (GDALGetDataTypeSizeBytes r.eDT) r.nOffset 1 (r.anElements 0)
        (r.anElements 1) hes a0 a1)
    rcases order_cases_two env nDIM a r h hd h2 with ⟨c0, c1⟩ | ⟨c0, c1⟩
    · obtain ⟨e1, e2⟩ := l0.2.1 c0
      obtain ⟨e3, e4⟩ := l1.1 c1
      rw [nb, e1, e2, e3, e4]
      exact T
    · obtain ⟨e1, e2⟩ := l0.1 c0
      obtain ⟨e3, e4⟩ := l1.2.1 c1
      rw [nb, e1, e2, e3, e4]
      exact Tiles_swapLS T
  · obtain ⟨i0, i1, i2⟩ := innerCount_three r.anElements
    have l0 := hlay 0 (by omega)
    have l1 := hlay 1 (by omega)
    have l2 := hlay 2 (by omega)
    rw [h3, i0] at l0
    rw [h3, i1] at l1
    rw [h3, i2, mul_one] at l2
    have a1 := (hpos 1 (by omega)).2.1
    have a2 := (hpos 2 (by omega)).2.1
    have T := Tiles_rowMajor (GDALGetDataTypeSizeBytes r.eDT) r.nOffset (r.anElements 0)
      (r.anElements 1) (r.anElements 2) hes a1 a2
    rcases order_cases_three env nDIM a r h hd h3 with
      ⟨c0, c1, c2⟩ | ⟨c0, c1, c2⟩ | ⟨c0, c1, c2⟩ | ⟨c0, c1, c2⟩ | ⟨c0, c1, c2⟩ | ⟨c0, c1, c2⟩
    · obtain ⟨e1, e2⟩ := l0.2.2 c0
      obtain ⟨e3, e4⟩ := l1.2.1 c1
      obtain ⟨e5, e6⟩ := l2.1 c2
      rw [e1, e2, e3, e4, e5, e6]
      exact T
    · obtain ⟨e1, e2⟩ := l0.2.2 c0
      obtain ⟨e3, e4⟩ := l1.1 c1
      obtain ⟨e5, e6⟩ := l2.2.1 c2
      rw [e1, e2, e3, e4, e5, e6]
      exact Tiles_swapLS T
    · obtain ⟨e1, e2⟩ := l0.2.1 c0
      obtain ⟨e3, e4⟩ := l1.2.2 c1
      obtain ⟨e5, e6⟩ := l2.1 c2
      rw [e1, e2, e3, e4, e5, e6]
      exact Tiles_swapBL T
    · obtain ⟨e1, e2⟩ := l0.2.1 c0
      obtain ⟨e3, e4⟩ := l1.1 c1
      obtain ⟨e5, e6⟩ := l2.2.2 c2
      rw [e1, e2, e3, e4, e5, e6]
      exact Tiles_swapBL (Tiles_swapLS T)
    · obtain ⟨e1, e2⟩ := l0.1 c0
      obtain ⟨e3, e4⟩ := l1.2.2 c1
      obtain ⟨e5, e6⟩ := l2.2.1 c2
      rw [e1, e2, e3, e4, e5, e6]
      exact Tiles_swapLS (Tiles_swapBL T)
    · obtain ⟨e1, e2⟩ := l0.1 c0
      obtain ⟨e3, e4⟩ := l1.2.1 c1
      obtain ⟨e5, e6⟩ := l2.2.2 c2
      rw [e1, e2, e3, e4, e5, e6]
      exact Tiles_swapLS (Tiles_swapBL (Tiles_swapLS T))

/-- The band offset of a resolved array is never negative: it is zero when no axis goes to
the band slot and a positive product otherwise. -/
theorem found_band_nonneg {D : Type} (env : Env D) (nDIM : Int) (a : ArrayNode)
    (r : ArrayLayout D) (h : resolveArray env nDIM a = .found r) : 0 ≤ r.nBandOffset := by
  obtain ⟨hnn, hpos, _⟩ := found_axes env nDIM a r h
  have hone := found_one_band env nDIM a r h
  obtain ⟨hes1, hes2⟩ := GDALGetDataTypeSizeBytes_range r.eDT
  by_cases hex : ∃ p : Nat, (p : Int) < r.nDIM ∧ axisSlot (r.szOrder p) = 2
  · obtain ⟨p, hp, hslot⟩ := hex
    have hmin : ∀ q, q < p → axisSlot (r.szOrder q) ≠ axisSlot (r.szOrder p) := by
      intro q hq heq
      have := hone q p (by omega) hp (by rw [heq, hslot]) hslot
      omega
    have e := found_strides env nDIM a r h p hp hmin
    have hic := innerCount_pos r.nDIM r.anElements (fun q hq => (hpos q hq).2.1) p
    have hs : r.strideOf (r.szOrder p) = r.nBandOffset := by
      rcases axisSlot_cases (r.szOrder p) with ⟨_, h0⟩ | ⟨_, h1⟩ | ⟨hnS, hnL, _⟩
      · omega
      · omega
      · simp [ArrayLayout.strideOf, hnS, hnL]
    rw [← hs, e]
    nlinarith
  · obtain ⟨_, _, _, _, _, _, _, ⟨sp, hsp, _, _, e3⟩, hn, _⟩ := resolveArray_found env nDIM a r h
    unfold computeSpacing at hsp
    rw [← hn] at hsp
    have hinit : toU64 (GDALGetDataTypeSizeBytes r.eDT) = GDALGetDataTypeSizeBytes r.eDT :=
      toU64_of_range (by omega) (by omega)
    have hIc : innerCount r.nDIM r.anElements r.nDIM.toNat = 1 := by
      unfold innerCount
      rw [Finset.Ico_eq_empty_of_le (by omega)]
      simp
    obtain ⟨_, r2, _⟩ := spacingLoop_spec r.nDIM r.szOrder r.anElements
      (GDALGetDataTypeSizeBytes r.eDT)
      (fun q hq => ⟨(hpos q hq).2.1, (hpos q hq).2.2.1⟩) hone hes1 r.nDIM.toNat _ sp
      (by omega) (by simp only [hinit, hIc]; ring) (Or.inl (by simp only [hinit]; omega)) hsp
    have := r2 'B' (fun q hq heq => hex ⟨q, by omega, by rw [heq]; decide⟩)
    have hB : sp.strideOf 'B' = sp.nBandOffset := by
      unfold Spacing.strideOf
      rw [if_neg (by decide), if_neg (by decide)]
    rw [hB] at this
    rw [e3, this]
    unfold Spacing.strideOf
    rw [if_neg (by decide), if_neg (by decide)]

/-- Claim C2.  For an array that `Open` resolves and whose axis roles are pairwise distinct,
the byte addresses `nOffset + b*bandOffset + y*lineOffset + x*pixelOffset` of the samples
with `b < l_nBands`, `y < nLines`, `x < nSamples` are pairwise different, each is
`nOffset + elementSize*k` for exactly one `k` below the number of samples, and every such
`k` is taken: the samples tile `elementSize * l_nBands * nLines * nSamples` bytes without
overlap and without gap, for every order of the axes.  The bands of a top-to-bottom array
are created with these strides, band `i` starting at `nOffset + i*bandOffset`. -/
theorem samples_tile_without_overlap_or_gap {D : Type} (env : Env D) (nDIM : Int)
    (a : ArrayNode) (r : ArrayLayout D) (h : resolveArray env nDIM a = .found r)
    (hd : r.distinctRoles) :
    (∀ b y x : Int, 0 ≤ b → b < r.l_nBands → 0 ≤ y → y < r.nLines → 0 ≤ x → x < r.nSamples →
      ∃! k : Int, (0 ≤ k ∧ k < r.l_nBands * r.nLines * r.nSamples) ∧
        r.address b y x = r.nOffset + GDALGetDataTypeSizeBytes r.eDT * k) ∧
    (∀ b y x b1 y1 x1 : Int, 0 ≤ b → b < r.l_nBands → 0 ≤ y → y < r.nLines → 0 ≤ x →
      x < r.nSamples → 0 ≤ b1 → b1 < r.l_nBands → 0 ≤ y1 → y1 < r.nLines → 0 ≤ x1 →
      x1 < r.nSamples → r.address b y x = r.address b1 y1 x1 → b = b1 ∧ y = y1 ∧ x = x1) ∧
    (∀ k : Int, 0 ≤ k → k < r.l_nBands * r.nLines * r.nSamples →
      ∃ b y x : Int, (0 ≤ b ∧ b < r.l_nBands) ∧ (0 ≤ y ∧ y < r.nLines) ∧
        (0 ≤ x ∧ x < r.nSamples) ∧
        r.address b y x = r.nOffset + GDALGetDataTypeSizeBytes r.eDT * k) ∧
    (∀ i y x : Int, 0 ≤ i → r.nOffset + r.nBandOffset * i < 18446744073709551616 →
      (makeBand env false r i).nImgOffset + y * (makeBand env false r i).nLineOffset +
        x * (makeBand env false r i).nPixelOffset = r.address i y x) := by
  obtain ⟨t1, t2, t3⟩ := distinct_tiles env nDIM a r h hd
  refine ⟨t1, t2, t3, ?_⟩
  intro i y x hi hfit
  have hb := found_band_nonneg env nDIM a r h
  have ho : 0 ≤ r.nOffset := by
    obtain ⟨_, _, _, _, _, _, _, _, _, _, _, _, _, _, ho, _⟩ := resolveArray_found env nDIM a r h
    rw [ho]
    exact Int.emod_nonneg _ (by norm_num)
  have hbi : 0 ≤ r.nBandOffset * i := Int.mul_nonneg hb hi
  simp only [makeBand, Bool.false_eq_true, if_false, ArrayLayout.address]
  rw [toU64_of_range (by omega) hfit]
  ring

theorem samples_tile_without_overlap_or_gap_witness :
    resolveArray sampleEnv 3 sampleArray = .found sampleLayout ∧ sampleLayout.distinctRoles ∧
      ∃! k : Int, (0 ≤ k ∧ k < sampleLayout.l_nBands * sampleLayout.nLines * sampleLayout.nSamples) ∧
        sampleLayout.address 2 3 4 =
          sampleLayout.nOffset + GDALGetDataTypeSizeBytes sampleLayout.eDT * k :=
  ⟨sampleArray_found, sampleLayout_distinct,
    (samples_tile_without_overlap_or_gap sampleEnv 3 sampleArray sampleLayout sampleArray_found
      sampleLayout_distinct).1 2 3 4 (by decide) (by decide) (by decide) (by decide) (by decide)
      (by decide)⟩

/-- The exact stride of every Sample or Line position of a resolved array fits a C `int`. -/
theorem found_stride_bound {D : Type} (env : Env D) (nDIM : Int) (a : ArrayNode)
    (r : ArrayLayout D) (h : resolveArray env nDIM a = .found r) :
    ∀ p : Nat, (p : Int) < r.nDIM → r.szOrder p = 'S' ∨ r.szOrder p = 'L' →
      GDALGetDataTypeSizeBytes r.eDT * innerCount r.nDIM r.anElements p ≤ 2147483647 := by
  obtain ⟨hnn, hpos, _⟩ := found_axes env nDIM a r h
  have hone := found_one_band env nDIM a r h
  obtain ⟨_, _, _, _, _, _, _, ⟨sp, hsp, _, _, _⟩, hn, _⟩ := resolveArray_found env nDIM a r h
  obtain ⟨hes1, hes2⟩ := GDALGetDataTypeSizeBytes_range r.eDT
  unfold computeSpacing at hsp
  rw [← hn] at hsp
  have hinit : toU64 (GDALGetDataTypeSizeBytes r.eDT) = GDALGetDataTypeSizeBytes r.eDT :=
    toU64_of_range (by omega) (by omega)
  have hIc : innerCount r.nDIM r.anElements r.nDIM.toNat = 1 := by
    unfold innerCount
    rw [Finset.Ico_eq_empty_of_le (by omega)]
    simp
  obtain ⟨_, _, r3⟩ := spacingLoop_spec r.nDIM r.szOrder r.anElements
    (GDALGetDataTypeSizeBytes r.eDT)
    (fun q hq => ⟨(hpos q hq).2.1, (hpos q hq).2.2.1⟩) hone hes1 r.nDIM.toNat _ sp
    (by omega) (by simp only [hinit, hIc]; ring) (Or.inl (by simp only [hinit]; omega)) hsp
  intro p hp hc
  exact r3 p (by omega) hc

/-- The line and the pixel offset of every resolved array lie in `[1, INT_MAX]`. -/
theorem found_offsets_range {D : Type} (env : Env D) (nDIM : Int) (a : ArrayNode)
    (r : ArrayLayout D) (h : resolveArray env nDIM a = .found r) :
    (1 ≤ r.nLineOffset ∧ r.nLineOffset ≤ 2147483647) ∧
    (1 ≤ r.nPixelOffset ∧ r.nPixelOffset ≤ 2147483647) := by
  obtain ⟨_, hpos, ⟨pS, hpS, hS, _⟩, ⟨pL, hpL, hL, _⟩, _⟩ := found_axes env nDIM a r h
  obtain ⟨hes1, _⟩ := GDALGetDataTypeSizeBytes_range r.eDT
  have key : ∀ X : Char, X = 'S' ∨ X = 'L' → (∃ p : Nat, (p : Int) < r.nDIM ∧ r.szOrder p = X) →
      1 ≤ r.strideOf X ∧ r.strideOf X ≤ 2147483647 := by
    intro X hX hex
    classical
    have hm := Nat.find_spec hex
    have hmin : ∀ q, q < Nat.find hex →
        axisSlot (r.szOrder q) ≠ axisSlot (r.szOrder (Nat.find hex)) := by
      intro q hq heq
      have hnot := Nat.find_min hex hq
      have hsS : axisSlot 'S' = 0 := by decide
      have hsL : axisSlot 'L' = 1 := by decide
      have hq2 : r.szOrder q = X := by
        rw [hm.2] at heq
        rcases hX with hX | hX <;> subst hX <;>
          rcases axisSlot_cases (r.szOrder q) with ⟨hc, h0⟩ | ⟨hc, h0⟩ | ⟨_, _, h0⟩ <;>
          first
          | exact hc
          | (rw [h0, hsS] at heq; omega)
          | (rw [h0, hsL] at heq; omega)
      exact hnot ⟨by omega, hq2⟩
    have e := found_strides env nDIM a r h (Nat.find hex) hm.1 hmin
    have hb := found_stride_bound env nDIM a r h (Nat.find hex) hm.1 (by rw [hm.2]; exact hX)
    have hic := innerCount_pos r.nDIM r.anElements (fun q hq => (hpos q hq).2.1) (Nat.find hex)
    rw [hm.2] at e
    rw [e]
    exact ⟨by nlinarith, hb⟩
  have k1 := key 'L' (Or.inr rfl) ⟨pL, hpL, hL⟩
  have k2 := key 'S' (Or.inl rfl) ⟨pS, hpS, hS⟩
  exact ⟨k1, k2⟩

/-- Claim C3.  When the vertical display direction of the label is `Bottom to Top`, band `i`
of a resolved array is created with line offset `-nLineOffset`, unchanged pixel offset and
image offset `nOffset + i*nBandOffset + (nLines-1)*nLineOffset` (computed in the 64-bit
offset type, hence exact when that sum fits it); the line offset is negative, and the
address of sample `x` of row `y` under this flipped plan is the address of sample `x` of row
`nLines-1-y` under the top-to-bottom plan.  For four lines and array offset 0 the first band
starts at three times the line stride. -/
theorem bottom_to_top_reads_rows_reversed {D : Type} (env : Env D) (nDIM : Int)
    (a : ArrayNode) (r : ArrayLayout D) (dir : String) (i : Int)
    (h : resolveArray env nDIM a = .found r)
    (hdir : EQUAL dir "Bottom to Top" = true) (hi : 0 ≤ i)
    (hfit : r.nOffset + i * r.nBandOffset + (r.nLines - 1) * r.nLineOffset <
      18446744073709551616) :
    (makeBand env (EQUAL dir "Bottom to Top") r i).nImgOffset =
      r.nOffset + i * r.nBandOffset + (r.nLines - 1) * r.nLineOffset ∧
    (makeBand env (EQUAL dir "Bottom to Top") r i).nLineOffset = -r.nLineOffset ∧
    (makeBand env (EQUAL dir "Bottom to Top") r i).nPixelOffset = r.nPixelOffset ∧
    (makeBand env (EQUAL dir "Bottom to Top") r i).nLineOffset < 0 ∧
    (∀ y x : Int,
      (makeBand env (EQUAL dir "Bottom to Top") r i).nImgOffset +
          y * (makeBand env (EQUAL dir "Bottom to Top") r i).nLineOffset +
          x * (makeBand env (EQUAL dir "Bottom to Top") r i).nPixelOffset =
        (makeBand env false r i).nImgOffset +
          (r.nLines - 1 - y) * (makeBand env false r i).nLineOffset +
          x * (makeBand env false r i).nPixelOffset) ∧
    (r.nLines = 4 → r.nOffset = 0 →
      (makeBand env (EQUAL dir "Bottom to Top") r 0).nImgOffset = 3 * r.nLineOffset) := by
  obtain ⟨⟨hl1, hl2⟩, _⟩ := found_offsets_range env nDIM a r h
  have hb := found_band_nonneg env nDIM a r h
  obtain ⟨_, _, _, _, hL1, _, _, _, _, _, _, _, _, _, ho, _⟩ := resolveArray_found env nDIM a r h
  have ho0 : 0 ≤ r.nOffset := by
    rw [ho]
    exact Int.emod_nonneg _ (by norm_num)
  have hbi : 0 ≤ i * r.nBandOffset := Int.mul_nonneg hi hb
  have hll : 0 ≤ (r.nLines - 1) * r.nLineOffset := Int.mul_nonneg (by omega) (by omega)
  have hlines : r.nLines ≤ 2147483647 := by
    obtain ⟨_, hpos, _, ⟨pL, hpL, _, hLn⟩, _⟩ := found_axes env nDIM a r h
    rw [← hLn]
    exact (hpos pL hpL).2.2.1
  have u1 : toU64 (r.nLines - 1) = r.nLines - 1 := toU64_of_range (by omega) (by omega)
  have u2 : toU64 r.nLineOffset = r.nLineOffset := toU64_of_range (by omega) (by omega)
  have eflip : (makeBand env (EQUAL dir "Bottom to Top") r i).nImgOffset =
      r.nOffset + i * r.nBandOffset + (r.nLines - 1) * r.nLineOffset := by
    simp only [makeBand, hdir, if_true, u1, u2]
    rw [mul_comm r.nBandOffset i]
    exact toU64_of_range (by omega) hfit
  have eup : (makeBand env false r i).nImgOffset = r.nOffset + i * r.nBandOffset := by
    simp only [makeBand, Bool.false_eq_true, if_false]
    rw [mul_comm r.nBandOffset i]
    exact toU64_of_range (by omega) (by omega)
  have eline : (makeBand env (EQUAL dir "Bottom to Top") r i).nLineOffset = -r.nLineOffset := by
    simp only [makeBand, hdir, if_true]
  have epix : (makeBand env (EQUAL dir "Bottom to Top") r i).nPixelOffset = r.nPixelOffset := by
    simp only [makeBand]
  refine ⟨eflip, eline, epix, by rw [eline]; omega, ?_, ?_⟩
  · intro y x
    rw [eflip, eline, epix, eup]
    simp only [makeBand, Bool.false_eq_true, if_false]
    ring
  · intro h4 h0
    simp only [makeBand, hdir, if_true, u1, u2]
    rw [h4, h0]
    have : (0 : Int) + r.nBandOffset * 0 + (4 - 1) * r.nLineOffset = 3 * r.nLineOffset := by ring
    rw [this]
    exact toU64_of_range (by omega) (by omega)

theorem bottom_to_top_reads_rows_reversed_witness :
    resolveArray sampleEnv 3 sampleArray = .found sampleLayout ∧
      (makeBand sampleEnv (EQUAL "Bottom to Top" "Bottom to Top") sampleLayout 0).nImgOffset =
        3 * sampleLayout.nLineOffset ∧
      (makeBand sampleEnv (EQUAL "Bottom to Top" "Bottom to Top") sampleLayout 0).nLineOffset < 0 :=
  ⟨sampleArray_found,
    (bottom_to_top_reads_rows_reversed sampleEnv 3 sampleArray sampleLayout "Bottom to Top" 0
      sampleArray_found (by decide) (by decide) (by decide)).2.2.2.2.2 (by rfl) (by rfl),
    (bottom_to_top_reads_rows_reversed sampleEnv 3 sampleArray sampleLayout "Bottom to Top" 0
      sampleArray_found (by decide) (by decide) (by decide)).2.2.2.1⟩

/-! ## Overflow of the stride computation -/

/-- An array whose stride computation reports overflow makes the array loop return. -/
theorem openArray_overflow {D : Type} (env : Env D) (bBottomToTop : Bool)
    (nArrayIdxLookup : Int) (pszFilename : String) (st : OpenState D) (a : ArrayNode)
    (hdim : arrayDim a ≠ 0)
    (hsel : nArrayIdxLookup ≤ 0 ∨ st.nArrayIdx + 1 = nArrayIdxLookup)
    (hov : resolveArray env (arrayDim a) a = .overflow) :
    openArray env bBottomToTop nArrayIdxLookup pszFilename st a = none := by
  unfold openArray
  simp only [hdim, if_false]
  rw [if_neg (by omega), hov]

/-- Claim C4, as the code has it.  If, for a Sample or a Line axis of an array that the
earlier checks do not skip, the element size times the product of the element counts of
the axes inside it exceeds `INT_MAX`, the layout computation ends in the integer-overflow
exit: no layout is produced, and the array loop of `Open` returns without a dataset. -/
theorem sample_or_line_overflow_is_rejected {D : Type} (env : Env D) (a : ArrayNode)
    (eDT : GDALDataType) (bs : Bool) (p : Nat)
    (hne : resolveArray env (arrayDim a) a ≠ .skip)
    (hdt : dataTypeOf (a.data_type.getD "") = some (eDT, bs))
    (hp : (p : Int) < arrayDim a)
    (hc : (parseAxes (arrayDim a) a.Axis_Array).szOrder p = 'S' ∨
      (parseAxes (arrayDim a) a.Axis_Array).szOrder p = 'L')
    (hov : GDALGetDataTypeSizeBytes eDT *
      innerCount (arrayDim a) (parseAxes (arrayDim a) a.Axis_Array).anElements p > 2147483647) :
    resolveArray env (arrayDim a) a = .overflow ∧
    ∀ (st : OpenState D) (bBottomToTop : Bool) (nArrayIdxLookup : Int) (pszFilename : String),
      nArrayIdxLookup ≤ 0 ∨ st.nArrayIdx + 1 = nArrayIdxLookup →
      openArray env bBottomToTop nArrayIdxLookup pszFilename st a = none := by
  have hres : resolveArray env (arrayDim a) a = .overflow := by
    cases hr : resolveArray env (arrayDim a) a with
    | skip => exact absurd hr hne
    | overflow => rfl
    | found r =>
      exfalso
      obtain ⟨_, ⟨bs1, hdt1, _⟩, _, _, _, _, _, _, hn, hsz, hel, _⟩ :=
        resolveArray_found env (arrayDim a) a r hr
      have hb := found_stride_bound env (arrayDim a) a r hr p (by rw [hn]; exact hp)
        (by rw [hsz]; exact hc)
      rw [hdt] at hdt1
      have heq : eDT = r.eDT := by
        have := Option.some.inj hdt1
        exact (Prod.mk.inj this).1
      rw [hn, hel, ← heq] at hb
      omega
  refine ⟨hres, fun st b k fn hsel => ?_⟩
  exact openArray_overflow env b k fn st a (by omega) hsel hres

theorem overflowArray_overflow :
    resolveArray sampleEnv (arrayDim overflowArray) overflowArray = .overflow := by
  rfl

theorem sample_or_line_overflow_is_rejected_witness :
    resolveArray sampleEnv (arrayDim overflowArray) overflowArray = .overflow ∧
      openArray sampleEnv false (-1) "image.dat" (OpenState.init String) overflowArray = none :=
  ⟨overflowArray_overflow,
    (sample_or_line_overflow_is_rejected sampleEnv overflowArray GDT_Float64 false 0
      (by rw [overflowArray_overflow]; exact fun h => ArrayOutcome.noConfusion h)
      (by rfl) (by decide) (Or.inr (by rfl))
      (by
        have e : arrayDim overflowArray = 2 := by rfl
        rw [e, (innerCount_two _).1]
        decide)).2
      (OpenState.init String) false (-1) "image.dat" (Or.inl (by decide))⟩

/-- Counterexample to claim C4 as stated.  The band-sequential array `bigBandArray` has a
Band axis whose stride, 1 byte times 65536 times 65536, exceeds `INT_MAX`; yet the layout
computation succeeds with band offset 2^32, and `Open` returns a dataset with two bands, the
second starting at offset 2^32. -/
theorem band_stride_above_int_max_is_accepted :
    resolveArray sampleEnv (arrayDim bigBandArray) bigBandArray = .found bigBandLayout ∧
      bigBandLayout.szOrder 0 = 'B' ∧
      GDALGetDataTypeSizeBytes bigBandLayout.eDT *
        innerCount bigBandLayout.nDIM bigBandLayout.anElements 0 > 2147483647 ∧
      (Open sampleEnv (-1) (-1) (labelOf [bigBandArray])).map
        (fun ds => ds.bands.map (fun b => b.nImgOffset)) = some [0, 4294967296] := by
  refine ⟨by rfl, by rfl, ?_, by rfl⟩
  have e : bigBandLayout.nDIM = 3 := rfl
  rw [e, (innerCount_three _).1]
  decide

/-! ## The discovery loops -/

theorem openArray_index {D : Type} (env : Env D) (b : Bool) (k : Int) (fn : String)
    (st st1 : OpenState D) (a : ArrayNode) (h : openArray env b k fn st a = some st1) :
    st1.nArrayIdx = st.nArrayIdx + countArrays [a] ∧ st1.nFAOIdx = st.nFAOIdx := by
  unfold openArray at h
  simp only at h
  by_cases hdim : arrayDim a = 0
  · rw [if_pos hdim] at h
    have := Option.some.inj h
    subst this
    simp [countArrays, hdim]
  · rw [if_neg hdim] at h
    have hc : ((countArrays [a] : Nat) : Int) = 1 := by simp [countArrays, hdim]
    rw [hc]
    split at h
    · have := Option.some.inj h
      subst this
      exact ⟨rfl, rfl⟩
    · split at h
      · have := Option.some.inj h
        subst this
        exact ⟨rfl, rfl⟩
      · exact absurd h (by simp)
      · split at h
        · have := Option.some.inj h
          subst this
          exact ⟨rfl, rfl⟩
        · split at h
          · have := Option.some.inj h
            subst this
            exact ⟨rfl, rfl⟩
          · have := Option.some.inj h
            subst this
            exact ⟨rfl, rfl⟩

theorem countArrays_cons (a : ArrayNode) (l : List ArrayNode) :
    countArrays (a :: l) = countArrays [a] + countArrays l := by
  unfold countArrays
  by_cases h : arrayDim a ≠ 0
  · simp [List.filter_cons, h]
    omega
  · simp [List.filter_cons, h]

theorem openArrays_index {D : Type} (env : Env D) (b : Bool) (k : Int) (fn : String)
    (l : List ArrayNode) :
    ∀ st st1 : OpenState D, openArrays env b k fn st l = some st1 →
      st1.nArrayIdx = st.nArrayIdx + countArrays l ∧ st1.nFAOIdx = st.nFAOIdx := by
  induction l with
  | nil =>
    intro st st1 h
    simp only [openArrays] at h
    have := Option.some.inj h
    subst this
    simp [countArrays]
  | cons a rest ih =>
    intro st st1 h
    simp only [openArrays] at h
    cases h1 : openArray env b k fn st a with
    | none => rw [h1] at h; exact absurd h (by simp)
    | some s2 =>
      rw [h1] at h
      obtain ⟨e1, e2⟩ := openArray_index env b k fn st s2 a h1
      obtain ⟨e3, e4⟩ := ih s2 st1 h
      rw [countArrays_cons]
      constructor
      · rw [e3, e1]; push_cast; ring
      · rw [e4, e2]

/-- The array loop returns without a dataset as soon as it reaches an examined array whose
stride computation overflows, whatever precedes and whatever follows. -/
theorem openArrays_overflow {D : Type} (env : Env D) (b : Bool) (k : Int) (fn : String)
    (cpre cpost : List ArrayNode) (node : ArrayNode) (hdim : arrayDim node ≠ 0)
    (hov : resolveArray env (arrayDim node) node = .overflow) :
    ∀ st : OpenState D, k ≤ 0 ∨ k = st.nArrayIdx + countArrays cpre + 1 →
      openArrays env b k fn st (cpre ++ node :: cpost) = none := by
  induction cpre with
  | nil =>
    intro st hk
    simp only [List.nil_append, openArrays]
    rw [openArray_overflow env b k fn st node hdim
      (by simp [countArrays] at hk; omega) hov]
  | cons a rest ih =>
    intro st hk
    simp only [List.cons_append, openArrays]
    cases h1 : openArray env b k fn st a with
    | none => rfl
    | some s2 =>
      obtain ⟨e1, _⟩ := openArray_index env b k fn st s2 a h1
      simp only
      apply ih s2
      rw [countArrays_cons] at hk
      rw [e1]
      push_cast at hk ⊢
      omega

theorem openArea_index {D : Type} (env : Env D) (b : Bool) (f k : Int)
    (st st1 : OpenState D) (fao : FileAreaObservational)
    (h : openArea env b f k st fao = some st1) : st1.nFAOIdx = st.nFAOIdx + 1 := by
  unfold openArea at h
  simp only at h
  split at h
  · have := Option.some.inj h
    subst this
    rfl
  · split at h
    · exact (openArrays_index env b k _ _ _ _ h).2
    · have := Option.some.inj h
      subst this
      rfl

/-- The area loop returns without a dataset as soon as it reaches a file area in which an
examined array overflows. -/
theorem openAreas_overflow {D : Type} (env : Env D) (b : Bool) (f k : Int)
    (pre post : List FileAreaObservational) (fao : FileAreaObservational)
    (cpre cpost : List ArrayNode) (node : ArrayNode) (fn : String)
    (hch : fao.children = cpre ++ node :: cpost) (hfn : fao.file_name = some fn)
    (hdim : arrayDim node ≠ 0) (hk : k ≤ 0 ∨ k = countArrays cpre + 1)
    (hov : resolveArray env (arrayDim node) node = .overflow) :
    ∀ st : OpenState D, f < 0 ∨ f = st.nFAOIdx + pre.length + 1 →
      openAreas env b f k st (pre ++ fao :: post) = none := by
  induction pre with
  | nil =>
    intro st hf
    simp only [List.nil_append, openAreas]
    have : openArea env b f k st fao = none := by
      unfold openArea
      simp only [hfn]
      rw [if_pos (by simp at hf; omega), hch]
      exact openArrays_overflow env b k fn cpre cpost node hdim hov _ (by simp; omega)
    rw [this]
  | cons a rest ih =>
    intro st hf
    simp only [List.cons_append, openAreas]
    cases h1 : openArea env b f k st a with
    | none => rfl
    | some s2 =>
      have e1 := openArea_index env b f k st s2 a h1
      simp only
      apply ih s2
      rw [e1]
      simp only [List.length_cons] at hf
      push_cast at hf ⊢
      omega

/-- Claim C5.  If an array that `Open` examines (its file area names a file and matches the
container selector, the element is an array and matches the array selector) has a stride
computation that reports integer overflow, `Open` returns no dataset, whatever arrays come
before it (resolved or not) and after it. -/
theorem overflow_aborts_open {D : Type} (env : Env D) (f k : Int) (label : Label)
    (pre post : List FileAreaObservational) (fao : FileAreaObservational)
    (cpre cpost : List ArrayNode) (node : ArrayNode) (fn : String)
    (hareas : label.areas = pre ++ fao :: post)
    (hch : fao.children = cpre ++ node :: cpost) (hfn : fao.file_name = some fn)
    (hf : f < 0 ∨ f = pre.length + 1)
    (hdim : arrayDim node ≠ 0) (hk : k ≤ 0 ∨ k = countArrays cpre + 1)
    (hov : resolveArray env (arrayDim node) node = .overflow) :
    Open env f k label = none := by
  unfold Open
  simp only
  rw [hareas, openAreas_overflow env _ f k pre post fao cpre cpost node fn hch hfn hdim hk hov
    (OpenState.init D) (by simp [OpenState.init]; omega)]

theorem overflow_aborts_open_witness :
    (Open sampleEnv (-1) (-1) (labelOf [sampleArray])).isSome = true ∧
      Open sampleEnv (-1) (-1) (labelOf [sampleArray, overflowArray]) = none :=
  ⟨by rfl,
    overflow_aborts_open sampleEnv (-1) (-1) (labelOf [sampleArray, overflowArray]) []
      [] { file_name := some "image.dat", children := [sampleArray, overflowArray] }
      [sampleArray] [] overflowArray "image.dat" rfl rfl rfl (Or.inl (by decide))
      (by decide) (Or.inl (by decide)) overflowArray_overflow⟩

/-- Counterexample to claim C6 as stated.  In a label holding the overflowing array
`overflowArray` followed by the valid array `sampleArray`, `Open` does not skip the first
and open the second: it returns no dataset, although the valid array alone opens. -/
theorem overflow_is_not_skipped :
    resolveArray sampleEnv (arrayDim overflowArray) overflowArray = .overflow ∧
      (Open sampleEnv (-1) (-1) (labelOf [sampleArray])).isSome = true ∧
      Open sampleEnv (-1) (-1) (labelOf [overflowArray, sampleArray]) = none :=
  ⟨by rfl, by rfl, by rfl⟩

/-- Claim C6, as the code has it.  An array whose stride computation overflows is not
skipped: the array loop stops at it and `Open` returns no dataset, whatever arrays follow.
The arrays that are skipped, the loop going on with the next array, are those that an
earlier check rejects. -/
theorem overflow_stops_discovery {D : Type} (env : Env D) (node : ArrayNode)
    (hdim : arrayDim node ≠ 0) :
    (resolveArray env (arrayDim node) node = .overflow →
      ∀ rest : List ArrayNode, Open env (-1) (-1) (labelOf (node :: rest)) = none) ∧
    (resolveArray env (arrayDim node) node = .skip →
      ∀ (rest : List ArrayNode) (st : OpenState D) (b : Bool) (k : Int) (fn : String),
        openArrays env b k fn st (node :: rest) =
          openArrays env b k fn { st with nArrayIdx := st.nArrayIdx + 1 } rest) := by
  constructor
  · intro hov rest
    unfold Open labelOf
    simp only [openAreas, openArea, OpenState.init]
    rw [if_pos (Or.inl (by decide))]
    have := openArrays_overflow env
      (EQUAL ({ areas := [{ file_name := some "image.dat", children := node :: rest }] } :
        Label).vertical_display_direction "Bottom to Top") (-1) "image.dat" [] rest node hdim hov
      { poDS :=
          { nRasterXSize := 512, nRasterYSize := 512, bands := [], m_osImageFilename := none,
            INTERLEAVE := none, SUBDATASETS := [] }
        aosSubdatasets := []
        nFAOIdx := 0 + 1
        nArrayIdx := 0 } (Or.inl (by decide))
    simp only [List.nil_append] at this
    rw [this]
  · intro hskip rest st b k fn
    simp only [openArrays]
    have : openArray env b k fn st node = some { st with nArrayIdx := st.nArrayIdx + 1 } := by
      unfold openArray
      simp only [hdim, if_false, hskip]
      split <;> rfl
    rw [this]

theorem overflow_stops_discovery_witness :
    arrayDim overflowArray ≠ 0 ∧
      Open sampleEnv (-1) (-1) (labelOf [overflowArray, sampleArray, sampleArray]) = none :=
  ⟨by decide,
    (overflow_stops_discovery sampleEnv overflowArray (by decide)).1 overflowArray_overflow
      [sampleArray, sampleArray]⟩

/-! ## From the dataset back to the array -/

theorem filterMap_map_eq {α β : Type} (f : α → β) (l : List (Option α)) :
    l.filterMap (fun t => t.map f) = (l.filterMap id).map f := by
  induction l with
  | nil => rfl
  | cons t rest ih =>
    cases t with
    | none => simpa [List.filterMap_cons] using ih
    | some v => simp [List.filterMap_cons, ih]

theorem filterMap_id_cons {α : Type} (t : Option α) (l : List (Option α)) :
    (t :: l).filterMap id = t.toList ++ l.filterMap id := by
  cases t <;> simp [List.filterMap_cons]

theorem noDataOf_isSome {D : Type} (env : Env D) (psSC : Option SpecialConstants) :
    (noDataOf env psSC).isSome = missingDeclared psSC := by
  cases psSC with
  | none => rfl
  | some sc =>
    simp only [noDataOf, missingDeclared]
    cases sc.missing_constant <;> rfl

/-- The no-data value, when set, is one of the candidate constants. -/
theorem noDataOf_mem_constantsOf {D : Type} (env : Env D) (psSC : Option SpecialConstants)
    (v : D) (h : noDataOf env psSC = some v) : v ∈ constantsOf env psSC := by
  cases psSC with
  | none => exact absurd h (by simp [noDataOf])
  | some sc =>
    simp only [noDataOf] at h
    simp only [constantsOf]
    apply List.mem_filterMap.mpr
    refine ⟨sc.missing_constant, ?_, h⟩
    simp [constantTexts]

/-- Claim C10.  For a resolved array, the candidate list `adfConstants` holds exactly the
values of the named constants that the `Special_Constants` element declares, in the order
saturated, missing, error, invalid, unknown, not applicable, high instrument saturation, high
representation saturation, low instrument saturation, low representation saturation (and is
empty when the element is absent); the no-data flag is set exactly when `missing_constant`
is declared, the no-data value is then the value of that constant, and it is an element of
the candidate list. -/
theorem candidates_follow_table_order {D : Type} (env : Env D) (nDIM : Int) (a : ArrayNode)
    (r : ArrayLayout D) (h : resolveArray env nDIM a = .found r) :
    (a.Special_Constants = none → r.adfConstants = [] ∧ r.noData = none) ∧
    (∀ sc, a.Special_Constants = some sc →
      r.adfConstants =
        (sc.saturated_constant.toList ++ sc.missing_constant.toList ++
          sc.error_constant.toList ++ sc.invalid_constant.toList ++
          sc.unknown_constant.toList ++ sc.not_applicable_constant.toList ++
          sc.high_instrument_saturation.toList ++ sc.high_representation_saturation.toList ++
          sc.low_instrument_saturation.toList ++
          sc.low_representation_saturation.toList).map env.CPLAtof ∧
      r.noData = sc.missing_constant.map env.CPLAtof) ∧
    (r.noData.isSome = true ↔
      ∃ sc, a.Special_Constants = some sc ∧ sc.missing_constant.isSome = true) ∧
    (∀ v, r.noData = some v → v ∈ r.adfConstants) := by
  obtain ⟨_, _, _, _, _, _, _, _, _, _, _, _, _, _, _, hnd, hc⟩ := resolveArray_found env nDIM a r h
  refine ⟨?_, ?_, ?_, ?_⟩
  · intro hnone
    rw [hnd, hc, hnone]
    exact ⟨rfl, rfl⟩
  · intro sc hsc
    rw [hnd, hc, hsc]
    refine ⟨?_, rfl⟩
    simp only [constantsOf]
    rw [filterMap_map_eq]
    congr 1
    simp only [constantTexts, filterMap_id_cons, List.filterMap_nil, List.append_nil,
      List.append_assoc]
  · rw [hnd, noDataOf_isSome]
    cases hsc : a.Special_Constants with
    | none => simp [missingDeclared]
    | some sc => simp [missingDeclared]
  · intro v hv
    rw [hc]
    rw [hnd] at hv
    exact noDataOf_mem_constantsOf env _ v hv

theorem candidates_follow_table_order_witness :
    resolveArray sampleEnv 3 sampleArray = .found sampleLayout ∧
      sampleLayout.adfConstants = ["255", "0"] ∧
      ∀ v, sampleLayout.noData = some v → v ∈ sampleLayout.adfConstants :=
  ⟨sampleArray_found, rfl,
    (candidates_follow_table_order sampleEnv 3 sampleArray sampleLayout sampleArray_found).2.2.2⟩

/-- The mask test of the band loop, spelled out. -/
theorem wantsMask_iff {D : Type} (env : Env D) (r : ArrayLayout D) :
    wantsMask env r = true ↔
      GDALDataTypeIsComplex r.eDT = false ∧
        (env.PDS4_FORCE_MASK = true ∨ 2 ≤ r.adfConstants.length ∨
          (r.adfConstants.length = 1 ∧ r.noData = none)) := by
  unfold wantsMask
  cases hc : GDALDataTypeIsComplex r.eDT <;> cases hf : env.PDS4_FORCE_MASK <;>
    cases hn : r.noData <;> simp

theorem makeBand_mask {D : Type} (env : Env D) (b : Bool) (r : ArrayLayout D) (i : Int) :
    ((makeBand env b r i).maskBand.isSome = true ↔ wantsMask env r = true) ∧
    (wantsMask env r = true → (makeBand env b r i).maskBand = some r.adfConstants) ∧
    (wantsMask env r = false → (makeBand env b r i).maskBand = none) := by
  simp only [makeBand]
  cases wantsMask env r <;> simp

/-- Counterexample to claim C8 as stated.  With the override `PDS4_FORCE_MASK` on, the
band that `Open` creates for the complex array `complexArray` has no mask band. -/
theorem override_gives_no_mask_to_complex_array :
    forceEnv.PDS4_FORCE_MASK = true ∧
      (Open forceEnv (-1) (-1) (labelOf [complexArray])).map
        (fun ds => ds.bands.map (fun b => (b.eDataType, b.maskBand))) =
        some [(GDT_CFloat32, none)] :=
  ⟨rfl, by rfl⟩

/-- Claim C8, as the code has it.  The band of a resolved array gets a mask band exactly
when the array is not of a complex type and the override is on, or the candidate list has
at least two entries, or it has exactly one entry and that entry is not the no-data value.
With the override on every non-complex array gets a mask band (over its candidate list),
whatever the number of constants, and a complex array never gets one. -/
theorem mask_iff_not_complex_and_policy {D : Type} (env : Env D) (nDIM : Int) (a : ArrayNode)
    (r : ArrayLayout D) (b : Bool) (i : Int) (h : resolveArray env nDIM a = .found r) :
    ((makeBand env b r i).maskBand.isSome = true ↔
      GDALDataTypeIsComplex r.eDT = false ∧
        (env.PDS4_FORCE_MASK = true ∨ 2 ≤ r.adfConstants.length ∨
          (r.adfConstants.length = 1 ∧ ∀ v, r.noData = some v → v ∉ r.adfConstants))) ∧
    (GDALDataTypeIsComplex r.eDT = true → (makeBand env b r i).maskBand = none) ∧
    (env.PDS4_FORCE_MASK = true → GDALDataTypeIsComplex r.eDT = false →
      (makeBand env b r i).maskBand = some r.adfConstants) := by
  obtain ⟨_, _, _, _, _, _, _, _, _, _, _, _, _, _, _, hnd, hc⟩ := resolveArray_found env nDIM a r h
  have hmem : ∀ v, r.noData = some v → v ∈ r.adfConstants := by
    intro v hv
    rw [hc]
    rw [hnd] at hv
    exact noDataOf_mem_constantsOf env _ v hv
  have hnone : r.noData = none ↔ ∀ v, r.noData = some v → v ∉ r.adfConstants := by
    constructor
    · intro h0 v hv
      rw [h0] at hv
      exact absurd hv (by simp)
    · intro hall
      cases hn : r.noData with
      | none => rfl
      | some v => exact absurd (hmem v hn) (hall v hn)
  obtain ⟨m1, m2, m3⟩ := makeBand_mask env b r i
  have hw := wantsMask_iff env r
  refine ⟨?_, ?_, ?_⟩
  · rw [m1, hw, hnone]
  · intro hcx
    apply m3
    cases hwm : wantsMask env r with
    | false => rfl
    | true =>
      have := (hw.mp hwm).1
      rw [hcx] at this
      exact absurd this (by simp)
  · intro hf hcx
    exact m2 (hw.mpr ⟨hcx, Or.inl hf⟩)

theorem mask_iff_not_complex_and_policy_witness :
    resolveArray sampleEnv 3 sampleArray = .found sampleLayout ∧
      (makeBand sampleEnv false sampleLayout 0).maskBand.isSome = true :=
  ⟨sampleArray_found,
    (mask_iff_not_complex_and_policy sampleEnv 3 sampleArray sampleLayout false 0
      sampleArray_found).1.mpr ⟨rfl, Or.inr (Or.inl (by decide))⟩⟩

/-! ## `FillMask` -/

/-- A loop over `0, ..., m-1` whose body overwrites the entries selected by `P y` with a value
that depends on the index only: afterwards the selected entries hold that value and the
others are unchanged. -/
theorem foldl_range_overwrite (P : Nat → Int → Prop) (w : Int → Nat)
    (F : (Int → Nat) → Nat → (Int → Nat))
    (hF1 : ∀ d y j, P y j → F d y j = w j) (hF2 : ∀ d y j, ¬P y j → F d y j = d j)
    (m : Nat) (dst : Int → Nat) :
    (∀ j, (∃ y, y < m ∧ P y j) → (List.range m).foldl F dst j = w j) ∧
    (∀ j, (¬∃ y, y < m ∧ P y j) → (List.range m).foldl F dst j = dst j) := by
  induction m with
  | zero =>
    constructor
    · rintro j ⟨y, hy, _⟩
      omega
    · intro j _
      rfl
  | succ n ih =>
    obtain ⟨ih1, ih2⟩ := ih
    rw [List.range_succ, List.foldl_append]
    simp only [List.foldl_cons, List.foldl_nil]
    constructor
    · rintro j ⟨y, hy, hP⟩
      by_cases hn : P n j
      · exact hF1 _ n j hn
      · rw [hF2 _ n j hn]
        apply ih1
        refine ⟨y, ?_, hP⟩
        by_contra hge
        have : y = n := by omega
        subst this
        exact hn hP
    · intro j hno
      have hn : ¬P n j := fun hP => hno ⟨n, by omega, hP⟩
      rw [hF2 _ n j hn]
      apply ih2
      rintro ⟨y, hy, hP⟩
      exact hno ⟨y, by omega, hP⟩

/-- The two loops of `FillMask`: every index `y*nBlockXSize + x` of the requested window
receives the mask value of the sample at that index, every other index keeps its byte. -/
theorem FillMask_spec {D T : Type} (eq : T → T → Bool) (GDALCopyWord : D → T)
    (pSrc : Int → T) (pabyDst : Int → Nat) (nReqXSize nReqYSize nBlockXSize : Int)
    (adfConstants : List D) :
    (∀ j, (∃ y : Nat, y < nReqYSize.toNat ∧
        ∃ x : Nat, x < nReqXSize.toNat ∧ j = (y : Int) * nBlockXSize + (x : Int)) →
      FillMask eq GDALCopyWord pSrc pabyDst nReqXSize nReqYSize nBlockXSize adfConstants j =
        maskValue eq GDALCopyWord adfConstants (pSrc j)) ∧
    (∀ j, (¬∃ y : Nat, y < nReqYSize.toNat ∧
        ∃ x : Nat, x < nReqXSize.toNat ∧ j = (y : Int) * nBlockXSize + (x : Int)) →
      FillMask eq GDALCopyWord pSrc pabyDst nReqXSize nReqYSize nBlockXSize adfConstants j =
        pabyDst j) := by
  unfold FillMask
  simp only
  have inner : ∀ (y : Nat) (d : Int → Nat),
      (∀ j, (∃ x : Nat, x < nReqXSize.toNat ∧ j = (y : Int) * nBlockXSize + (x : Int)) →
        (List.range nReqXSize.toNat).foldl
          (fun (dst : Int → Nat) (x : Nat) =>
            if (adfConstants.map GDALCopyWord).any
                (fun c => eq c (pSrc ((y : Int) * nBlockXSize + (x : Int)))) then
              Function.update dst ((y : Int) * nBlockXSize + (x : Int)) 0
            else
              Function.update dst ((y : Int) * nBlockXSize + (x : Int)) 255) d j =
          maskValue eq GDALCopyWord adfConstants (pSrc j)) ∧
      (∀ j, (¬∃ x : Nat, x < nReqXSize.toNat ∧ j = (y : Int) * nBlockXSize + (x : Int)) →
        (List.range nReqXSize.toNat).foldl
          (fun (dst : Int → Nat) (x : Nat) =>
            if (adfConstants.map GDALCopyWord).any
                (fun c => eq c (pSrc ((y : Int) * nBlockXSize + (x : Int)))) then
              Function.update dst ((y : Int) * nBlockXSize + (x : Int)) 0
            else
              Function.update dst ((y : Int) * nBlockXSize + (x : Int)) 255) d j = d j) := by
    intro y d
    apply foldl_range_overwrite (fun (x : Nat) (j : Int) => j = (y : Int) * nBlockXSize + (x : Int))
    · intro d1 x j hj
      subst hj
      unfold maskValue
      split <;> simp
    · intro d1 x j hj
      split <;> exact Function.update_noteq hj _ _
  apply foldl_range_overwrite
    (fun (y : Nat) (j : Int) =>
      ∃ x : Nat, x < nReqXSize.toNat ∧ j = (y : Int) * nBlockXSize + (x : Int))
  · intro d y j hj
    exact (inner y d).1 j hj
  · intro d y j hj
    exact (inner y d).2 j hj

/-- Claim C9.  For every pixel `(x, y)` of the requested window, `FillMask` leaves at index
`y*nBlockXSize + x` the byte 0 if the source sample at that index compares equal to one of
the candidate constants converted to the sample type, and the byte 255 otherwise: a sample
is marked invalid only when it equals one of the (converted) constants. -/
theorem FillMask_marks_exactly_the_constants {D T : Type} (eq : T → T → Bool)
    (GDALCopyWord : D → T) (pSrc : Int → T) (pabyDst : Int → Nat)
    (nReqXSize nReqYSize nBlockXSize : Int) (adfConstants : List D) (x y : Int)
    (hx0 : 0 ≤ x) (hx : x < nReqXSize) (hy0 : 0 ≤ y) (hy : y < nReqYSize) :
    (FillMask eq GDALCopyWord pSrc pabyDst nReqXSize nReqYSize nBlockXSize adfConstants
        (y * nBlockXSize + x) = 0 ↔
      ∃ c ∈ adfConstants, eq (GDALCopyWord c) (pSrc (y * nBlockXSize + x)) = true) ∧
    (FillMask eq GDALCopyWord pSrc pabyDst nReqXSize nReqYSize nBlockXSize adfConstants
        (y * nBlockXSize + x) = 255 ↔
      ¬∃ c ∈ adfConstants, eq (GDALCopyWord c) (pSrc (y * nBlockXSize + x)) = true) := by
  have hmem : ∃ y1 : Nat, y1 < nReqYSize.toNat ∧ ∃ x1 : Nat, x1 < nReqXSize.toNat ∧
      y * nBlockXSize + x = (y1 : Int) * nBlockXSize + (x1 : Int) :=
    ⟨y.toNat, by omega, x.toNat, by omega, by
      rw [Int.toNat_of_nonneg hy0, Int.toNat_of_nonneg hx0]⟩
  rw [(FillMask_spec eq GDALCopyWord pSrc pabyDst nReqXSize nReqYSize nBlockXSize
    adfConstants).1 _ hmem]
  unfold maskValue
  have hany : (adfConstants.map GDALCopyWord).any
      (fun c => eq c (pSrc (y * nBlockXSize + x))) = true ↔
      ∃ c ∈ adfConstants, eq (GDALCopyWord c) (pSrc (y * nBlockXSize + x)) = true := by
    simp [List.any_eq_true]
  constructor
  · split
    · rename_i h
      simp only [true_iff]
      exact hany.mp h
    · rename_i h
      simp only [show ¬((255 : Nat) = 0) by decide, false_iff]
      exact fun hex => h (hany.mpr hex)
  · split
    · rename_i h
      simp only [show ¬((0 : Nat) = 255) by decide, false_iff, not_not]
      exact hany.mp h
    · rename_i h
      simp only [true_iff]
      exact fun hex => h (hany.mpr hex)

theorem FillMask_marks_exactly_the_constants_witness :
    ((0 : Int) ≤ 1 ∧ (1 : Int) < 2 ∧ (0 : Int) ≤ 0 ∧ (0 : Int) < 2) ∧
      FillMask (fun a b : Int => decide (a = b)) (fun c : Int => c) (fun j : Int => j)
        (fun _ => 9) 2 2 2 [1] (0 * 2 + 1) = 0 :=
  ⟨by decide,
    (FillMask_marks_exactly_the_constants (fun a b : Int => decide (a = b)) (fun c : Int => c)
      (fun j : Int => j) (fun _ => 9) 2 2 2 [1] 1 0 (by decide) (by decide) (by decide)
      (by decide)).1.mpr ⟨1, by simp, by decide⟩⟩

/-! ## The data-type mapper -/

theorem EQUAL_congr {s t : String} (h : EQUAL s t = true) (u : String) :
    EQUAL s u = EQUAL t u := by
  unfold EQUAL at h ⊢
  have := eq_of_beq h
  rw [this]

/-- The mapper sees a tag only through case-insensitive comparison. -/
theorem dataTypeOf_congr {s t : String} (h : EQUAL s t = true) :
    dataTypeOf s = dataTypeOf t := by
  unfold dataTypeOf
  simp only [EQUAL_congr h]

/-- A tag that matches no tag of the supported vocabulary is unhandled. -/
theorem dataTypeOf_none (s : String)
    (h : ∀ e ∈ supportedTags, EQUAL s e.1 = false) : dataTypeOf s = none := by
  have m : ∀ (t : String) (dt : GDALDataType) (n : Int) (b : Bool),
      (t, dt, n, b) ∈ supportedTags → EQUAL s t = false := fun t dt n b hm => h _ hm
  unfold dataTypeOf
  simp [m "ComplexLSB16" GDT_CFloat64 16 false (by simp [supportedTags]),
    m "ComplexMSB16" GDT_CFloat64 16 false (by simp [supportedTags]),
    m "ComplexLSB8" GDT_CFloat32 8 false (by simp [supportedTags]),
    m "ComplexMSB8" GDT_CFloat32 8 false (by simp [supportedTags]),
    m "IEEE754LSBDouble" GDT_Float64 8 false (by simp [supportedTags]),
    m "IEEE754MSBDouble" GDT_Float64 8 false (by simp [supportedTags]),
    m "IEEE754LSBSingle" GDT_Float32 4 false (by simp [supportedTags]),
    m "IEEE754MSBSingle" GDT_Float32 4 false (by simp [supportedTags]),
    m "SignedLSB2" GDT_Int16 2 false (by simp [supportedTags]),
    m "SignedMSB2" GDT_Int16 2 false (by simp [supportedTags]),
    m "SignedLSB4" GDT_Int32 4 false (by simp [supportedTags]),
    m "SignedMSB4" GDT_Int32 4 false (by simp [supportedTags]),
    m "UnsignedLSB2" GDT_UInt16 2 false (by simp [supportedTags]),
    m "UnsignedMSB2" GDT_UInt16 2 false (by simp [supportedTags]),
    m "UnsignedLSB4" GDT_UInt32 4 false (by simp [supportedTags]),
    m "UnsignedMSB4" GDT_UInt32 4 false (by simp [supportedTags]),
    m "UnsignedByte" GDT_Byte 1 false (by simp [supportedTags]),
    m "SignedByte" GDT_Byte 1 true (by simp [supportedTags])]

/-- The signed-byte flag comes from the `SignedByte` branch only. -/
theorem dataTypeOf_signed (s : String) (dt : GDALDataType)
    (h : dataTypeOf s = some (dt, true)) : EQUAL s "SignedByte" = true := by
  unfold dataTypeOf at h
  repeat' split at h
  all_goals first
    | assumption
    | (exfalso; simp at h)

/-- Claim C13.  The data-type mapper of `Open` sends every tag that matches, without regard
to case, a tag of the supported vocabulary to the element type and signed-byte flag listed
for that tag, and the element type has the listed number of bytes per element; the
signed-byte flag is set for tags matching `SignedByte` and for no other tag, and it is the
flag that the bands of a resolved array carry. -/
theorem data_type_mapper_follows_table :
    (∀ (s : String), ∀ e ∈ supportedTags, EQUAL s e.1 = true →
      dataTypeOf s = some (e.2.1, e.2.2.2) ∧ GDALGetDataTypeSizeBytes e.2.1 = e.2.2.1) ∧
    (∀ (s : String) (dt : GDALDataType),
      dataTypeOf s = some (dt, true) ↔ (EQUAL s "SignedByte" = true ∧ dt = GDT_Byte)) ∧
    (∀ (D : Type) (env : Env D) (nDIM : Int) (a : ArrayNode) (r : ArrayLayout D)
      (b : Bool) (i : Int), resolveArray env nDIM a = .found r →
      dataTypeOf (a.data_type.getD "") = some (r.eDT, r.bSignedByte) ∧
      (makeBand env b r i).eDataType = r.eDT ∧
      (makeBand env b r i).bSignedByte = r.bSignedByte) := by
  refine ⟨?_, ?_, ?_⟩
  · intro s e he heq
    rw [dataTypeOf_congr heq]
    simp only [supportedTags, List.mem_cons, List.mem_singleton, List.not_mem_nil,
      or_false] at he
    rcases he with h | h | h | h | h | h | h | h | h | h | h | h | h | h | h | h | h | h <;>
      subst h <;> exact ⟨by rfl, by rfl⟩
  · intro s dt
    constructor
    · intro h
      have hs := dataTypeOf_signed s dt h
      refine ⟨hs, ?_⟩
      rw [dataTypeOf_congr hs] at h
      have h2 : dataTypeOf "SignedByte" = some (GDT_Byte, true) := by rfl
      rw [h2] at h
      exact ((Prod.mk.inj (Option.some.inj h)).1).symm
    · rintro ⟨hs, hdt⟩
      rw [dataTypeOf_congr hs, hdt]
      rfl
  · intro D env nDIM a r b i h
    obtain ⟨_, ⟨bs, hdt, hbs⟩, _⟩ := resolveArray_found env nDIM a r h
    refine ⟨by rw [hdt, hbs], rfl, rfl⟩

theorem data_type_mapper_follows_table_witness :
    EQUAL "signedbyte" "SignedByte" = true ∧
      dataTypeOf "signedbyte" = some (GDT_Byte, true) ∧ GDALGetDataTypeSizeBytes GDT_Byte = 1 :=
  ⟨by decide,
    data_type_mapper_follows_table.1 "signedbyte" ("SignedByte", GDT_Byte, 1, true)
      (by simp [supportedTags]) (by decide)⟩

/-- An array that a check before the stride loop rejects only advances the array index. -/
theorem openArray_skip {D : Type} (env : Env D) (b : Bool) (k : Int) (fn : String)
    (st : OpenState D) (a : ArrayNode) (hdim : arrayDim a ≠ 0)
    (hskip : resolveArray env (arrayDim a) a = .skip) :
    openArray env b k fn st a = some { st with nArrayIdx := st.nArrayIdx + 1 } := by
  unfold openArray
  simp only [hdim, if_false, hskip]
  split <;> rfl

theorem resolveArray_skip_of_tag {D : Type} (env : Env D) (nDIM : Int) (a : ArrayNode)
    (h : dataTypeOf (a.data_type.getD "") = none) : resolveArray env nDIM a = .skip := by
  unfold resolveArray
  split
  · rfl
  · simp only [h]

/-- Claim C14.  A `data_type` tag that matches no tag of the supported vocabulary, such as
the 64-bit integer tags, the bit strings and the empty tag, makes the array loop skip the
array: the stride loop is not reached, the loop goes on with the next array in a state that
differs only by the array index (no band, no subdataset entry), and it does not return. -/
theorem unsupported_tag_skips_array_only {D : Type} (env : Env D) (a : ArrayNode)
    (hdim : arrayDim a ≠ 0)
    (hvoc : ∀ e ∈ supportedTags, EQUAL (a.data_type.getD "") e.1 = false) :
    dataTypeOf (a.data_type.getD "") = none ∧
    resolveArray env (arrayDim a) a = .skip ∧
    (∀ (st : OpenState D) (b : Bool) (k : Int) (fn : String),
      openArray env b k fn st a = some { st with nArrayIdx := st.nArrayIdx + 1 }) ∧
    (∀ (st : OpenState D) (b : Bool) (k : Int) (fn : String) (rest : List ArrayNode),
      openArrays env b k fn st (a :: rest) =
        openArrays env b k fn { st with nArrayIdx := st.nArrayIdx + 1 } rest) ∧
    (∀ t ∈ unsupportedTags, ∀ e ∈ supportedTags, EQUAL t e.1 = false) := by
  have h1 := dataTypeOf_none _ hvoc
  have h2 := resolveArray_skip_of_tag env (arrayDim a) a h1
  refine ⟨h1, h2, fun st b k fn => openArray_skip env b k fn st a hdim h2, ?_, ?_⟩
  · intro st b k fn rest
    simp only [openArrays, openArray_skip env b k fn st a hdim h2]
  · decide

theorem unsupported_tag_skips_array_only_witness :
    arrayDim int64Array ≠ 0 ∧
      (∀ e ∈ supportedTags, EQUAL (int64Array.data_type.getD "") e.1 = false) ∧
      openArrays sampleEnv false (-1) "image.dat" (OpenState.init String)
          [int64Array, sampleArray] =
        openArrays sampleEnv false (-1) "image.dat"
          { OpenState.init String with nArrayIdx := (OpenState.init String).nArrayIdx + 1 }
          [sampleArray] ∧
      Open sampleEnv (-1) (-1) (labelOf [int64Array, sampleArray]) = some sampleDataset :=
  ⟨by decide, by decide,
    (unsupported_tag_skips_array_only sampleEnv int64Array (by decide) (by decide)).2.2.2.1
      (OpenState.init String) false (-1) "image.dat" [sampleArray], by rfl⟩

/-! ## Subdataset candidates -/

/-- A resolved array adds one subdataset entry, named with the current container index and
its own array index. -/
theorem openArray_found {D : Type} (env : Env D) (b : Bool) (k : Int) (fn : String)
    (st : OpenState D) (a : ArrayNode) (r : ArrayLayout D) (hdim : arrayDim a ≠ 0)
    (hsel : k ≤ 0 ∨ st.nArrayIdx + 1 = k)
    (h : resolveArray env (arrayDim a) a = .found r) :
    ∃ st1, openArray env b k fn st a = some st1 ∧ st1.nArrayIdx = st.nArrayIdx + 1 ∧
      st1.nFAOIdx = st.nFAOIdx ∧
      st1.aosSubdatasets = st.aosSubdatasets ++
        [{ nSDSIdx := 1 + (st.aosSubdatasets.length : Int), nFAOIdx := st.nFAOIdx,
           nArrayIdx := st.nArrayIdx + 1, pszFilename := fn,
           arrayLabel := a.name.orElse (fun _ => a.local_identifier) }] := by
  have hdiv : ((2 * st.aosSubdatasets.length : Nat) : Int) / 2 = st.aosSubdatasets.length := by
    push_cast
    omega
  unfold openArray
  simp only [hdim, if_false, h]
  rw [if_neg (by omega)]
  simp only [hdiv]
  split
  · exact ⟨_, rfl, rfl, rfl, rfl⟩
  · split
    · exact ⟨_, rfl, rfl, rfl, rfl⟩
    · exact ⟨_, rfl, rfl, rfl, rfl⟩

/-- Without array selector and without overflow, the array loop ends normally and has added
exactly the expected candidates. -/
theorem openArrays_listed {D : Type} (env : Env D) (b : Bool) (k : Int) (fn : String)
    (hk : k ≤ 0) (l : List ArrayNode) :
    (∀ a ∈ l, resolveArray env (arrayDim a) a ≠ .overflow) →
    ∀ st : OpenState D, ∃ st1, openArrays env b k fn st l = some st1 ∧
      st1.nFAOIdx = st.nFAOIdx ∧
      st1.aosSubdatasets = st.aosSubdatasets ++
        listedFrom env fn st.nFAOIdx l st.nArrayIdx st.aosSubdatasets.length := by
  induction l with
  | nil =>
    intro _ st
    exact ⟨st, rfl, rfl, by simp [listedFrom]⟩
  | cons a rest ih =>
    intro hno st
    have hrest : ∀ a1 ∈ rest, resolveArray env (arrayDim a1) a1 ≠ .overflow :=
      fun a1 h1 => hno a1 (List.mem_cons_of_mem _ h1)
    simp only [openArrays, listedFrom]
    by_cases hdim : arrayDim a = 0
    · have h0 : openArray env b k fn st a = some st := by
        unfold openArray
        simp only [hdim, if_true]
      rw [h0, if_pos hdim]
      exact ih hrest st
    · rw [if_neg hdim]
      cases hr : resolveArray env (arrayDim a) a with
      | overflow => exact absurd hr (hno a (List.mem_cons_self _ _))
      | skip =>
        rw [openArray_skip env b k fn st a hdim hr]
        exact ih hrest _
      | found r =>
        obtain ⟨st1, e1, e2, e3, e4⟩ := openArray_found env b k fn st a r hdim (Or.inl hk) hr
        rw [e1]
        obtain ⟨st2, f1, f2, f3⟩ := ih hrest st1
        refine ⟨st2, f1, by rw [f2, e3], ?_⟩
        rw [f3, e4, e3, e2]
        simp [List.append_assoc]

/-- The result of `Open`, called without selectors, on a label with one file area. -/
theorem Open_labelOf {D : Type} (env : Env D) (l : List ArrayNode)
    (hno : ∀ a ∈ l, resolveArray env (arrayDim a) a ≠ .overflow) :
    ∃ st : OpenState D,
      st.aosSubdatasets = listedFrom env "image.dat" 1 l 0 0 ∧
      Open env (-1) (-1) (labelOf l) =
        if 2 * st.aosSubdatasets.length > 2 then
          some { st.poDS with SUBDATASETS := st.aosSubdatasets }
        else if st.poDS.bands.length = 0 then none
        else some st.poDS := by
  obtain ⟨st, e1, _, e3⟩ := openArrays_listed env
    (EQUAL (labelOf l).vertical_display_direction "Bottom to Top") (-1) "image.dat"
    (by decide) l hno
    { poDS := (OpenState.init D).poDS, aosSubdatasets := [], nFAOIdx := 0 + 1, nArrayIdx := 0 }
  refine ⟨st, by simpa using e3, ?_⟩
  unfold Open
  simp only [labelOf, openAreas, openArea, OpenState.init] at e1 ⊢
  rw [if_pos (Or.inl (by decide)), e1]
  simp

theorem resolveArray_skip_of_order {D : Type} (env : Env D) (nDIM : Int) (a : ArrayNode)
    (h : EQUAL (a.axis_index_order.getD "") "Last Index Fastest" = false) :
    resolveArray env nDIM a = .skip := by
  unfold resolveArray
  simp [h]

/-- Counterexample to claim C15 as stated.  The axis order `LAST INDEX FASTEST` is another
string than `Last Index Fastest`, yet the array that declares it is not skipped: `Open`
creates its three bands from it, and among three arrays it is listed as a candidate like
the other two. -/
theorem capital_axis_order_is_not_skipped :
    shoutedArray.axis_index_order = some "LAST INDEX FASTEST" ∧
      "LAST INDEX FASTEST" ≠ "Last Index Fastest" ∧
      Open sampleEnv (-1) (-1) (labelOf [shoutedArray]) = some sampleDataset ∧
      (Open sampleEnv (-1) (-1) (labelOf [sampleArray, shoutedArray, sampleArray])).map
        (fun ds => ds.SUBDATASETS.map (fun s => (s.nSDSIdx, s.nFAOIdx, s.nArrayIdx))) =
        some [(1, 1, 1), (2, 1, 2), (3, 1, 3)] :=
  ⟨rfl, by decide, by rfl, by rfl⟩

/-- Claim C15, as the code has it.  An array whose `axis_index_order` differs from
`Last Index Fastest` even when case is disregarded is skipped and discovery continues.  For
a label with three arrays of which one has such an axis order and the two others resolve,
`Open` returns a dataset whose subdataset list holds exactly the two others, numbered 1 and
2, each with container index 1 and its own array index, the skipped array being counted. -/
theorem bad_axis_order_is_skipped {D : Type} (env : Env D) (bad g1 g2 : ArrayNode)
    (r1 r2 : ArrayLayout D)
    (hbad : EQUAL (bad.axis_index_order.getD "") "Last Index Fastest" = false)
    (hdb : arrayDim bad ≠ 0) (hd1 : arrayDim g1 ≠ 0) (hd2 : arrayDim g2 ≠ 0)
    (h1 : resolveArray env (arrayDim g1) g1 = .found r1)
    (h2 : resolveArray env (arrayDim g2) g2 = .found r2) :
    resolveArray env (arrayDim bad) bad = .skip ∧
    (∃ ds, Open env (-1) (-1) (labelOf [bad, g1, g2]) = some ds ∧
      ds.SUBDATASETS.map (fun s => (s.nSDSIdx, s.nFAOIdx, s.nArrayIdx)) =
        [(1, 1, 2), (2, 1, 3)]) ∧
    (∃ ds, Open env (-1) (-1) (labelOf [g1, bad, g2]) = some ds ∧
      ds.SUBDATASETS.map (fun s => (s.nSDSIdx, s.nFAOIdx, s.nArrayIdx)) =
        [(1, 1, 1), (2, 1, 3)]) ∧
    (∃ ds, Open env (-1) (-1) (labelOf [g1, g2, bad]) = some ds ∧
      ds.SUBDATASETS.map (fun s => (s.nSDSIdx, s.nFAOIdx, s.nArrayIdx)) =
        [(1, 1, 1), (2, 1, 2)]) := by
  have hs := resolveArray_skip_of_order env (arrayDim bad) bad hbad
  have hno : ∀ l : List ArrayNode, (∀ a ∈ l, a = bad ∨ a = g1 ∨ a = g2) →
      ∀ a ∈ l, resolveArray env (arrayDim a) a ≠ .overflow := by
    intro l hl a ha
    rcases hl a ha with h | h | h <;> subst h
    · rw [hs]; exact fun hh => ArrayOutcome.noConfusion hh
    · rw [h1]; exact fun hh => ArrayOutcome.noConfusion hh
    · rw [h2]; exact fun hh => ArrayOutcome.noConfusion hh
  refine ⟨hs, ?_, ?_, ?_⟩
  · obtain ⟨st, e1, e2⟩ := Open_labelOf env [bad, g1, g2] (hno _ (by simp))
    simp only [listedFrom, hdb, hd1, hd2, if_false, hs, h1, h2] at e1
    rw [e1] at e2
    exact ⟨_, e2, by simp⟩
  · obtain ⟨st, e1, e2⟩ := Open_labelOf env [g1, bad, g2] (hno _ (by simp))
    simp only [listedFrom, hdb, hd1, hd2, if_false, hs, h1, h2] at e1
    rw [e1] at e2
    exact ⟨_, e2, by simp⟩
  · obtain ⟨st, e1, e2⟩ := Open_labelOf env [g1, g2, bad] (hno _ (by simp))
    simp only [listedFrom, hdb, hd1, hd2, if_false, hs, h1, h2] at e1
    rw [e1] at e2
    exact ⟨_, e2, by simp⟩

theorem bad_axis_order_is_skipped_witness :
    EQUAL (firstFastestArray.axis_index_order.getD "") "Last Index Fastest" = false ∧
      resolveArray sampleEnv (arrayDim sampleArray) sampleArray = .found sampleLayout ∧
      ∃ ds, Open sampleEnv (-1) (-1) (labelOf [sampleArray, firstFastestArray, sampleArray]) =
          some ds ∧
        ds.SUBDATASETS.map (fun s => (s.nSDSIdx, s.nFAOIdx, s.nArrayIdx)) =
          [(1, 1, 1), (2, 1, 3)] :=
  ⟨by decide, sampleArray_found,
    (bad_axis_order_is_skipped sampleEnv firstFastestArray sampleArray sampleArray sampleLayout
      sampleLayout (by decide) (by decide) (by decide) (by decide) sampleArray_found
      sampleArray_found).2.2.1⟩

/-! ## Geotransform and unit converters -/

/-- Claim C11.  `SetGeoTransform` returns failure exactly when `gt[1] ≤ 0` or `gt[2] ≠ 0` or
`gt[4] ≠ 0` or `gt[5] ≥ 0`; a rejected call leaves the six stored coefficients and the flag
as they were; an accepted call stores the six coefficients passed and sets the flag, after
which `GetGeoTransform` hands out these coefficients. -/
theorem SetGeoTransform_accepts_north_up_only {D : Type} [LinearOrderedField D]
    (st : GeoState D) (gt : Fin 6 → D) (pam : CPLErr × (Fin 6 → D)) :
    ((SetGeoTransform st gt).1 = CE_Failure ↔
      (gt 1 ≤ 0 ∨ gt 2 ≠ 0 ∨ gt 4 ≠ 0 ∨ gt 5 ≥ 0)) ∧
    ((SetGeoTransform st gt).1 = CE_Failure → (SetGeoTransform st gt).2 = st) ∧
    ((SetGeoTransform st gt).1 ≠ CE_Failure →
      (SetGeoTransform st gt).1 = CE_None ∧
      (SetGeoTransform st gt).2.m_adfGeoTransform = gt ∧
      (SetGeoTransform st gt).2.m_bGotTransform = true ∧
      GetGeoTransform (SetGeoTransform st gt).2 pam = (CE_None, gt)) := by
  unfold SetGeoTransform
  by_cases h : gt 1 ≤ 0 ∨ gt 2 ≠ 0 ∨ gt 4 ≠ 0 ∨ gt 5 ≥ 0
  · rw [if_pos h]
    exact ⟨⟨fun _ => h, fun _ => rfl⟩, fun _ => rfl, fun hne => absurd rfl hne⟩
  · rw [if_neg h]
    refine ⟨⟨fun hf => ?_, fun hc => absurd hc h⟩, fun hf => ?_, fun _ => ⟨rfl, rfl, rfl, ?_⟩⟩
    · exact CPLErr.noConfusion hf
    · exact CPLErr.noConfusion hf
    · simp [GetGeoTransform]

theorem sampleTransform_north_up :
    ¬((![10, 2, 0, 20, 0, -2] : Fin 6 → ℚ) 1 ≤ 0 ∨ (![10, 2, 0, 20, 0, -2] : Fin 6 → ℚ) 2 ≠ 0 ∨
      (![10, 2, 0, 20, 0, -2] : Fin 6 → ℚ) 4 ≠ 0 ∨ (![10, 2, 0, 20, 0, -2] : Fin 6 → ℚ) 5 ≥ 0) := by
  show ¬((2 : ℚ) ≤ 0 ∨ (0 : ℚ) ≠ 0 ∨ (0 : ℚ) ≠ 0 ∨ (-2 : ℚ) ≥ 0)
  norm_num

theorem SetGeoTransform_accepts_north_up_only_witness :
    (SetGeoTransform (GeoState.init ℚ) ![10, 2, 0, 20, 0, -2]).1 = CE_None ∧
      (SetGeoTransform (GeoState.init ℚ) ![10, 2, 0, 20, 0, -2]).2.m_adfGeoTransform =
        ![10, 2, 0, 20, 0, -2] :=
  ⟨((SetGeoTransform_accepts_north_up_only (GeoState.init ℚ) ![10, 2, 0, 20, 0, -2]
      (CE_Failure, ![0, 0, 0, 0, 0, 0])).2.2
      (fun hf => sampleTransform_north_up
        ((SetGeoTransform_accepts_north_up_only (GeoState.init ℚ) ![10, 2, 0, 20, 0, -2]
          (CE_Failure, ![0, 0, 0, 0, 0, 0])).1.mp hf))).1,
    ((SetGeoTransform_accepts_north_up_only (GeoState.init ℚ) ![10, 2, 0, 20, 0, -2]
      (CE_Failure, ![0, 0, 0, 0, 0, 0])).2.2
      (fun hf => sampleTransform_north_up
        ((SetGeoTransform_accepts_north_up_only (GeoState.init ℚ) ![10, 2, 0, 20, 0, -2]
          (CE_Failure, ![0, 0, 0, 0, 0, 0])).1.mp hf))).2.1⟩

/-- Claim C12.  When both planar elements are present, the encoding method is
`Coordinate Pair` and the coordinate representation is present, `ReadGeoreferencing` stores
the transform `(ULX - xres/2, xres, 0, ULY + yres/2, 0, -yres)` and sets the flag, where
`xres`, `yres` are the pixel resolutions and `ULX`, `ULY` the upper-left pixel-centre
coordinates after unit conversion. -/
theorem ReadGeoreferencing_shifts_centre_to_corner {D : Type} [LinearOrderedField D]
    (CPLAtof : String → D) (st : GeoState D) (pci : PlanarCoordinateInformation)
    (gt : GeoTransformation) (psCR : CoordinateRepresentation)
    (hmethod : EQUAL (pci.planar_coordinate_encoding_method.getD "") "Coordinate Pair" = true)
    (hcr : pci.Coordinate_Representation = some psCR) :
    ReadGeoreferencing_transform CPLAtof st (some pci) (some gt) =
      { m_bGotTransform := true
        m_adfGeoTransform :=
          ![GetLinearValue CPLAtof gt.upperleft_corner_x -
              GetResolutionValue CPLAtof psCR.pixel_resolution_x / 2,
            GetResolutionValue CPLAtof psCR.pixel_resolution_x,
            0,
            GetLinearValue CPLAtof gt.upperleft_corner_y +
              GetResolutionValue CPLAtof psCR.pixel_resolution_y / 2,
            0,
            -GetResolutionValue CPLAtof psCR.pixel_resolution_y] } := by
  unfold ReadGeoreferencing_transform
  simp only [hmethod, hcr, Bool.not_true, Bool.false_eq_true, if_false]
  have e1 : ∀ x : D, (0.5 : D) * x = x / 2 := fun x => by ring
  have e2 : (0.0 : D) = 0 := by norm_num
  rw [e1, e1, e2]

theorem ReadGeoreferencing_shifts_centre_to_corner_witness :
    EQUAL (samplePCI.planar_coordinate_encoding_method.getD "") "Coordinate Pair" = true ∧
      samplePCI.Coordinate_Representation = some sampleCR ∧
      ReadGeoreferencing_transform sampleAtof (GeoState.init ℚ) (some samplePCI)
          (some sampleGT) =
        { m_bGotTransform := true
          m_adfGeoTransform :=
            ![GetLinearValue sampleAtof sampleGT.upperleft_corner_x -
                GetResolutionValue sampleAtof sampleCR.pixel_resolution_x / 2,
              GetResolutionValue sampleAtof sampleCR.pixel_resolution_x,
              0,
              GetLinearValue sampleAtof sampleGT.upperleft_corner_y +
                GetResolutionValue sampleAtof sampleCR.pixel_resolution_y / 2,
              0,
              -GetResolutionValue sampleAtof sampleCR.pixel_resolution_y] } :=
  ⟨by decide, rfl,
    ReadGeoreferencing_shifts_centre_to_corner sampleAtof (GeoState.init ℚ) samplePCI sampleGT
      sampleCR (by decide) rfl⟩

theorem applyUnit_congr {D : Type} [LinearOrderedField D] {u t : String}
    (h : EQUAL u t = true) (dfVal : D) (table : List (String × D)) :
    applyUnit u dfVal table = applyUnit t dfVal table := by
  induction table with
  | nil => rfl
  | cons e rest ih => simp only [applyUnit, EQUAL_congr h, ih]

/-- The converters see the unit only through case-insensitive comparison. -/
theorem convertValue_congr {D : Type} [LinearOrderedField D] (CPLAtof : String → D)
    (canonical : String) (table : List (String × D)) {u t : String}
    (h : EQUAL u t = true) (x : String) :
    convertValue CPLAtof canonical table { pszValue := x, unit := some u } =
      convertValue CPLAtof canonical table { pszValue := x, unit := some t } := by
  simp only [convertValue, EQUAL_congr h, applyUnit_congr h]

/-- Claim C19.  For a unit matching an entry of the specification's factor tables, each
converter returns the parsed value times the factor of that entry: to metres for
`GetLinearValue`, to metres per pixel for `GetResolutionValue`, to degrees for
`GetAngularValue`.  A value without unit, or with the canonical unit, is returned as parsed,
and a missing element yields 0. -/
theorem converters_multiply_by_table_factor {D : Type} [LinearOrderedField D]
    (CPLAtof : String → D) (M_PI : D) :
    (∀ e ∈ linearFactors D, ∀ u x : String, EQUAL u e.1 = true →
      GetLinearValue CPLAtof (some { pszValue := x, unit := some u }) = CPLAtof x * e.2) ∧
    (∀ e ∈ resolutionFactors D, ∀ u x : String, EQUAL u e.1 = true →
      GetResolutionValue CPLAtof (some { pszValue := x, unit := some u }) = CPLAtof x * e.2) ∧
    (∀ e ∈ angularFactors M_PI, ∀ u x : String, EQUAL u e.1 = true →
      GetAngularValue CPLAtof M_PI (some { pszValue := x, unit := some u }) =
        (CPLAtof x * e.2, true)) ∧
    (∀ x : String,
      GetLinearValue CPLAtof (some { pszValue := x, unit := none }) = CPLAtof x ∧
      GetResolutionValue CPLAtof (some { pszValue := x, unit := none }) = CPLAtof x ∧
      GetAngularValue CPLAtof M_PI (some { pszValue := x, unit := none }) = (CPLAtof x, true)) ∧
    (∀ u x : String,
      (EQUAL u "m" = true →
        GetLinearValue CPLAtof (some { pszValue := x, unit := some u }) = CPLAtof x) ∧
      (EQUAL u "m/pixel" = true →
        GetResolutionValue CPLAtof (some { pszValue := x, unit := some u }) = CPLAtof x) ∧
      (EQUAL u "deg" = true →
        GetAngularValue CPLAtof M_PI (some { pszValue := x, unit := some u }) =
          (CPLAtof x, true))) ∧
    (GetLinearValue CPLAtof none = 0 ∧ GetResolutionValue CPLAtof none = 0 ∧
      GetAngularValue CPLAtof M_PI none = (0, false)) := by
  have z : (0.0 : D) = 0 := by norm_num
  refine ⟨?_, ?_, ?_, ?_, ?_, ?_⟩
  · intro e he u x heq
    simp only [linearFactors, List.mem_cons, List.mem_singleton, List.not_mem_nil,
      or_false] at he
    simp only [GetLinearValue]
    rcases he with h | h | h | h | h | h | h <;> subst h <;>
      rw [convertValue_congr CPLAtof _ _ heq x]
    · show CPLAtof x * 149597870700.0 = _
      norm_num
    · show CPLAtof x * 1e-10 = _
      norm_num
    · show CPLAtof x * 1e-2 = _
      norm_num
    · show CPLAtof x * 1e3 = _
      norm_num
    · show CPLAtof x * 1e-6 = _
      norm_num
    · show CPLAtof x * 1e-3 = _
      norm_num
    · show CPLAtof x * 1e-9 = _
      norm_num
  · intro e he u x heq
    simp only [resolutionFactors, List.mem_cons, List.mem_singleton, List.not_mem_nil,
      or_false] at he
    simp only [GetResolutionValue]
    rcases he with h | h <;> subst h <;> rw [convertValue_congr CPLAtof _ _ heq x]
    · show CPLAtof x * 1e3 = _
      norm_num
    · show CPLAtof x * 1e-3 = _
      norm_num
  · intro e he u x heq
    simp only [angularFactors, List.mem_cons, List.mem_singleton, List.not_mem_nil,
      or_false] at he
    simp only [GetAngularValue]
    rcases he with h | h | h | h | h <;> subst h <;>
      rw [convertValue_congr CPLAtof _ _ heq x]
    · show (CPLAtof x * (1 / 60), true) = _
      rfl
    · show (CPLAtof x * (1 / 3600), true) = _
      rfl
    · show (CPLAtof x * 15.0, true) = _
      norm_num
    · show (CPLAtof x * (180.0 / M_PI / 1000), true) = _
      rw [div_div, mul_comm M_PI]
      norm_num
    · show (CPLAtof x * (180.0 / M_PI), true) = _
      norm_num
  · intro x
    exact ⟨rfl, rfl, rfl⟩
  · intro u x
    refine ⟨fun h => ?_, fun h => ?_, fun h => ?_⟩
    · simp [GetLinearValue, convertValue, h]
    · simp [GetResolutionValue, convertValue, h]
    · simp [GetAngularValue, convertValue, h]
  · simp only [GetLinearValue, GetResolutionValue, GetAngularValue]
    exact ⟨z, z, by rw [z]⟩

theorem converters_multiply_by_table_factor_witness :
    EQUAL "KM" "km" = true ∧
      GetLinearValue sampleAtof (some { pszValue := "20", unit := some "KM" }) =
        sampleAtof "20" * 10 ^ 3 :=
  ⟨by decide,
    (converters_multiply_by_table_factor sampleAtof (355 / 113)).1 ("km", 10 ^ 3)
      (by simp [linearFactors]) "KM" "20" (by decide)⟩

/-- Claim C20.  Converting a value with one of the linear units and handing the result back
with the unit `m` (as a text `y` that parses to the converted value) returns the converted
value unchanged; likewise for the angular units and the unit `deg`. -/
theorem conversion_is_idempotent_on_canonical {D : Type} [LinearOrderedField D]
    (CPLAtof : String → D) (M_PI : D) :
    (∀ e ∈ linearFactors D, ∀ (x y : String) (m : D),
      GetLinearValue CPLAtof (some { pszValue := x, unit := some e.1 }) = m →
      CPLAtof y = m →
      GetLinearValue CPLAtof (some { pszValue := y, unit := some "m" }) = m) ∧
    (∀ e ∈ angularFactors M_PI, ∀ (x y : String) (m : D),
      (GetAngularValue CPLAtof M_PI (some { pszValue := x, unit := some e.1 })).1 = m →
      CPLAtof y = m →
      GetAngularValue CPLAtof M_PI (some { pszValue := y, unit := some "deg" }) = (m, true)) := by
  constructor
  · intro e _ x y m _ hy
    rw [← hy]
    rfl
  · intro e _ x y m _ hy
    rw [← hy]
    rfl

theorem conversion_is_idempotent_on_canonical_witness :
    GetLinearValue sampleAtof (some { pszValue := "2", unit := some "km" }) = 2000 ∧
      sampleAtof "2000" = 2000 ∧
      GetLinearValue sampleAtof (some { pszValue := "2000", unit := some "m" }) = 2000 :=
  have h1 : GetLinearValue sampleAtof (some { pszValue := "2", unit := some "km" }) = 2000 := by
    show sampleAtof "2" * 1e3 = 2000
    have : sampleAtof "2" = 2 := by decide
    rw [this]
    norm_num
  have h2 : sampleAtof "2000" = 2000 := by decide
  ⟨h1, h2,
    (conversion_is_idempotent_on_canonical sampleAtof (355 / 113)).1 ("km", 10 ^ 3)
      (by simp [linearFactors]) "2" "2000" 2000 h1 h2⟩

/-! ## `replaceAll` -/

theorem replaceAllAux_fuel (before after : List Char) (hb : before ≠ []) :
    ∀ (f g : Nat) (s : List Char), s.length ≤ f → s.length ≤ g →
      replaceAllAux before after f s = replaceAllAux before after g s := by
  intro f
  induction f with
  | zero =>
    intro g s hf _
    have : s = [] := List.length_eq_zero.mp (by omega)
    subst this
    cases g <;> rfl
  | succ f ih =>
    intro g s hf hg
    cases s with
    | nil => cases g <;> rfl
    | cons c s1 =>
      cases g with
      | zero => simp at hg
      | succ g1 =>
        simp only [List.length_cons] at hf hg
        simp only [replaceAllAux]
        have hlen : 1 ≤ before.length := by
          cases before with
          | nil => exact absurd rfl hb
          | cons _ _ => simp
        have hd : ((c :: s1).drop before.length).length ≤ s1.length := by
          simp only [List.length_drop, List.length_cons]
          omega
        rw [ih g1 s1 (by omega) (by omega),
          ih g1 ((c :: s1).drop before.length) (by omega) (by omega)]

/-- The text after `CPLString::replaceAll`, as a function of the characters. -/
theorem replaceAll_data (s before after : String) (hb : before.data ≠ []) :
    (replaceAll s before after).data =
      replaceAllAux before.data after.data s.data.length s.data := by
  unfold replaceAll
  rw [if_neg hb]

theorem replaceAllAux_cons (before after : List Char) (hb : before ≠ []) (c : Char)
    (s : List Char) :
    replaceAllAux before after (c :: s).length (c :: s) =
      if before.isPrefixOf (c :: s) then
        after ++ replaceAllAux before after ((c :: s).drop before.length).length
          ((c :: s).drop before.length)
      else c :: replaceAllAux before after s.length s := by
  simp only [List.length_cons, replaceAllAux]
  have hlen : 1 ≤ before.length := by
    cases before with
    | nil => exact absurd rfl hb
    | cons _ _ => simp
  have hd : ((c :: s).drop before.length).length ≤ s.length := by
    simp only [List.length_drop, List.length_cons]
    omega
  rw [replaceAllAux_fuel before after hb s.length ((c :: s).drop before.length).length
    ((c :: s).drop before.length) hd (le_refl _)]

theorem occurs_cons (needle : List Char) (c : Char) (s : List Char) :
    occurs needle (c :: s) = (needle.isPrefixOf (c :: s) || occurs needle s) := by
  simp [occurs, List.tails]

/-- A text without occurrence of `before` is left as it is. -/
theorem replaceAllAux_of_not_occurs (before after : List Char) (hb : before ≠ []) :
    ∀ s : List Char, occurs before s = false →
      replaceAllAux before after s.length s = s := by
  intro s
  induction s with
  | nil => intro _; rfl
  | cons c s ih =>
    intro h
    rw [occurs_cons, Bool.or_eq_false_iff] at h
    rw [replaceAllAux_cons before after hb, if_neg (by simp [h.1]), ih h.2]

theorem replaceAll_of_not_strstr (s before after : String) (h : strstr s before = false) :
    replaceAll s before after = s := by
  unfold replaceAll
  split
  · rfl
  · rename_i hb
    have : replaceAllAux before.data after.data s.data.length s.data = s.data :=
      replaceAllAux_of_not_occurs before.data after.data hb s.data h
    rw [this]

/-- A needle that begins with a dollar sign and an opening brace occurs only where these two
characters occur. -/
theorem occurs_of_dollar_brace (tl s : List Char) (h : occurs ['$', '\x7b'] s = false) :
    occurs ('$' :: '\x7b' :: tl) s = false := by
  induction s with
  | nil => simp [occurs, List.tails, List.isPrefixOf]
  | cons c s ih =>
    rw [occurs_cons, Bool.or_eq_false_iff] at h ⊢
    refine ⟨?_, ih h.2⟩
    have h1 := h.1
    cases s with
    | nil => simp [List.isPrefixOf]
    | cons d s2 =>
      simp only [List.isPrefixOf, Bool.and_eq_false_iff, beq_eq_false_iff_ne, ne_eq,
        Bool.and_true] at h1 ⊢
      rcases h1 with h1 | h1
      · exact Or.inl h1
      · exact Or.inr (Or.inl h1)

theorem replaceAllAux_prefix (c : Char) (b after rest : List Char) :
    replaceAllAux (c :: b) after ((c :: b) ++ rest).length ((c :: b) ++ rest) =
      after ++ replaceAllAux (c :: b) after rest.length rest := by
  have hpre : (c :: b).isPrefixOf ((c :: b) ++ rest) = true :=
    List.isPrefixOf_iff_prefix.mpr (List.prefix_append _ _)
  have hdrop : ((c :: b) ++ rest).drop (c :: b).length = rest := List.drop_left _ _
  rw [show (c :: b) ++ rest = c :: (b ++ rest) from rfl] at hpre hdrop ⊢
  rw [replaceAllAux_cons _ _ (by simp), if_pos hpre, hdrop]

/-- In front of a placeholder, a piece without dollar-brace is copied and the placeholder is
replaced; the search then resumes behind it. -/
theorem replaceAllAux_piece (tl after : List Char) (rest : List Char) :
    ∀ p : List Char, occurs ['$', '\x7b'] p = false →
      replaceAllAux ('$' :: '\x7b' :: tl) after (p ++ ('$' :: '\x7b' :: tl) ++ rest).length
          (p ++ ('$' :: '\x7b' :: tl) ++ rest) =
        p ++ after ++ replaceAllAux ('$' :: '\x7b' :: tl) after rest.length rest := by
  intro p
  induction p with
  | nil =>
    intro _
    exact replaceAllAux_prefix '$' ('\x7b' :: tl) after rest
  | cons c p ih =>
    intro h
    rw [occurs_cons, Bool.or_eq_false_iff] at h
    have hne : ('$' :: '\x7b' :: tl) ≠ [] := by simp
    simp only [List.cons_append]
    rw [replaceAllAux_cons _ _ hne]
    have hpre : ('$' :: '\x7b' :: tl).isPrefixOf (c :: (p ++ '$' :: '\x7b' :: tl ++ rest)) =
        false := by
      have h1 := h.1
      cases p with
      | nil =>
        simp only [List.nil_append, List.cons_append, List.isPrefixOf, Bool.and_eq_false_iff,
          beq_eq_false_iff_ne, ne_eq]
        right; left
        decide
      | cons d p2 =>
        simp only [List.isPrefixOf, Bool.and_eq_false_iff, beq_eq_false_iff_ne, ne_eq,
          Bool.and_true, List.cons_append] at h1 ⊢
        rcases h1 with h1 | h1
        · exact Or.inl h1
        · exact Or.inr (Or.inl h1)
    rw [if_neg (by rw [hpre]; exact Bool.false_ne_true)]
    have := ih h.2
    simp only [List.cons_append, List.append_assoc] at this ⊢
    rw [this]

/-- Replacing the separator of a text whose pieces hold no dollar-brace replaces it at
every join and nowhere else. -/
theorem replaceAllAux_joinWith (tl after : List Char) :
    ∀ pieces : List (List Char), (∀ p ∈ pieces, occurs ['$', '\x7b'] p = false) →
      replaceAllAux ('$' :: '\x7b' :: tl) after (joinWith ('$' :: '\x7b' :: tl) pieces).length
          (joinWith ('$' :: '\x7b' :: tl) pieces) =
        joinWith after pieces := by
  intro pieces
  induction pieces with
  | nil => intro _; rfl
  | cons p rest ih =>
    intro h
    cases rest with
    | nil =>
      simp only [joinWith]
      exact replaceAllAux_of_not_occurs _ _ (by simp) p
        (occurs_of_dollar_brace tl p (h p (List.mem_cons_self _ _)))
    | cons q rest2 =>
      simp only [joinWith]
      rw [replaceAllAux_piece tl after _ p (h p (List.mem_cons_self _ _)),
        ih (fun x hx => h x (List.mem_cons_of_mem _ hx))]

/-! ## `SubstituteVariables` on a text -/

theorem placeholder_data (N : String) :
    (placeholder N).data = '$' :: '\x7b' :: (N.data ++ ['\x7d']) := by
  simp only [placeholder, String.data_append]
  rfl

theorem tolower_placeholder_data (N : String) :
    (tolower (placeholder N)).data =
      '$' :: '\x7b' :: ((N.data ++ ['\x7d']).map Char.toLower) := by
  simp only [tolower, placeholder_data, List.map_cons]
  rfl

theorem occurs_append_left (needle a t : List Char) (h : occurs needle t = true) :
    occurs needle (a ++ t) = true := by
  induction a with
  | nil => exact h
  | cons c a ih =>
    rw [List.cons_append, occurs_cons, ih]
    simp

theorem occurs_dollar_brace_joinWith (tl : List Char) (p q : List Char)
    (rest : List (List Char)) :
    occurs ['$', '\x7b'] (joinWith ('$' :: '\x7b' :: tl) (p :: q :: rest)) = true := by
  simp only [joinWith, List.append_assoc]
  apply occurs_append_left
  simp only [List.cons_append]
  rw [occurs_cons]
  simp [List.isPrefixOf]

/-- Entries whose key does not begin with `VAR_` leave the text alone. -/
theorem foldl_substituteEntry_other (l : List (String × String))
    (h : ∀ e ∈ l, STARTS_WITH_CI e.1 "VAR_" = false) (osVal : String) :
    l.foldl substituteEntry osVal = osVal := by
  induction l generalizing osVal with
  | nil => rfl
  | cons e rest ih =>
    simp only [List.foldl_cons]
    have he : substituteEntry osVal e = osVal := by
      unfold substituteEntry
      rw [if_neg (by rw [h e (List.mem_cons_self _ _)]; exact Bool.false_ne_true)]
    rw [he]
    exact ih (fun x hx => h x (List.mem_cons_of_mem _ hx)) osVal

theorem substituteEntry_var (osVal N v : String) :
    substituteEntry osVal ("VAR_" ++ N, v) =
      replaceAll (replaceAll osVal (placeholder N) v) (tolower (placeholder N)) (tolower v) := by
  have h1 : STARTS_WITH_CI ("VAR_" ++ N) "VAR_" = true := by
    unfold STARTS_WITH_CI
    rw [String.data_append, List.map_append]
    exact List.isPrefixOf_iff_prefix.mpr (List.prefix_append _ _)
  have h2 : (⟨("VAR_" ++ N).data.drop 4⟩ : String) = N := by
    rw [String.data_append]
    rfl
  unfold substituteEntry
  simp only [h1, if_true, h2]

theorem EQUAL_var_title (k : String) (h : EQUAL k "VAR_TITLE" = true) :
    STARTS_WITH_CI k "VAR_" = true := by
  unfold EQUAL at h
  unfold STARTS_WITH_CI
  rw [eq_of_beq h]
  decide

theorem CSLFetchNameValue_title (pre post : List (String × String)) (v : String)
    (hpre : ∀ e ∈ pre, STARTS_WITH_CI e.1 "VAR_" = false) :
    CSLFetchNameValue (pre ++ ("VAR_TITLE", v) :: post) "VAR_TITLE" = some v := by
  unfold CSLFetchNameValue
  induction pre with
  | nil =>
    have : EQUAL "VAR_TITLE" "VAR_TITLE" = true := by decide
    simp [List.find?, this]
  | cons e rest ih =>
    have hne : EQUAL e.1 "VAR_TITLE" = false := by
      cases hq : EQUAL e.1 "VAR_TITLE" with
      | false => rfl
      | true =>
        have := EQUAL_var_title e.1 hq
        rw [hpre e (List.mem_cons_self _ _)] at this
        exact absurd this (by simp)
    simp only [List.cons_append, List.find?, hne]
    exact ih (fun x hx => hpre x (List.mem_cons_of_mem _ hx))

theorem placeholder_data_ne (N : String) : (placeholder N).data ≠ [] := by
  rw [placeholder_data]
  exact List.cons_ne_nil _ _

theorem strstr_dollar_brace_of_title (s : String) (h : strstr s "${TITLE}" = true) :
    strstr s "$\x7b" = true := by
  cases hq : strstr s "$\x7b" with
  | true => rfl
  | false =>
    have h2 : occurs ['$', '\x7b'] s.data = false := hq
    have h3 := occurs_of_dollar_brace ['T', 'I', 'T', 'L', 'E', '\x7d'] s.data h2
    have h4 : occurs ['$', '\x7b', 'T', 'I', 'T', 'L', 'E', '\x7d'] s.data = true := h
    rw [h3] at h4
    exact absurd h4 (by simp)

/-- One entry `VAR_N=v` among entries that are no variables, on a text made of pieces
without placeholder joined by the placeholder of `N`, the title default not applying. -/
theorem substituteText_joinWith (osTitle : String) (pre post : List (String × String))
    (N v text : String) (pieces : List (List Char))
    (hpre : ∀ e ∈ pre, STARTS_WITH_CI e.1 "VAR_" = false)
    (hpost : ∀ e ∈ post, STARTS_WITH_CI e.1 "VAR_" = false)
    (htext : text.data = joinWith (placeholder N).data pieces)
    (hpieces : ∀ p ∈ pieces, occurs ['$', '\x7b'] p = false)
    (htitle : strstr text "${TITLE}" = true → N = "TITLE") :
    (substituteText osTitle (pre ++ ("VAR_" ++ N, v) :: post) text).1 =
      replaceAll ⟨joinWith v.data pieces⟩ (tolower (placeholder N)) (tolower v) := by
  have hfirst : replaceAll text (placeholder N) v = ⟨joinWith v.data pieces⟩ := by
    apply String.ext
    rw [replaceAll_data _ _ _ (placeholder_data_ne N), htext, placeholder_data]
    exact replaceAllAux_joinWith _ _ pieces hpieces
  cases hd : strstr text "$\x7b" with
  | false =>
    have hres : (substituteText osTitle (pre ++ ("VAR_" ++ N, v) :: post) text).1 = text := by
      unfold substituteText
      rw [if_neg (by rw [hd]; exact Bool.false_ne_true)]
    have hph : strstr text (placeholder N) = false := by
      have h2 : occurs ['$', '\x7b'] text.data = false := hd
      have h3 := occurs_of_dollar_brace (N.data ++ ['\x7d']) text.data h2
      rw [← placeholder_data] at h3
      exact h3
    have hlow : strstr text (tolower (placeholder N)) = false := by
      have h2 : occurs ['$', '\x7b'] text.data = false := hd
      have h3 := occurs_of_dollar_brace ((N.data ++ ['\x7d']).map Char.toLower) text.data h2
      rw [← tolower_placeholder_data] at h3
      exact h3
    rw [hres, ← hfirst, replaceAll_of_not_strstr _ _ _ hph,
      replaceAll_of_not_strstr _ _ _ hlow]
  | true =>
    have hb : (strstr text "${TITLE}" &&
        (CSLFetchNameValue (pre ++ ("VAR_" ++ N, v) :: post) "VAR_TITLE").isNone) = false := by
      cases ht : strstr text "${TITLE}" with
      | false => rfl
      | true =>
        have hN := htitle ht
        subst hN
        have : ("VAR_" ++ "TITLE" : String) = "VAR_TITLE" := by decide
        rw [this, CSLFetchNameValue_title pre post v hpre]
        rfl
    unfold substituteText
    rw [if_pos hd]
    simp only [hb, Bool.false_eq_true, if_false, List.foldl_append, List.foldl_cons]
    rw [foldl_substituteEntry_other pre hpre, substituteEntry_var, hfirst,
      foldl_substituteEntry_other post hpost]

/-- Claim C16, as stated, fails: with the one entry `VAR_N=a${n}b`, the text `${N}` does not
become the value `a${n}b`, because the pass for the lower-cased placeholder runs on the text
that the first pass has produced. -/
theorem value_with_lowercase_placeholder_is_rewritten :
    (substituteText "t" [("VAR_N", "a${n}b")] "${N}").1 = "aa${n}bb" ∧
      (substituteText "t" [("VAR_N", "a${n}b")] "${N}").1 ≠ "a${n}b" := by
  constructor
  · rfl
  · decide

/-- Claim C16, as the code has it.  For a dictionary whose only `VAR_` entry is `VAR_N=v`
and a text made of pieces without `$` followed by an opening brace, joined by the
placeholder of `N` (so that the placeholders of the text are these occurrences, and the
title placeholder occurs only if `N` is `TITLE`), `SubstituteVariables` yields the pieces
joined by `v`, every occurrence replaced and every other character kept, provided the text
so obtained contains no occurrence of the lower-cased placeholder.  With `VAR_TARGET=Mars`
the text `${TARGET} Orbiter` becomes `Mars Orbiter`, without a warning. -/
theorem single_variable_replaces_every_placeholder (osTitle : String)
    (pre post : List (String × String)) (N v text : String) (pieces : List (List Char))
    (hpre : ∀ e ∈ pre, STARTS_WITH_CI e.1 "VAR_" = false)
    (hpost : ∀ e ∈ post, STARTS_WITH_CI e.1 "VAR_" = false)
    (htext : text.data = joinWith (placeholder N).data pieces)
    (hpieces : ∀ p ∈ pieces, occurs ['$', '\x7b'] p = false)
    (htitle : strstr text "${TITLE}" = true → N = "TITLE")
    (hlow : occurs (tolower (placeholder N)).data (joinWith v.data pieces) = false) :
    (substituteText osTitle (pre ++ ("VAR_" ++ N, v) :: post) text).1.data =
        joinWith v.data pieces ∧
      substituteText osTitle [("VAR_TARGET", "Mars")] "${TARGET} Orbiter" =
        ("Mars Orbiter", []) := by
  refine ⟨?_, rfl⟩
  rw [substituteText_joinWith osTitle pre post N v text pieces hpre hpost htext hpieces htitle,
    replaceAll_of_not_strstr _ _ _ hlow]

theorem single_variable_replaces_every_placeholder_witness :
    (substituteText "out.xml" ([("TARGET", "x")] ++ ("VAR_" ++ "TARGET", "Mars") :: [])
        "${TARGET} Orbiter ${TARGET}").1.data =
        joinWith "Mars".data [[], " Orbiter ".data, []] ∧
      substituteText "out.xml" [("VAR_TARGET", "Mars")] "${TARGET} Orbiter" =
        ("Mars Orbiter", []) :=
  single_variable_replaces_every_placeholder "out.xml" [("TARGET", "x")] [] "TARGET" "Mars"
    "${TARGET} Orbiter ${TARGET}" [[], " Orbiter ".data, []]
    (by decide) (by decide) (by rfl) (by decide) (by decide) (by decide)

/-- One entry `VAR_N=v` among entries that are no variables, the title default not
applying: the text goes through the two passes of that entry. -/
theorem substituteText_single (osTitle : String) (pre post : List (String × String))
    (N v text : String)
    (hpre : ∀ e ∈ pre, STARTS_WITH_CI e.1 "VAR_" = false)
    (hpost : ∀ e ∈ post, STARTS_WITH_CI e.1 "VAR_" = false)
    (htitle : strstr text "${TITLE}" = false) :
    (substituteText osTitle (pre ++ ("VAR_" ++ N, v) :: post) text).1 =
      replaceAll (replaceAll text (placeholder N) v) (tolower (placeholder N)) (tolower v) := by
  cases hd : strstr text "$\x7b" with
  | false =>
    have hres : (substituteText osTitle (pre ++ ("VAR_" ++ N, v) :: post) text).1 = text := by
      unfold substituteText
      rw [if_neg (by rw [hd]; exact Bool.false_ne_true)]
    have hph : strstr text (placeholder N) = false := by
      have h2 : occurs ['$', '\x7b'] text.data = false := hd
      have h3 := occurs_of_dollar_brace (N.data ++ ['\x7d']) text.data h2
      rw [← placeholder_data] at h3
      exact h3
    have hlow : strstr text (tolower (placeholder N)) = false := by
      have h2 : occurs ['$', '\x7b'] text.data = false := hd
      have h3 := occurs_of_dollar_brace ((N.data ++ ['\x7d']).map Char.toLower) text.data h2
      rw [← tolower_placeholder_data] at h3
      exact h3
    rw [hres, replaceAll_of_not_strstr _ _ _ hph, replaceAll_of_not_strstr _ _ _ hlow]
  | true =>
    unfold substituteText
    rw [if_pos hd]
    simp only [htitle, Bool.false_and, Bool.false_eq_true, if_false, List.foldl_append,
      List.foldl_cons]
    rw [foldl_substituteEntry_other pre hpre, substituteEntry_var,
      foldl_substituteEntry_other post hpost]

/-- Entries none of whose placeholders occurs in the text, in either spelling, leave it
alone. -/
theorem foldl_substituteEntry_unmatched (text : String) (l : List (String × String))
    (h : ∀ e ∈ l, STARTS_WITH_CI e.1 "VAR_" = true →
      strstr text (placeholder ⟨e.1.data.drop 4⟩) = false ∧
        strstr text (tolower (placeholder ⟨e.1.data.drop 4⟩)) = false) :
    l.foldl substituteEntry text = text := by
  induction l with
  | nil => rfl
  | cons e rest ih =>
    simp only [List.foldl_cons]
    have he : substituteEntry text e = text := by
      unfold substituteEntry
      split
      · rename_i hv
        have := h e (List.mem_cons_self _ _) hv
        simp only []
        rw [replaceAll_of_not_strstr _ _ _ this.1, replaceAll_of_not_strstr _ _ _ this.2]
      · rfl
    rw [he]
    exact ih (fun x hx => h x (List.mem_cons_of_mem _ hx))

/-- Claim C17, as stated, fails: for the text `${TITLE}` and no `VAR_TITLE` the default
title is put in with a warning, although the text after all substitutions contains no `$`
followed by an opening brace. -/
theorem title_default_warns_without_leftover :
    substituteText "out.xml" [] "${TITLE}" = ("out.xml", [Warning.titleDefault "out.xml"]) ∧
      strstr (substituteText "out.xml" [] "${TITLE}").1 "$\x7b" = false := by
  constructor
  · rfl
  · rfl

/-- Claim C17, as the code has it.  A text containing `$` followed by an opening brace,
not containing the title placeholder, none of whose placeholders matches a dictionary entry
in either spelling, is left as it is and the warning that it could not be substituted is
recorded.  In general that warning is recorded exactly when the text after all
substitutions still contains `$` followed by an opening brace; the only other thing recorded
is the warning of the default title, exactly when the text contains the title placeholder
and `VAR_TITLE` is not defined; the result is always a text and warnings, never an error. -/
theorem unresolved_placeholder_warns (osTitle : String) (papszDict : List (String × String))
    (text : String) :
    (strstr text "$\x7b" = true → strstr text "${TITLE}" = false →
      (∀ e ∈ papszDict, STARTS_WITH_CI e.1 "VAR_" = true →
        strstr text (placeholder ⟨e.1.data.drop 4⟩) = false ∧
          strstr text (tolower (placeholder ⟨e.1.data.drop 4⟩)) = false) →
      substituteText osTitle papszDict text = (text, [Warning.notSubstituted text])) ∧
    ((∃ w, Warning.notSubstituted w ∈ (substituteText osTitle papszDict text).2) ↔
      strstr (substituteText osTitle papszDict text).1 "$\x7b" = true) ∧
    (Warning.titleDefault osTitle ∈ (substituteText osTitle papszDict text).2 ↔
      (strstr text "${TITLE}" = true ∧ CSLFetchNameValue papszDict "VAR_TITLE" = none)) ∧
    (∀ w ∈ (substituteText osTitle papszDict text).2,
      w = Warning.titleDefault osTitle ∨
        w = Warning.notSubstituted (substituteText osTitle papszDict text).1) := by
  refine ⟨?_, ?_, ?_, ?_⟩
  · intro hd ht hun
    unfold substituteText
    rw [if_pos hd]
    simp only [ht, Bool.false_and, Bool.false_eq_true, if_false, List.nil_append]
    rw [foldl_substituteEntry_unmatched text papszDict hun, if_pos hd]
  · cases hd : strstr text "$\x7b" with
    | false =>
      have hres : substituteText osTitle papszDict text = (text, []) := by
        unfold substituteText
        rw [if_neg (by rw [hd]; exact Bool.false_ne_true)]
      rw [hres]
      simp [hd]
    | true =>
      unfold substituteText
      rw [if_pos hd]
      simp only []
      split <;> split <;> simp_all
  · cases hd : strstr text "$\x7b" with
    | false =>
      have hres : substituteText osTitle papszDict text = (text, []) := by
        unfold substituteText
        rw [if_neg (by rw [hd]; exact Bool.false_ne_true)]
      have hnt : strstr text "${TITLE}" = false := by
        cases hq : strstr text "${TITLE}" with
        | false => rfl
        | true =>
          rw [strstr_dollar_brace_of_title text hq] at hd
          exact absurd hd (by simp)
      rw [hres]
      simp [hnt]
    | true =>
      unfold substituteText
      rw [if_pos hd]
      simp only []
      split <;> split <;> simp_all [Option.isNone_iff_eq_none]
  · cases hd : strstr text "$\x7b" with
    | false =>
      have hres : substituteText osTitle papszDict text = (text, []) := by
        unfold substituteText
        rw [if_neg (by rw [hd]; exact Bool.false_ne_true)]
      rw [hres]
      simp
    | true =>
      unfold substituteText
      rw [if_pos hd]
      simp only []
      split <;> split <;> simp_all

theorem unresolved_placeholder_warns_witness :
    substituteText "out.xml" [("VAR_TARGET", "Mars"), ("KEY", "x")] "${BODY} Orbiter" =
      ("${BODY} Orbiter", [Warning.notSubstituted "${BODY} Orbiter"]) :=
  (unresolved_placeholder_warns "out.xml" [("VAR_TARGET", "Mars"), ("KEY", "x")]
    "${BODY} Orbiter").1 (by decide) (by decide) (by decide)

theorem dataTypeOf_written (eDT : GDALDataType) :
    dataTypeOf (WriteHeader_data_type eDT) = some (eDT, false) := by
  cases eDT <;> decide

theorem guard_false {s n : Int} (hn : 1 ≤ n) (hn2 : n ≤ 2147483647) (h : s * n ≤ 2147483647) :
    ¬ s > toU64 (Int.tdiv INT_MAX n) := by
  intro hg
  have := (guard_iff hn hn2).mp hg
  omega

theorem EQUAL_of_EQUAL (s a b : String) (h : EQUAL s a = true) : EQUAL s b = EQUAL a b := by
  unfold EQUAL at *
  rw [eq_of_beq h]

/-- Claim C30, the code at a failing input.  For the interleave `BIP`, 3 bands of bytes
and a width of 1000000000 the line offset is 3000000000, above the largest `int`; the
guard of the `BIP` branch compares the pixel offset 3 with `INT_MAX / nBands`, not with
`INT_MAX / nXSize`, so `Create` returns a dataset, and the line offset its bands receive is
the wrapped value -1294967296. -/
theorem Create_BIP_line_offset_wraps :
    exactLineOffset "BIP" (GDALGetDataTypeSizeBytes GDT_Byte) 1000000000 3 = 3000000000 ∧
      (3000000000 : Int) > INT_MAX ∧
      (Create sampleCreateEnv "out.xml" 1000000000 1 3 GDT_Byte [("INTERLEAVE", "BIP")]).map
          (fun ds => ds.bands) =
        some [ CreatedBand.raw 1 0 3 (-1294967296) GDT_Byte true,
               CreatedBand.raw 2 1 3 (-1294967296) GDT_Byte true,
               CreatedBand.raw 3 2 3 (-1294967296) GDT_Byte true ] := by
  decide

/-- Claim C27, the code at a failing input.  For the north-up transform with origin
(0, 10) and pixels of 1 by 1 and an image of 10 by 10 pixels, whose extent is the square
from 0 to 10, the abscissas of the four points are those of the centres of the corner
pixels, 1/2 and 19/2, but the ordinates are 21/2 for the upper points and -1/2 for the lower
ones, where the centres of the corner pixels are at 19/2 and 1/2: the half pixel is
subtracted from `gt3` and added to `gt3 + gt5 * H` with the wrong sign, and all four points
lie outside the extent of the image. -/
theorem corner_points_miss_pixel_centres :
    (WriteGeoreferencing_corners northUpTransform 10 10).1 =
        ![(1 / 2 : ℚ), 19 / 2, 1 / 2, 19 / 2] ∧
      (WriteGeoreferencing_corners northUpTransform 10 10).2 =
        ![(21 / 2 : ℚ), 21 / 2, -1 / 2, -1 / 2] ∧
      northUpTransform 3 + northUpTransform 5 / 2 = 19 / 2 ∧
      northUpTransform 3 + northUpTransform 5 * 10 - northUpTransform 5 / 2 = 1 / 2 ∧
      ¬((WriteGeoreferencing_corners northUpTransform 10 10).2 0 ≤ northUpTransform 3) ∧
      ¬(northUpTransform 3 + northUpTransform 5 * 10 ≤
        (WriteGeoreferencing_corners northUpTransform 10 10).2 2) := by
  have h3 : northUpTransform 3 = 10 := rfl
  have h5 : northUpTransform 5 = -1 := rfl
  have h0 : northUpTransform 0 = 0 := rfl
  have h1 : northUpTransform 1 = 1 := rfl
  have hX : (WriteGeoreferencing_corners northUpTransform 10 10).1 =
      ![(1 / 2 : ℚ), 19 / 2, 1 / 2, 19 / 2] := by
    simp only [WriteGeoreferencing_corners, h0, h1]
    norm_num
  have hY : (WriteGeoreferencing_corners northUpTransform 10 10).2 =
      ![(21 / 2 : ℚ), 21 / 2, -1 / 2, -1 / 2] := by
    simp only [WriteGeoreferencing_corners, h3, h5]
    norm_num
  refine ⟨hX, hY, ?_, ?_, ?_, ?_⟩
  · rw [h3, h5]; norm_num
  · rw [h3, h5]; norm_num
  · rw [hY, h3]
    show ¬((21 / 2 : ℚ) ≤ 10)
    norm_num
  · rw [hY, h3, h5]
    show ¬((10 : ℚ) + -1 * 10 ≤ -1 / 2)
    norm_num

/-! ## The selectors of a subdataset name -/

theorem openArray_selector_zero {D : Type} (env : Env D) (b : Bool) (fn : String)
    (st : OpenState D) (a : ArrayNode) :
    openArray env b 0 fn st a = openArray env b (-1) fn st a := by
  simp [openArray]

theorem openArrays_selector_zero {D : Type} (env : Env D) (b : Bool) (fn : String)
    (l : List ArrayNode) :
    ∀ st : OpenState D, openArrays env b 0 fn st l = openArrays env b (-1) fn st l := by
  induction l with
  | nil => intro st; rfl
  | cons a rest ih =>
    intro st
    simp only [openArrays, openArray_selector_zero]
    cases openArray env b (-1) fn st a with
    | none => rfl
    | some st1 => exact ih st1

theorem openAreas_selector_zero {D : Type} (env : Env D) (b : Bool) (f : Int)
    (l : List FileAreaObservational) :
    ∀ st : OpenState D, openAreas env b f 0 st l = openAreas env b f (-1) st l := by
  induction l with
  | nil => intro st; rfl
  | cons fao rest ih =>
    intro st
    have h : openArea env b f 0 st fao = openArea env b f (-1) st fao := by
      unfold openArea
      cases fao.file_name with
      | none => rfl
      | some fn => simp only [openArrays_selector_zero]
    simp only [openAreas, h]
    cases openArea env b f (-1) st fao with
    | none => rfl
    | some st1 => exact ih st1

/-- With the container selector 0 no container is entered: the loop leaves the dataset and
the candidates as they are. -/
theorem openAreas_container_zero {D : Type} (env : Env D) (b : Bool) (k : Int)
    (l : List FileAreaObservational) :
    ∀ st : OpenState D, 0 ≤ st.nFAOIdx →
      ∃ st1, openAreas env b 0 k st l = some st1 ∧ st1.poDS = st.poDS ∧
        st1.aosSubdatasets = st.aosSubdatasets := by
  induction l with
  | nil => intro st _; exact ⟨st, rfl, rfl, rfl⟩
  | cons fao rest ih =>
    intro st hst
    have h : openArea env b 0 k st fao = some { st with nFAOIdx := st.nFAOIdx + 1 } := by
      unfold openArea
      cases fao.file_name with
      | none => rfl
      | some fn =>
        have hne : ¬((0 : Int) < 0 ∨ (0 : Int) = st.nFAOIdx + 1) := by omega
        simp only [hne, if_false]
    simp only [openAreas, h]
    obtain ⟨st1, h1, h2, h3⟩ := ih { st with nFAOIdx := st.nFAOIdx + 1 } (by simp; omega)
    exact ⟨st1, h1, h2, h3⟩

/-- Claim C28, as stated, fails for the container index: the subdataset name with
container index 0 opens nothing, although the same label opens with the container index 1 and
with no selector at all. -/
theorem container_index_zero_opens_nothing :
    Open sampleEnv 0 1 (labelOf [sampleArray]) = none ∧
      Open sampleEnv 1 1 (labelOf [sampleArray]) = some sampleDataset ∧
      Open sampleEnv (-1) (-1) (labelOf [sampleArray]) = some sampleDataset := by
  refine ⟨rfl, rfl, rfl⟩

/-- Claim C28, as the code has it.  Selection is 1-based at both levels.  The array index 0
behaves like an unspecified one: `Open` does the same as with the array selector -1, so that
within the selected container the first array that resolves is opened (the second child of
the example label, its first child having an unsupported data type).  The container index 0
is not taken as unspecified: it matches no container and `Open` returns no dataset. -/
theorem array_index_zero_means_first_match {D : Type} (env : Env D) (f k : Int)
    (label : Label) :
    Open env f 0 label = Open env f (-1) label ∧
      Open env 0 k label = none ∧
      Open sampleEnv 1 0 (labelOf [int64Array, sampleArray, complexArray]) =
        some sampleDataset := by
  refine ⟨?_, ?_, rfl⟩
  · simp only [Open, openAreas_selector_zero]
  · unfold Open
    obtain ⟨st1, h1, h2, h3⟩ :=
      openAreas_container_zero env (EQUAL label.vertical_display_direction "Bottom to Top") k
        label.areas (OpenState.init D) (by simp [OpenState.init])
    have hb : st1.poDS.bands.length = 0 := by rw [h2]; rfl
    simp only [h1]
    simp [hb]

/-! ## Projection dispatch, read and written -/

theorem GetAngularValue_deg {D : Type} [LinearOrderedField D] (CPLAtof : String → D) (M_PI : D)
    (v : UnitValue) (h : inDegrees v = true) :
    GetAngularValue CPLAtof M_PI (some v) = (CPLAtof v.pszValue, true) := by
  unfold inDegrees at h
  cases hu : v.unit with
  | none => simp only [GetAngularValue, convertValue, hu]
  | some u =>
    rw [hu] at h
    have h2 : EQUAL u "deg" = true := h
    simp only [GetAngularValue, convertValue, hu, h2, Bool.not_true, Bool.false_eq_true, if_false]

theorem GetAngularValue_none {D : Type} [LinearOrderedField D] (CPLAtof : String → D) (M_PI : D) :
    GetAngularValue CPLAtof M_PI none = (0.0, false) :=
  rfl

theorem write_after_SetEquirectangular2 {D : Type} [LinearOrderedField D] (lat lon sp1 : D) :
    WriteGeoreferencing_projection
        (({} : OGRSpatialReference D).SetEquirectangular2 lat lon sp1 0 0) =
      { pszPDS4ProjectionName := "Equirectangular"
        aoProjParams :=
          [ ("standard_parallel_1", sp1), ("longitude_of_central_meridian", lon),
            ("latitude_of_projection_origin", lat) ] } :=
  rfl

theorem write_after_SetTM {D : Type} [LinearOrderedField D] (lat lon k : D) :
    WriteGeoreferencing_projection (({} : OGRSpatialReference D).SetTM lat lon k 0 0) =
      { pszPDS4ProjectionName := "Transverse Mercator"
        aoProjParams :=
          [ ("scale_factor_at_central_meridian", k), ("longitude_of_central_meridian", lon),
            ("latitude_of_projection_origin", lat) ] } :=
  rfl

theorem write_after_SetPS {D : Type} [LinearOrderedField D] (lat lon k : D) :
    WriteGeoreferencing_projection (({} : OGRSpatialReference D).SetPS lat lon k 0 0) =
      { pszPDS4ProjectionName := "Polar Stereographic"
        aoProjParams :=
          [ ("straight_vertical_longitude_from_pole", lon),
            ("scale_factor_at_projection_origin", k), ("latitude_of_projection_origin", lat) ] } :=
  rfl

theorem write_after_SetSinusoidal {D : Type} [LinearOrderedField D] (lon : D) :
    WriteGeoreferencing_projection (({} : OGRSpatialReference D).SetSinusoidal lon 0 0) =
      { pszPDS4ProjectionName := "Sinusoidal"
        aoProjParams :=
          [("longitude_of_central_meridian", lon), ("latitude_of_projection_origin", 0.0)] } :=
  rfl

/-- Claim C21, as stated, fails for Sinusoidal: a block declaring the central meridian 100
and the latitude of origin 20, both in degrees, comes back with the latitude of origin 0,
the canonical Sinusoidal projection having no latitude of origin. -/
theorem sinusoidal_latitude_is_not_written_back :
    (GetAngularValue sampleAtof (355 / 113)
        sampleProjParams.latitude_of_projection_origin).1 = 20 ∧
      WriteGeoreferencing_projection
          (readMapProjection sampleAtof (355 / 113) (blockOf "Sinusoidal" sampleProjParams)).oSRS =
        { pszPDS4ProjectionName := "Sinusoidal"
          aoProjParams :=
            [("longitude_of_central_meridian", 100), ("latitude_of_projection_origin", 0)] } := by
  constructor
  · rfl
  · have e1 : projectionElementName "Sinusoidal" = "Sinusoidal" := by decide
    have q : readMapProjection sampleAtof (355 / 113) (blockOf "Sinusoidal" sampleProjParams) =
        { ProjState.init ℚ with
          osProjName := "Sinusoidal", dfCenterLon := 100, dfCenterLat := 20, dfStdParallel1 := 2
          dfScale := 2
          oSRS := ({} : OGRSpatialReference ℚ).SetSinusoidal 100 0 0 } := by
      rfl
    rw [q]
    show WriteGeoreferencing_projection (({} : OGRSpatialReference ℚ).SetSinusoidal 100 0 0) = _
    rw [write_after_SetSinusoidal]
    norm_num

/-- What the map projection branch does for a block whose name is not empty and whose
parameter element is found under the name with `_` for each blank. -/
theorem readMapProjection_of_child {D : Type} [LinearOrderedField D] (CPLAtof : String → D)
    (M_PI : D) (mp : MapProjection) (osProjName : String) (node : ProjParamNode)
    (hname : mp.map_projection_name = some osProjName) (hne : osProjName ≠ "")
    (hchild : mp.child (projectionElementName osProjName) = some node) :
    readMapProjection CPLAtof M_PI mp =
      dispatchMapProjection CPLAtof osProjName
        (readProjParams CPLAtof M_PI osProjName (some node)) node.Oblique_Line_Azimuth
        node.Oblique_Line_Point := by
  unfold readMapProjection
  unfold projectionElementName at hchild
  simp only [hname, Option.getD_some, hne, if_false, hchild, Option.bind_some,
    Option.some_bind]

/-- Claim C21, as the code has it.  A block declaring the parameters of its projection in
degrees, read by the dispatch of `ReadGeoreferencing` and written back by the dispatch of
`WriteGeoreferencing`, gives the same projection name and, for Equirectangular, Transverse
Mercator and Polar Stereographic, the same value for every parameter that is written: the
first standard parallel, the scale factor, the central meridian (for Polar Stereographic the
longitude declared as `straight_vertical_longitude_from_pole`) and the latitude of the
projection origin.  For Sinusoidal the central meridian is reproduced and the latitude of
the projection origin is written as 0 whatever the block declares. -/
theorem projection_round_trip {D : Type} [LinearOrderedField D] (CPLAtof : String → D)
    (M_PI : D) (mp : MapProjection) (node : ProjParamNode) (vlon : UnitValue)
    (hdeg : inDegrees vlon = true) :
    (∀ vlat vsp1 : UnitValue, mp.map_projection_name = some "Equirectangular" →
      mp.child "Equirectangular" = some node →
      node.longitude_of_central_meridian = some vlon →
      node.latitude_of_projection_origin = some vlat → inDegrees vlat = true →
      node.standard_parallel_1 = some vsp1 → inDegrees vsp1 = true →
      WriteGeoreferencing_projection (readMapProjection CPLAtof M_PI mp).oSRS =
        { pszPDS4ProjectionName := "Equirectangular"
          aoProjParams :=
            [ ("standard_parallel_1", CPLAtof vsp1.pszValue),
              ("longitude_of_central_meridian", CPLAtof vlon.pszValue),
              ("latitude_of_projection_origin", CPLAtof vlat.pszValue) ] }) ∧
    (∀ (vlat : UnitValue) (k : String), mp.map_projection_name = some "Transverse Mercator" →
      mp.child "Transverse_Mercator" = some node →
      node.longitude_of_central_meridian = some vlon →
      node.latitude_of_projection_origin = some vlat → inDegrees vlat = true →
      node.scale_factor_at_central_meridian = some k →
      WriteGeoreferencing_projection (readMapProjection CPLAtof M_PI mp).oSRS =
        { pszPDS4ProjectionName := "Transverse Mercator"
          aoProjParams :=
            [ ("scale_factor_at_central_meridian", CPLAtof k),
              ("longitude_of_central_meridian", CPLAtof vlon.pszValue),
              ("latitude_of_projection_origin", CPLAtof vlat.pszValue) ] }) ∧
    (∀ (vlat : UnitValue) (k : String), mp.map_projection_name = some "Polar Stereographic" →
      mp.child "Polar_Stereographic" = some node →
      node.longitude_of_central_meridian = none →
      node.straight_vertical_longitude_from_pole = some vlon →
      node.latitude_of_projection_origin = some vlat → inDegrees vlat = true →
      node.scale_factor_at_projection_origin = some k →
      WriteGeoreferencing_projection (readMapProjection CPLAtof M_PI mp).oSRS =
        { pszPDS4ProjectionName := "Polar Stereographic"
          aoProjParams :=
            [ ("straight_vertical_longitude_from_pole", CPLAtof vlon.pszValue),
              ("scale_factor_at_projection_origin", CPLAtof k),
              ("latitude_of_projection_origin", CPLAtof vlat.pszValue) ] }) ∧
    (mp.map_projection_name = some "Sinusoidal" → mp.child "Sinusoidal" = some node →
      node.longitude_of_central_meridian = some vlon →
      WriteGeoreferencing_projection (readMapProjection CPLAtof M_PI mp).oSRS =
        { pszPDS4ProjectionName := "Sinusoidal"
          aoProjParams :=
            [ ("longitude_of_central_meridian", CPLAtof vlon.pszValue),
              ("latitude_of_projection_origin", 0) ] }) := by
  have z : (0.0 : D) = 0 := by norm_num
  refine ⟨?_, ?_, ?_, ?_⟩
  · intro vlat vsp1 hname hchild hlon hlat dlat hsp dsp
    rw [readMapProjection_of_child CPLAtof M_PI mp "Equirectangular" node hname (by decide)
      hchild]
    have hd : (dispatchMapProjection CPLAtof "Equirectangular"
        (readProjParams CPLAtof M_PI "Equirectangular" (some node)) node.Oblique_Line_Azimuth
        node.Oblique_Line_Point).oSRS =
        ({} : OGRSpatialReference D).SetEquirectangular2 (CPLAtof vlat.pszValue)
          (CPLAtof vlon.pszValue) (CPLAtof vsp1.pszValue) 0 0 := by
      have q : EQUAL "Equirectangular" "Equirectangular" = true := by decide
      simp only [dispatchMapProjection, q, if_true, readProjParams, hlon, hlat, hsp,
        GetAngularValue_deg, hdeg, dlat, dsp, Bool.not_true, Bool.false_eq_true, if_false]
    rw [hd, write_after_SetEquirectangular2]
  · intro vlat k hname hchild hlon hlat dlat hk
    rw [readMapProjection_of_child CPLAtof M_PI mp "Transverse Mercator" node hname (by decide)
      hchild]
    have hd : (dispatchMapProjection CPLAtof "Transverse Mercator"
        (readProjParams CPLAtof M_PI "Transverse Mercator" (some node))
        node.Oblique_Line_Azimuth node.Oblique_Line_Point).oSRS =
        ({} : OGRSpatialReference D).SetTM (CPLAtof vlat.pszValue) (CPLAtof vlon.pszValue)
          (CPLAtof k) 0 0 := by
      have q1 : EQUAL "Transverse Mercator" "Equirectangular" = false := by decide
      have q2 : EQUAL "Transverse Mercator" "Lambert Conformal Conic" = false := by decide
      have q3 : EQUAL "Transverse Mercator" "Oblique Mercator" = false := by decide
      have q4 : EQUAL "Transverse Mercator" "Polar Stereographic" = false := by decide
      have q5 : EQUAL "Transverse Mercator" "Polyconic" = false := by decide
      have q6 : EQUAL "Transverse Mercator" "Sinusoidal" = false := by decide
      have q7 : EQUAL "Transverse Mercator" "Transverse Mercator" = true := by decide
      simp only [dispatchMapProjection, q1, q2, q3, q4, q5, q6, q7, if_true, readProjParams,
        hlon, hlat, hk, GetAngularValue_deg, hdeg, dlat, Bool.not_true, Bool.false_eq_true,
        if_false, Bool.false_and]
    rw [hd, write_after_SetTM]
  · intro vlat k hname hchild hnolon hlon hlat dlat hk
    rw [readMapProjection_of_child CPLAtof M_PI mp "Polar Stereographic" node hname (by decide)
      hchild]
    have hd : (dispatchMapProjection CPLAtof "Polar Stereographic"
        (readProjParams CPLAtof M_PI "Polar Stereographic" (some node))
        node.Oblique_Line_Azimuth node.Oblique_Line_Point).oSRS =
        ({} : OGRSpatialReference D).SetPS (CPLAtof vlat.pszValue) (CPLAtof vlon.pszValue)
          (CPLAtof k) 0 0 := by
      have q1 : EQUAL "Polar Stereographic" "Equirectangular" = false := by decide
      have q2 : EQUAL "Polar Stereographic" "Lambert Conformal Conic" = false := by decide
      have q3 : EQUAL "Polar Stereographic" "Oblique Mercator" = false := by decide
      have q4 : EQUAL "Polar Stereographic" "Polar Stereographic" = true := by decide
      have q5 : ("Polar Stereographic" = "Transverse Mercator") = False := by decide
      simp only [dispatchMapProjection, q1, q2, q3, q4, q5, if_true, readProjParams,
        hnolon, hlon, hlat, hk, GetAngularValue_deg, hdeg, dlat, Bool.not_true,
        Bool.false_eq_true, if_false, Bool.false_and, GetAngularValue_none, Bool.not_false]
    rw [hd, write_after_SetPS]
  · intro hname hchild hlon
    rw [readMapProjection_of_child CPLAtof M_PI mp "Sinusoidal" node hname (by decide) hchild]
    have hd : (dispatchMapProjection CPLAtof "Sinusoidal"
        (readProjParams CPLAtof M_PI "Sinusoidal" (some node))
        node.Oblique_Line_Azimuth node.Oblique_Line_Point).oSRS =
        ({} : OGRSpatialReference D).SetSinusoidal (CPLAtof vlon.pszValue) 0 0 := by
      have q1 : EQUAL "Sinusoidal" "Equirectangular" = false := by decide
      have q2 : EQUAL "Sinusoidal" "Lambert Conformal Conic" = false := by decide
      have q3 : EQUAL "Sinusoidal" "Oblique Mercator" = false := by decide
      have q4 : EQUAL "Sinusoidal" "Polar Stereographic" = false := by decide
      have q5 : EQUAL "Sinusoidal" "Polyconic" = false := by decide
      have q6 : EQUAL "Sinusoidal" "Sinusoidal" = true := by decide
      simp only [dispatchMapProjection, q1, q2, q3, q4, q5, q6, if_true, readProjParams,
        hlon, GetAngularValue_deg, hdeg, Bool.not_true, Bool.false_eq_true, if_false,
        Bool.false_and]
    rw [hd, write_after_SetSinusoidal, z]

theorem projection_round_trip_witness :
    WriteGeoreferencing_projection
        (readMapProjection sampleAtof (355 / 113)
          (blockOf "Equirectangular" sampleProjParams)).oSRS =
      { pszPDS4ProjectionName := "Equirectangular"
        aoProjParams :=
          [ ("standard_parallel_1", sampleAtof "2"),
            ("longitude_of_central_meridian", sampleAtof "100"),
            ("latitude_of_projection_origin", sampleAtof "20") ] } :=
  (projection_round_trip sampleAtof (355 / 113) (blockOf "Equirectangular" sampleProjParams)
    sampleProjParams { pszValue := "100", unit := some "deg" } (by decide)).1
    { pszValue := "20", unit := some "deg" } { pszValue := "2" } rfl rfl rfl rfl (by decide) rfl
    (by decide)

/-- Claim C22, the code at a failing input.  For a spatial reference in the projection
`Mercator_1SP` (and likewise `Mercator_2SP`) `WriteGeoreferencing` writes the projection name
`Mercator`; the dispatch of `ReadGeoreferencing` has no case for that name and reports every
block so named as not supported, leaving the spatial reference without projection.  A
projection without PDS4 name, such as `Robinson`, is written with a warning, an empty name
and no parameter. -/
theorem Mercator_is_written_but_not_read {D : Type} [LinearOrderedField D]
    (CPLAtof : String → D) (M_PI : D) (child : String → Option ProjParamNode) :
    (WriteGeoreferencing_projection mercatorSRS).pszPDS4ProjectionName = "Mercator" ∧
      (WriteGeoreferencing_projection
        (({} : OGRSpatialReference D).SetProjection SRS_PT_MERCATOR_2SP)).pszPDS4ProjectionName =
        "Mercator" ∧
      (readMapProjection CPLAtof M_PI
        { map_projection_name := some "Mercator", child := child }).warnings =
        [GeoWarning.mapProjectionNotSupported "Mercator"] ∧
      (readMapProjection CPLAtof M_PI
        { map_projection_name := some "Mercator", child := child }).oSRS.PROJECTION = none ∧
      (WriteGeoreferencing_projection
          (({} : OGRSpatialReference D).SetRobinson 0 0 0)).pszPDS4ProjectionName = "" ∧
      (WriteGeoreferencing_projection
          (({} : OGRSpatialReference D).SetRobinson 0 0 0)).aoProjParams = [] ∧
      (WriteGeoreferencing_projection (({} : OGRSpatialReference D).SetRobinson 0 0 0)).warnings =
        [GeoWarning.projectionNotSupported "Robinson"] := by
  refine ⟨rfl, rfl, rfl, rfl, rfl, rfl, rfl⟩

/-- Claim C23.  For the projection name `Lambert Conformal Conic` with its parameter
element: when `scale_factor_at_projection_origin` is present, the spatial reference is set
by `SetLCC1SP` from the center latitude, the center longitude and the scale, it is the same
whatever the element has as standard parallels, and the warning about ignored standard
parallels is emitted exactly when a declared `standard_parallel_1` or `standard_parallel_2`
differs from the center latitude, no other warning being emitted; when the scale factor is
absent, the spatial reference is set by `SetLCC` from the two standard parallels, the center
latitude and the center longitude, without warning. -/
theorem LCC_prefers_scale_factor {D : Type} [LinearOrderedField D] (CPLAtof : String → D)
    (M_PI : D) (mp : MapProjection) (node : ProjParamNode)
    (hname : mp.map_projection_name = some "Lambert Conformal Conic")
    (hchild : mp.child "Lambert_Conformal_Conic" = some node) :
    (∀ k : String, node.scale_factor_at_projection_origin = some k →
      (readMapProjection CPLAtof M_PI mp).oSRS =
        ({} : OGRSpatialReference D).SetLCC1SP
          (readProjParams CPLAtof M_PI "Lambert Conformal Conic" (some node)).dfCenterLat
          (readProjParams CPLAtof M_PI "Lambert Conformal Conic" (some node)).dfCenterLon
          (CPLAtof k) 0 0 ∧
      (∀ (mp1 : MapProjection) (v1 v2 : Option UnitValue),
        mp1.map_projection_name = some "Lambert Conformal Conic" →
        mp1.child "Lambert_Conformal_Conic" =
          some { node with standard_parallel_1 := v1, standard_parallel_2 := v2 } →
        (readMapProjection CPLAtof M_PI mp1).oSRS = (readMapProjection CPLAtof M_PI mp).oSRS) ∧
      (GeoWarning.ignoringStandardParallels ∈ (readMapProjection CPLAtof M_PI mp).warnings ↔
        (node.standard_parallel_1.isSome = true ∧
          (GetAngularValue CPLAtof M_PI node.standard_parallel_1).1 ≠
            (GetAngularValue CPLAtof M_PI node.latitude_of_projection_origin).1) ∨
        (node.standard_parallel_2.isSome = true ∧
          (GetAngularValue CPLAtof M_PI node.standard_parallel_2).1 ≠
            (GetAngularValue CPLAtof M_PI node.latitude_of_projection_origin).1)) ∧
      (∀ w ∈ (readMapProjection CPLAtof M_PI mp).warnings,
        w = GeoWarning.ignoringStandardParallels)) ∧
    (node.scale_factor_at_projection_origin = none →
      (readMapProjection CPLAtof M_PI mp).oSRS =
        ({} : OGRSpatialReference D).SetLCC
          (GetAngularValue CPLAtof M_PI node.standard_parallel_1).1
          (GetAngularValue CPLAtof M_PI node.standard_parallel_2).1
          (readProjParams CPLAtof M_PI "Lambert Conformal Conic" (some node)).dfCenterLat
          (readProjParams CPLAtof M_PI "Lambert Conformal Conic" (some node)).dfCenterLon 0 0 ∧
      (readMapProjection CPLAtof M_PI mp).warnings = []) := by
  have q1 : EQUAL "Lambert Conformal Conic" "Equirectangular" = false := by decide
  have q2 : EQUAL "Lambert Conformal Conic" "Lambert Conformal Conic" = true := by decide
  have q3 : ("Lambert Conformal Conic" = "Transverse Mercator") = False := by decide
  have hgot : ∀ v : Option UnitValue, (GetAngularValue CPLAtof M_PI v).2 = v.isSome := by
    intro v
    cases v <;> rfl
  have hread : ∀ (m : MapProjection) (n : ProjParamNode),
      m.map_projection_name = some "Lambert Conformal Conic" →
      m.child "Lambert_Conformal_Conic" = some n →
      readMapProjection CPLAtof M_PI m =
        dispatchMapProjection CPLAtof "Lambert Conformal Conic"
          (readProjParams CPLAtof M_PI "Lambert Conformal Conic" (some n))
          n.Oblique_Line_Azimuth n.Oblique_Line_Point :=
    fun m n h1 h2 =>
      readMapProjection_of_child CPLAtof M_PI m "Lambert Conformal Conic" n h1 (by decide) h2
  rw [hread mp node hname hchild]
  constructor
  · intro k hk
    refine ⟨?_, ?_, ?_, ?_⟩
    · simp only [dispatchMapProjection, q1, q2, q3, readProjParams, hk, Option.isSome_some,
        if_true, if_false, Bool.false_eq_true]
    · intro mp1 v1 v2 h1 h2
      rw [hread mp1 _ h1 h2]
      simp only [dispatchMapProjection, q1, q2, q3, readProjParams, hk, Option.isSome_some,
        if_true, if_false, Bool.false_eq_true]
    · simp only [dispatchMapProjection, q1, q2, q3, readProjParams, hk, Option.isSome_some,
        if_true, if_false, Bool.false_eq_true, hgot]
      split <;> simp_all
    · intro w hw
      simp only [dispatchMapProjection, q1, q2, q3, readProjParams, hk, Option.isSome_some,
        if_true, if_false, Bool.false_eq_true] at hw
      split at hw <;> simp_all
  · intro hk
    constructor
    · simp only [dispatchMapProjection, q1, q2, q3, readProjParams, hk, Option.isSome_none,
        if_true, if_false, Bool.false_eq_true]
    · simp only [dispatchMapProjection, q1, q2, q3, readProjParams, hk, Option.isSome_none,
        if_true, if_false, Bool.false_eq_true]

theorem LCC_prefers_scale_factor_witness :
    (readMapProjection sampleAtof (355 / 113)
        (blockOf "Lambert Conformal Conic" sampleProjParams)).oSRS =
      ({} : OGRSpatialReference ℚ).SetLCC1SP
        (readProjParams sampleAtof (355 / 113) "Lambert Conformal Conic"
          (some sampleProjParams)).dfCenterLat
        (readProjParams sampleAtof (355 / 113) "Lambert Conformal Conic"
          (some sampleProjParams)).dfCenterLon
        (sampleAtof "2") 0 0 :=
  ((LCC_prefers_scale_factor sampleAtof (355 / 113)
    (blockOf "Lambert Conformal Conic" sampleProjParams) sampleProjParams rfl rfl).1 "2" rfl).1

/-! ## The geodetic model, read and written -/

theorem zero_literal {D : Type} [LinearOrderedField D] : (0.0 : D) = 0 := by norm_num

/-- The spatial reference after the geodetic step, by the tests of the code. -/
theorem geodetic_oSRS {D : Type} [LinearOrderedField D] (CPLAtof : String → D)
    (st : ProjState D) (gm : GeodeticModel) (t : String) :
    (ReadGeoreferencing_geodetic CPLAtof st (some gm) t).oSRS =
      if (EQUAL st.osProjName "STEREOGRAPHIC" && decide (|st.dfCenterLat| = 90)) ||
          EQUAL st.osProjName "POLAR STEREOGRAPHIC" then
        if EQUAL (gm.latitude_type.getD "") "planetographic" then
          (st.oSRS.SetProjCS (st.osProjName ++ " " ++ t)).SetGeogCS ("GCS_" ++ t)
            ("D_" ++ gm.spheroid_name.getD t) (gm.spheroid_name.getD t)
            (GetLinearValue CPLAtof gm.semi_major_radius)
            (if GetLinearValue CPLAtof gm.semi_major_radius -
                GetLinearValue CPLAtof gm.polar_radius ≥ 0.00000001 then
              GetLinearValue CPLAtof gm.semi_major_radius /
                (GetLinearValue CPLAtof gm.semi_major_radius -
                  GetLinearValue CPLAtof gm.polar_radius)
            else 0)
            "Reference_Meridian" 0
        else
          (st.oSRS.SetProjCS (st.osProjName ++ " " ++ t)).SetGeogCS ("GCS_" ++ t)
            ("D_" ++ gm.spheroid_name.getD t) (gm.spheroid_name.getD t ++ "_polarRadius")
            (GetLinearValue CPLAtof gm.polar_radius) 0 "Reference_Meridian" 0
      else if EQUAL st.osProjName "EQUIRECTANGULAR" || EQUAL st.osProjName "ORTHOGRAPHIC" ||
          EQUAL st.osProjName "STEREOGRAPHIC" || EQUAL st.osProjName "SINUSOIDAL" then
        (st.oSRS.SetProjCS (st.osProjName ++ " " ++ t)).SetGeogCS ("GCS_" ++ t)
          ("D_" ++ gm.spheroid_name.getD t) (gm.spheroid_name.getD t)
          (GetLinearValue CPLAtof gm.semi_major_radius) 0 "Reference_Meridian" 0
      else if EQUAL (gm.latitude_type.getD "") "planetographic" then
        (st.oSRS.SetProjCS (st.osProjName ++ " " ++ t)).SetGeogCS ("GCS_" ++ t)
          ("D_" ++ gm.spheroid_name.getD t) (gm.spheroid_name.getD t)
          (GetLinearValue CPLAtof gm.semi_major_radius)
          (if GetLinearValue CPLAtof gm.semi_major_radius -
              GetLinearValue CPLAtof gm.polar_radius ≥ 0.00000001 then
            GetLinearValue CPLAtof gm.semi_major_radius /
              (GetLinearValue CPLAtof gm.semi_major_radius -
                GetLinearValue CPLAtof gm.polar_radius)
          else 0)
          "Reference_Meridian" 0
      else
        (st.oSRS.SetProjCS (st.osProjName ++ " " ++ t)).SetGeogCS ("GCS_" ++ t)
          ("D_" ++ gm.spheroid_name.getD t) (gm.spheroid_name.getD t)
          (GetLinearValue CPLAtof gm.semi_major_radius) 0 "Reference_Meridian" 0 := by
  simp only [ReadGeoreferencing_geodetic, zero_literal]

theorem geodetic_warnings {D : Type} [LinearOrderedField D] (CPLAtof : String → D)
    (st : ProjState D) (gm : GeodeticModel) (t : String) :
    (ReadGeoreferencing_geodetic CPLAtof st (some gm) t).warnings =
      st.warnings ++
        (if GetLinearValue CPLAtof gm.semi_major_radius ≠
            GetLinearValue CPLAtof gm.semi_minor_radius then [GeoWarning.semiMinorIgnored]
          else []) :=
  rfl

/-- Claim C24.  The `semi_minor_radius` of the label does not influence the ellipsoid: a
geodetic model with any other `semi_minor_radius` gives the same spatial reference.  The
field decides only the warning about the ignored semi-minor radius, which is emitted exactly
when the semi-major and the semi-minor radius differ (in metres).  The minor axis is taken
from `polar_radius`: for planetographic latitudes and a projection outside the two special
lists, the ellipsoid has the semi-major radius and, when that exceeds the polar radius by
at least 1e-8, the inverse flattening a / (a - polar radius). -/
theorem semi_minor_radius_only_warns {D : Type} [LinearOrderedField D] (CPLAtof : String → D)
    (st : ProjState D) (gm : GeodeticModel) (v : Option UnitValue) (t : String) :
    (ReadGeoreferencing_geodetic CPLAtof st (some { gm with semi_minor_radius := v }) t).oSRS =
        (ReadGeoreferencing_geodetic CPLAtof st (some gm) t).oSRS ∧
      (ReadGeoreferencing_geodetic CPLAtof st (some gm) t).warnings =
        st.warnings ++
          (if GetLinearValue CPLAtof gm.semi_major_radius ≠
              GetLinearValue CPLAtof gm.semi_minor_radius then [GeoWarning.semiMinorIgnored]
            else []) ∧
      (EQUAL (gm.latitude_type.getD "") "planetographic" = true →
        ((EQUAL st.osProjName "STEREOGRAPHIC" && decide (|st.dfCenterLat| = 90)) ||
          EQUAL st.osProjName "POLAR STEREOGRAPHIC") = false →
        (EQUAL st.osProjName "EQUIRECTANGULAR" || EQUAL st.osProjName "ORTHOGRAPHIC" ||
          EQUAL st.osProjName "STEREOGRAPHIC" || EQUAL st.osProjName "SINUSOIDAL") = false →
        GetLinearValue CPLAtof gm.semi_major_radius - GetLinearValue CPLAtof gm.polar_radius ≥
          0.00000001 →
        ∃ g, (ReadGeoreferencing_geodetic CPLAtof st (some gm) t).oSRS.GEOGCS = some g ∧
          g.dfSemiMajor = GetLinearValue CPLAtof gm.semi_major_radius ∧
          g.dfInvFlattening = GetLinearValue CPLAtof gm.semi_major_radius /
            (GetLinearValue CPLAtof gm.semi_major_radius -
              GetLinearValue CPLAtof gm.polar_radius)) := by
  refine ⟨?_, geodetic_warnings CPLAtof st gm t, ?_⟩
  · rw [geodetic_oSRS, geodetic_oSRS]
  · intro ho h1 h2 hge
    rw [geodetic_oSRS]
    simp only [h1, h2, ho, hge, if_true, if_false, Bool.false_eq_true]
    exact ⟨_, rfl, rfl, rfl⟩

theorem semi_minor_radius_only_warns_witness :
    ∃ g, (ReadGeoreferencing_geodetic geoAtof
          { ProjState.init ℚ with osProjName := "Transverse Mercator" } (some marsGeodetic)
          "Mars").oSRS.GEOGCS = some g ∧
      g.dfSemiMajor = GetLinearValue geoAtof marsGeodetic.semi_major_radius ∧
      g.dfInvFlattening = GetLinearValue geoAtof marsGeodetic.semi_major_radius /
        (GetLinearValue geoAtof marsGeodetic.semi_major_radius -
          GetLinearValue geoAtof marsGeodetic.polar_radius) :=
  (semi_minor_radius_only_warns geoAtof { ProjState.init ℚ with osProjName := "Transverse Mercator" }
    marsGeodetic none "Mars").2.2 (by decide) (by decide) (by decide)
    (by
      show (3396190 : ℚ) - 3376200 ≥ 0.00000001
      norm_num)

/-- Claim C25, as stated, fails for Stereographic: for a Stereographic block centred on the
pole, with the semi-major radius 3396190 and the polar radius 3376200, planetographic
latitudes give an ellipsoid whose inverse flattening is not 0, and other latitudes give a
sphere of the polar radius, not of the semi-major radius. -/
theorem polar_stereographic_is_not_a_semi_major_sphere :
    (readMapProjection geoAtof (355 / 113) polarStereographicBlock).osProjName =
        "Stereographic" ∧
      ((ReadGeoreferencing_geodetic geoAtof
          (readMapProjection geoAtof (355 / 113) polarStereographicBlock) (some marsGeodetic)
          "Mars").oSRS.GEOGCS.map (fun g => (g.dfSemiMajor, g.dfInvFlattening))) =
        some (3396190, 3396190 / 19990) ∧
      ((ReadGeoreferencing_geodetic geoAtof
          (readMapProjection geoAtof (355 / 113) polarStereographicBlock)
          (some { marsGeodetic with latitude_type := some "planetocentric" })
          "Mars").oSRS.GEOGCS.map (fun g => (g.dfSemiMajor, g.dfInvFlattening))) =
        some (3376200, 0) := by
  have hst : readMapProjection geoAtof (355 / 113) polarStereographicBlock =
      { ProjState.init ℚ with
        osProjName := "Stereographic", dfCenterLat := 90, dfCenterLon := 0
        oSRS := ({} : OGRSpatialReference ℚ).SetStereographic 90 0 1 0 0 } := by
    have e : (1.0 : ℚ) = 1 := by norm_num
    have z : (0.0 : ℚ) = 0 := by norm_num
    have a : readMapProjection geoAtof (355 / 113) polarStereographicBlock =
        { ProjState.init ℚ with
          osProjName := "Stereographic", dfCenterLat := 90, dfCenterLon := 0
          oSRS := ({} : OGRSpatialReference ℚ).SetStereographic 90 0 1.0 0 0 } := rfl
    rw [a, e]
  have h90 : decide (|(90 : ℚ)| = 90) = true := by
    rw [abs_of_nonneg (by norm_num)]
    decide
  have q1 : EQUAL "Stereographic" "STEREOGRAPHIC" = true := by decide
  have hM : GetLinearValue geoAtof marsGeodetic.semi_major_radius = 3396190 := rfl
  have hP : GetLinearValue geoAtof marsGeodetic.polar_radius = 3376200 := rfl
  have hge : (3396190 : ℚ) - 3376200 ≥ 0.00000001 := by norm_num
  refine ⟨by rw [hst], ?_, ?_⟩
  · rw [geodetic_oSRS, hst]
    simp only [q1, h90, Bool.and_self, Bool.true_or, if_true, hM, hP, hge]
    have q2 : EQUAL (marsGeodetic.latitude_type.getD "") "planetographic" = true := by decide
    simp only [q2, if_true, OGRSpatialReference.SetGeogCS, Option.map_some']
    norm_num
  · rw [geodetic_oSRS, hst]
    simp only [q1, h90, Bool.and_self, Bool.true_or, if_true]
    have q2 : EQUAL (({ marsGeodetic with latitude_type := some "planetocentric" } :
        GeodeticModel).latitude_type.getD "") "planetographic" = false := by decide
    have hP2 : GetLinearValue geoAtof ({ marsGeodetic with
        latitude_type := some "planetocentric" } : GeodeticModel).polar_radius = 3376200 := rfl
    simp only [q2, if_false, Bool.false_eq_true, OGRSpatialReference.SetGeogCS,
      Option.map_some', hP2]

/-- Claim C25, as the code has it.  For Equirectangular, Orthographic and Sinusoidal, and
for Stereographic when the absolute value of the center latitude is not 90, the geodetic
step builds a sphere of radius `semi_major_radius` (inverse flattening 0) whatever the
latitude type and the other projection parameters are.  Stereographic with a center
latitude of 90 or -90 goes with Polar Stereographic: planetographic latitudes give the
ellipsoid of the semi-major radius with the flattening derived from the polar radius, other
latitudes a sphere of the polar radius. -/
theorem sphere_list_ignores_latitude_type {D : Type} [LinearOrderedField D]
    (CPLAtof : String → D) (st : ProjState D) (gm : GeodeticModel) (t : String) :
    (EQUAL st.osProjName "Equirectangular" = true ∨ EQUAL st.osProjName "Orthographic" = true ∨
        EQUAL st.osProjName "Sinusoidal" = true ∨
        (EQUAL st.osProjName "Stereographic" = true ∧ |st.dfCenterLat| ≠ 90) →
      (ReadGeoreferencing_geodetic CPLAtof st (some gm) t).oSRS =
        (st.oSRS.SetProjCS (st.osProjName ++ " " ++ t)).SetGeogCS ("GCS_" ++ t)
          ("D_" ++ gm.spheroid_name.getD t) (gm.spheroid_name.getD t)
          (GetLinearValue CPLAtof gm.semi_major_radius) 0 "Reference_Meridian" 0) ∧
    (EQUAL st.osProjName "Stereographic" = true → |st.dfCenterLat| = 90 →
      (ReadGeoreferencing_geodetic CPLAtof st (some gm) t).oSRS =
        if EQUAL (gm.latitude_type.getD "") "planetographic" then
          (st.oSRS.SetProjCS (st.osProjName ++ " " ++ t)).SetGeogCS ("GCS_" ++ t)
            ("D_" ++ gm.spheroid_name.getD t) (gm.spheroid_name.getD t)
            (GetLinearValue CPLAtof gm.semi_major_radius)
            (if GetLinearValue CPLAtof gm.semi_major_radius -
                GetLinearValue CPLAtof gm.polar_radius ≥ 0.00000001 then
              GetLinearValue CPLAtof gm.semi_major_radius /
                (GetLinearValue CPLAtof gm.semi_major_radius -
                  GetLinearValue CPLAtof gm.polar_radius)
            else 0)
            "Reference_Meridian" 0
        else
          (st.oSRS.SetProjCS (st.osProjName ++ " " ++ t)).SetGeogCS ("GCS_" ++ t)
            ("D_" ++ gm.spheroid_name.getD t) (gm.spheroid_name.getD t ++ "_polarRadius")
            (GetLinearValue CPLAtof gm.polar_radius) 0 "Reference_Meridian" 0) := by
  have c : ∀ a b : String, EQUAL st.osProjName a = true → EQUAL st.osProjName b = EQUAL a b :=
    fun a b h => EQUAL_of_EQUAL st.osProjName a b h
  constructor
  · intro h
    rw [geodetic_oSRS]
    rcases h with h | h | h | ⟨h, hlat⟩
    · have e1 : EQUAL "Equirectangular" "STEREOGRAPHIC" = false := by decide
      have e2 : EQUAL "Equirectangular" "POLAR STEREOGRAPHIC" = false := by decide
      have e3 : EQUAL "Equirectangular" "EQUIRECTANGULAR" = true := by decide
      simp only [c _ _ h, e1, e2, e3, Bool.false_and, Bool.or_self, Bool.false_eq_true,
        if_false, Bool.true_or, if_true]
    · have e1 : EQUAL "Orthographic" "STEREOGRAPHIC" = false := by decide
      have e2 : EQUAL "Orthographic" "POLAR STEREOGRAPHIC" = false := by decide
      have e3 : EQUAL "Orthographic" "ORTHOGRAPHIC" = true := by decide
      simp only [c _ _ h, e1, e2, e3, Bool.false_and, Bool.or_self, Bool.false_eq_true,
        if_false, Bool.true_or, Bool.or_true, if_true]
    · have e1 : EQUAL "Sinusoidal" "STEREOGRAPHIC" = false := by decide
      have e2 : EQUAL "Sinusoidal" "POLAR STEREOGRAPHIC" = false := by decide
      have e3 : EQUAL "Sinusoidal" "SINUSOIDAL" = true := by decide
      simp only [c _ _ h, e1, e2, e3, Bool.false_and, Bool.or_self, Bool.false_eq_true,
        if_false, Bool.true_or, Bool.or_true, if_true]
    · have e1 : EQUAL "Stereographic" "STEREOGRAPHIC" = true := by decide
      have e2 : EQUAL "Stereographic" "POLAR STEREOGRAPHIC" = false := by decide
      have hd : decide (|st.dfCenterLat| = 90) = false := by simpa using hlat
      simp only [c _ _ h, e1, e2, hd, Bool.and_false, Bool.or_self, Bool.false_eq_true,
        if_false, Bool.true_or, Bool.or_true, if_true]
  · intro h hlat
    rw [geodetic_oSRS]
    have e1 : EQUAL "Stereographic" "STEREOGRAPHIC" = true := by decide
    have hd : decide (|st.dfCenterLat| = 90) = true := by simpa using hlat
    simp only [c _ _ h, e1, hd, Bool.and_self, Bool.true_or, if_true]

theorem sphere_list_ignores_latitude_type_witness :
    (ReadGeoreferencing_geodetic geoAtof
        (readMapProjection geoAtof (355 / 113) (blockOf "Sinusoidal" {})) (some marsGeodetic)
        "Mars").oSRS =
      ((readMapProjection geoAtof (355 / 113) (blockOf "Sinusoidal" {})).oSRS.SetProjCS
          ((readMapProjection geoAtof (355 / 113) (blockOf "Sinusoidal" {})).osProjName ++ " " ++
            "Mars")).SetGeogCS ("GCS_" ++ "Mars")
        ("D_" ++ marsGeodetic.spheroid_name.getD "Mars") (marsGeodetic.spheroid_name.getD "Mars")
        (GetLinearValue geoAtof marsGeodetic.semi_major_radius) 0 "Reference_Meridian" 0 :=
  (sphere_list_ignores_latitude_type geoAtof
    (readMapProjection geoAtof (355 / 113) (blockOf "Sinusoidal" {})) marsGeodetic "Mars").1
    (Or.inr (Or.inr (Or.inl (by decide))))

theorem GetLinearValue_metres {D : Type} [LinearOrderedField D] (CPLAtof : String → D)
    (s : String) :
    GetLinearValue CPLAtof (some { pszValue := s, unit := some "m" }) = CPLAtof s := by
  have q : EQUAL "m" "m" = true := by decide
  simp only [GetLinearValue, convertValue, q, Bool.not_true, Bool.false_eq_true, if_false]

/-- Claim C35.  For a polar-aspect projection (Polar Stereographic, or Stereographic with a
latitude of origin of absolute value 90), `ReadGeoreferencing` builds, when the latitude type
is planetographic, the ellipsoid with the semi-major radius `a` and the inverse flattening
`a / (a - b)`, `b` the polar radius, and otherwise a sphere whose radius is the polar radius.
The inverse flattening is `a / (a - b)` only when `a - b ≥ 1e-8`, where the divisor is not
zero, and is 0 otherwise; a polar radius above the semi-major radius gives the inverse
flattening 0, a sphere of radius `a`. -/
theorem polar_aspect_uses_polar_radius {D : Type} [LinearOrderedField D]
    (CPLAtof : String → D) (st : ProjState D) (gm : GeodeticModel) (t : String)
    (hpolar : EQUAL st.osProjName "POLAR STEREOGRAPHIC" = true ∨
      (EQUAL st.osProjName "STEREOGRAPHIC" = true ∧ |st.dfCenterLat| = 90)) :
    ∃ g, (ReadGeoreferencing_geodetic CPLAtof st (some gm) t).oSRS.GEOGCS = some g ∧
      (EQUAL (gm.latitude_type.getD "") "planetographic" = true →
        g.dfSemiMajor = GetLinearValue CPLAtof gm.semi_major_radius ∧
        g.dfInvFlattening =
          (if GetLinearValue CPLAtof gm.semi_major_radius -
              GetLinearValue CPLAtof gm.polar_radius ≥ 1 / 100000000 then
            GetLinearValue CPLAtof gm.semi_major_radius /
              (GetLinearValue CPLAtof gm.semi_major_radius -
                GetLinearValue CPLAtof gm.polar_radius)
          else 0) ∧
        (GetLinearValue CPLAtof gm.semi_major_radius -
            GetLinearValue CPLAtof gm.polar_radius ≥ 1 / 100000000 →
          GetLinearValue CPLAtof gm.semi_major_radius -
            GetLinearValue CPLAtof gm.polar_radius ≠ 0) ∧
        (GetLinearValue CPLAtof gm.semi_major_radius <
            GetLinearValue CPLAtof gm.polar_radius →
          g.dfInvFlattening = 0 ∧
          (ReadGeoreferencing_geodetic CPLAtof st (some gm) t).oSRS.GetSemiMinor =
            GetLinearValue CPLAtof gm.semi_major_radius)) ∧
      (EQUAL (gm.latitude_type.getD "") "planetographic" = false →
        g.dfSemiMajor = GetLinearValue CPLAtof gm.polar_radius ∧ g.dfInvFlattening = 0 ∧
        (ReadGeoreferencing_geodetic CPLAtof st (some gm) t).oSRS.GetSemiMinor =
          GetLinearValue CPLAtof gm.polar_radius) := by
  have hc : ((EQUAL st.osProjName "STEREOGRAPHIC" && decide (|st.dfCenterLat| = 90)) ||
      EQUAL st.osProjName "POLAR STEREOGRAPHIC") = true := by
    rcases hpolar with h | ⟨h1, h2⟩
    · simp [h]
    · simp [h1, h2]
  have heps : (0.00000001 : D) = 1 / 100000000 := by norm_num
  have hsm : ∀ (a : D) (n1 n2 n3 n4 : String) (z : D),
      (OGRSpatialReference.GetSemiMinor
        ((st.oSRS.SetProjCS n1).SetGeogCS n2 n3 n4 a 0 "Reference_Meridian" z)) = a := by
    intro a n1 n2 n3 n4 z
    simp only [OGRSpatialReference.GetSemiMinor, OGRSpatialReference.SetGeogCS]
    rw [if_pos (by rw [abs_zero]; norm_num)]
  rw [geodetic_oSRS, if_pos hc]
  by_cases hog : EQUAL (gm.latitude_type.getD "") "planetographic" = true
  · rw [if_pos hog]
    refine ⟨_, rfl, fun _ => ⟨rfl, ?_, ?_, ?_⟩, fun hf => ?_⟩
    · simp only [heps]
    · intro h1 h2
      rw [h2] at h1
      norm_num at h1
    · intro hlt
      have hnot : ¬ (GetLinearValue CPLAtof gm.semi_major_radius -
          GetLinearValue CPLAtof gm.polar_radius ≥ 0.00000001) := by
        rw [heps]
        intro h
        have : (0 : D) < 1 / 100000000 := by norm_num
        linarith
      rw [if_neg hnot]
      exact ⟨by simp [OGRSpatialReference.SetGeogCS], hsm _ _ _ _ _ _⟩
    · rw [hog] at hf
      exact absurd hf (by decide)
  · rw [if_neg hog]
    refine ⟨_, rfl, fun ht => absurd ht hog, fun _ => ⟨rfl, rfl, hsm _ _ _ _ _ _⟩⟩

theorem polar_aspect_uses_polar_radius_witness :
    (EQUAL ((readMapProjection geoAtof (355 / 113)
          polarStereographicBlock).osProjName) "POLAR STEREOGRAPHIC" = true ∨
      (EQUAL ((readMapProjection geoAtof (355 / 113)
          polarStereographicBlock).osProjName) "STEREOGRAPHIC" = true ∧
        |(readMapProjection geoAtof (355 / 113) polarStereographicBlock).dfCenterLat| = 90)) ∧
    ∃ g, (ReadGeoreferencing_geodetic geoAtof
        (readMapProjection geoAtof (355 / 113) polarStereographicBlock) (some marsGeodetic)
        "Mars").oSRS.GEOGCS = some g ∧ g.dfSemiMajor = 3396190 ∧
      g.dfInvFlattening = 3396190 / 19990 := by
  have hp : EQUAL ((readMapProjection geoAtof (355 / 113)
          polarStereographicBlock).osProjName) "STEREOGRAPHIC" = true ∧
        |(readMapProjection geoAtof (355 / 113) polarStereographicBlock).dfCenterLat| = 90 := by
    refine ⟨by decide, ?_⟩
    have h : (readMapProjection geoAtof (355 / 113) polarStereographicBlock).dfCenterLat = 90 := by
      simp [readMapProjection, polarStereographicBlock, blockOf, projectionElementName,
        readProjParams, GetAngularValue, convertValue, geoAtof, dispatchMapProjection, EQUAL]
    rw [h]
    norm_num
  refine ⟨Or.inr hp, ?_⟩
  obtain ⟨g, hg, h1, _⟩ := polar_aspect_uses_polar_radius geoAtof
    (readMapProjection geoAtof (355 / 113) polarStereographicBlock) marsGeodetic "Mars"
    (Or.inr hp)
  obtain ⟨ha, hf, _, _⟩ := h1 (by decide)
  refine ⟨g, hg, ?_, ?_⟩
  · rw [ha]
    simp [GetLinearValue, convertValue, marsGeodetic, geoAtof, EQUAL]
  · rw [hf]
    have e1 : GetLinearValue geoAtof marsGeodetic.semi_major_radius = 3396190 := by
      simp [GetLinearValue, convertValue, marsGeodetic, geoAtof, EQUAL]
    have e2 : GetLinearValue geoAtof marsGeodetic.polar_radius = 3376200 := by
      simp [GetLinearValue, convertValue, marsGeodetic, geoAtof, EQUAL]
    rw [e1, e2]
    norm_num

/-- Claim C34, a transform that is stored and is not north-up.  A `Coordinate_Representation`
without `pixel_resolution_x` and `pixel_resolution_y` gives the resolutions 0: the flag is set
and the stored pixel width and height are 0, a transform that `SetGeoTransform` refuses. -/
theorem transform_without_resolution_is_stored :
    (ReadGeoreferencing_transform sampleAtof (GeoState.init ℚ) (some barePCI)
        (some sampleGT)).m_bGotTransform = true ∧
      (ReadGeoreferencing_transform sampleAtof (GeoState.init ℚ) (some barePCI)
        (some sampleGT)).m_adfGeoTransform 1 = 0 ∧
      (ReadGeoreferencing_transform sampleAtof (GeoState.init ℚ) (some barePCI)
        (some sampleGT)).m_adfGeoTransform 5 = 0 ∧
      (SetGeoTransform (GeoState.init ℚ)
        (ReadGeoreferencing_transform sampleAtof (GeoState.init ℚ) (some barePCI)
          (some sampleGT)).m_adfGeoTransform).1 = CPLErr.CE_Failure := by
  have h : ReadGeoreferencing_transform sampleAtof (GeoState.init ℚ) (some barePCI)
      (some sampleGT) =
      { m_adfGeoTransform := ![100 - 0.5 * 0, 0, 0, 20 * 1e3 + 0.5 * 0, 0, -0]
        m_bGotTransform := true } := by
    have z : (0.0 : ℚ) = 0 := by norm_num
    simp [ReadGeoreferencing_transform, barePCI, sampleGT, GetResolutionValue, GetLinearValue,
      convertValue, applyUnit, apsLinearUnits, sampleAtof, EQUAL, z]
  rw [h]
  refine ⟨rfl, rfl, (show (-0 : ℚ) = 0 from neg_zero), ?_⟩
  simp [SetGeoTransform]

/-- Claim C34, as the code has it.  Whenever `ReadGeoreferencing` stores a transform (the
encoding method is `Coordinate Pair` and there is a `Coordinate_Representation`), its shear
terms are 0, its pixel width is the resolution in x and its pixel height the negated
resolution in y, both in metres per pixel as read from the label; the resolutions are not
tested, so the stored transform is north-up in the sense of `SetGeoTransform` exactly when
both resolutions are positive.  In every other case the members are left as they were. -/
theorem stored_transform_has_no_shear {D : Type} [LinearOrderedField D] (CPLAtof : String → D)
    (st : GeoState D) (psPCI : Option PlanarCoordinateInformation)
    (psGT : Option GeoTransformation) :
    (∀ pci gt cr, psPCI = some pci → psGT = some gt →
      EQUAL (pci.planar_coordinate_encoding_method.getD "") "Coordinate Pair" = true →
      pci.Coordinate_Representation = some cr →
      (ReadGeoreferencing_transform CPLAtof st psPCI psGT).m_bGotTransform = true ∧
      (ReadGeoreferencing_transform CPLAtof st psPCI psGT).m_adfGeoTransform 2 = 0 ∧
      (ReadGeoreferencing_transform CPLAtof st psPCI psGT).m_adfGeoTransform 4 = 0 ∧
      (ReadGeoreferencing_transform CPLAtof st psPCI psGT).m_adfGeoTransform 1 =
        GetResolutionValue CPLAtof cr.pixel_resolution_x ∧
      (ReadGeoreferencing_transform CPLAtof st psPCI psGT).m_adfGeoTransform 5 =
        -GetResolutionValue CPLAtof cr.pixel_resolution_y ∧
      ((SetGeoTransform st
          (ReadGeoreferencing_transform CPLAtof st psPCI psGT).m_adfGeoTransform).1 =
          CPLErr.CE_None ↔
        0 < GetResolutionValue CPLAtof cr.pixel_resolution_x ∧
          0 < GetResolutionValue CPLAtof cr.pixel_resolution_y)) ∧
    ((¬∃ pci gt cr, psPCI = some pci ∧ psGT = some gt ∧
        EQUAL (pci.planar_coordinate_encoding_method.getD "") "Coordinate Pair" = true ∧
        pci.Coordinate_Representation = some cr) →
      ReadGeoreferencing_transform CPLAtof st psPCI psGT = st) := by
  constructor
  · intro pci gt cr h1 h2 h3 h4
    subst h1 h2
    have h : ReadGeoreferencing_transform CPLAtof st (some pci) (some gt) =
        { m_adfGeoTransform :=
            ![GetLinearValue CPLAtof gt.upperleft_corner_x -
                0.5 * GetResolutionValue CPLAtof cr.pixel_resolution_x,
              GetResolutionValue CPLAtof cr.pixel_resolution_x, 0.0,
              GetLinearValue CPLAtof gt.upperleft_corner_y +
                0.5 * GetResolutionValue CPLAtof cr.pixel_resolution_y, 0.0,
              -GetResolutionValue CPLAtof cr.pixel_resolution_y]
          m_bGotTransform := true } := by
      simp only [ReadGeoreferencing_transform, h3, h4, Bool.not_true, Bool.false_eq_true,
        if_false]
    rw [h]
    have e2 : (![GetLinearValue CPLAtof gt.upperleft_corner_x -
                0.5 * GetResolutionValue CPLAtof cr.pixel_resolution_x,
              GetResolutionValue CPLAtof cr.pixel_resolution_x, (0.0 : D),
              GetLinearValue CPLAtof gt.upperleft_corner_y +
                0.5 * GetResolutionValue CPLAtof cr.pixel_resolution_y, 0.0,
              -GetResolutionValue CPLAtof cr.pixel_resolution_y] : Fin 6 → D) 2 = 0 :=
      zero_literal
    have e4 : (![GetLinearValue CPLAtof gt.upperleft_corner_x -
                0.5 * GetResolutionValue CPLAtof cr.pixel_resolution_x,
              GetResolutionValue CPLAtof cr.pixel_resolution_x, (0.0 : D),
              GetLinearValue CPLAtof gt.upperleft_corner_y +
                0.5 * GetResolutionValue CPLAtof cr.pixel_resolution_y, 0.0,
              -GetResolutionValue CPLAtof cr.pixel_resolution_y] : Fin 6 → D) 4 = 0 :=
      zero_literal
    have e1 : (![GetLinearValue CPLAtof gt.upperleft_corner_x -
                0.5 * GetResolutionValue CPLAtof cr.pixel_resolution_x,
              GetResolutionValue CPLAtof cr.pixel_resolution_x, (0.0 : D),
              GetLinearValue CPLAtof gt.upperleft_corner_y +
                0.5 * GetResolutionValue CPLAtof cr.pixel_resolution_y, 0.0,
              -GetResolutionValue CPLAtof cr.pixel_resolution_y] : Fin 6 → D) 1 =
        GetResolutionValue CPLAtof cr.pixel_resolution_x := rfl
    have e5 : (![GetLinearValue CPLAtof gt.upperleft_corner_x -
                0.5 * GetResolutionValue CPLAtof cr.pixel_resolution_x,
              GetResolutionValue CPLAtof cr.pixel_resolution_x, (0.0 : D),
              GetLinearValue CPLAtof gt.upperleft_corner_y +
                0.5 * GetResolutionValue CPLAtof cr.pixel_resolution_y, 0.0,
              -GetResolutionValue CPLAtof cr.pixel_resolution_y] : Fin 6 → D) 5 =
        -GetResolutionValue CPLAtof cr.pixel_resolution_y := rfl
    refine ⟨rfl, e2, e4, e1, e5, ?_⟩
    unfold SetGeoTransform
    simp only [e1, e2, e4, e5]
    constructor
    · intro hh
      split at hh
      · exact absurd hh (by simp)
      · rename_i hc
        simp only [not_or, not_le, ne_eq, not_not, ge_iff_le] at hc
        exact ⟨hc.1, by linarith [hc.2.2.2]⟩
    · rintro ⟨hx, hy⟩
      rw [if_neg]
      simp only [not_or, not_le, ne_eq, not_not, ge_iff_le, not_true_eq_false, not_false_eq_true,
        true_and]
      exact ⟨hx, by linarith⟩
  · intro hno
    unfold ReadGeoreferencing_transform
    split
    · rename_i pci gt
      by_cases h3 : EQUAL (pci.planar_coordinate_encoding_method.getD "") "Coordinate Pair" = true
      · cases h4 : pci.Coordinate_Representation with
        | none => simp [h3]
        | some cr => exact absurd ⟨pci, gt, cr, rfl, rfl, h3, h4⟩ hno
      · simp [h3]
    · rfl

theorem stored_transform_has_no_shear_witness :
    (ReadGeoreferencing_transform sampleAtof (GeoState.init ℚ) (some samplePCI)
        (some sampleGT)).m_adfGeoTransform 2 = 0 ∧
      (ReadGeoreferencing_transform sampleAtof (GeoState.init ℚ) (some samplePCI)
        (some sampleGT)).m_adfGeoTransform 1 =
        GetResolutionValue sampleAtof sampleCR.pixel_resolution_x :=
  have h := (stored_transform_has_no_shear sampleAtof (GeoState.init ℚ) (some samplePCI)
    (some sampleGT)).1 samplePCI sampleGT sampleCR rfl rfl (by decide) rfl
  ⟨h.2.1, h.2.2.2.1⟩

/-! ## The transform written and read back -/

/-- The resolution read from an element in metres per pixel. -/
theorem GetResolutionValue_metres {D : Type} [LinearOrderedField D] (CPLAtof : String → D)
    (s : String) :
    GetResolutionValue CPLAtof (some { pszValue := s, unit := some "m/pixel" }) = CPLAtof s := by
  have q : EQUAL "m/pixel" "m/pixel" = true := by decide
  simp only [GetResolutionValue, convertValue, q, Bool.not_true, Bool.false_eq_true, if_false]

/-- Claim C38.  For a projected spatial reference with the linear unit 1 metre and zero false
easting and northing, and every north-up transform `gt`, the elements `pixel_resolution_x`,
`pixel_resolution_y`, `upperleft_corner_x` and `upperleft_corner_y` that `WriteGeoreferencing`
writes, read by the transform step of `ReadGeoreferencing`, give the six coefficients of `gt`
again: the half pixel added on writing is taken off on reading.  The arithmetic is exact, and
the number parser inverts the format on the four values written. -/
theorem geotransform_round_trip {D : Type} [LinearOrderedField D] (CPLAtof : String → D)
    (fmt : D → String) (M_PI : D) (oSRS : OGRSpatialReference D) (dfLinearUnits : D)
    (st : GeoState D) (gt : Fin 6 → D)
    (hproj : oSRS.IsProjected = true) (hunit : dfLinearUnits = 1)
    (hFE : oSRS.GetNormProjParm SRS_PP_FALSE_EASTING 0 = 0)
    (hFN : oSRS.GetNormProjParm SRS_PP_FALSE_NORTHING 0 = 0)
    (hnorth : 0 < gt 1 ∧ gt 2 = 0 ∧ gt 4 = 0 ∧ gt 5 < 0)
    (hfmt : ∀ v ∈ [gt 1, -gt 5, gt 0 + gt 1 / 2, gt 3 + gt 5 / 2], CPLAtof (fmt v) = v) :
    ReadGeoreferencing_transform CPLAtof st
        (some (WriteGeoreferencing_transform fmt M_PI oSRS dfLinearUnits
          gt).Planar_Coordinate_Information)
        (some (WriteGeoreferencing_transform fmt M_PI oSRS dfLinearUnits
          gt).Geo_Transformation) =
      { m_bGotTransform := true, m_adfGeoTransform := gt } := by
  subst hunit
  have hgeo : oSRS.IsGeographic = false := by
    simp only [OGRSpatialReference.IsProjected] at hproj
    simp [OGRSpatialReference.IsGeographic, hproj]
  have a1 : gt 1 * 1 = gt 1 := mul_one _
  have a5 : -gt 5 * 1 = -gt 5 := mul_one _
  have a0 : (-0 + gt 0 + 0.5 * gt 1) * 1 = gt 0 + gt 1 / 2 := by norm_num; ring
  have a3 : (-0 + gt 3 + 0.5 * gt 5) * 1 = gt 3 + gt 5 / 2 := by norm_num; ring
  have f1 := hfmt (gt 1) (by simp)
  have f5 := hfmt (-gt 5) (by simp)
  have f0 := hfmt (gt 0 + gt 1 / 2) (by simp)
  have f3 := hfmt (gt 3 + gt 5 / 2) (by simp)
  have q : EQUAL "Coordinate Pair" "Coordinate Pair" = true := by decide
  have hW : WriteGeoreferencing_transform fmt M_PI oSRS 1 gt =
      { Planar_Coordinate_Information :=
          { planar_coordinate_encoding_method := some "Coordinate Pair"
            Coordinate_Representation := some
              { pixel_resolution_x := some { pszValue := fmt (gt 1), unit := some "m/pixel" }
                pixel_resolution_y := some { pszValue := fmt (-gt 5), unit := some "m/pixel" } } }
        pixel_scale_x := some
          { pszValue := fmt (oSRS.GetSemiMajor * M_PI / 180.0 / (gt 1 * 1))
            unit := some "pixel/deg" }
        pixel_scale_y := some
          { pszValue := fmt (oSRS.GetSemiMajor * M_PI / 180.0 / (-gt 5 * 1))
            unit := some "pixel/deg" }
        Geo_Transformation :=
          { upperleft_corner_x := some { pszValue := fmt (gt 0 + gt 1 / 2), unit := some "m" }
            upperleft_corner_y := some { pszValue := fmt (gt 3 + gt 5 / 2), unit := some "m" } } } := by
    simp only [WriteGeoreferencing_transform, hgeo, hproj, Bool.false_eq_true, if_false, if_true,
      zero_literal, hFE, hFN, a0, a3]
    simp only [a1, a5]
  rw [hW]
  simp only [ReadGeoreferencing_transform, Option.getD_some, q, Bool.not_true,
    Bool.false_eq_true, if_false, GetResolutionValue_metres, GetLinearValue_metres, f1, f5, f0,
    f3, zero_literal]
  congr 1
  funext i
  obtain ⟨_, h2, h4, _⟩ := hnorth
  fin_cases i
  · show gt 0 + gt 1 / 2 - 0.5 * gt 1 = gt 0
    norm_num; ring
  · rfl
  · exact h2.symm
  · show gt 3 + gt 5 / 2 + 0.5 * -gt 5 = gt 3
    norm_num; ring
  · exact h4.symm
  · show - -gt 5 = gt 5
    exact neg_neg _

theorem geotransform_round_trip_witness :
    (projectedSRS.IsProjected = true ∧ (0 : ℚ) < northUpTransform 1 ∧
      northUpTransform 5 < 0) ∧
    ReadGeoreferencing_transform roundAtof (GeoState.init ℚ)
        (some (WriteGeoreferencing_transform roundFmt (355 / 113) projectedSRS 1
          northUpTransform).Planar_Coordinate_Information)
        (some (WriteGeoreferencing_transform roundFmt (355 / 113) projectedSRS 1
          northUpTransform).Geo_Transformation) =
      { m_bGotTransform := true, m_adfGeoTransform := northUpTransform } := by
  have e0 : northUpTransform 0 = 0 := rfl
  have e1 : northUpTransform 1 = 1 := rfl
  have e3 : northUpTransform 3 = 10 := rfl
  have e5 : northUpTransform 5 = -1 := rfl
  refine ⟨⟨rfl, by rw [e1]; norm_num, by rw [e5]; norm_num⟩, ?_⟩
  refine geotransform_round_trip roundAtof roundFmt (355 / 113) projectedSRS 1 (GeoState.init ℚ)
    northUpTransform rfl rfl ?_ ?_ ⟨by rw [e1]; norm_num, rfl, rfl, by rw [e5]; norm_num⟩ ?_
  · simp [projectedSRS, OGRSpatialReference.GetNormProjParm, OGRSpatialReference.SetGeogCS,
      OGRSpatialReference.SetSinusoidal, OGRSpatialReference.setMethod,
      OGRSpatialReference.SetNormProjParm, OGRSpatialReference.SetProjection, setParm, findParm,
      SRS_PP_FALSE_EASTING, SRS_PP_LONGITUDE_OF_CENTER, SRS_PP_FALSE_NORTHING, EQUAL,
      SRS_PP_LATITUDE_OF_ORIGIN, SRS_PP_CENTRAL_MERIDIAN]
  · simp [projectedSRS, OGRSpatialReference.GetNormProjParm, OGRSpatialReference.SetGeogCS,
      OGRSpatialReference.SetSinusoidal, OGRSpatialReference.setMethod,
      OGRSpatialReference.SetNormProjParm, OGRSpatialReference.SetProjection, setParm, findParm,
      SRS_PP_FALSE_EASTING, SRS_PP_LONGITUDE_OF_CENTER, SRS_PP_FALSE_NORTHING, EQUAL,
      SRS_PP_LATITUDE_OF_ORIGIN, SRS_PP_CENTRAL_MERIDIAN]
  · have r1 : roundAtof (roundFmt 1) = 1 := by
      have hf : roundFmt 1 = "1" := by norm_num [roundFmt]
      rw [hf]
      simp [roundAtof]
    have r2 : roundAtof (roundFmt (1 / 2)) = 1 / 2 := by
      have hf : roundFmt (1 / 2) = "0.5" := by norm_num [roundFmt]
      rw [hf]
      simp [roundAtof]
    have r3 : roundAtof (roundFmt (19 / 2)) = 19 / 2 := by
      have hf : roundFmt (19 / 2) = "9.5" := by norm_num [roundFmt]
      rw [hf]
      simp [roundAtof]
    have n5 : -(-1 : ℚ) = 1 := by norm_num
    have n0 : (0 : ℚ) + 1 / 2 = 1 / 2 := by norm_num
    have n3 : (10 : ℚ) + -1 / 2 = 19 / 2 := by norm_num
    intro v hv
    simp only [e0, e1, e3, e5, n5, n0, n3, List.mem_cons, List.mem_singleton, List.not_mem_nil,
      or_false] at hv
    rcases hv with h | h | h | h
    · rw [h]; exact r1
    · rw [h]; exact r1
    · rw [h]; exact r2
    · rw [h]; exact r3

/-! ## Byte order, element type, scale and offset of a resolved array -/

/-- The byte-order flag and the sample transform of a resolved array, from the label. -/
theorem resolveArray_found_values {D : Type} (env : Env D) (nDIM : Int) (a : ArrayNode)
    (r : ArrayLayout D) (h : resolveArray env nDIM a = .found r) :
    r.bLSBOrder = strstr (a.data_type.getD "") "LSB" ∧
    r.dfValueOffset = env.CPLAtof (a.value_offset.getD "0") ∧
    r.dfValueScale = env.CPLAtof (a.scaling_factor.getD "1") := by
  unfold resolveArray at h
  split at h
  · exact absurd h (by simp)
  · simp only at h
    split at h
    · exact absurd h (by simp)
    · split at h
      · exact absurd h (by simp)
      · split at h
        · exact absurd h (by simp)
        · split at h
          · exact absurd h (by simp)
          · have hr := (ArrayOutcome.found.inj h).symm
            subst hr
            exact ⟨rfl, rfl, rfl⟩

/-- Claim C33, the code at a failing input.  The tag `unsignedlsb2` is accepted, being equal
to `UnsignedLSB2` up to case, and declares the order LSB; the test for the byte order looks
for the substring `LSB` with regard to case and does not find it, so on a little-endian host
the bands of the array are marked as not in native order, while those of the same array
tagged `UnsignedLSB2` are marked as native.  For every resolved array the native-order mark
is the agreement of the host order with that case-sensitive test. -/
theorem lowercase_tag_loses_byte_order :
    EQUAL "unsignedlsb2" "UnsignedLSB2" = true ∧
    dataTypeOf "unsignedlsb2" = some (GDT_UInt16, false) ∧
    sampleEnv.CPL_LSB = true ∧
    ((Open sampleEnv (-1) (-1) (labelOf [lowercaseTagArray])).map
      (fun ds => ds.bands.map (fun b => (b.eDataType, b.bNativeOrder)))) =
        some [(GDT_UInt16, false), (GDT_UInt16, false), (GDT_UInt16, false)] ∧
    ((Open sampleEnv (-1) (-1) (labelOf [sampleArray])).map
      (fun ds => ds.bands.map (fun b => (b.eDataType, b.bNativeOrder)))) =
        some [(GDT_UInt16, true), (GDT_UInt16, true), (GDT_UInt16, true)] ∧
    (∀ (D : Type) (env : Env D) (nDIM : Int) (a : ArrayNode) (r : ArrayLayout D) (b : Bool)
      (i : Int), resolveArray env nDIM a = .found r →
      (makeBand env b r i).bNativeOrder =
        (env.CPL_LSB == strstr (a.data_type.getD "") "LSB")) := by
  refine ⟨by decide, by decide, rfl, by rfl, by rfl, ?_⟩
  intro D env nDIM a r b i h
  obtain ⟨hl, _, _⟩ := resolveArray_found_values env nDIM a r h
  simp only [makeBand, hl]
  cases env.CPL_LSB <;> cases strstr (a.data_type.getD "") "LSB" <;> rfl

/-- Claim C39, the tag of the one-byte type.  The tag `UnsignedByte` that `WriteHeader` writes
for `GDT_Byte` declares no byte order: `Open` maps it back to `GDT_Byte` without the
signed-byte flag, and its little-endian flag is not set. -/
theorem byte_tag_declares_no_byte_order :
    WriteHeader_pszDataType (.handled GDT_Byte) = "UnsignedByte" ∧
    ∃ r, resolveArray sampleEnv 3 (WriteHeader_array [] "BSQ" 5 4 3 GDT_Byte "image" 0) =
        .found r ∧
      r.eDT = GDT_Byte ∧ r.bSignedByte = false ∧ r.bLSBOrder = false :=
  ⟨by decide, _, rfl, rfl, rfl, rfl⟩

/-- Claim C39, as the code has it.  `Create` lets through exactly the nine element types
Byte, UInt16, Int16, UInt32, Int32, Float32, Float64, CFloat32 and CFloat64: it returns no
dataset for any other type, and it returns one for each of the nine.  For each of the nine
the tag that `WriteHeader` writes is not `should not happen`, and the array carrying that tag
is resolved by `Open` with the same element type and without the signed-byte flag; its
little-endian flag is set for the eight types of more than one byte and is not set for
`GDT_Byte`, whose tag `UnsignedByte` names no byte order. -/
theorem data_type_round_trip (eType : AnyGDALDataType) :
    (Create_refusesType eType = false ↔ ∃ t, eType = .handled t) ∧
    (∀ (env : CreateEnv) (pszFilename : String) (nXSize nYSize nBands : Int)
      (papszOptions : List (String × String)) (ds : CreatedDataset),
      CreateAny env pszFilename nXSize nYSize nBands eType papszOptions = some ds →
      (∃ t, eType = .handled t ∧
        Create env pszFilename nXSize nYSize nBands t papszOptions = some ds) ∧
      WriteHeader_pszDataType eType ≠ "should not happen") ∧
    (∀ t, eType = .handled t →
      CreateAny sampleCreateEnv "out.xml" 5 4 3 eType [] ≠ none ∧
      WriteHeader_pszDataType eType = WriteHeader_data_type t ∧
      dataTypeOf (WriteHeader_pszDataType eType) = some (t, false) ∧
      (∀ (D : Type) (env : Env D) (nDIM : Int) (a : ArrayNode) (r : ArrayLayout D),
        a.data_type = some (WriteHeader_pszDataType eType) →
        resolveArray env nDIM a = .found r →
        r.eDT = t ∧ r.bSignedByte = false ∧ (r.bLSBOrder = true ↔ t ≠ GDT_Byte))) := by
  refine ⟨?_, ?_, ?_⟩
  · constructor
    · intro h
      cases eType with
      | GDT_Unknown => exact absurd h (by decide)
      | handled t => exact ⟨t, rfl⟩
      | GDT_CInt16 => exact absurd h (by decide)
      | GDT_CInt32 => exact absurd h (by decide)
    · rintro ⟨t, rfl⟩
      cases t <;> decide
  · intro env fn nX nY nB opts ds h
    cases eType with
    | GDT_Unknown => exact absurd h (by simp [CreateAny, Create_refusesType])
    | handled t =>
      have hr : Create_refusesType (.handled t) = false := by cases t <;> decide
      simp only [CreateAny, hr, Bool.false_eq_true, if_false] at h
      exact ⟨⟨t, rfl, h⟩, by cases t <;> decide⟩
    | GDT_CInt16 => exact absurd h (by simp [CreateAny, Create_refusesType])
    | GDT_CInt32 => exact absurd h (by simp [CreateAny, Create_refusesType])
  · rintro t rfl
    have htag : WriteHeader_pszDataType (.handled t) = WriteHeader_data_type t := by
      cases t <;> decide
    refine ⟨by cases t <;> decide, htag, by rw [htag]; exact dataTypeOf_written t, ?_⟩
    intro D env nDIM a r hd h
    obtain ⟨_, ⟨bs, hdt, hbs⟩, _⟩ := resolveArray_found env nDIM a r h
    obtain ⟨hl, _, _⟩ := resolveArray_found_values env nDIM a r h
    rw [hd, Option.getD_some, htag, dataTypeOf_written] at hdt
    have e := Prod.mk.inj (Option.some.inj hdt)
    rw [hd, Option.getD_some, htag] at hl
    refine ⟨e.1.symm, by rw [hbs, ← e.2], ?_⟩
    rw [hl]
    cases t <;> decide

/-- The sample transform written and read back.  `WriteHeader` leaves out `scaling_factor`
when the scale of band 1 is 1 and leaves out `value_offset` when the offset of band 1 is 1,
the value it tests the scale against; `Open` reads an absent `value_offset` as 0.  So for
every scale `s` and offset `o` set on band 1, the array written is read back with the scale
`s`, and with the offset `o` unless `o` is 1, in which case the offset read is 0.  The number
parser inverts the format on `s` and `o` and reads the texts `0` and `1` as 0 and 1. -/
theorem written_scale_offset_read_back {D : Type} [LinearOrderedField D] (env : Env D)
    (fmt : D → String) (s o : D) (m_papszCreationOptions : List (String × String))
    (m_osInterleave : String) (nRasterXSize nRasterYSize nBands : Int) (eDT : GDALDataType)
    (pszLocalIdentifier : String) (nOffset nDIM : Int) (r : ArrayLayout D)
    (hs : env.CPLAtof (fmt s) = s) (ho : env.CPLAtof (fmt o) = o)
    (h0 : env.CPLAtof "0" = 0) (h1 : env.CPLAtof "1" = 1)
    (h : resolveArray env nDIM
      (WriteHeader_array_scaled fmt (((BandScaling.init D).SetOffset o).SetScale s)
        m_papszCreationOptions m_osInterleave nRasterXSize nRasterYSize nBands eDT
        pszLocalIdentifier nOffset) = .found r) :
    r.dfValueScale = s ∧ r.dfValueOffset = (if o = 1 then 0 else o) ∧
    ∀ (b : Bool) (i : Int), (makeBand env b r i).dfScale = s ∧
      (makeBand env b r i).dfOffset = (if o = 1 then 0 else o) := by
  obtain ⟨_, hoff, hsc⟩ := resolveArray_found_values env nDIM _ r h
  have one : (1.0 : D) = 1 := by norm_num
  have e1 : r.dfValueScale = s := by
    rw [hsc]
    simp only [WriteHeader_array_scaled, BandScaling.GetScale, BandScaling.SetScale,
      BandScaling.SetOffset, BandScaling.init, one, true_and]
    by_cases hs1 : s = 1
    · rw [if_neg (by simpa using hs1)]
      simp only [Option.getD_none, h1, hs1]
    · rw [if_pos (by simpa using hs1)]
      simp only [Option.getD_some, hs]
  have e2 : r.dfValueOffset = (if o = 1 then 0 else o) := by
    rw [hoff]
    simp only [WriteHeader_array_scaled, BandScaling.GetOffset, BandScaling.SetScale,
      BandScaling.SetOffset, BandScaling.init, one, true_and]
    by_cases ho1 : o = 1
    · rw [if_neg (by simpa using ho1), if_pos ho1]
      simp only [Option.getD_none, h0]
    · rw [if_pos (by simpa using ho1), if_neg ho1]
      simp only [Option.getD_some, ho]
  exact ⟨e1, e2, fun b i => ⟨by simp only [makeBand, e1], by simp only [makeBand, e2]⟩⟩

/-- Claim C40, the code at a failing input.  With the scale 2 and the offset 1 set on band 1,
`WriteHeader` writes the `scaling_factor` 2 and no `value_offset`, the offset being equal to
the 1 that the test for the offset compares it with; `Open` reads the array back with the
scale 2 and the offset 0, not 1. -/
theorem offset_one_is_read_back_as_zero :
    (WriteHeader_array_scaled roundFmt (((BandScaling.init ℚ).SetOffset 1).SetScale 2)
        [] "BSQ" 5 4 3 GDT_UInt16 "image" 0).scaling_factor = some "2" ∧
    (WriteHeader_array_scaled roundFmt (((BandScaling.init ℚ).SetOffset 1).SetScale 2)
        [] "BSQ" 5 4 3 GDT_UInt16 "image" 0).value_offset = none ∧
    ∃ r, resolveArray roundEnv 3
        (WriteHeader_array_scaled roundFmt (((BandScaling.init ℚ).SetOffset 1).SetScale 2)
          [] "BSQ" 5 4 3 GDT_UInt16 "image" 0) = .found r ∧
      r.dfValueScale = 2 ∧ r.dfValueOffset = 0 ∧
      ∀ (b : Bool) (i : Int), (makeBand roundEnv b r i).dfScale = 2 ∧
        (makeBand roundEnv b r i).dfOffset = 0 := by
  have hw : WriteHeader_array_scaled roundFmt (((BandScaling.init ℚ).SetOffset 1).SetScale 2)
      [] "BSQ" 5 4 3 GDT_UInt16 "image" 0 =
      { WriteHeader_array [] "BSQ" 5 4 3 GDT_UInt16 "image" 0 with
        scaling_factor := some "2", value_offset := none } := by
    have hf : roundFmt 2 = "2" := by norm_num [roundFmt]
    simp only [WriteHeader_array_scaled, BandScaling.GetScale, BandScaling.GetOffset,
      BandScaling.SetScale, BandScaling.SetOffset, BandScaling.init, hf]
    norm_num
  have hr : ∃ r, resolveArray roundEnv 3
      { WriteHeader_array [] "BSQ" 5 4 3 GDT_UInt16 "image" 0 with
        scaling_factor := some "2", value_offset := none } = .found r := ⟨_, rfl⟩
  refine ⟨by rw [hw], by rw [hw], ?_⟩
  rw [← hw] at hr
  obtain ⟨r, hr⟩ := hr
  have r2 : roundAtof (roundFmt 2) = 2 := by
    have hf : roundFmt 2 = "2" := by norm_num [roundFmt]
    rw [hf]
    simp [roundAtof]
  have r1 : roundAtof (roundFmt 1) = 1 := by
    have hf : roundFmt 1 = "1" := by norm_num [roundFmt]
    rw [hf]
    simp [roundAtof]
  have hh := written_scale_offset_read_back roundEnv roundFmt 2 1 [] "BSQ" 5 4 3 GDT_UInt16
    "image" 0 3 r r2 r1 (by simp [roundEnv, roundAtof]) (by simp [roundEnv, roundAtof]) hr
  have z : (if (1 : ℚ) = 1 then (0 : ℚ) else 1) = 0 := by simp
  rw [z] at hh
  exact ⟨r, hr, hh.1, hh.2.1, hh.2.2⟩

/-! ## The roles of the axes of a resolved array -/

theorem roleCount_two {D : Type} (r : ArrayLayout D) (c : Char) (h : r.nDIM = 2) :
    r.roleCount c =
      (if r.szOrder 0 = c then 1 else 0) + (if r.szOrder 1 = c then 1 else 0) := by
  have hr : List.range (2 : Int).toNat = [0, 1] := rfl
  simp only [ArrayLayout.roleCount, h, hr, List.filter]
  by_cases h0 : r.szOrder 0 = c <;> by_cases h1 : r.szOrder 1 = c <;> simp [h0, h1]

theorem roleCount_three {D : Type} (r : ArrayLayout D) (c : Char) (h : r.nDIM = 3) :
    r.roleCount c =
      (if r.szOrder 0 = c then 1 else 0) + (if r.szOrder 1 = c then 1 else 0) +
        (if r.szOrder 2 = c then 1 else 0) := by
  have hr : List.range (3 : Int).toNat = [0, 1, 2] := rfl
  simp only [ArrayLayout.roleCount, h, hr, List.filter]
  by_cases h0 : r.szOrder 0 = c <;> by_cases h1 : r.szOrder 1 = c <;>
    by_cases h2 : r.szOrder 2 = c <;> simp [h0, h1, h2]

/-- Claim C31, an accepted array with a repeated role.  The three-dimensional array with the
axes Line, Line and Sample at the sequence numbers 1, 2 and 3 is resolved and opened: it has
two Line axes and no Band axis, one band, and the line count of the second Line axis. -/
theorem two_line_axes_are_accepted :
    (∃ r, resolveArray sampleEnv 3 twoLineArray = .found r ∧ r.roleCount 'L' = 2 ∧
      r.roleCount 'S' = 1 ∧ r.roleCount 'B' = 0 ∧ r.l_nBands = 1 ∧ r.nLines = 4) ∧
    ((Open sampleEnv (-1) (-1) (labelOf [twoLineArray])).map
      (fun ds => (ds.nRasterXSize, ds.nRasterYSize, ds.bands.length))) = some (5, 4, 1) :=
  ⟨⟨_, rfl, by decide, by decide, by decide, rfl, rfl⟩, by rfl⟩

/-- Claim C31, as the code has it.  Every accepted two-dimensional array has exactly one Line
axis and one Sample axis, no Band axis, and the band count 1.  Every accepted
three-dimensional array has at least one Line axis, at least one Sample axis and at most one
Band axis, its three positions holding these roles; it has exactly one axis of each role if
and only if it has a Band axis, and without a Band axis its band count is 1.  No test of the
loop refuses a role that occurs twice. -/
theorem accepted_axes_roles {D : Type} (env : Env D) (nDIM : Int) (a : ArrayNode)
    (r : ArrayLayout D) (h : resolveArray env nDIM a = .found r) :
    (r.nDIM = 2 → r.roleCount 'L' = 1 ∧ r.roleCount 'S' = 1 ∧ r.roleCount 'B' = 0 ∧
      r.l_nBands = 1) ∧
    (r.nDIM = 3 → 1 ≤ r.roleCount 'L' ∧ 1 ≤ r.roleCount 'S' ∧ r.roleCount 'B' ≤ 1 ∧
      r.roleCount 'B' + r.roleCount 'L' + r.roleCount 'S' = 3 ∧
      (r.roleCount 'B' = 1 ↔ r.roleCount 'L' = 1 ∧ r.roleCount 'S' = 1) ∧
      (r.roleCount 'B' = 0 → r.l_nBands = 1)) := by
  obtain ⟨_, hpos, ⟨pS, hpS, hS, _⟩, ⟨pL, hpL, hL, _⟩, hband⟩ := found_axes env nDIM a r h
  have hBL : ¬ ('B' = 'L') := by decide
  have hBS : ¬ ('B' = 'S') := by decide
  have hLB : ¬ ('L' = 'B') := by decide
  have hLS : ¬ ('L' = 'S') := by decide
  have hSB : ¬ ('S' = 'B') := by decide
  have hSL : ¬ ('S' = 'L') := by decide
  constructor
  · intro h2
    have c0 := hpos 0 (by rw [h2]; decide)
    have c1 := hpos 1 (by rw [h2]; decide)
    have n0 : r.szOrder 0 ≠ 'B' := fun hb => by have := c0.2.2.2 hb; omega
    have n1 : r.szOrder 1 ≠ 'B' := fun hb => by have := c1.2.2.2 hb; omega
    have hpS2 : pS = 0 ∨ pS = 1 := by omega
    have hpL2 : pL = 0 ∨ pL = 1 := by omega
    have hb1 : r.l_nBands = 1 := by
      rcases hband with ⟨hb, _⟩ | ⟨p, hp, hB, _⟩
      · exact hb
      · have hp2 : p = 0 ∨ p = 1 := by omega
        rcases hp2 with rfl | rfl
        · exact absurd hB n0
        · exact absurd hB n1
    rw [roleCount_two r _ h2, roleCount_two r _ h2, roleCount_two r _ h2]
    rcases hpS2 with rfl | rfl <;> rcases hpL2 with rfl | rfl
    · rw [hS] at hL; exact absurd hL hSL
    · simp [hS, hL, hSL, hLS, hSB, hLB, hb1]
    · simp [hS, hL, hSL, hLS, hSB, hLB, hb1]
    · rw [hS] at hL; exact absurd hL hSL
  · intro h3
    have c0 := (hpos 0 (by rw [h3]; decide)).1
    have c1 := (hpos 1 (by rw [h3]; decide)).1
    have c2 := (hpos 2 (by rw [h3]; decide)).1
    have hpS3 : pS = 0 ∨ pS = 1 ∨ pS = 2 := by omega
    have hpL3 : pL = 0 ∨ pL = 1 ∨ pL = 2 := by omega
    have hex : r.szOrder 0 = 'S' ∨ r.szOrder 1 = 'S' ∨ r.szOrder 2 = 'S' := by
      rcases hpS3 with rfl | rfl | rfl
      · exact Or.inl hS
      · exact Or.inr (Or.inl hS)
      · exact Or.inr (Or.inr hS)
    have hexL : r.szOrder 0 = 'L' ∨ r.szOrder 1 = 'L' ∨ r.szOrder 2 = 'L' := by
      rcases hpL3 with rfl | rfl | rfl
      · exact Or.inl hL
      · exact Or.inr (Or.inl hL)
      · exact Or.inr (Or.inr hL)
    have hb1 : (r.szOrder 0 ≠ 'B' ∧ r.szOrder 1 ≠ 'B' ∧ r.szOrder 2 ≠ 'B') → r.l_nBands = 1 := by
      rintro ⟨n0, n1, n2⟩
      rcases hband with ⟨hb, _⟩ | ⟨p, hp, hB, _⟩
      · exact hb
      · have hp3 : p = 0 ∨ p = 1 ∨ p = 2 := by omega
        rcases hp3 with rfl | rfl | rfl
        · exact absurd hB n0
        · exact absurd hB n1
        · exact absurd hB n2
    rw [roleCount_three r _ h3, roleCount_three r _ h3, roleCount_three r _ h3]
    rcases c0 with c0 | c0 | c0 <;> rcases c1 with c1 | c1 | c1 <;>
      rcases c2 with c2 | c2 | c2 <;>
      simp only [c0, c1, c2, hBL, hBS, hLB, hLS, hSB, hSL, or_self, or_false, false_or]
        at hex hexL <;>
      simp [c0, c1, c2, hBL, hBS, hLB, hLS, hSB, hSL] at hb1 ⊢ <;>
      exact hb1

theorem accepted_axes_roles_witness :
    resolveArray sampleEnv 3 sampleArray = .found sampleLayout ∧
      sampleLayout.roleCount 'B' = 1 ∧ sampleLayout.roleCount 'L' = 1 ∧
      sampleLayout.roleCount 'S' = 1 :=
  have h := (accepted_axes_roles sampleEnv 3 sampleArray sampleLayout sampleArray_found).2 rfl
  ⟨sampleArray_found, by decide, (h.2.2.2.2.1.mp (by decide)).1,
    (h.2.2.2.2.1.mp (by decide)).2⟩

/-! ## The overflow guard of the stride loop -/

/-- The axes stored by the `Axis_Array` loop when all positions are filled and the sample and
line counts are positive. -/
theorem parsed_axes (nDIM : Int) (axes : List AxisArray)
    (hfound : (parseAxes nDIM axes).nAxisFound = nDIM)
    (hS1 : 1 ≤ (parseAxes nDIM axes).nSamples) (hL1 : 1 ≤ (parseAxes nDIM axes).nLines) :
    0 ≤ nDIM ∧
    (∀ p : Nat, (p : Int) < nDIM →
      ((parseAxes nDIM axes).szOrder p = 'B' ∨ (parseAxes nDIM axes).szOrder p = 'L' ∨
        (parseAxes nDIM axes).szOrder p = 'S') ∧
      1 ≤ (parseAxes nDIM axes).anElements p ∧
      (parseAxes nDIM axes).anElements p ≤ 2147483647 ∧
      ((parseAxes nDIM axes).szOrder p = 'B' → nDIM = 3)) ∧
    (∃ p : Nat, (p : Int) < nDIM ∧ (parseAxes nDIM axes).szOrder p = 'S') ∧
    (∃ p : Nat, (p : Int) < nDIM ∧ (parseAxes nDIM axes).szOrder p = 'L') := by
  have hinv := parseAxes_inv nDIM axes
  have hfull := AxisInv_full nDIM _ hinv hfound
  obtain ⟨⟨F, hF1, hF2, hF3⟩, hpos, hsamp, hline, _⟩ := hinv
  have hbelow : ∀ p : Nat, (parseAxes nDIM axes).szOrder p ≠ NUL → (p : Int) < nDIM := by
    intro p hp
    exact hF1 p ((hF3 p).mpr hp)
  have hnn : 0 ≤ nDIM := by
    rw [← hfound, ← hF2]
    exact Int.natCast_nonneg _
  refine ⟨hnn, fun p hp => hpos p (hfull p hp), ?_, ?_⟩
  · rcases hsamp with ⟨h0, _⟩ | ⟨p, hp1, _⟩
    · omega
    · exact ⟨p, hbelow p (by rw [hp1]; decide), hp1⟩
  · rcases hline with ⟨h0, _⟩ | ⟨p, hp1, _⟩
    · omega
    · exact ⟨p, hbelow p (by rw [hp1]; decide), hp1⟩

/-- At most one of the stored axes goes to the band slot. -/
theorem parsed_one_band (nDIM : Int) (axes : List AxisArray)
    (hfound : (parseAxes nDIM axes).nAxisFound = nDIM)
    (hS1 : 1 ≤ (parseAxes nDIM axes).nSamples) (hL1 : 1 ≤ (parseAxes nDIM axes).nLines) :
    ∀ p q : Nat, (p : Int) < nDIM → (q : Int) < nDIM →
      axisSlot ((parseAxes nDIM axes).szOrder p) = 2 →
      axisSlot ((parseAxes nDIM axes).szOrder q) = 2 → p = q := by
  obtain ⟨_, hpos, ⟨pS, hpS, hS⟩, ⟨pL, hpL, hL⟩⟩ := parsed_axes nDIM axes hfound hS1 hL1
  have hband : ∀ p : Nat, (p : Int) < nDIM → axisSlot ((parseAxes nDIM axes).szOrder p) = 2 →
      nDIM = 3 ∧ p ≠ pS ∧ p ≠ pL := by
    intro p hp hslot
    obtain ⟨hc, _, _, h3⟩ := hpos p hp
    rcases axisSlot_cases ((parseAxes nDIM axes).szOrder p) with ⟨_, h0⟩ | ⟨_, h1⟩ | ⟨hnS, hnL, _⟩
    · omega
    · omega
    · rcases hc with hc | hc | hc
      · refine ⟨h3 hc, ?_, ?_⟩
        · intro hh; rw [hh] at hnS; exact hnS hS
        · intro hh; rw [hh] at hnL; exact hnL hL
      · exact absurd hc hnL
      · exact absurd hc hnS
  intro p q hp hq hsp hsq
  obtain ⟨h3, hp1, hp2⟩ := hband p hp hsp
  obtain ⟨_, hq1, hq2⟩ := hband q hq hsq
  have hSL : pS ≠ pL := by
    intro hh
    rw [hh, hL] at hS
    exact absurd hS (by decide)
  omega

/-- One iteration of the stride loop does not take the overflow exit when the product at a
Sample or Line position fits. -/
theorem spacingStep_some_of_fit (nDIM : Int) (szOrder : Nat → Char) (a : Nat → Int) (i : Nat)
    (s : Spacing)
    (hc : 1 ≤ nCountPreviousDim nDIM a i ∧ nCountPreviousDim nDIM a i ≤ 2147483647)
    (hfit : szOrder i = 'S' ∨ szOrder i = 'L' →
      s.nSpacing * nCountPreviousDim nDIM a i ≤ 2147483647) :
    ∃ s1, spacingStep nDIM szOrder a i s = some s1 := by
  unfold spacingStep
  simp only
  by_cases hS : szOrder i = 'S'
  · rw [if_pos hS, if_neg (guard_false hc.1 hc.2 (hfit (Or.inl hS)))]
    exact ⟨_, rfl⟩
  · rw [if_neg hS]
    by_cases hL : szOrder i = 'L'
    · rw [if_pos hL, if_neg (guard_false hc.1 hc.2 (hfit (Or.inr hL)))]
      exact ⟨_, rfl⟩
    · rw [if_neg hL]
      exact ⟨_, rfl⟩

/-- One iteration of the stride loop takes the overflow exit only at a Sample or Line
position whose product does not fit. -/
theorem spacingStep_none (nDIM : Int) (szOrder : Nat → Char) (a : Nat → Int) (i : Nat)
    (s : Spacing)
    (hc : 1 ≤ nCountPreviousDim nDIM a i ∧ nCountPreviousDim nDIM a i ≤ 2147483647) :
    spacingStep nDIM szOrder a i s = none ↔
      (szOrder i = 'S' ∨ szOrder i = 'L') ∧
        s.nSpacing * nCountPreviousDim nDIM a i > 2147483647 := by
  constructor
  · intro h
    by_contra hno
    obtain ⟨s1, hs1⟩ := spacingStep_some_of_fit nDIM szOrder a i s hc (fun hsl => by
      by_contra hgt
      exact hno ⟨hsl, by omega⟩)
    rw [h] at hs1
    exact absurd hs1 (by simp)
  · rintro ⟨hsl, hgt⟩
    have hg := (guard_iff (s := s.nSpacing) hc.1 hc.2).mpr hgt
    unfold spacingStep
    simp only
    rcases hsl with hS | hL
    · rw [if_pos hS, if_pos hg]
    · have hS : szOrder i ≠ 'S' := by rw [hL]; decide
      rw [if_neg hS, if_pos hL, if_pos hg]

/-- The stride loop does not take the overflow exit when the product fits at every Sample and
Line position still to be processed. -/
theorem spacingLoop_complete (nDIM : Int) (szOrder : Nat → Char) (a : Nat → Int) (es : Int)
    (ha : ∀ q : Nat, (q : Int) < nDIM → 1 ≤ a q ∧ a q ≤ 2147483647)
    (hb : ∀ p q : Nat, (p : Int) < nDIM → (q : Int) < nDIM →
      axisSlot (szOrder p) = 2 → axisSlot (szOrder q) = 2 → p = q)
    (hes : 1 ≤ es) :
    ∀ (k : Nat) (s : Spacing), (k : Int) ≤ nDIM →
      s.nSpacing = es * innerCount nDIM a k →
      (s.nSpacing ≤ 2147483647 ∨ ((k : Int) < nDIM ∧ axisSlot (szOrder k) = 2)) →
      (∀ p, p < k → szOrder p = 'S' ∨ szOrder p = 'L' →
        es * innerCount nDIM a p ≤ 2147483647) →
      ∃ s1, spacingLoop nDIM szOrder a k s = some s1 := by
  intro k
  induction k with
  | zero =>
    intro s _ _ _ _
    exact ⟨s, rfl⟩
  | succ i ih =>
    intro s hk hsp hinv hfit
    have hcr := nCountPreviousDim_range nDIM a ha i
    have hprod : s.nSpacing * nCountPreviousDim nDIM a i = es * innerCount nDIM a i := by
      rw [hsp, innerCount_unfold nDIM a i]; ring
    obtain ⟨s2, hstep⟩ := spacingStep_some_of_fit nDIM szOrder a i s hcr (fun hsl => by
      rw [hprod]
      exact hfit i (by omega) hsl)
    have hpos := innerCount_pos nDIM a (fun q hq => (ha q hq).1) (i + 1)
    have hs1 : 1 ≤ s.nSpacing := by rw [hsp]; nlinarith
    have hs2 : s.nSpacing ≤ 2147483647 ∨ szOrder i = 'S' ∨ szOrder i = 'L' := by
      rcases hinv with h1 | ⟨h1, h2⟩
      · exact Or.inl h1
      · right
        rcases axisSlot_cases (szOrder i) with ⟨hc, _⟩ | ⟨hc, _⟩ | ⟨_, _, hc⟩
        · exact Or.inl hc
        · exact Or.inr hc
        · have := hb i (i + 1) (by push_cast at hk h1 ⊢; omega) (by push_cast; exact h1) hc h2
          omega
    obtain ⟨e1, _, _, e4⟩ := spacingStep_spec nDIM szOrder a i s s2 hcr hs1 hs2 hstep
    have hst : s2.nSpacing = es * innerCount nDIM a i := by rw [e1, hprod]
    have hinv2 : s2.nSpacing ≤ 2147483647 ∨ ((i : Int) < nDIM ∧ axisSlot (szOrder i) = 2) := by
      rcases axisSlot_cases (szOrder i) with ⟨hc, _⟩ | ⟨hc, _⟩ | ⟨_, _, hc⟩
      · left; rw [e1]; exact e4 (Or.inl hc)
      · left; rw [e1]; exact e4 (Or.inr hc)
      · right; exact ⟨by push_cast at hk; omega, hc⟩
    obtain ⟨s1, h1⟩ := ih s2 (by push_cast at hk; omega) hst hinv2
      (fun p hp hsl => hfit p (by omega) hsl)
    exact ⟨s1, by simp only [spacingLoop, hstep, h1]⟩

/-- An array that takes the overflow exit has a Sample or Line position whose exact stride
does not fit a C `int`. -/
theorem overflow_has_cause {D : Type} (env : Env D) (nDIM : Int) (a : ArrayNode)
    (h : resolveArray env nDIM a = .overflow) :
    ∃ (eDT : GDALDataType) (bs : Bool) (p : Nat),
      dataTypeOf (a.data_type.getD "") = some (eDT, bs) ∧ (p : Int) < nDIM ∧
      ((parseAxes nDIM a.Axis_Array).szOrder p = 'S' ∨
        (parseAxes nDIM a.Axis_Array).szOrder p = 'L') ∧
      GDALGetDataTypeSizeBytes eDT *
        innerCount nDIM (parseAxes nDIM a.Axis_Array).anElements p > 2147483647 := by
  unfold resolveArray at h
  split at h
  · exact absurd h (by simp)
  · simp only at h
    split at h
    · exact absurd h (by simp)
    · rename_i eDT bSignedByte hdt
      split at h
      · exact absurd h (by simp)
      · rename_i hfound
        split at h
        · exact absurd h (by simp)
        · rename_i hdims
          split at h
          · rename_i hsp
            simp only [Bool.or_eq_true, Bool.not_eq_true', not_or, Bool.not_eq_false,
              GDALCheckDatasetDimensions, GDALCheckBandCount, Bool.and_eq_true,
              decide_eq_true_eq] at hdims
            have hfound := not_not.mp hfound
            obtain ⟨hnn, hpos, _, _⟩ := parsed_axes nDIM a.Axis_Array hfound hdims.1.1 hdims.1.2
            have hone := parsed_one_band nDIM a.Axis_Array hfound hdims.1.1 hdims.1.2
            obtain ⟨hes1, hes2⟩ := GDALGetDataTypeSizeBytes_range eDT
            by_contra hno
            have hfit : ∀ p : Nat, p < nDIM.toNat →
                (parseAxes nDIM a.Axis_Array).szOrder p = 'S' ∨
                  (parseAxes nDIM a.Axis_Array).szOrder p = 'L' →
                GDALGetDataTypeSizeBytes eDT *
                  innerCount nDIM (parseAxes nDIM a.Axis_Array).anElements p ≤ 2147483647 := by
              intro p hp hsl
              by_contra hgt
              exact hno ⟨eDT, bSignedByte, p, hdt, by omega, hsl, by omega⟩
            have hinit : toU64 (GDALGetDataTypeSizeBytes eDT) = GDALGetDataTypeSizeBytes eDT :=
              toU64_of_range (by omega) (by omega)
            have hIc : innerCount nDIM (parseAxes nDIM a.Axis_Array).anElements nDIM.toNat = 1 := by
              unfold innerCount
              rw [Finset.Ico_eq_empty_of_le (by omega)]
              simp
            obtain ⟨s1, hs1⟩ := spacingLoop_complete nDIM (parseAxes nDIM a.Axis_Array).szOrder
              (parseAxes nDIM a.Axis_Array).anElements (GDALGetDataTypeSizeBytes eDT)
              (fun q hq => ⟨(hpos q hq).2.1, (hpos q hq).2.2.1⟩) hone hes1 nDIM.toNat
              { nSpacing := toU64 (GDALGetDataTypeSizeBytes eDT), nPixelOffset := 0,
                nLineOffset := 0, nBandOffset := 0 }
              (by omega) (by simp only [hinit, hIc]; ring) (Or.inl (by simp only [hinit]; omega))
              hfit
            unfold computeSpacing at hsp
            rw [hs1] at hsp
            exact absurd hsp (by simp)
          · exact absurd h (by simp)

/-- Claim C37.  For a count `n` in `[1, INT_MAX]` the guard `nSpacing > INT_MAX / n` of the
stride loop holds exactly when `nSpacing * n` exceeds `INT_MAX`.  So an iteration at a Sample
or Line position with inner count `n` takes the overflow exit exactly when the product does
not fit, and otherwise stores the exact product, the cast to `int` changing nothing.  An
array takes the overflow exit only if the exact stride of one of its Sample or Line positions
exceeds `INT_MAX`, and in every resolved array the exact stride of each Sample and Line
position fits and is the stride stored for that axis. -/
theorem stride_guard_is_exact {D : Type} (env : Env D) (nDIM : Int) (a : ArrayNode) :
    (∀ s n : Int, 1 ≤ n → n ≤ 2147483647 →
      (s > toU64 (Int.tdiv INT_MAX n) ↔ s * n > 2147483647)) ∧
    (∀ (szOrder : Nat → Char) (anElements : Nat → Int) (i : Nat) (s : Spacing),
      szOrder i = 'S' ∨ szOrder i = 'L' →
      1 ≤ nCountPreviousDim nDIM anElements i →
      nCountPreviousDim nDIM anElements i ≤ 2147483647 → 1 ≤ s.nSpacing →
      (spacingStep nDIM szOrder anElements i s = none ↔
        s.nSpacing * nCountPreviousDim nDIM anElements i > 2147483647) ∧
      (∀ s1, spacingStep nDIM szOrder anElements i s = some s1 →
        s1.strideOf (szOrder i) = s.nSpacing * nCountPreviousDim nDIM anElements i ∧
        s1.nSpacing = s.nSpacing * nCountPreviousDim nDIM anElements i)) ∧
    (resolveArray env nDIM a = .overflow →
      ∃ (eDT : GDALDataType) (bs : Bool) (p : Nat),
        dataTypeOf (a.data_type.getD "") = some (eDT, bs) ∧ (p : Int) < nDIM ∧
        ((parseAxes nDIM a.Axis_Array).szOrder p = 'S' ∨
          (parseAxes nDIM a.Axis_Array).szOrder p = 'L') ∧
        GDALGetDataTypeSizeBytes eDT *
          innerCount nDIM (parseAxes nDIM a.Axis_Array).anElements p > 2147483647) ∧
    (∀ r : ArrayLayout D, resolveArray env nDIM a = .found r →
      ∀ p : Nat, (p : Int) < r.nDIM → r.szOrder p = 'S' ∨ r.szOrder p = 'L' →
        GDALGetDataTypeSizeBytes r.eDT * innerCount r.nDIM r.anElements p ≤ 2147483647 ∧
        ((∀ q, q < p → axisSlot (r.szOrder q) ≠ axisSlot (r.szOrder p)) →
          r.strideOf (r.szOrder p) =
            GDALGetDataTypeSizeBytes r.eDT * innerCount r.nDIM r.anElements p)) := by
  refine ⟨fun s n h1 h2 => guard_iff h1 h2, ?_, overflow_has_cause env nDIM a, ?_⟩
  · intro szOrder anElements i s hsl h1 h2 hs
    constructor
    · rw [spacingStep_none nDIM szOrder anElements i s ⟨h1, h2⟩]
      exact ⟨fun h => h.2, fun h => ⟨hsl, h⟩⟩
    · intro s1 h
      obtain ⟨e1, e2, _, _⟩ := spacingStep_spec nDIM szOrder anElements i s s1 ⟨h1, h2⟩ hs
        (Or.inr hsl) h
      exact ⟨e2, e1⟩
  · intro r h p hp hsl
    exact ⟨found_stride_bound env nDIM a r h p hp hsl, found_strides env nDIM a r h p hp⟩

/-! ## The block of the mask band -/

/-- The window of `IReadBlock` in one direction: for a block that begins inside the raster
and whose end is representable as a C `int`, the offset is the block index times the block
size and the requested size reaches to the end of the block or of the raster, whichever
comes first. -/
theorem window_axis (B X b : Int) (hB : 1 ≤ B) (hb : 0 ≤ b) (hin : b * B < X)
    (hrep : (b + 1) * B ≤ 2147483647) :
    toInt (b * B) = b * B ∧
    (if toInt (toInt (b * B) + B) > X then toInt (X - toInt (b * B)) else B) =
      min ((b + 1) * B) X - b * B := by
  have h0 : 0 ≤ b * B := Int.mul_nonneg hb (by omega)
  have hs : (b + 1) * B = b * B + B := by ring
  have e1 : toInt (b * B) = b * B := toInt_of_range (by omega) (by omega)
  have e2 : toInt (b * B + B) = b * B + B := toInt_of_range (by omega) (by omega)
  refine ⟨e1, ?_⟩
  rw [e1, e2, hs]
  by_cases hgt : b * B + B > X
  · rw [if_pos hgt, toInt_of_range (by omega) (by omega), min_eq_right (by omega)]
  · rw [if_neg hgt, min_eq_left (by omega)]
    omega

/-- Claim C36.  For a block `(bx, by)` that begins inside the raster (`bx*BX < X` and
`by*BY < Y`, with nonnegative indices and positive block sizes) and whose end
`(bx+1)*BX`, `(by+1)*BY` is representable as a C `int`, the window that `IReadBlock`
requests is `[bx*BX, min((bx+1)*BX, X))` by `[by*BY, min((by+1)*BY, Y))`: it is not empty,
lies inside the raster and is not larger than a block.  When the read succeeds on a band of
a real type, the block returned holds at index `y*BX + x`, for every pixel `(x, y)` of the
window, the mask value of the sample read there; these indices are pairwise different and
lie inside the block of `BX*BY` bytes, so that `nReqXSize * nReqYSize` bytes are written, and
every other byte of the block is as it was. -/
theorem IReadBlock_fills_the_window {D T : Type} (eq : T → T → Bool) (GDALCopyWord : D → T)
    (eSrcDT : GDALDataType) (nBlockXSize nBlockYSize nRasterXSize nRasterYSize : Int)
    (m_adfConstants : List D) ( RasterIO : ReadWindow → Option (Int → T))
    (nXBlock nYBlock : Int) (pImage : Int → Nat) (m_pBuffer : Int → T)
    (hBX : 1 ≤ nBlockXSize) (hBY : 1 ≤ nBlockYSize) (hbx : 0 ≤ nXBlock) (hby : 0 ≤ nYBlock)
    (hinx : nXBlock * nBlockXSize < nRasterXSize) (hiny : nYBlock * nBlockYSize < nRasterYSize)
    (hrepx : (nXBlock + 1) * nBlockXSize ≤ 2147483647)
    (hrepy : (nYBlock + 1) * nBlockYSize ≤ 2147483647)
    (hreal : GDALDataTypeIsComplex eSrcDT = false)
    (hread : RasterIO (IReadBlock_window nBlockXSize nBlockYSize nRasterXSize nRasterYSize
      nXBlock nYBlock) = some m_pBuffer) :
    (IReadBlock_window nBlockXSize nBlockYSize nRasterXSize nRasterYSize nXBlock nYBlock =
      { nXOff := nXBlock * nBlockXSize
        nYOff := nYBlock * nBlockYSize
        nReqXSize := min ((nXBlock + 1) * nBlockXSize) nRasterXSize - nXBlock * nBlockXSize
        nReqYSize := min ((nYBlock + 1) * nBlockYSize) nRasterYSize -
          nYBlock * nBlockYSize }) ∧
    (1 ≤ min ((nXBlock + 1) * nBlockXSize) nRasterXSize - nXBlock * nBlockXSize ∧
      min ((nXBlock + 1) * nBlockXSize) nRasterXSize - nXBlock * nBlockXSize ≤ nBlockXSize ∧
      min ((nXBlock + 1) * nBlockXSize) nRasterXSize ≤ nRasterXSize ∧
      1 ≤ min ((nYBlock + 1) * nBlockYSize) nRasterYSize - nYBlock * nBlockYSize ∧
      min ((nYBlock + 1) * nBlockYSize) nRasterYSize - nYBlock * nBlockYSize ≤ nBlockYSize ∧
      min ((nYBlock + 1) * nBlockYSize) nRasterYSize ≤ nRasterYSize) ∧
    (IReadBlock eq GDALCopyWord eSrcDT nBlockXSize nBlockYSize nRasterXSize nRasterYSize
        m_adfConstants RasterIO nXBlock nYBlock pImage).1 = CPLErr.CE_None ∧
    (∀ x y : Int, 0 ≤ x →
      x < min ((nXBlock + 1) * nBlockXSize) nRasterXSize - nXBlock * nBlockXSize → 0 ≤ y →
      y < min ((nYBlock + 1) * nBlockYSize) nRasterYSize - nYBlock * nBlockYSize →
      (IReadBlock eq GDALCopyWord eSrcDT nBlockXSize nBlockYSize nRasterXSize nRasterYSize
          m_adfConstants RasterIO nXBlock nYBlock pImage).2 (y * nBlockXSize + x) =
        maskValue eq GDALCopyWord m_adfConstants (m_pBuffer (y * nBlockXSize + x)) ∧
      0 ≤ y * nBlockXSize + x ∧ y * nBlockXSize + x < nBlockXSize * nBlockYSize ∧
      ∀ x1 y1 : Int, 0 ≤ x1 →
        x1 < min ((nXBlock + 1) * nBlockXSize) nRasterXSize - nXBlock * nBlockXSize →
        y1 * nBlockXSize + x1 = y * nBlockXSize + x → x1 = x ∧ y1 = y) ∧
    (∀ j : Int,
      (¬∃ x y : Int, (0 ≤ x ∧
        x < min ((nXBlock + 1) * nBlockXSize) nRasterXSize - nXBlock * nBlockXSize) ∧
        (0 ≤ y ∧
          y < min ((nYBlock + 1) * nBlockYSize) nRasterYSize - nYBlock * nBlockYSize) ∧
        j = y * nBlockXSize + x) →
      (IReadBlock eq GDALCopyWord eSrcDT nBlockXSize nBlockYSize nRasterXSize nRasterYSize
          m_adfConstants RasterIO nXBlock nYBlock pImage).2 j = pImage j) := by
  obtain ⟨x1, x2⟩ := window_axis nBlockXSize nRasterXSize nXBlock hBX hbx hinx hrepx
  obtain ⟨y1, y2⟩ := window_axis nBlockYSize nRasterYSize nYBlock hBY hby hiny hrepy
  have hw : IReadBlock_window nBlockXSize nBlockYSize nRasterXSize nRasterYSize nXBlock
      nYBlock =
      { nXOff := nXBlock * nBlockXSize
        nYOff := nYBlock * nBlockYSize
        nReqXSize := min ((nXBlock + 1) * nBlockXSize) nRasterXSize - nXBlock * nBlockXSize
        nReqYSize := min ((nYBlock + 1) * nBlockYSize) nRasterYSize -
          nYBlock * nBlockYSize } := by
    unfold IReadBlock_window
    simp only [x2, y2]
    rw [x1, y1]
  have hsx : (nXBlock + 1) * nBlockXSize = nXBlock * nBlockXSize + nBlockXSize := by ring
  have hsy : (nYBlock + 1) * nBlockYSize = nYBlock * nBlockYSize + nBlockYSize := by ring
  have hrx : 1 ≤ min ((nXBlock + 1) * nBlockXSize) nRasterXSize - nXBlock * nBlockXSize ∧
      min ((nXBlock + 1) * nBlockXSize) nRasterXSize - nXBlock * nBlockXSize ≤ nBlockXSize ∧
      min ((nXBlock + 1) * nBlockXSize) nRasterXSize ≤ nRasterXSize := by
    rw [hsx]
    rcases le_total (nXBlock * nBlockXSize + nBlockXSize) nRasterXSize with hle | hle
    · rw [min_eq_left hle]
      omega
    · rw [min_eq_right hle]
      omega
  have hry : 1 ≤ min ((nYBlock + 1) * nBlockYSize) nRasterYSize - nYBlock * nBlockYSize ∧
      min ((nYBlock + 1) * nBlockYSize) nRasterYSize - nYBlock * nBlockYSize ≤ nBlockYSize ∧
      min ((nYBlock + 1) * nBlockYSize) nRasterYSize ≤ nRasterYSize := by
    rw [hsy]
    rcases le_total (nYBlock * nBlockYSize + nBlockYSize) nRasterYSize with hle | hle
    · rw [min_eq_left hle]
      omega
    · rw [min_eq_right hle]
      omega
  have htype : eSrcDT = GDT_Byte ∨ eSrcDT = GDT_UInt16 ∨ eSrcDT = GDT_Int16 ∨
      eSrcDT = GDT_UInt32 ∨ eSrcDT = GDT_Int32 ∨ eSrcDT = GDT_Float32 ∨
      eSrcDT = GDT_Float64 := by
    cases eSrcDT <;> simp [GDALDataTypeIsComplex] at hreal ⊢
  have hout : IReadBlock eq GDALCopyWord eSrcDT nBlockXSize nBlockYSize nRasterXSize
      nRasterYSize m_adfConstants RasterIO nXBlock nYBlock pImage =
      (CPLErr.CE_None,
        FillMask eq GDALCopyWord m_pBuffer pImage
          (min ((nXBlock + 1) * nBlockXSize) nRasterXSize - nXBlock * nBlockXSize)
          (min ((nYBlock + 1) * nBlockYSize) nRasterYSize - nYBlock * nBlockYSize)
          nBlockXSize m_adfConstants) := by
    unfold IReadBlock
    simp only [hread, if_pos htype]
    rw [hw]
  generalize min ((nXBlock + 1) * nBlockXSize) nRasterXSize - nXBlock * nBlockXSize = rx
    at hw hrx hout ⊢
  generalize min ((nYBlock + 1) * nBlockYSize) nRasterYSize - nYBlock * nBlockYSize = ry
    at hw hry hout ⊢
  obtain ⟨f1, f2⟩ := FillMask_spec eq GDALCopyWord m_pBuffer pImage rx ry nBlockXSize
    m_adfConstants
  refine ⟨hw, ⟨hrx.1, hrx.2.1, hrx.2.2, hry.1, hry.2.1, hry.2.2⟩, by rw [hout], ?_, ?_⟩
  · intro x y hx0 hx hy0 hy
    rw [hout]
    refine ⟨f1 _ ⟨y.toNat, by omega, x.toNat, by omega, by
      rw [Int.toNat_of_nonneg hy0, Int.toNat_of_nonneg hx0]⟩, ?_, ?_, ?_⟩
    · have := Int.mul_nonneg hy0 (by omega : (0 : Int) ≤ nBlockXSize)
      omega
    · have h1 : y + 1 ≤ nBlockYSize := by omega
      have h2 : (y + 1) * nBlockXSize ≤ nBlockYSize * nBlockXSize :=
        Int.mul_le_mul_of_nonneg_right h1 (by omega)
      have h3 : (y + 1) * nBlockXSize = y * nBlockXSize + nBlockXSize := by ring
      have h4 : nBlockYSize * nBlockXSize = nBlockXSize * nBlockYSize := by ring
      omega
    · intro x1 y1 hx10 hx1 heq
      have := @two_digit_unique nBlockXSize y1 x1 y x
        hx10 (by omega) hx0 (by omega) heq
      exact ⟨this.2, this.1⟩
  · intro j hj
    rw [hout]
    apply f2
    rintro ⟨y, hy, x, hx, hjx⟩
    exact hj ⟨(x : Int), (y : Int), ⟨by omega, by omega⟩, ⟨by omega, by omega⟩, hjx⟩

theorem IReadBlock_fills_the_window_witness :
    IReadBlock_window 2 2 3 3 1 1 = { nXOff := 2, nYOff := 2, nReqXSize := 1, nReqYSize := 1 } ∧
    (IReadBlock (fun a b : Int => decide (a = b)) (fun c : Int => c) GDT_Byte 2 2 3 3 [7]
      (fun _ => some (fun _ => 7)) 1 1 (fun _ => 9)).2 (0 * 2 + 0) = 0 ∧
    (IReadBlock (fun a b : Int => decide (a = b)) (fun c : Int => c) GDT_Byte 2 2 3 3 [7]
      (fun _ => some (fun _ => 7)) 1 1 (fun _ => 9)).2 1 = 9 := by
  have h := IReadBlock_fills_the_window (fun a b : Int => decide (a = b)) (fun c : Int => c)
    GDT_Byte 2 2 3 3 [7] (fun _ => some (fun _ => 7)) 1 1 (fun _ => 9) (fun _ => 7)
    (by decide) (by decide) (by decide) (by decide) (by decide) (by decide) (by decide)
    (by decide) rfl rfl
  refine ⟨by decide, ?_, ?_⟩
  · rw [(h.2.2.2.1 0 0 (by decide) (by decide) (by decide) (by decide)).1]
    decide
  · apply h.2.2.2.2 1
    rintro ⟨x, y, ⟨hx0, hx⟩, ⟨hy0, hy⟩, hj⟩
    have e1 : min ((1 + 1) * 2) (3 : Int) - 1 * 2 = 1 := by decide
    rw [e1] at hx hy
    omega

/-! ## The sequence numbers of the stored axes -/

/-- One iteration of the `Axis_Array` loop either leaves the locals as they are or stores an
axis at a free position: the sequence number is within `1..nDIM`, the element count is
positive, and the position was not filled. -/
theorem parseAxis_cases (nDIM : Int) (st : AxisState) (ax : AxisArray) :
    parseAxis nDIM st ax = st ∨
    ∃ (sq e : Int) (X : Char), ax.sequence_number = some sq ∧ ax.elements = some e ∧
      1 ≤ atoi sq ∧ atoi sq ≤ nDIM ∧ 0 < atoi e ∧
      st.szOrder (atoi sq - 1).toNat = NUL ∧ X ≠ NUL ∧
      (parseAxis nDIM st ax).szOrder = Function.update st.szOrder (atoi sq - 1).toNat X ∧
      (parseAxis nDIM st ax).nAxisFound = st.nAxisFound + 1 := by
  unfold parseAxis
  split
  · rename_i pszAxisName pszElements pszSequenceNumber hn he hs
    simp only
    split
    · exact Or.inl rfl
    · rename_i hseq
      split
      · exact Or.inl rfl
      · rename_i hel
        split
        · exact Or.inl rfl
        · rename_i hfree
          have hfree2 : st.szOrder (atoi pszSequenceNumber - 1).toNat = NUL := by
            by_contra hh
            exact hfree hh
          split
          · exact Or.inr ⟨pszSequenceNumber, pszElements, 'B', hs, he, by omega, by omega,
              by omega, hfree2, by decide, rfl, rfl⟩
          · split
            · exact Or.inr ⟨pszSequenceNumber, pszElements, 'L', hs, he, by omega, by omega,
                by omega, hfree2, by decide, rfl, rfl⟩
            · split
              · exact Or.inr ⟨pszSequenceNumber, pszElements, 'S', hs, he, by omega, by omega,
                  by omega, hfree2, by decide, rfl, rfl⟩
              · exact Or.inl rfl
  · exact Or.inl rfl

/-- An entry whose sequence number is outside `1..nDIM`, whose element count is not positive
or whose position is already filled leaves the locals as they are. -/
theorem parseAxis_rejects (nDIM : Int) (st : AxisState) (ax : AxisArray) (sq e : Int)
    (hs : ax.sequence_number = some sq) (he : ax.elements = some e)
    (h : atoi sq < 1 ∨ atoi sq > nDIM ∨ atoi e ≤ 0 ∨
      st.szOrder (atoi sq - 1).toNat ≠ NUL) :
    parseAxis nDIM st ax = st := by
  rcases parseAxis_cases nDIM st ax with h0 | ⟨sq1, e1, X, hs1, he1, a1, a2, a3, a4, _⟩
  · exact h0
  · rw [hs] at hs1
    rw [he] at he1
    have q1 := Option.some.inj hs1
    have q2 := Option.some.inj he1
    subst q1 q2
    rcases h with h | h | h | h
    · omega
    · omega
    · omega
    · exact absurd a4 h

/-- The sequence numbers of the entries that store an axis lie within `1..nDIM`, point to
positions that were free when the loop started, are pairwise different, and their number is
the increase of `nAxisFound`. -/
theorem contributing_spec (nDIM : Int) (axes : List AxisArray) :
    ∀ st : AxisState,
      (∀ s ∈ contributing nDIM st axes, 1 ≤ s ∧ s ≤ nDIM ∧ st.szOrder (s - 1).toNat = NUL) ∧
      (contributing nDIM st axes).Nodup ∧
      (axes.foldl (parseAxis nDIM) st).nAxisFound =
        st.nAxisFound + ((contributing nDIM st axes).length : Int) := by
  induction axes with
  | nil =>
    intro st
    simp [contributing]
  | cons ax rest ih =>
    intro st
    rcases parseAxis_cases nDIM st ax with h0 | ⟨sq, e, X, hs, _, a1, a2, _, a4, hX, hsz, hn⟩
    · have hc : contributing nDIM st (ax :: rest) = contributing nDIM st rest := by
        simp only [contributing, h0, ne_eq, not_true_eq_false, if_false]
      rw [hc, List.foldl_cons, h0]
      exact ih st
    · have hc : contributing nDIM st (ax :: rest) =
          atoi sq :: contributing nDIM (parseAxis nDIM st ax) rest := by
        have hne : (parseAxis nDIM st ax).nAxisFound ≠ st.nAxisFound := by rw [hn]; omega
        simp only [contributing, hne, ne_eq, not_false_eq_true, if_true, hs, Option.getD_some]
      obtain ⟨i1, i2, i3⟩ := ih (parseAxis nDIM st ax)
      have hfilled : (parseAxis nDIM st ax).szOrder (atoi sq - 1).toNat ≠ NUL := by
        rw [hsz, Function.update_same]
        exact hX
      have hother : ∀ s ∈ contributing nDIM (parseAxis nDIM st ax) rest,
          (s - 1).toNat ≠ (atoi sq - 1).toNat := by
        intro s hs1 heq
        have := (i1 s hs1).2.2
        rw [heq] at this
        exact hfilled this
      rw [hc, List.foldl_cons]
      refine ⟨?_, ?_, ?_⟩
      · intro s hs1
        rcases List.mem_cons.mp hs1 with h | h
        · rw [h]
          exact ⟨a1, a2, a4⟩
        · obtain ⟨b1, b2, b3⟩ := i1 s h
          refine ⟨b1, b2, ?_⟩
          rw [hsz, Function.update_noteq (hother s h)] at b3
          exact b3
      · refine List.nodup_cons.mpr ⟨?_, i2⟩
        intro hmem
        exact hother _ hmem rfl
      · rw [i3, hn, List.length_cons]
        push_cast
        ring

/-- Claim C32.  For every array that `Open` accepts, the sequence numbers of the
`Axis_Array` entries that store an axis are a permutation of `1..N`, `N` the dimensionality.
An entry whose sequence number is outside `1..N`, whose position is already filled or whose
element count is not positive leaves the locals of the loop as they are and is not among the
entries that store an axis; the number of positions filled is the number of those entries,
and an array for which it differs from `N` is skipped. -/
theorem stored_sequence_numbers_are_a_permutation {D : Type} (env : Env D) (nDIM : Int)
    (a : ArrayNode) :
    (∀ r : ArrayLayout D, resolveArray env nDIM a = .found r →
      (contributing nDIM AxisState.init a.Axis_Array).Perm
        ((List.range nDIM.toNat).map (fun (k : Nat) => (k : Int) + 1))) ∧
    (∀ (st : AxisState) (ax : AxisArray) (rest : List AxisArray) (sq e : Int),
      ax.sequence_number = some sq → ax.elements = some e →
      (atoi sq < 1 ∨ atoi sq > nDIM ∨ atoi e ≤ 0 ∨ st.szOrder (atoi sq - 1).toNat ≠ NUL) →
      parseAxis nDIM st ax = st ∧
      contributing nDIM st (ax :: rest) = contributing nDIM st rest) ∧
    (parseAxes nDIM a.Axis_Array).nAxisFound =
      ((contributing nDIM AxisState.init a.Axis_Array).length : Int) ∧
    ((parseAxes nDIM a.Axis_Array).nAxisFound ≠ nDIM → resolveArray env nDIM a = .skip) := by
  obtain ⟨c1, c2, c3⟩ := contributing_spec nDIM a.Axis_Array AxisState.init
  have hlen : (parseAxes nDIM a.Axis_Array).nAxisFound =
      ((contributing nDIM AxisState.init a.Axis_Array).length : Int) := by
    unfold parseAxes
    rw [c3]
    simp [AxisState.init]
  refine ⟨?_, ?_, hlen, ?_⟩
  · intro r h
    obtain ⟨_, _, hfound, _⟩ := resolveArray_found env nDIM a r h
    rw [hlen] at hfound
    have hsub : contributing nDIM AxisState.init a.Axis_Array ⊆
        (List.range nDIM.toNat).map (fun (k : Nat) => (k : Int) + 1) := by
      intro s hs
      obtain ⟨b1, b2, _⟩ := c1 s hs
      exact List.mem_map.mpr ⟨(s - 1).toNat, List.mem_range.mpr (by omega), by
        rw [Int.toNat_of_nonneg (by omega)]
        ring⟩
    apply (List.subperm_of_subset c2 hsub).perm_of_length_le
    rw [List.length_map, List.length_range]
    omega
  · intro st ax rest sq e hs he h
    have h0 := parseAxis_rejects nDIM st ax sq e hs he h
    exact ⟨h0, by simp only [contributing, h0, ne_eq, not_true_eq_false, if_false]⟩
  · intro hne
    unfold resolveArray
    split
    · rfl
    · simp only
      split
      · rfl
      · rw [if_pos hne]

theorem stored_sequence_numbers_are_a_permutation_witness :
    resolveArray sampleEnv 3 sampleArray = .found sampleLayout ∧
      contributing 3 AxisState.init sampleArray.Axis_Array = [1, 2, 3] ∧
      (contributing 3 AxisState.init sampleArray.Axis_Array).Perm
        ((List.range (3 : Int).toNat).map (fun (k : Nat) => (k : Int) + 1)) :=
  ⟨sampleArray_found, by decide,
    (stored_sequence_numbers_are_a_permutation sampleEnv 3 sampleArray).1 sampleLayout
      sampleArray_found⟩

end PDS4
